import Mathlib

/-!
Cluster formation and maintenance in `Node.cpp`.

A shallow embedding of the cluster bookkeeping of the mesh node
(`src/src/mesh/Node.cpp`): the handshake commit, the link-loss callback, the
reception and propagation of cluster-info updates, the hand-over of the
connection master bit, the discovery state machine, the partner scores and
the connect decision, followed by theorems about them.

Conventions of the embedding.

* A `MeshConnection*` is an index into the node's list of mesh connections
  (what `GS->cm.GetMeshConnections(ConnectionDirection::INVALID)` returns);
  `nullptr` is `none`.
* `ClusterSize` is a signed 16-bit integer (`i16` in the signature of
  `MeshConnectionDisconnectedHandler`, two bytes in the JOIN_ME payload). Such
  fields are `Int`s and every store into one goes through `wrapI16`.
* `ClusterId` and the counters that feed it are unsigned 32-bit integers, held
  as `Nat`s and reduced with `wrapU32`.
* Logging, the advertising job, the scan job, the notification of other
  modules and the flush of the transmit buffers belong to the radio and
  transport layers and carry no cluster state; they are left out.
* Functions of the connection manager and of the connection classes whose
  bodies are outside the sources are either parameters of the operations that
  call them or definitions whose comment starts with `Modelled from the spec`.
-/

namespace FruityMesh

/-! ## Machine integers -/

/-- The value a signed 16-bit field holds after the integer `x` is stored in it. -/
def wrapI16 (x : Int) : Int := (x + 32768) % 65536 - 32768

/-- The value an unsigned 32-bit field holds after `x` is stored in it. -/
def wrapU32 (x : Nat) : Nat := x % 4294967296

/-- The value of the integer `x` after its conversion to an unsigned 32-bit integer. -/
def toU32 (x : Int) : Nat := (x % 4294967296).toNat

/-- Subtraction of unsigned 32-bit integers. -/
def subU32 (a b : Nat) : Nat := (a % 4294967296 + 4294967296 - b % 4294967296) % 4294967296

/-- The integer `x` is representable in a signed 16-bit field. -/
def inI16 (x : Int) : Prop := -32768 ≤ x ∧ x ≤ 32767

instance (x : Int) : Decidable (inI16 x) := by
  unfold inI16
  infer_instance

/-! ## Data model -/

/-- Modelled from the spec: the `ConnectionState` enumeration (declared in
`BaseConnection.h`, which is not among the sources). The spec calls it the
handshake phase of a link record; the phases are ordered, and `Node.cpp`
compares them with `>= ConnectionState::HANDSHAKE_DONE`. -/
inductive ConnectionState where
  | DISCONNECTED
  | CONNECTING
  | CONNECTED
  | HANDSHAKING
  | HANDSHAKE_DONE
  | REESTABLISHING
  | REESTABLISHING_HANDSHAKE
  deriving DecidableEq, Repr

/-- Rank of a connection state in the order of the enumeration. -/
def ConnectionState.toNat : ConnectionState → Nat
  | .DISCONNECTED => 0
  | .CONNECTING => 1
  | .CONNECTED => 2
  | .HANDSHAKING => 3
  | .HANDSHAKE_DONE => 4
  | .REESTABLISHING => 5
  | .REESTABLISHING_HANDSHAKE => 6

/-- The reasons for a disconnect that the node distinguishes; every other
reason behaves like `USER_REQUEST`. -/
inductive AppDisconnectReason where
  | USER_REQUEST
  | I_AM_SMALLER
  | PARTNER_HAS_MASTERBIT
  | SHOULD_WAIT_AS_SLAVE
  | EMERGENCY_DISCONNECT
  deriving DecidableEq, Repr

/-- The discovery states of the node. -/
inductive DiscoveryState where
  | INVALID
  | OFF
  | HIGH
  | LOW
  deriving DecidableEq, Repr

/-- The direction of a connection; `INVALID` stands for both directions when
it is used as a filter. -/
inductive ConnectionDirection where
  | DIRECTION_IN
  | DIRECTION_OUT
  | INVALID
  deriving DecidableEq, Repr

/-- The device types; only `LEAF` is treated differently by the node. -/
inductive DeviceType where
  | INVALID
  | STATIC
  | ROAMING
  | SINK
  | ASSET
  | LEAF
  deriving DecidableEq, Repr

/-- The policy for partners that are not on the list of preferred partners. -/
inductive PreferredConnectionMode where
  | PENALTY
  | IGNORED
  | OTHER
  deriving DecidableEq, Repr

/-- The outcome of a connect decision. -/
inductive DecisionResult where
  | CONNECT_AS_SLAVE
  | CONNECT_AS_MASTER
  | NO_NODES_FOUND
  deriving DecidableEq, Repr

/-- The result of `DetermineBestClusterAvailable` (its third member is never
written and stays 0). -/
structure DecisionStruct where
  result : DecisionResult := DecisionResult.NO_NODES_FOUND
  preferredPartner : Nat := 0
  deriving DecidableEq, Repr

/-- The payload `advPacketPayloadJoinMeV0` of a JOIN_ME beacon. -/
structure advPacketPayloadJoinMeV0 where
  sender : Nat := 0
  clusterId : Nat := 0
  clusterSize : Int := 0
  freeMeshInConnections : Nat := 0
  freeMeshOutConnections : Nat := 0
  batteryRuntime : Nat := 0
  txPower : Int := 0
  deviceType : DeviceType := DeviceType.INVALID
  hopsToSink : Nat := 0
  meshWriteHandle : Nat := 0
  ackField : Nat := 0
  deriving DecidableEq, Repr

/-- One slot of the buffer of JOIN_ME beacons, `joinMeBufferPacket`. -/
structure joinMeBufferPacket where
  bleAddressType : Nat := 0
  bleAddress : List Nat := []
  connectable : Bool := false
  rssi : Int := 0
  receivedTimeDs : Nat := 0
  lastConnectAttemptDs : Nat := 0
  payload : advPacketPayloadJoinMeV0 := {}
  deriving DecidableEq, Repr

/-- Payload of `connPacketClusterInfoUpdate`: the size delta, the distance to
the nearest sink, the master-bit hand-over flag and the update counter. -/
structure ClusterInfoUpdate where
  clusterSizeChange : Int := 0
  hopsToSink : Int := 0
  connectionMasterBitHandover : Bool := false
  counter : Nat := 0
  deriving DecidableEq, Repr

/-- The fields of the `clusterAck1Packet` that the winner of a handshake reads. -/
structure ClusterAck1 where
  sender : Nat := 0
  hopsToSink : Int := 0
  deriving DecidableEq, Repr

/-- The fields of the `clusterAck2Packet` that the loser of a handshake reads. -/
structure ClusterAck2 where
  clusterId : Nat := 0
  clusterSize : Int := 0
  hopsToSink : Int := 0
  deriving DecidableEq, Repr

/-- The cluster bookkeeping of one `MeshConnection`. -/
structure MeshConnection where
  connectionState : ConnectionState := ConnectionState.DISCONNECTED
  partnerId : Nat := 0
  connectedClusterId : Nat := 0
  connectedClusterSize : Int := 0
  hopsToSink : Int := -1
  connectionMasterBit : Bool := false
  nextExpectedClusterUpdateCounter : Nat := 0
  currentClusterInfoUpdatePacket : ClusterInfoUpdate := {}
  clusterAck1Packet : ClusterAck1 := {}
  clusterAck2Packet : ClusterAck2 := {}
  clusterIDBackup : Nat := 0
  connectionHandshakedTimestampDs : Nat := 0
  direction : ConnectionDirection := ConnectionDirection.DIRECTION_OUT
  creationTimeDs : Nat := 0
  deriving DecidableEq, Repr

/-- The state of the node together with the global state it reads: the mesh
connections of the connection manager, the application timer and the
configuration values used by the discovery state machine. The defaults are
the values set by the constructor `Node::Node`. -/
structure Node where
  nodeId : Nat := 0
  moduleActive : Bool := true
  clusterId : Nat := 0
  clusterSize : Int := 1
  connectionLossCounter : Nat := 0
  randomBootNumber : Nat := 0
  currentAckId : Nat := 0
  noNodesFoundCounter : Nat := 0
  currentDiscoveryState : DiscoveryState := DiscoveryState.OFF
  nextDiscoveryState : DiscoveryState := DiscoveryState.INVALID
  currentStateTimeoutDs : Int := 0
  stateMachineDisabled : Bool := false
  highToLowDiscoveryTimeSec : Nat := 0
  /-- Modulus of the one-per-link cluster update counter; its bit width is
  declared in headers that are not among the sources (0 stands for a counter
  that never wraps). -/
  clusterUpdateCounterModulus : Nat := 0
  appTimerDs : Nat := 0
  connections : List MeshConnection := []
  /-- Creation times of the connections that are not mesh connections. -/
  appConnectionCreationTimesDs : List Nat := []
  freeMeshInConnections : Nat := 0
  freeMeshOutConnections : Nat := 0
  emergencyDisconnectCounter : Nat := 0
  joinMePackets : List joinMeBufferPacket := []
  deviceType : DeviceType := DeviceType.STATIC
  /-- The constants `MAX_JOIN_ME_PACKET_AGE_DS` and
  `STABLE_CONNECTION_RSSI_THRESHOLD` and the configuration values
  `meshConnectingScanTimeout`, `meshMaxInConnections` and
  `meshHandshakeTimeoutDs`, all declared outside the sources. -/
  maxJoinMePacketAgeDs : Nat := 0
  stableConnectionRssiThreshold : Int := 0
  meshConnectingScanTimeout : Nat := 0
  meshMaxInConnections : Nat := 0
  meshHandshakeTimeoutDs : Nat := 0
  preferredPartnerIds : List Nat := []
  preferredConnectionMode : PreferredConnectionMode := PreferredConnectionMode.PENALTY
  /-- Whether the build is one for which `ModifyScoreBasedOnPreferredPartners`
  and `IsPreferredConnection` have a body (NRF52 or the simulator). -/
  preferredPartnersCompiledIn : Bool := true
  /-- The time of the last decision of the timer handler, the configuration
  value `maxTimeUntilDecisionDs` (declared outside the sources) and the time at
  which a reboot is due (0 when none is scheduled). -/
  lastDecisionTimeDs : Nat := 0
  maxTimeUntilDecisionDs : Nat := 0
  rebootTimeDs : Nat := 0
  deriving DecidableEq, Repr

/-- Signature of `ConnectionManager::GetMeshHopsToShortestSink`, whose body is
not among the sources: from the current state and the connection to exclude
it yields a distance to the nearest sink. It is a parameter of every
operation that calls it. -/
abbrev HopsToShortestSink := Node → Option Nat → Int

/-- Signature of `MeshConnection::DisconnectAndRemove`, whose body is not among
the sources: from the current state, the index of the connection and the
reason it yields the state after the disconnect. It is a parameter of the
connect decision, the only operation modelled here that calls it. -/
abbrev DisconnectAndRemoveFn := Node → Nat → AppDisconnectReason → Node

/-! ## Helpers of the connection classes -/

/-- Modelled from the spec: `BaseConnection::isConnected` (not among the
sources), true from the phase `CONNECTED` on. -/
def MeshConnection.isConnected (c : MeshConnection) : Bool :=
  decide (ConnectionState.CONNECTED.toNat ≤ c.connectionState.toNat)

/-- Modelled from the spec: `BaseConnection::handshakeDone` (not among the
sources), true from the phase `HANDSHAKE_DONE` on, the same comparison that
`MeshConnectionDisconnectedHandler` makes. -/
def MeshConnection.handshakeDone (c : MeshConnection) : Bool :=
  decide (ConnectionState.HANDSHAKE_DONE.toNat ≤ c.connectionState.toNat)

/-- Modelled from the spec: `MeshConnection::ClearCurrentClusterInfoUpdatePacket`
(not among the sources) discards the pending update of the link. -/
def MeshConnection.ClearCurrentClusterInfoUpdatePacket (c : MeshConnection) : MeshConnection :=
  { c with currentClusterInfoUpdatePacket := {} }

/-- Modelled from the spec: `SEC_TO_DS` (a macro that is not among the
sources) converts seconds to tenths of a second. -/
def SEC_TO_DS (sec : Nat) : Nat := sec * 10

/-- Applies `f` to the element at position `k` of a list, if there is one. -/
def updateAt {α : Type} (l : List α) (k : Nat) (f : α → α) : List α :=
  match l[k]? with
  | none => l
  | some a => l.set k (f a)

/-- Modelled from the spec: `ConnectionManager::ForceDisconnectOtherMeshConnections`
(not among the sources) called with no connection to spare: every mesh link is
disconnected and its record destroyed. -/
def ForceDisconnectOtherMeshConnections (n : Node) (_reason : AppDisconnectReason) : Node :=
  { n with connections := [] }

/-! ## Discovery state machine -/

/-- The function `Node::ChangeState`. -/
def ChangeState (n : Node) (newState : DiscoveryState) : Node :=
  if n.currentDiscoveryState = newState ∨ n.stateMachineDisabled = true ∨ n.moduleActive = false then n
  else
    let n1 := { n with currentDiscoveryState := newState }
    match newState with
    | DiscoveryState.HIGH =>
      { n1 with
        noNodesFoundCounter := 0
        currentStateTimeoutDs := (SEC_TO_DS n1.highToLowDiscoveryTimeSec : Int)
        nextDiscoveryState :=
          if n1.highToLowDiscoveryTimeSec = 0 then DiscoveryState.INVALID else DiscoveryState.LOW }
    | DiscoveryState.LOW =>
      { n1 with currentStateTimeoutDs := 0, nextDiscoveryState := DiscoveryState.INVALID }
    | DiscoveryState.OFF =>
      { n1 with nextDiscoveryState := DiscoveryState.INVALID }
    | DiscoveryState.INVALID => n1

/-- The function `Node::KeepHighDiscoveryActive`. -/
def KeepHighDiscoveryActive (n : Node) : Node :=
  if n.currentDiscoveryState = DiscoveryState.HIGH then
    { n with currentStateTimeoutDs := (SEC_TO_DS n.highToLowDiscoveryTimeSec : Int) }
  else ChangeState n DiscoveryState.HIGH

/-! ## Cluster identity -/

/-- The function `Node::GenerateClusterID`: the node id plus the sum of the
connection loss counter and the random boot number shifted left by 16 bits, as
a 32-bit value. -/
def GenerateClusterID (n : Node) : Nat :=
  wrapU32 (n.nodeId + ((n.connectionLossCounter + n.randomBootNumber) <<< 16))

/-! ## Master bit hand-over -/

/-- The function `Node::HasAllMasterBits`. -/
def HasAllMasterBits (n : Node) : Bool :=
  n.connections.all fun connection => !(connection.handshakeDone && !connection.connectionMasterBit)

/-- Body of the loop of `Node::HandOverMasterBitIfNecessary` for one connection. -/
def handOverStep (clusterSize : Int) (conn : MeshConnection) : MeshConnection :=
  if conn.handshakeDone = true ∧ conn.connectedClusterSize > clusterSize - conn.connectedClusterSize then
    { conn with
      connectionMasterBit := false
      currentClusterInfoUpdatePacket :=
        { conn.currentClusterInfoUpdatePacket with connectionMasterBitHandover := true } }
  else conn

/-- The function `Node::HandOverMasterBitIfNecessary`. -/
def HandOverMasterBitIfNecessary (n : Node) : Node :=
  if HasAllMasterBits n = true then
    { n with connections := n.connections.map (handOverStep n.clusterSize) }
  else n

/-! ## Propagation of cluster-info updates -/

/-- Body of the loop of `Node::SendClusterInfoUpdate` for the connection at
index `k`, where `hops` is what `GetMeshHopsToShortestSink` returns for it. -/
def sendStep (ignoreConnection : Option Nat) (packet : Option ClusterInfoUpdate)
    (k : Nat) (hops : Int) (c : MeshConnection) : MeshConnection :=
  if c.isConnected = false then c
  else
    let c1 : MeshConnection :=
      { c with currentClusterInfoUpdatePacket :=
          { c.currentClusterInfoUpdatePacket with hopsToSink := hops } }
    if ignoreConnection = some k then c1
    else
      match packet with
      | none => c1
      | some p =>
        { c1 with currentClusterInfoUpdatePacket :=
            { c1.currentClusterInfoUpdatePacket with
              clusterSizeChange :=
                wrapI16 (c1.currentClusterInfoUpdatePacket.clusterSizeChange + p.clusterSizeChange) } }

/-- One iteration of the loop of `Node::SendClusterInfoUpdate`. -/
def sendIter (H : HopsToShortestSink) (ignoreConnection : Option Nat)
    (packet : Option ClusterInfoUpdate) (n : Node) (k : Nat) : Node :=
  { n with connections := updateAt n.connections k (sendStep ignoreConnection packet k (H n (some k))) }

/-- The function `Node::SendClusterInfoUpdate`: the update is saved in the
pending packet of every connected mesh connection except `ignoreConnection`,
then the master bit is handed over if necessary. The notification of the mesh
access connections and the call of `fillTransmitBuffers`, which hands the
pending packets to the transport layer, are not part of the embedding. -/
def SendClusterInfoUpdate (H : HopsToShortestSink) (n : Node) (ignoreConnection : Option Nat)
    (packet : Option ClusterInfoUpdate) : Node :=
  HandOverMasterBitIfNecessary
    ((List.range n.connections.length).foldl (sendIter H ignoreConnection packet) n)

/-! ## Handshake commit -/

/-- The stores of the winner branch of `Node::HandshakeDoneHandler` into the
record of the new connection. -/
def winnerConnection (connection : MeshConnection) : MeshConnection :=
  { connection with
    hopsToSink :=
      if connection.clusterAck1Packet.hopsToSink < 0 then -1
      else wrapI16 (connection.clusterAck1Packet.hopsToSink + 1)
    connectedClusterId := connection.clusterIDBackup
    partnerId := connection.clusterAck1Packet.sender
    connectedClusterSize := 1 }

/-- The stores of the loser branch of `Node::HandshakeDoneHandler` into the
record of the new connection. -/
def loserConnection (connection : MeshConnection) : MeshConnection :=
  let c1 : MeshConnection :=
    { connection with
      connectedClusterId := connection.clusterAck2Packet.clusterId
      connectedClusterSize := wrapI16 (connection.clusterAck2Packet.clusterSize - 1) }
  let c2 := c1.ClearCurrentClusterInfoUpdatePacket
  { c2 with
    hopsToSink :=
      if c2.clusterAck2Packet.hopsToSink < 0 then -1
      else wrapI16 (c2.clusterAck2Packet.hopsToSink + 1) }

/-- The first half of `Node::HandshakeDoneHandler`: the commit of the changes
that were part of the handshake, as winner or as loser. -/
def handshakeCommit (H : HopsToShortestSink) (n : Node) (i : Nat) (connection : MeshConnection)
    (completedAsWinner : Bool) : Node :=
  if completedAsWinner = true then
    SendClusterInfoUpdate H
      { n with
        clusterSize := wrapI16 (n.clusterSize + 1)
        connections := n.connections.set i (winnerConnection connection) }
      (some i) (some { clusterSizeChange := 1, connectionMasterBitHandover := false })
  else
    { n with
      clusterId := connection.clusterAck2Packet.clusterId
      clusterSize := connection.clusterAck2Packet.clusterSize
      connections := n.connections.set i (loserConnection connection) }

/-- The function `Node::HandshakeDoneHandler` for the connection at index `i`. -/
def HandshakeDoneHandler (H : HopsToShortestSink) (n : Node) (i : Nat)
    (completedAsWinner : Bool) : Node :=
  match n.connections[i]? with
  | none => n
  | some connection =>
    let n1 := handshakeCommit H n i connection completedAsWinner
    let n4 : Node :=
      { n1 with connections := updateAt n1.connections i fun c =>
          { c with
            connectionState := ConnectionState.HANDSHAKE_DONE
            connectionHandshakedTimestampDs := n1.appTimerDs } }
    let n5 := SendClusterInfoUpdate H n4 (some i) none
    HandOverMasterBitIfNecessary (KeepHighDiscoveryActive n5)

/-! ## Link loss -/

/-- The branch of `Node::MeshConnectionDisconnectedHandler` that is taken when
the handshake of the lost connection was done: the node dissolves its cluster
if the partner had the master bit, and shrinks it otherwise. -/
def disconnectCommit (H : HopsToShortestSink) (n : Node)
    (appDisconnectReason : AppDisconnectReason) (hadConnectionMasterBit : Bool)
    (connectedClusterSize : Int) : Node :=
  if hadConnectionMasterBit = false then
    let n3 : Node :=
      if appDisconnectReason ≠ AppDisconnectReason.I_AM_SMALLER then
        ForceDisconnectOtherMeshConnections n AppDisconnectReason.PARTNER_HAS_MASTERBIT
      else n
    let n4 : Node := { n3 with clusterSize := 1 }
    let n5 : Node := { n4 with clusterId := GenerateClusterID n4 }
    SendClusterInfoUpdate H n5 none none
  else
    let n3 : Node := { n with clusterSize := wrapI16 (n.clusterSize - connectedClusterSize) }
    SendClusterInfoUpdate H n3 none (some { clusterSizeChange := wrapI16 (-connectedClusterSize) })

/-- The function `Node::MeshConnectionDisconnectedHandler`; the record of the
lost connection is already destroyed, its last values are the arguments. -/
def MeshConnectionDisconnectedHandler (H : HopsToShortestSink) (n : Node)
    (appDisconnectReason : AppDisconnectReason)
    (connectionStateBeforeDisconnection : ConnectionState)
    (hadConnectionMasterBit : Bool) (connectedClusterSize : Int)
    (_connectedClusterId : Nat) : Node :=
  let n1 : Node := { n with connectionLossCounter := wrapU32 (n.connectionLossCounter + 1) }
  let n2 : Node :=
    if ConnectionState.HANDSHAKE_DONE.toNat ≤ connectionStateBeforeDisconnection.toNat then
      disconnectCommit H n1 appDisconnectReason hadConnectionMasterBit connectedClusterSize
    else n1
  let n6 := KeepHighDiscoveryActive n2
  let n7 : Node := if n6.clusterSize = 1 then { n6 with clusterId := GenerateClusterID n6 } else n6
  let n8 := HandOverMasterBitIfNecessary n7
  { n8 with noNodesFoundCounter := 0 }

/-! ## Reception of a cluster-info update -/

/-- The stores of `Node::ReceiveClusterInfoUpdate` into the record of the
connection on which an update with the expected counter arrived. -/
def receivedConnection (modulus : Nat) (connection : MeshConnection)
    (packet : ClusterInfoUpdate) : MeshConnection :=
  let c1 : MeshConnection :=
    { connection with
      nextExpectedClusterUpdateCounter :=
        (connection.nextExpectedClusterUpdateCounter + 1) % modulus }
  let c2 : MeshConnection :=
    if packet.clusterSizeChange ≠ 0 then
      { c1 with connectedClusterSize := wrapI16 (c1.connectedClusterSize + packet.clusterSizeChange) }
    else c1
  let c3 : MeshConnection :=
    { c2 with hopsToSink := if packet.hopsToSink > -1 then wrapI16 (packet.hopsToSink + 1) else -1 }
  if packet.connectionMasterBitHandover = true then { c3 with connectionMasterBit := true } else c3

/-- The function `Node::ReceiveClusterInfoUpdate` for the connection at index `i`. -/
def ReceiveClusterInfoUpdate (H : HopsToShortestSink) (n : Node) (i : Nat)
    (packet : ClusterInfoUpdate) : Node :=
  match n.connections[i]? with
  | none => n
  | some connection =>
    if connection.nextExpectedClusterUpdateCounter = packet.counter then
      let outPacket : ClusterInfoUpdate := { clusterSizeChange := packet.clusterSizeChange }
      let n1 : Node :=
        { n with
          clusterSize :=
            if packet.clusterSizeChange ≠ 0 then wrapI16 (n.clusterSize + packet.clusterSizeChange)
            else n.clusterSize
          connections :=
            n.connections.set i (receivedConnection n.clusterUpdateCounterModulus connection packet) }
      let n2 := HandOverMasterBitIfNecessary n1
      let n3 := SendClusterInfoUpdate H n2 (some i) (some outPacket)
      KeepHighDiscoveryActive n3
    else n

/-! ## Partner scores -/

/-- The function `Node::IsPreferredConnection`. -/
def IsPreferredConnection (n : Node) (id : Nat) : Bool :=
  if n.preferredPartnersCompiledIn = true then
    if n.preferredPartnerIds.length = 0 then true
    else n.preferredPartnerIds.any fun x => decide (x = id)
  else true

/-- The function `Node::ModifyScoreBasedOnPreferredPartners`. -/
def ModifyScoreBasedOnPreferredPartners (n : Node) (score : Nat) (partner : Nat) : Nat :=
  if n.preferredPartnersCompiledIn = true ∧ score > 0 ∧ IsPreferredConnection n partner = false then
    match n.preferredConnectionMode with
    | PreferredConnectionMode.PENALTY => if score / 10 < 1 then 1 else score / 10
    | PreferredConnectionMode.IGNORED => 0
    | PreferredConnectionMode.OTHER => score
  else score

/-- Modelled from the spec: `ConnectionManager::GetMeshConnectionToPartner`
(not among the sources) finds an existing mesh link to the given partner. -/
def GetMeshConnectionToPartner (n : Node) (partnerId : Nat) : Option MeshConnection :=
  n.connections.find? fun c => decide (c.partnerId = partnerId)

/-- The function `Node::CalculateClusterScoreAsMaster`. -/
def CalculateClusterScoreAsMaster (n : Node) (packet : joinMeBufferPacket) : Nat :=
  if subU32 n.appTimerDs packet.receivedTimeDs > n.maxJoinMePacketAgeDs then 0
  else if packet.payload.clusterId = n.clusterId then 0
  else if packet.payload.freeMeshInConnections = 0 then 0
  else if packet.payload.ackField ≠ 0 ∧ packet.payload.ackField ≠ n.clusterId then 0
  else if packet.payload.clusterSize > n.clusterSize then 0
  else if packet.lastConnectAttemptDs ≠ 0 ∧
      wrapU32 (packet.lastConnectAttemptDs + SEC_TO_DS n.meshConnectingScanTimeout + SEC_TO_DS 1)
        > n.appTimerDs then 0
  else if (GetMeshConnectionToPartner n packet.payload.sender).isSome = true then 0
  else if packet.rssi < n.stableConnectionRssiThreshold then 0
  else if n.deviceType = DeviceType.LEAF then 0
  else
    ModifyScoreBasedOnPreferredPartners n
      (wrapU32 (packet.payload.freeMeshInConnections * 10000 +
        packet.payload.freeMeshOutConnections * 100 + toU32 (100 + packet.rssi)))
      packet.payload.sender

/-- The function `Node::CalculateClusterScoreAsSlave`. -/
def CalculateClusterScoreAsSlave (n : Node) (packet : joinMeBufferPacket) : Nat :=
  if subU32 n.appTimerDs packet.receivedTimeDs > n.maxJoinMePacketAgeDs then 0
  else if packet.payload.clusterId = n.clusterId then 0
  else if packet.payload.clusterSize < n.clusterSize then 0
  else if packet.rssi < n.stableConnectionRssiThreshold then 0
  else
    ModifyScoreBasedOnPreferredPartners n
      (wrapU32 (toU32 packet.payload.clusterSize * 10000 +
        packet.payload.freeMeshOutConnections * 100 + toU32 (100 + packet.rssi)))
      packet.payload.sender

/-! ## Connect decision -/

/-- The two search loops of `Node::DetermineBestClusterAvailable`: from the
slot with index `i` on, every slot with a nonzero sender whose score is
strictly above the best score so far becomes the best cluster. -/
def scanBest (score : joinMeBufferPacket → Nat) :
    List joinMeBufferPacket → Nat → Nat × Option Nat → Nat × Option Nat
  | [], _, acc => acc
  | packet :: rest, i, acc =>
    if packet.payload.sender = 0 then scanBest score rest (i + 1) acc
    else if score packet > acc.1 then scanBest score rest (i + 1) (score packet, some i)
    else scanBest score rest (i + 1) acc

/-- The probability, out of `UINT16_MAX`, with which the emergency disconnect
removes a handshaked outgoing connection. -/
def removalProbability (clusterSize : Int) (handshakedConnections : Nat)
    (conn : MeshConnection) : Nat :=
  if handshakedConnections ≤ 1 ∨ clusterSize ≤ 1 then 1
  else
    toU32 (Int.tdiv (((clusterSize - 1) - conn.connectedClusterSize) * 65535)
      (((handshakedConnections : Int) - 1) * (clusterSize - 1)))

/-- The loop of the emergency disconnect that picks the connection to remove:
`conns` are the outgoing mesh connections with their indices, `sum` the
probabilities added up so far and `rnd` the random draw. -/
def pickConnToDisconnect (clusterSize : Int) (handshakedConnections : Nat) (rnd : Nat) :
    List (Nat × MeshConnection) → Nat → Option Nat
  | [], _ => none
  | (i, conn) :: rest, sum =>
    if conn.handshakeDone = false then
      pickConnToDisconnect clusterSize handshakedConnections rnd rest sum
    else
      let sum1 := wrapU32 (sum + removalProbability clusterSize handshakedConnections conn)
      if sum1 > rnd then some i
      else pickConnToDisconnect clusterSize handshakedConnections rnd rest sum1

/-- The mesh connections of direction `DIRECTION_OUT` with their indices, what
`GS->cm.GetMeshConnections(ConnectionDirection::DIRECTION_OUT)` returns. -/
def outConnections (n : Node) : List (Nat × MeshConnection) :=
  (n.connections.enum).filter fun ic => decide (ic.2.direction = ConnectionDirection.DIRECTION_OUT)

/-- The emergency disconnect of `Node::DetermineBestClusterAvailable`: when a
cluster to connect to was found but no outgoing connection is free, one
outgoing connection may be dropped. `rnd` is the random integer drawn. -/
def emergencyDisconnect (D : DisconnectAndRemoveFn) (rnd : Nat) (n : Node)
    (bestCluster : Option Nat) : Node :=
  if bestCluster.isSome = true ∧ n.freeMeshOutConnections = 0 then
    let conns := outConnections n
    let handshakedConnections := (conns.filter fun ic => ic.2.handshakeDone).length % 65536
    match pickConnToDisconnect n.clusterSize handshakedConnections (rnd % 65536) conns 0 with
    | some i =>
      let n1 : Node := { n with emergencyDisconnectCounter := n.emergencyDisconnectCounter + 1 }
      if n1.emergencyDisconnectCounter > 10 then
        { D n1 i AppDisconnectReason.EMERGENCY_DISCONNECT with emergencyDisconnectCounter := 0 }
      else n1
    | none => n
  else { n with emergencyDisconnectCounter := 0 }

/-- The check of `Node::DetermineBestClusterAvailable` for a connection that
was created less than the handshake timeout ago. -/
def freshConnectionAvailable (n : Node) : Bool :=
  (n.connections.map (fun c => c.creationTimeDs) ++ n.appConnectionCreationTimesDs).any fun t =>
    decide (wrapU32 (t + n.meshHandshakeTimeoutDs) > n.appTimerDs)

/-- The last part of `Node::DetermineBestClusterAvailable`: the node decides to
wait for the cluster in slot `best` to connect to it, and dissolves its own
cluster first if it has a single inbound connection that is taken. `rnd` is
the random integer drawn when both clusters have the same size. -/
def waitAsSlave (rnd : Nat) (n : Node) (bestCluster : joinMeBufferPacket) : Node :=
  let n1 : Node := { n with currentAckId := bestCluster.payload.clusterId }
  if n1.meshMaxInConnections = 1 ∧ freshConnectionAvailable n1 = false ∧
      n1.freeMeshInConnections = 0 ∧
      (n1.clusterSize ≠ bestCluster.payload.clusterSize ∨
        (n1.clusterSize = bestCluster.payload.clusterSize ∧ rnd < 4294967295 / 4)) then
    let n2 := ForceDisconnectOtherMeshConnections n1 AppDisconnectReason.SHOULD_WAIT_AS_SLAVE
    let n3 : Node := { n2 with clusterSize := 1 }
    { n3 with clusterId := GenerateClusterID n3 }
  else n1

/-- Modelled from the spec: `ConnectionManager::ConnectAsMaster` (not among the
sources) hands a connect request for the given partner to the transport
layer; the link record appears only once the link is established, so the
state is returned as it is. The address, the write handle and the connection
interval of the request are not represented. -/
def ConnectAsMaster (n : Node) (_partnerId : Nat) : Node := n

/-- The function `Node::DetermineBestClusterAvailable`; `rnd1` and `rnd2` are
the random integers that the emergency disconnect and the tie between equal
cluster sizes draw. -/
def DetermineBestClusterAvailable (D : DisconnectAndRemoveFn) (rnd1 rnd2 : Nat) (n : Node) :
    DecisionStruct × Node :=
  let master := scanBest (CalculateClusterScoreAsMaster n) n.joinMePackets 0 (0, none)
  let n1 := emergencyDisconnect D rnd1 n master.2
  let master1 : Nat × Option Nat := if n1.freeMeshOutConnections = 0 then (0, none) else master
  match (if n1.freeMeshOutConnections > 0 then master1.2 else none) with
  | some best =>
    let sender : Nat :=
      match n1.joinMePackets[best]? with
      | some packet => packet.payload.sender
      | none => 0
    let n2 : Node := ConnectAsMaster { n1 with currentAckId := 0 } sender
    let n3 : Node :=
      { n2 with joinMePackets := updateAt n2.joinMePackets best fun packet =>
          { packet with lastConnectAttemptDs := n2.appTimerDs } }
    ({ result := DecisionResult.CONNECT_AS_MASTER, preferredPartner := sender }, n3)
  | none =>
    let n2 : Node := if n1.joinMePackets.length > 0 then { n1 with currentAckId := 0 } else n1
    let slave := scanBest (CalculateClusterScoreAsSlave n2) n2.joinMePackets 0 master1
    match slave.2 with
    | some best =>
      match n2.joinMePackets[best]? with
      | some packet =>
        ({ result := DecisionResult.CONNECT_AS_SLAVE, preferredPartner := packet.payload.sender },
          waitAsSlave rnd2 n2 packet)
      | none => ({ result := DecisionResult.NO_NODES_FOUND }, n2)
    | none => ({ result := DecisionResult.NO_NODES_FOUND }, n2)

/-! ## Buffer of JOIN_ME beacons -/

/-- The message types of advertising packets; only `MESSAGE_TYPE_JOIN_ME_V0` is
handled by the node. -/
inductive AdvMessageType where
  | MESSAGE_TYPE_JOIN_ME_V0
  | OTHER
  deriving DecidableEq, Repr

/-- What the node reads of a `GapAdvertisementReportEvent`: the message type
of the header of the advertising data, the length of the data, the data seen
as the payload of an `advPacketJoinMeV0`, and the address, the address type,
the connectable flag and the rssi of the report. -/
structure GapAdvertisementReportEvent where
  messageType : AdvMessageType := AdvMessageType.OTHER
  dataLength : Nat := 0
  payload : advPacketPayloadJoinMeV0 := {}
  peerAddr : List Nat := []
  peerAddrType : Nat := 0
  connectable : Bool := false
  rssi : Int := 0
  deriving DecidableEq, Repr

/-- The size of an `advPacketJoinMeV0`: a header of 11 bytes and a payload of
20 bytes. -/
def SIZEOF_ADV_PACKET_JOIN_ME : Nat := 11 + 20

/-- The largest unsigned 32-bit integer. -/
def UINT32_MAX : Nat := 4294967295

/-- The first and the second loop of `Node::findTargetBuffer`: the index of the
first slot, from index `i` on, that satisfies `p`. -/
def firstSlot (p : joinMeBufferPacket → Bool) : List joinMeBufferPacket → Nat → Option Nat
  | [], _ => none
  | packet :: rest, i => if p packet = true then some i else firstSlot p rest (i + 1)

/-- The third and the fourth loop of `Node::findTargetBuffer`: from the slot
with index `i` on, every eligible slot whose key is strictly below the lowest
key so far becomes the target. -/
def scanLowest (eligible : joinMeBufferPacket → Bool) (key : joinMeBufferPacket → Nat) :
    List joinMeBufferPacket → Nat → Nat × Option Nat → Nat × Option Nat
  | [], _, acc => acc
  | packet :: rest, i, acc =>
    if eligible packet = true ∧ key packet < acc.1 then
      scanLowest eligible key rest (i + 1) (key packet, some i)
    else scanLowest eligible key rest (i + 1) acc

/-- The score that the last loop of `Node::findTargetBuffer` gives to a slot
when the beacon `packet` comes in. -/
def evictionScore (n : Node) (packet : advPacketPayloadJoinMeV0) (tmpPacket : joinMeBufferPacket) :
    Nat :=
  if packet.clusterSize ≥ n.clusterSize then CalculateClusterScoreAsMaster n tmpPacket
  else CalculateClusterScoreAsSlave n tmpPacket

/-- The function `Node::findTargetBuffer`: the index of the slot in which the
incoming beacon is to be stored, if there is one, and the state of the node,
which changes when an empty slot is used. -/
def findTargetBuffer (n : Node) (packet : advPacketPayloadJoinMeV0) : Option Nat × Node :=
  match firstSlot (fun t => decide (packet.sender = t.payload.sender)) n.joinMePackets 0 with
  | some i => (some i, n)
  | none =>
    match firstSlot (fun t => decide (t.payload.sender = 0)) n.joinMePackets 0 with
    | some i => (some i, KeepHighDiscoveryActive n)
    | none =>
      match (scanLowest (fun t => decide (t.payload.clusterId = n.clusterId))
          (fun t => t.receivedTimeDs) n.joinMePackets 0 (UINT32_MAX, none)).2 with
      | some i => (some i, n)
      | none =>
        ((scanLowest (fun _ => true) (evictionScore n packet) n.joinMePackets 0
          (UINT32_MAX, none)).2, n)

/-- The stores of `Node::GapAdvertisementMessageHandler` into the target slot. -/
def recordBeacon (n : Node) (event : GapAdvertisementReportEvent)
    (targetBuffer : joinMeBufferPacket) : joinMeBufferPacket :=
  { targetBuffer with
    bleAddress := event.peerAddr
    bleAddressType := event.peerAddrType
    connectable := event.connectable
    rssi := event.rssi
    receivedTimeDs := n.appTimerDs
    payload := event.payload }

/-- The function `Node::GapAdvertisementMessageHandler`. -/
def GapAdvertisementMessageHandler (n : Node) (event : GapAdvertisementReportEvent) : Node :=
  if n.moduleActive = false then n
  else
    match event.messageType with
    | AdvMessageType.MESSAGE_TYPE_JOIN_ME_V0 =>
      if event.dataLength = SIZEOF_ADV_PACKET_JOIN_ME then
        match findTargetBuffer n event.payload with
        | (some i, n1) =>
          { n1 with joinMePackets := updateAt n1.joinMePackets i (recordBeacon n1 event) }
        | (none, n1) => n1
      else n
    | AdvMessageType.OTHER => n

/-! ## Timer -/

/-- The first part of `Node::TimerEventHandler`: the time passed, an unsigned
16-bit value, is taken off the timeout of the current discovery state, and the
node changes to the next discovery state when there is one and the timeout has
run out. The timeout is a signed field whose width is declared outside the
sources; it is kept unbounded here. -/
def stateTimeoutStep (n : Node) (passedTimeDs : Nat) : Node :=
  let n1 : Node :=
    { n with currentStateTimeoutDs := n.currentStateTimeoutDs - ((passedTimeDs % 65536 : Nat) : Int) }
  if n1.nextDiscoveryState ≠ DiscoveryState.INVALID ∧ n1.currentStateTimeoutDs ≤ 0 then
    ChangeState n1 n1.nextDiscoveryState
  else n1

/-- The second part of `Node::TimerEventHandler`: when the last decision is
older than `maxTimeUntilDecisionDs`, the node looks for the best cluster and
counts the decisions that found no node. -/
def decisionStep (D : DisconnectAndRemoveFn) (rnd1 rnd2 : Nat) (n : Node) : Node :=
  if wrapU32 (n.lastDecisionTimeDs + n.maxTimeUntilDecisionDs) < n.appTimerDs then
    let decision := DetermineBestClusterAvailable D rnd1 rnd2 n
    let n1 : Node :=
      if decision.1.result = DecisionResult.NO_NODES_FOUND ∧ decision.2.noNodesFoundCounter < 100 then
        { decision.2 with noNodesFoundCounter := decision.2.noNodesFoundCounter + 1 }
      else if decision.1.result = DecisionResult.CONNECT_AS_MASTER ∨
          decision.1.result = DecisionResult.CONNECT_AS_SLAVE then
        { decision.2 with noNodesFoundCounter := 0 }
      else decision.2
    { n1 with lastDecisionTimeDs := n1.appTimerDs }
  else n

/-- The function `Node::TimerEventHandler`; `rnd1` and `rnd2` are the random
integers that the decision draws. The result is `none` when the node resets
because a scheduled reboot is due. The live report of the decision and the
sending of capability messages are not represented. -/
def TimerEventHandler (D : DisconnectAndRemoveFn) (rnd1 rnd2 : Nat) (n : Node)
    (passedTimeDs : Nat) : Option Node :=
  let n1 := decisionStep D rnd1 rnd2 (stateTimeoutStep n passedTimeDs)
  if n1.rebootTimeDs ≠ 0 ∧ n1.rebootTimeDs < n1.appTimerDs then none else some n1

/-- One timer tick: the time passed since the last tick, the value of the clock
`GS->appTimerDs` when the handler runs (the clock is advanced by the caller,
outside the sources) and the random integers drawn during the tick. -/
structure TimerTick where
  passedTimeDs : Nat := 0
  appTimerDs : Nat := 0
  rnd1 : Nat := 0
  rnd2 : Nat := 0
  deriving DecidableEq, Repr

/-- A node that receives only timer ticks, one after the other. -/
def runTicks (D : DisconnectAndRemoveFn) : List TimerTick → Node → Option Node
  | [], n => some n
  | tick :: rest, n =>
    match TimerEventHandler D tick.rnd1 tick.rnd2 { n with appTimerDs := tick.appTimerDs }
        tick.passedTimeDs with
    | some m => runTicks D rest m
    | none => none

/-- The time that a sequence of timer ticks reports as passed, in deciseconds. -/
def elapsedDs (ticks : List TimerTick) : Nat :=
  (ticks.map fun tick => tick.passedTimeDs % 65536).sum

/-- The fields of a node that the discovery state machine and the reboot of the
timer handler read. -/
def discoveryView (n : Node) : DiscoveryState × DiscoveryState × Int × Bool × Bool × Nat :=
  (n.currentDiscoveryState, n.nextDiscoveryState, n.currentStateTimeoutDs, n.stateMachineDisabled,
    n.moduleActive, n.rebootTimeDs)

/-- The disconnect routine leaves the fields that the discovery state machine
and the reboot of the timer handler read as they are, as a routine does that
keeps the link-loss handler out of the call. -/
def PreservesDiscoveryView (D : DisconnectAndRemoveFn) : Prop :=
  ∀ (n : Node) (i : Nat) (reason : AppDisconnectReason), discoveryView (D n i reason) = discoveryView n

/-! ## Auxiliary predicates and sample states -/

/-- What `HandOverMasterBitIfNecessary` may do to one connection: nothing, or
clear its master bit and raise the hand-over flag of its pending update. -/
def HandOverRel (c c' : MeshConnection) : Prop :=
  c' = c ∨
  c' = { c with
          connectionMasterBit := false
          currentClusterInfoUpdatePacket :=
            { c.currentClusterInfoUpdatePacket with connectionMasterBitHandover := true } }

/-- A distance oracle for the examples: no sink is reachable. -/
def sampleHops : HopsToShortestSink := fun _ _ => -1

/-- A handshaked link behind which two nodes live and whose master bit is held locally. -/
def sampleLink : MeshConnection :=
  { connectionState := ConnectionState.HANDSHAKE_DONE
    partnerId := 2
    connectedClusterSize := 2
    connectionMasterBit := true }

/-- A node of a cluster of five with two handshaked links. -/
def sampleNode : Node :=
  { nodeId := 7
    clusterId := 7
    clusterSize := 5
    connections := [sampleLink, { sampleLink with partnerId := 3 }] }

/-- The fields of a link record on which `SendClusterInfoUpdate` and
`HandOverMasterBitIfNecessary` never write. -/
def SameLink (c c' : MeshConnection) : Prop :=
  c'.connectionState = c.connectionState ∧
  c'.connectedClusterSize = c.connectedClusterSize ∧
  c'.hopsToSink = c.hopsToSink ∧
  c'.nextExpectedClusterUpdateCounter = c.nextExpectedClusterUpdateCounter

/-- The pending size delta of a link after `SendClusterInfoUpdate` has run
over it as the connection at index `k`. -/
def pendingAfterSend (ig : Option Nat) (p : Option ClusterInfoUpdate) (k : Nat)
    (c : MeshConnection) : Int :=
  match p with
  | none => c.currentClusterInfoUpdatePacket.clusterSizeChange
  | some q =>
    if c.isConnected = true ∧ ig ≠ some k then
      wrapI16 (c.currentClusterInfoUpdatePacket.clusterSizeChange + q.clusterSizeChange)
    else c.currentClusterInfoUpdatePacket.clusterSizeChange

/-- Modelled from the spec: the winner path of the merge protocol as the spec
words it, `localClusterSize += remoteSubClusterSize`, where the second
argument is the size the loser reports about itself; the result is the new
local cluster size. -/
def specWinnerClusterSize (localClusterSize remoteSubClusterSize : Int) : Int :=
  localClusterSize + remoteSubClusterSize

/-- A link in the middle of its handshake, with both acknowledgements filled in
and a size delta still pending. -/
def handshakingLink : MeshConnection :=
  { connectionState := ConnectionState.HANDSHAKING
    clusterAck1Packet := { sender := 9, hopsToSink := 3 }
    clusterAck2Packet := { clusterId := 99, clusterSize := 4, hopsToSink := 3 }
    currentClusterInfoUpdatePacket := { clusterSizeChange := 5 } }

/-- A singleton node whose only link is in the middle of its handshake. -/
def handshakingNode : Node :=
  { nodeId := 7
    clusterId := 7
    clusterSize := 1
    connections := [handshakingLink] }

/-- The state that `MeshConnectionDisconnectedHandler` reaches before it
re-arms the discovery. -/
def disconnectStage (H : HopsToShortestSink) (n : Node) (reason : AppDisconnectReason)
    (stateBefore : ConnectionState) (hadBit : Bool) (size : Int) : Node :=
  if ConnectionState.HANDSHAKE_DONE.toNat ≤ stateBefore.toNat then
    disconnectCommit H { n with connectionLossCounter := wrapU32 (n.connectionLossCounter + 1) }
      reason hadBit size
  else { n with connectionLossCounter := wrapU32 (n.connectionLossCounter + 1) }

/-- The id that `GenerateClusterID` yields once the connection loss counter of
`n` has been incremented. -/
def freshClusterId (n : Node) : Nat :=
  GenerateClusterID { n with connectionLossCounter := n.connectionLossCounter + 1 }

/-- A singleton node with a fresh cluster id and one link whose handshake has
not finished. -/
def singletonNode : Node :=
  { nodeId := 7
    clusterId := 7
    clusterSize := 1
    connections := [{ connectionState := ConnectionState.HANDSHAKING }] }

/-- A node whose size accounting has drifted: it believes its cluster has two
members and holds no link any more. -/
def strayNode : Node :=
  { nodeId := 7
    clusterId := 7
    clusterSize := 2 }

/-- A node that adopted the cluster id 99 of its partner when it joined the
partner's cluster of two. -/
def adoptedNode : Node :=
  { nodeId := 7
    clusterId := 99
    clusterSize := 2
    connections :=
      [{ connectionState := ConnectionState.HANDSHAKE_DONE
         partnerId := 2
         connectedClusterSize := 1 }] }

/-- A disconnect routine for the examples: it destroys the record of the
connection and reports the loss to the node. -/
def sampleDisconnectAndRemove : DisconnectAndRemoveFn := fun n i reason =>
  match n.connections[i]? with
  | none => n
  | some c =>
    MeshConnectionDisconnectedHandler sampleHops { n with connections := n.connections.eraseIdx i }
      reason c.connectionState c.connectionMasterBit c.connectedClusterSize c.connectedClusterId

/-- At most one link record of the node has its connection master bit set. -/
def AtMostOneMasterBit (n : Node) : Prop :=
  ∀ (j k : Nat) (c1 c2 : MeshConnection), n.connections[j]? = some c1 → n.connections[k]? = some c2 →
    c1.connectionMasterBit = true → c2.connectionMasterBit = true → j = k

/-- No link record of `m` has its connection master bit set unless the record
at the same index of `n` had it set, with the possible exception of the
record at index `i`. -/
def NoBitSetExceptAt (i : Option Nat) (n m : Node) : Prop :=
  ∀ (j : Nat) (c' : MeshConnection), m.connections[j]? = some c' → c'.connectionMasterBit = true →
    some j ≠ i → ∃ c, n.connections[j]? = some c ∧ c.connectionMasterBit = true

/-- A node of a cluster of five with two handshaked links, of which only the
first one has its master bit on the local side. -/
def oneBitNode : Node :=
  { nodeId := 7
    clusterId := 7
    clusterSize := 5
    connections := [sampleLink, { sampleLink with partnerId := 3, connectionMasterBit := false }] }

/-- The number of link records whose connection master bit is set. -/
def masterBitHolders (n : Node) : Nat :=
  (n.connections.filter fun c => c.connectionMasterBit).length

/-- Modelled from the spec: the majority-partner rule as the spec words it, the
sum of the connectedClusterSize of all links other than the one at index `j`. -/
def sumOfOtherConnectedClusterSizes (n : Node) (j : Nat) : Int :=
  ((n.connections.enum.filter fun kc => decide (kc.1 ≠ j)).map fun kc => kc.2.connectedClusterSize).sum

/-- The record of a link that `HandOverMasterBitIfNecessary` has marked for
handover: the local master bit is cleared and the hand-over flag of the
pending update is raised. -/
def markedForHandover (c : MeshConnection) : MeshConnection :=
  { c with
    connectionMasterBit := false
    currentClusterInfoUpdatePacket :=
      { c.currentClusterInfoUpdatePacket with connectionMasterBitHandover := true } }

/-- A node in a cluster of two: one handshaked link with a single node behind
it, whose master bit is held locally. -/
def pairNode : Node :=
  { nodeId := 7
    clusterId := 7
    clusterSize := 2
    connections :=
      [{ connectionState := ConnectionState.HANDSHAKE_DONE
         partnerId := 2
         connectedClusterSize := 1
         connectionMasterBit := true }] }

/-- A node in a cluster of four with one handshaked link behind which three
nodes live and whose master bit is held locally. -/
def minorityNode : Node :=
  { nodeId := 7
    clusterId := 7
    clusterSize := 4
    connections :=
      [{ connectionState := ConnectionState.HANDSHAKE_DONE
         partnerId := 2
         connectedClusterSize := 3
         connectionMasterBit := true }] }

/-- The fields of a buffered beacon hold values of their field types: three
bits of free inbound slots, five bits of free outbound slots, a signed 16-bit
cluster size and a signed 8-bit rssi. -/
def joinMeBufferPacket.wellTyped (p : joinMeBufferPacket) : Prop :=
  p.payload.freeMeshInConnections < 8 ∧ p.payload.freeMeshOutConnections < 32 ∧
    inI16 p.payload.clusterSize ∧ -128 ≤ p.rssi ∧ p.rssi ≤ 127

instance (p : joinMeBufferPacket) : Decidable p.wellTyped := by
  unfold joinMeBufferPacket.wellTyped
  infer_instance

/-- One of the early returns of `CalculateClusterScoreAsMaster` is taken for the entry. -/
def masterVeto (n : Node) (packet : joinMeBufferPacket) : Prop :=
  subU32 n.appTimerDs packet.receivedTimeDs > n.maxJoinMePacketAgeDs ∨
  packet.payload.clusterId = n.clusterId ∨
  packet.payload.freeMeshInConnections = 0 ∨
  (packet.payload.ackField ≠ 0 ∧ packet.payload.ackField ≠ n.clusterId) ∨
  packet.payload.clusterSize > n.clusterSize ∨
  (packet.lastConnectAttemptDs ≠ 0 ∧
    wrapU32 (packet.lastConnectAttemptDs + SEC_TO_DS n.meshConnectingScanTimeout + SEC_TO_DS 1) >
      n.appTimerDs) ∨
  (GetMeshConnectionToPartner n packet.payload.sender).isSome = true ∨
  packet.rssi < n.stableConnectionRssiThreshold ∨
  n.deviceType = DeviceType.LEAF

instance (n : Node) (packet : joinMeBufferPacket) : Decidable (masterVeto n packet) := by
  unfold masterVeto
  infer_instance

/-- One of the early returns of `CalculateClusterScoreAsSlave` is taken for the entry. -/
def slaveVeto (n : Node) (packet : joinMeBufferPacket) : Prop :=
  subU32 n.appTimerDs packet.receivedTimeDs > n.maxJoinMePacketAgeDs ∨
  packet.payload.clusterId = n.clusterId ∨
  packet.payload.clusterSize < n.clusterSize ∨
  packet.rssi < n.stableConnectionRssiThreshold

instance (n : Node) (packet : joinMeBufferPacket) : Decidable (slaveVeto n packet) := by
  unfold slaveVeto
  infer_instance

/-- A node of cluster 7 and size 3 at time 1000 that accepts beacons up to an
age of 100 and an rssi down to -85. -/
def scoringNode : Node :=
  { nodeId := 1
    clusterId := 7
    clusterSize := 3
    appTimerDs := 1000
    maxJoinMePacketAgeDs := 100
    stableConnectionRssiThreshold := -85
    meshConnectingScanTimeout := 2 }

/-- A fresh beacon of node 9 in cluster 8 of size 2, with two free inbound and
three free outbound slots, heard at an rssi of -60. -/
def smallBeacon : joinMeBufferPacket :=
  { rssi := -60
    receivedTimeDs := 990
    payload :=
      { sender := 9
        clusterId := 8
        clusterSize := 2
        freeMeshInConnections := 2
        freeMeshOutConnections := 3 } }

/-- Modelled from the spec: the preferred-partner adjustment as the spec words
it, the identity if the sender is on the preferred-partner list or the list is
empty, otherwise `max(1, s div 10)` under the PENALTY policy and 0 under the
IGNORED policy (a policy that is neither leaves the score as it is). -/
def specAdjustedScore (n : Node) (s : Nat) (sender : Nat) : Nat :=
  if sender ∈ n.preferredPartnerIds ∨ n.preferredPartnerIds = [] then s
  else
    match n.preferredConnectionMode with
    | PreferredConnectionMode.PENALTY => max 1 (s / 10)
    | PreferredConnectionMode.IGNORED => 0
    | PreferredConnectionMode.OTHER => s

/-- Modelled from the spec: the unadjusted score of the dominant role,
`freeMeshInConnections*10000 + freeMeshOutConnections*100 + (100 + rssi)`, over
the integers. -/
def specMasterScore (packet : joinMeBufferPacket) : Int :=
  (packet.payload.freeMeshInConnections : Int) * 10000 +
    (packet.payload.freeMeshOutConnections : Int) * 100 + (100 + packet.rssi)

/-- Modelled from the spec: the unadjusted score of the wait role,
`clusterSize*10000 + freeMeshOutConnections*100 + (100 + rssi)`, over the
integers. -/
def specSlaveScore (packet : joinMeBufferPacket) : Int :=
  packet.payload.clusterSize * 10000 +
    (packet.payload.freeMeshOutConnections : Int) * 100 + (100 + packet.rssi)

/-- A fresh beacon of node 12 in cluster 11 of size 6, with one free inbound
and four free outbound slots, heard at an rssi of -70. -/
def largeBeacon : joinMeBufferPacket :=
  { rssi := -70
    receivedTimeDs := 995
    payload :=
      { sender := 12
        clusterId := 11
        clusterSize := 6
        freeMeshInConnections := 1
        freeMeshOutConnections := 4 } }

/-- The node `scoringNode` with node 9 as its only preferred partner. -/
def choosyNode : Node :=
  { scoringNode with preferredPartnerIds := [9] }

/-- The node `scoringNode` with a buffer of two slots that holds the beacons
`smallBeacon` of node 9 and `largeBeacon` of node 12. -/
def fullBufferNode : Node :=
  { scoringNode with joinMePackets := [smallBeacon, largeBeacon] }

/-- The node `scoringNode` with a buffer of three slots, the first of them
empty, the other two with the beacons of node 9 and node 12. -/
def roomyBufferNode : Node :=
  { scoringNode with joinMePackets := [{}, smallBeacon, largeBeacon] }

/-- An advertising report with a JOIN_ME beacon of node 12, now in cluster 13
of size 8, heard at an rssi of -50. -/
def refreshEvent : GapAdvertisementReportEvent :=
  { messageType := AdvMessageType.MESSAGE_TYPE_JOIN_ME_V0
    dataLength := 31
    payload :=
      { sender := 12
        clusterId := 13
        clusterSize := 8
        freeMeshInConnections := 2 }
    peerAddr := [1, 2, 3, 4, 5, 6]
    connectable := true
    rssi := -50 }

/-- The payload of a JOIN_ME beacon of node 20 in cluster 30 of size 1. -/
def newcomerPayload : advPacketPayloadJoinMeV0 :=
  { sender := 20
    clusterId := 30
    clusterSize := 1
    freeMeshInConnections := 3 }

/-- The slot `i` of the buffer `l` holds an entry whose `key` is the lowest of
the buffer, and no slot before it holds an entry with the same key. -/
def IsFirstLowest (key : joinMeBufferPacket → Nat) (l : List joinMeBufferPacket) (i : Nat) : Prop :=
  ∃ e : joinMeBufferPacket, l[i]? = some e ∧
    ∀ (j : Nat) (d : joinMeBufferPacket), l[j]? = some d →
      key e ≤ key d ∧ (j < i → key e < key d)

/-- A disconnect routine for the examples that only destroys the record of the
connection. -/
def plainDisconnectAndRemove : DisconnectAndRemoveFn := fun n i _ =>
  { n with connections := n.connections.eraseIdx i }

/-- A node that has just entered high discovery with a time of 3 seconds until
low discovery, and whose decisions are due at every tick. -/
def highNode : Node :=
  ChangeState { scoringNode with highToLowDiscoveryTimeSec := 3, joinMePackets := [smallBeacon] }
    DiscoveryState.HIGH

/-- A node that has just entered high discovery with no time set until low
discovery. -/
def stickyNode : Node :=
  ChangeState { scoringNode with highToLowDiscoveryTimeSec := 0 } DiscoveryState.HIGH

/-- Three timer ticks of one second each. -/
def threeTicks : List TimerTick :=
  [{ passedTimeDs := 10, appTimerDs := 1010 },
   { passedTimeDs := 10, appTimerDs := 1020, rnd1 := 5 },
   { passedTimeDs := 10, appTimerDs := 1030, rnd2 := 7 }]

/-- The fields of a node that `ChangeState` and `KeepHighDiscoveryActive` read
or write, the counter of decisions without a node apart. -/
def discoveryFields (n : Node) : DiscoveryState × DiscoveryState × Int × Bool × Bool × Nat :=
  (n.currentDiscoveryState, n.nextDiscoveryState, n.currentStateTimeoutDs, n.stateMachineDisabled,
    n.moduleActive, n.highToLowDiscoveryTimeSec)

/-- A node in low discovery, with a time of 3 seconds from high to low
discovery, and with one handshaked link and one link in its handshake. -/
def lowNode : Node :=
  { nodeId := 1
    clusterId := 7
    clusterSize := 3
    currentDiscoveryState := DiscoveryState.LOW
    highToLowDiscoveryTimeSec := 3
    clusterUpdateCounterModulus := 256
    connections := [sampleLink, handshakingLink] }

/-- What `ChangeState` maintains about the next discovery state: it is never
OFF, and a node in OFF has no next state. -/
def DiscoveryWellFormed (n : Node) : Prop :=
  n.nextDiscoveryState ≠ DiscoveryState.OFF ∧
  (n.currentDiscoveryState = DiscoveryState.OFF → n.nextDiscoveryState = DiscoveryState.INVALID)

/-- A node whose discovery is switched off, with one handshaked link and one
link in its handshake and a buffer with an empty slot. -/
def offNode : Node :=
  { lowNode with
    currentDiscoveryState := DiscoveryState.OFF
    appTimerDs := 1000
    maxJoinMePacketAgeDs := 100
    joinMePackets := [{}, smallBeacon] }

/-- An advertising report with a JOIN_ME beacon of node 20, which is new to
the buffer of the examples. -/
def newcomerEvent : GapAdvertisementReportEvent :=
  { messageType := AdvMessageType.MESSAGE_TYPE_JOIN_ME_V0
    dataLength := 31
    payload := newcomerPayload
    rssi := -50 }

/-- The slot `i` of the buffer `l` holds the entry `e`, which has a nonzero
sender and a nonzero `score` that no entry with a nonzero sender exceeds and
no such entry before slot `i` reaches. -/
def IsFirstBest (score : joinMeBufferPacket → Nat) (l : List joinMeBufferPacket) (i : Nat)
    (e : joinMeBufferPacket) : Prop :=
  l[i]? = some e ∧ e.payload.sender ≠ 0 ∧ 0 < score e ∧
    ∀ (j : Nat) (d : joinMeBufferPacket), l[j]? = some d → d.payload.sender ≠ 0 →
      score d ≤ score e ∧ (j < i → score d < score e)

/-- The node `fullBufferNode` with one free outgoing connection. -/
def decidingNode : Node :=
  { fullBufferNode with freeMeshOutConnections := 1 }

/-- The fresh beacon of the singleton node 2 in its own cluster 2, with one
free inbound and three free outbound slots, heard at an rssi of -60. -/
def beaconOfY : joinMeBufferPacket :=
  { rssi := -60
    receivedTimeDs := 990
    payload :=
      { sender := 2
        clusterId := 2
        clusterSize := 1
        freeMeshInConnections := 1
        freeMeshOutConnections := 3 } }

/-- The singleton node 1 in its own cluster 1 at time 1000, with a free inbound
slot and a free outbound slot, which has recorded the beacon of node 2. -/
def nodeX : Node :=
  { nodeId := 1
    clusterId := 1
    clusterSize := 1
    appTimerDs := 1000
    maxJoinMePacketAgeDs := 100
    stableConnectionRssiThreshold := -85
    freeMeshInConnections := 1
    freeMeshOutConnections := 1
    joinMePackets := [beaconOfY, {}] }

/-- The node `nodeX` at time 0 with a connect timeout of 2 seconds, which has
recorded the beacon of node 2 at time 0. -/
def bootNodeX : Node :=
  { nodeX with
    appTimerDs := 0
    meshConnectingScanTimeout := 2
    joinMePackets := [{ beaconOfY with receivedTimeDs := 0 }, {}] }

/-- What a link record counts for in the size of the local cluster: its
connectedClusterSize once the handshake of the link is done, nothing before. -/
def linkWeight (c : MeshConnection) : Int :=
  if c.handshakeDone = true then c.connectedClusterSize else 0

/-- The sum of the connectedClusterSize of all handshake-complete links. -/
def handshakedSizeSum (n : Node) : Int :=
  (n.connections.map linkWeight).sum

/-- The local size accounting: the cluster consists of the node itself and of
what lies behind its handshake-complete links. -/
def SizeAccounting (n : Node) : Prop :=
  n.clusterSize = 1 + handshakedSizeSum n

instance (n : Node) : Decidable (SizeAccounting n) := by
  unfold SizeAccounting
  infer_instance

/-- A node of a cluster of four: two nodes behind its handshaked link, one
behind another handshaked link, and a third link in its handshake. -/
def accountedNode : Node :=
  { nodeId := 1
    clusterId := 7
    clusterSize := 4
    clusterUpdateCounterModulus := 256
    connections :=
      [sampleLink,
       { connectionState := ConnectionState.HANDSHAKE_DONE
         partnerId := 3
         connectedClusterSize := 1
         connectionMasterBit := true },
       handshakingLink] }

/-- A node of a cluster of five that holds the master bit of its two handshaked
links, with three nodes behind the first and one behind the second. -/
def dominatedNode : Node :=
  { nodeId := 7
    clusterId := 7
    clusterSize := 5
    connections :=
      [{ connectionState := ConnectionState.HANDSHAKE_DONE
         partnerId := 2
         connectedClusterSize := 3
         connectionMasterBit := true },
       { connectionState := ConnectionState.HANDSHAKE_DONE
         partnerId := 3
         connectedClusterSize := 1
         connectionMasterBit := true }] }

/-- No two slots of the buffer hold entries with the same nonzero sender. -/
def UniqueSenders (l : List joinMeBufferPacket) : Prop :=
  ∀ (j k : Nat) (a b : joinMeBufferPacket), l[j]? = some a → l[k]? = some b →
    a.payload.sender = b.payload.sender → a.payload.sender ≠ 0 → j = k

/-- The node `fullBufferNode` with a connect timeout of 2 seconds, after a
connect attempt at time 995 toward the sender of its first slot. -/
def cooldownNode : Node :=
  { fullBufferNode with
    meshConnectingScanTimeout := 2
    joinMePackets := [{ smallBeacon with lastConnectAttemptDs := 995 }, largeBeacon] }

/-- One link of a mesh: connection `i` of node `a` and connection `j` of node
`b` are the two ends of the same point-to-point link. -/
structure MeshLink where
  a : Nat
  i : Nat
  b : Nat
  j : Nat
  deriving DecidableEq

/-- A closed mesh: the states of its nodes and the links between them, which
do not change. -/
structure Mesh where
  nodes : List Node := []
  links : List MeshLink := []

/-- The record of connection `k` of node `v`, if there is one. -/
def Mesh.connection (m : Mesh) (v k : Nat) : Option MeshConnection :=
  match m.nodes[v]? with
  | some n => n.connections[k]?
  | none => none

/-- The clusterSize of node `v`. -/
def Mesh.size (m : Mesh) (v : Nat) : Int :=
  match m.nodes[v]? with
  | some n => n.clusterSize
  | none => 0

/-- The connectedClusterSize of connection `k` of node `v`. -/
def Mesh.connectedSize (m : Mesh) (v k : Nat) : Int :=
  match m.connection v k with
  | some c => c.connectedClusterSize
  | none => 0

/-- The size delta that is pending on connection `k` of node `v`. -/
def Mesh.pending (m : Mesh) (v k : Nat) : Int :=
  match m.connection v k with
  | some c => c.currentClusterInfoUpdatePacket.clusterSizeChange
  | none => 0

/-- Modelled from the spec: the update message that the transport layer (not
among the sources) emits when it flushes the pending update of a link: the
coalesced size delta, the sink distance and the hand-over flag of the sending
end `ca`; updates of a link arrive in counter order, so the message carries the
counter that the receiving end `cb` expects. -/
def flushedPacket (ca cb : MeshConnection) : ClusterInfoUpdate :=
  { ca.currentClusterInfoUpdatePacket with counter := cb.nextExpectedClusterUpdateCounter }

/-- Modelled from the spec: the sending node after the transport layer has
flushed the pending update of its connection `i`, whose record was `ca`: the
pending update of that connection is cleared. -/
def flushedNode (na : Node) (i : Nat) (ca : MeshConnection) : Node :=
  { na with connections := na.connections.set i ca.ClearCurrentClusterInfoUpdatePacket }

/-- Modelled from the spec: the flush of the pending update of connection `i`
of node `a` by the transport layer (not among the sources) and its arrival at
the other end of the link, connection `j` of node `b`. The link emits one
update message with its coalesced size delta, its sink distance, its hand-over
flag and its counter, then clears the pending update; updates of a link arrive
in counter order, so the message carries the counter that the receiving end
expects, and the receiver handles it with `Node::ReceiveClusterInfoUpdate`. -/
def deliverUpdate (H : HopsToShortestSink) (m : Mesh) (a i b j : Nat) : Mesh :=
  match m.nodes[a]?, m.nodes[b]? with
  | some na, some nb =>
    match na.connections[i]?, nb.connections[j]? with
    | some ca, some cb =>
      { m with
        nodes := (m.nodes.set a (flushedNode na i ca)).set b
          (ReceiveClusterInfoUpdate H nb j (flushedPacket ca cb)) }
    | _, _ => m
  | _, _ => m

/-- The flush of the pending update of connection `i` of node `a` toward
connection `j` of node `b`. -/
structure Delivery where
  a : Nat
  i : Nat
  b : Nat
  j : Nat
  deriving DecidableEq

/-- The mesh after a sequence of pending updates has been flushed and applied,
one after the other. -/
def deliverAll (H : HopsToShortestSink) : List Delivery → Mesh → Mesh
  | [], m => m
  | d :: ds, m => deliverAll H ds (deliverUpdate H m d.a d.i d.b d.j)

/-- The ends of the links of a mesh, as pairs of a node and a connection index. -/
def Mesh.ends (m : Mesh) : List (Nat × Nat) :=
  m.links.flatMap fun l => [(l.a, l.i), (l.b, l.j)]

/-- The number of connection records of every node of a mesh. -/
def Mesh.degrees (m : Mesh) : List Nat :=
  m.nodes.map fun n => n.connections.length

/-- The connection records of a mesh, as pairs of a node and a connection index. -/
def Mesh.slots (m : Mesh) : List (Nat × Nat) :=
  m.degrees.enum.flatMap fun vd => (List.range vd.2).map fun k => (vd.1, k)

/-- The links of the mesh are what its connection records say: every record is
one end of exactly one link, a link joins two different nodes, and every link
has completed its handshake. -/
def Mesh.WellFormed (m : Mesh) : Prop :=
  (∀ l ∈ m.links, l.a ≠ l.b) ∧ m.ends.Nodup ∧ m.ends.Perm m.slots ∧
  ∀ n ∈ m.nodes, ∀ c ∈ n.connections, c.handshakeDone = true

/-- Every node of the mesh can be reached from node 0 over the links. -/
def Mesh.Connected (m : Mesh) : Prop :=
  ∀ P : Nat → Prop, P 0 → (∀ l ∈ m.links, (P l.a ↔ P l.b)) → ∀ v : Nat, v < m.nodes.length → P v

/-- The mesh is one connected tree: it is connected and has one link less than
it has nodes. -/
def Mesh.IsTree (m : Mesh) : Prop :=
  m.links.length + 1 = m.nodes.length ∧ m.Connected

/-- The bookkeeping of the mesh is consistent: every node counts itself and
what lies behind its links, and across every link what one end has counted for
the other side, together with the delta still pending at the other end, is what
the other end counts on its side. -/
def Mesh.Accounted (m : Mesh) : Prop :=
  (∀ n ∈ m.nodes, SizeAccounting n) ∧
  ∀ l ∈ m.links,
    m.connectedSize l.a l.i + m.pending l.b l.j = m.size l.b - m.connectedSize l.b l.j ∧
    m.connectedSize l.b l.j + m.pending l.a l.i = m.size l.a - m.connectedSize l.a l.i

/-- No size delta is pending on any link of the mesh. -/
def Mesh.Quiescent (m : Mesh) : Prop :=
  ∀ n ∈ m.nodes, ∀ c ∈ n.connections, c.currentClusterInfoUpdatePacket.clusterSizeChange = 0

/-- The delivery goes from one end of a link of the mesh to its other end. -/
def Mesh.IsLinkEnd (m : Mesh) (d : Delivery) : Prop :=
  ∃ l ∈ m.links, (l.a = d.a ∧ l.i = d.i ∧ l.b = d.b ∧ l.j = d.j) ∨
    (l.a = d.b ∧ l.i = d.j ∧ l.b = d.a ∧ l.j = d.i)

/-- The sizes that the delivery produces at the receiving node fit their signed
16-bit fields. -/
def Mesh.Fits (m : Mesh) (d : Delivery) : Prop :=
  inI16 (m.size d.b + m.pending d.a d.i) ∧
  inI16 (m.connectedSize d.b d.j + m.pending d.a d.i) ∧
  ∀ n ∈ (m.nodes[d.b]?).toList, ∀ c ∈ n.connections,
    inI16 (c.currentClusterInfoUpdatePacket.clusterSizeChange + m.pending d.a d.i)

/-- Every delivery of the sequence goes over a link of the mesh and produces
sizes that fit their fields. -/
def Admissible (H : HopsToShortestSink) : List Delivery → Mesh → Prop
  | [], _ => True
  | d :: ds, m =>
    m.IsLinkEnd d ∧ m.Fits d ∧ Admissible H ds (deliverUpdate H m d.a d.i d.b d.j)

/-- A mesh of three nodes in a row, after node 1 has taken in node 2: the
delta of that merge is still pending on its link to node 0. -/
def rowMesh : Mesh :=
  { nodes :=
      [{ nodeId := 1
         clusterId := 7
         clusterSize := 2
         connections :=
           [{ connectionState := ConnectionState.HANDSHAKE_DONE
              partnerId := 2
              connectedClusterSize := 1
              connectionMasterBit := true }] },
       { nodeId := 2
         clusterId := 7
         clusterSize := 3
         connections :=
           [{ connectionState := ConnectionState.HANDSHAKE_DONE
              partnerId := 1
              connectedClusterSize := 1
              currentClusterInfoUpdatePacket := { clusterSizeChange := 1 } },
            { connectionState := ConnectionState.HANDSHAKE_DONE
              partnerId := 3
              connectedClusterSize := 1
              connectionMasterBit := true }] },
       { nodeId := 3
         clusterId := 7
         clusterSize := 3
         connections :=
           [{ connectionState := ConnectionState.HANDSHAKE_DONE
              partnerId := 2
              connectedClusterSize := 2 }] }]
    links := [{ a := 0, i := 0, b := 1, j := 0 }, { a := 1, i := 1, b := 2, j := 0 }] }

/-- The master bit and the hand-over flag of every link record of a node. -/
def masterBitFlags (n : Node) : List (Bool × Bool) :=
  n.connections.map fun c =>
    (c.connectionMasterBit, c.currentClusterInfoUpdatePacket.connectionMasterBitHandover)

/-- The fields of a node that are neither the cluster id, the link records,
the counter of connection losses, the counter of decisions without a node nor
a field of the discovery state machine. -/
def fieldsBesideCluster (n : Node) :
    Nat × Bool × Int × Nat × Nat × Bool × Nat × Nat × Nat × List Nat × Nat × Nat × Nat ×
      List joinMeBufferPacket × DeviceType × Nat × Int × Nat × Nat × Nat × List Nat ×
      PreferredConnectionMode × Bool × Nat × Nat × Nat :=
  (n.nodeId, n.moduleActive, n.clusterSize, n.randomBootNumber, n.currentAckId,
    n.stateMachineDisabled, n.highToLowDiscoveryTimeSec, n.clusterUpdateCounterModulus,
    n.appTimerDs, n.appConnectionCreationTimesDs, n.freeMeshInConnections,
    n.freeMeshOutConnections, n.emergencyDisconnectCounter, n.joinMePackets, n.deviceType,
    n.maxJoinMePacketAgeDs, n.stableConnectionRssiThreshold, n.meshConnectingScanTimeout,
    n.meshMaxInConnections, n.meshHandshakeTimeoutDs, n.preferredPartnerIds,
    n.preferredConnectionMode, n.preferredPartnersCompiledIn, n.lastDecisionTimeDs,
    n.maxTimeUntilDecisionDs, n.rebootTimeDs)

/-- The node `scoringNode` after its size accounting has dropped to -1, which
link losses can bring about since clusterSize is never clamped. -/
def negativeSizeNode : Node :=
  { scoringNode with clusterSize := -1 }

/-- A fresh beacon of node 9 in cluster 8 that advertises the cluster size -1
and no free outbound slot, heard at an rssi of -60. -/
def negativeSizeBeacon : joinMeBufferPacket :=
  { rssi := -60
    receivedTimeDs := 990
    payload :=
      { sender := 9
        clusterId := 8
        clusterSize := -1
        freeMeshInConnections := 2 } }

/-- A fresh beacon of node 12 in cluster 11 that advertises the cluster size 0
and no free outbound slot, heard at an rssi of -60. -/
def zeroSizeBeacon : joinMeBufferPacket :=
  { rssi := -60
    receivedTimeDs := 990
    payload :=
      { sender := 12
        clusterId := 11
        clusterSize := 0
        freeMeshInConnections := 2 } }

/-- No emergency disconnect is due in the state: an outgoing connection is free
or fewer than ten emergencies have been counted, so that the connect decision
does not call `DisconnectAndRemove`. -/
def EmergencyQuiet (n : Node) : Prop :=
  n.freeMeshOutConnections ≠ 0 ∨ n.emergencyDisconnectCounter < 10

instance (n : Node) : Decidable (EmergencyQuiet n) := by
  unfold EmergencyQuiet
  infer_instance

/-- No emergency disconnect is due at the start of any tick of the run. -/
def quietRun (D : DisconnectAndRemoveFn) : List TimerTick → Node → Bool
  | [], _ => true
  | tick :: rest, n =>
    decide (EmergencyQuiet n) &&
    match TimerEventHandler D tick.rnd1 tick.rnd2 { n with appTimerDs := tick.appTimerDs }
        tick.passedTimeDs with
    | some m => quietRun D rest m
    | none => true

/-- The node `lowNode` at time 1000 with all outgoing connections taken, ten
emergencies counted and the beacon of a smaller cluster in its buffer. -/
def crowdedLowNode : Node :=
  { lowNode with
    appTimerDs := 1000
    maxJoinMePacketAgeDs := 100
    stableConnectionRssiThreshold := -85
    emergencyDisconnectCounter := 10
    joinMePackets := [smallBeacon] }

/-- The state in which `Node::DetermineBestClusterAvailable` looks for a free
outgoing connection: the state after its emergency disconnect, which is taken
for the best cluster of the first search loop. -/
def afterEmergency (D : DisconnectAndRemoveFn) (rnd1 : Nat) (n : Node) : Node :=
  emergencyDisconnect D rnd1 n
    (scanBest (CalculateClusterScoreAsMaster n) n.joinMePackets 0 (0, none)).2

/-- The state in which the second search loop of
`Node::DetermineBestClusterAvailable` runs: the state after the emergency
disconnect, with currentAckId cleared by the loop if the buffer has a slot. -/
def slaveSearchState (D : DisconnectAndRemoveFn) (rnd1 : Nat) (n : Node) : Node :=
  if (afterEmergency D rnd1 n).joinMePackets.length > 0 then
    { afterEmergency D rnd1 n with currentAckId := 0 }
  else afterEmergency D rnd1 n

/-- A disconnect routine for the examples: it destroys the record of the
connection, gives its outgoing slot free and reports the loss to the node. -/
def freeingDisconnectAndRemove : DisconnectAndRemoveFn := fun n i reason =>
  match n.connections[i]? with
  | none => n
  | some c =>
    MeshConnectionDisconnectedHandler sampleHops
      { n with
        connections := n.connections.eraseIdx i
        freeMeshOutConnections := n.freeMeshOutConnections + 1 }
      reason c.connectionState c.connectionMasterBit c.connectedClusterSize c.connectedClusterId

theorem wrapI16_of_inI16 {x : Int} (h : inI16 x) : wrapI16 x = x := by
  unfold wrapI16
  unfold inI16 at h
  omega

theorem inI16_wrapI16 (x : Int) : inI16 (wrapI16 x) := by
  unfold wrapI16 inI16
  omega

theorem wrapI16_add_wrapI16 (a b : Int) : wrapI16 (a + wrapI16 b) = wrapI16 (a + b) := by
  unfold wrapI16
  omega

theorem length_updateAt {α : Type} (l : List α) (k : Nat) (f : α → α) :
    (updateAt l k f).length = l.length := by
  unfold updateAt
  split <;> simp

theorem getElem?_updateAt {α : Type} (l : List α) (k j : Nat) (f : α → α) :
    (updateAt l k f)[j]? = if j = k then l[j]?.map f else l[j]? := by
  unfold updateAt
  split
  · rename_i h
    split
    · subst_vars; simp [h]
    · rfl
  · rename_i a h
    by_cases hjk : j = k
    · subst hjk
      have hlt : j < l.length := by
        rcases Nat.lt_or_ge j l.length with h1 | h1
        · exact h1
        · rw [List.getElem?_eq_none h1] at h; cases h
      simp [h, List.getElem?_set_self hlt]
    · simp [hjk, List.getElem?_set_ne (Ne.symm hjk)]


/-! ### Fields that the helpers leave alone -/

theorem ChangeState_frame (n : Node) (s : DiscoveryState) :
    (ChangeState n s).clusterSize = n.clusterSize ∧ (ChangeState n s).clusterId = n.clusterId ∧
    (ChangeState n s).connections = n.connections ∧
    (ChangeState n s).connectionLossCounter = n.connectionLossCounter ∧
    (ChangeState n s).randomBootNumber = n.randomBootNumber ∧
    (ChangeState n s).nodeId = n.nodeId ∧
    (ChangeState n s).clusterUpdateCounterModulus = n.clusterUpdateCounterModulus := by
  unfold ChangeState
  split
  · simp
  · cases s <;> simp

theorem KeepHighDiscoveryActive_frame (n : Node) :
    (KeepHighDiscoveryActive n).clusterSize = n.clusterSize ∧
    (KeepHighDiscoveryActive n).clusterId = n.clusterId ∧
    (KeepHighDiscoveryActive n).connections = n.connections ∧
    (KeepHighDiscoveryActive n).connectionLossCounter = n.connectionLossCounter ∧
    (KeepHighDiscoveryActive n).randomBootNumber = n.randomBootNumber ∧
    (KeepHighDiscoveryActive n).nodeId = n.nodeId ∧
    (KeepHighDiscoveryActive n).clusterUpdateCounterModulus = n.clusterUpdateCounterModulus := by
  unfold KeepHighDiscoveryActive
  split
  · simp
  · exact ChangeState_frame n DiscoveryState.HIGH

theorem HandOverMasterBitIfNecessary_frame (n : Node) :
    (HandOverMasterBitIfNecessary n).clusterSize = n.clusterSize ∧
    (HandOverMasterBitIfNecessary n).clusterId = n.clusterId ∧
    (HandOverMasterBitIfNecessary n).connectionLossCounter = n.connectionLossCounter ∧
    (HandOverMasterBitIfNecessary n).randomBootNumber = n.randomBootNumber ∧
    (HandOverMasterBitIfNecessary n).nodeId = n.nodeId ∧
    (HandOverMasterBitIfNecessary n).clusterUpdateCounterModulus = n.clusterUpdateCounterModulus := by
  unfold HandOverMasterBitIfNecessary
  split <;> simp

theorem handOverStep_rel (cs : Int) (c : MeshConnection) : HandOverRel c (handOverStep cs c) := by
  unfold handOverStep HandOverRel
  split
  · exact Or.inr rfl
  · exact Or.inl rfl

theorem HandOverMasterBitIfNecessary_conn (n : Node) (j : Nat) (c : MeshConnection)
    (hc : n.connections[j]? = some c) :
    ∃ c', (HandOverMasterBitIfNecessary n).connections[j]? = some c' ∧ HandOverRel c c' := by
  unfold HandOverMasterBitIfNecessary
  split
  · refine ⟨handOverStep n.clusterSize c, ?_, handOverStep_rel _ _⟩
    simp [List.getElem?_map, hc]
  · exact ⟨c, hc, Or.inl rfl⟩

theorem HandOverMasterBitIfNecessary_length (n : Node) :
    (HandOverMasterBitIfNecessary n).connections.length = n.connections.length := by
  unfold HandOverMasterBitIfNecessary
  split <;> simp


/-! ### The loop of `SendClusterInfoUpdate` -/

theorem sendIter_scalars (H : HopsToShortestSink) (ig : Option Nat) (p : Option ClusterInfoUpdate)
    (n : Node) (k : Nat) :
    sendIter H ig p n k = { n with connections := (sendIter H ig p n k).connections } := rfl

theorem sendLoop_scalars (H : HopsToShortestSink) (ig : Option Nat) (p : Option ClusterInfoUpdate)
    (ks : List Nat) (n : Node) :
    ks.foldl (sendIter H ig p) n = { n with connections := (ks.foldl (sendIter H ig p) n).connections } := by
  induction ks generalizing n with
  | nil => rfl
  | cons k ks ih =>
    simp only [List.foldl_cons]
    rw [ih (sendIter H ig p n k)]
    simp [sendIter]

theorem sendLoop_length (H : HopsToShortestSink) (ig : Option Nat) (p : Option ClusterInfoUpdate)
    (ks : List Nat) (n : Node) :
    (ks.foldl (sendIter H ig p) n).connections.length = n.connections.length := by
  induction ks generalizing n with
  | nil => rfl
  | cons k ks ih =>
    simp only [List.foldl_cons]
    rw [ih (sendIter H ig p n k)]
    simp [sendIter, length_updateAt]

theorem sendLoop_untouched (H : HopsToShortestSink) (ig : Option Nat) (p : Option ClusterInfoUpdate)
    (ks : List Nat) (n : Node) (j : Nat) (hj : j ∉ ks) :
    (ks.foldl (sendIter H ig p) n).connections[j]? = n.connections[j]? := by
  induction ks generalizing n with
  | nil => rfl
  | cons k ks ih =>
    simp only [List.foldl_cons]
    have hjk : j ≠ k := fun h => hj (by simp [h])
    have hjks : j ∉ ks := fun h => hj (by simp [h])
    rw [ih (sendIter H ig p n k) hjks]
    simp [sendIter, getElem?_updateAt, hjk]

theorem sendLoop_range (H : HopsToShortestSink) (ig : Option Nat) (p : Option ClusterInfoUpdate)
    (n : Node) (m j : Nat) (c : MeshConnection) (hj : j < m) (hc : n.connections[j]? = some c) :
    ∃ h, ((List.range m).foldl (sendIter H ig p) n).connections[j]? = some (sendStep ig p j h c) := by
  induction m with
  | zero => omega
  | succ m ih =>
    rw [List.range_succ, List.foldl_append]
    simp only [List.foldl_cons, List.foldl_nil]
    by_cases hjm : j = m
    · subst hjm
      have hb := sendLoop_untouched H ig p (List.range j) n j (by simp)
      refine ⟨H ((List.range j).foldl (sendIter H ig p) n) (some j), ?_⟩
      simp [sendIter, getElem?_updateAt, hb, hc]
    · obtain ⟨h, hh⟩ := ih (by omega)
      refine ⟨h, ?_⟩
      simp [sendIter, getElem?_updateAt, hjm, hh]

theorem SendClusterInfoUpdate_frame (H : HopsToShortestSink) (n : Node) (ig : Option Nat)
    (p : Option ClusterInfoUpdate) :
    (SendClusterInfoUpdate H n ig p).clusterSize = n.clusterSize ∧
    (SendClusterInfoUpdate H n ig p).clusterId = n.clusterId ∧
    (SendClusterInfoUpdate H n ig p).connectionLossCounter = n.connectionLossCounter ∧
    (SendClusterInfoUpdate H n ig p).randomBootNumber = n.randomBootNumber ∧
    (SendClusterInfoUpdate H n ig p).nodeId = n.nodeId ∧
    (SendClusterInfoUpdate H n ig p).clusterUpdateCounterModulus = n.clusterUpdateCounterModulus := by
  unfold SendClusterInfoUpdate
  have h1 := HandOverMasterBitIfNecessary_frame
    ((List.range n.connections.length).foldl (sendIter H ig p) n)
  have h2 := sendLoop_scalars H ig p (List.range n.connections.length) n
  obtain ⟨a1, a2, a3, a4, a5, a6⟩ := h1
  rw [a1, a2, a3, a4, a5, a6, h2]
  simp

theorem SendClusterInfoUpdate_length (H : HopsToShortestSink) (n : Node) (ig : Option Nat)
    (p : Option ClusterInfoUpdate) :
    (SendClusterInfoUpdate H n ig p).connections.length = n.connections.length := by
  unfold SendClusterInfoUpdate
  rw [HandOverMasterBitIfNecessary_length, sendLoop_length]

theorem SendClusterInfoUpdate_conn (H : HopsToShortestSink) (n : Node) (ig : Option Nat)
    (p : Option ClusterInfoUpdate) (j : Nat) (c : MeshConnection) (hc : n.connections[j]? = some c) :
    ∃ h c', (SendClusterInfoUpdate H n ig p).connections[j]? = some c' ∧
      HandOverRel (sendStep ig p j h c) c' := by
  have hlt : j < n.connections.length := by
    rcases Nat.lt_or_ge j n.connections.length with h1 | h1
    · exact h1
    · rw [List.getElem?_eq_none h1] at hc; cases hc
  obtain ⟨h, hh⟩ := sendLoop_range H ig p n n.connections.length j c hlt hc
  obtain ⟨c', hc', hrel⟩ := HandOverMasterBitIfNecessary_conn _ j _ hh
  exact ⟨h, c', hc', hrel⟩


theorem sendStep_frame (ig : Option Nat) (p : Option ClusterInfoUpdate) (k : Nat) (h : Int)
    (c : MeshConnection) :
    (sendStep ig p k h c).connectionState = c.connectionState ∧
    (sendStep ig p k h c).connectedClusterSize = c.connectedClusterSize ∧
    (sendStep ig p k h c).hopsToSink = c.hopsToSink ∧
    (sendStep ig p k h c).connectionMasterBit = c.connectionMasterBit ∧
    (sendStep ig p k h c).nextExpectedClusterUpdateCounter = c.nextExpectedClusterUpdateCounter ∧
    (sendStep ig p k h c).currentClusterInfoUpdatePacket.connectionMasterBitHandover =
      c.currentClusterInfoUpdatePacket.connectionMasterBitHandover := by
  unfold sendStep
  split
  · simp
  · simp only []
    split
    · simp
    · split <;> simp

theorem HandOverRel_frame {c c' : MeshConnection} (h : HandOverRel c c') :
    c'.connectionState = c.connectionState ∧
    c'.connectedClusterSize = c.connectedClusterSize ∧
    c'.hopsToSink = c.hopsToSink ∧
    c'.nextExpectedClusterUpdateCounter = c.nextExpectedClusterUpdateCounter ∧
    c'.currentClusterInfoUpdatePacket.clusterSizeChange =
      c.currentClusterInfoUpdatePacket.clusterSizeChange ∧
    c'.currentClusterInfoUpdatePacket.hopsToSink = c.currentClusterInfoUpdatePacket.hopsToSink := by
  rcases h with rfl | rfl <;> simp

/-- C1: when the counter of an incoming cluster-info update differs from the
counter the link expects next, ReceiveClusterInfoUpdate returns the state it
was given: clusterSize, clusterId, every field of the link and the pending
update of every other link keep their values. -/
theorem ReceiveClusterInfoUpdate_counter_mismatch (H : HopsToShortestSink) (n : Node) (i : Nat)
    (connection : MeshConnection) (packet : ClusterInfoUpdate)
    (hconn : n.connections[i]? = some connection)
    (hne : packet.counter ≠ connection.nextExpectedClusterUpdateCounter) :
    ReceiveClusterInfoUpdate H n i packet = n := by
  unfold ReceiveClusterInfoUpdate
  rw [hconn]
  simp only []
  rw [if_neg (fun h => hne h.symm)]

theorem ReceiveClusterInfoUpdate_counter_mismatch_witness :
    sampleNode.connections[0]? = some sampleLink ∧
    ({ counter := 1 } : ClusterInfoUpdate).counter ≠ sampleLink.nextExpectedClusterUpdateCounter ∧
    ReceiveClusterInfoUpdate sampleHops sampleNode 0 { clusterSizeChange := 3, counter := 1 } = sampleNode :=
  ⟨rfl, by decide,
    ReceiveClusterInfoUpdate_counter_mismatch sampleHops sampleNode 0 sampleLink
      { clusterSizeChange := 3, counter := 1 } rfl (by decide)⟩


theorem lt_length_of_getElem? {α : Type} {l : List α} {j : Nat} {a : α} (h : l[j]? = some a) :
    j < l.length := by
  rcases Nat.lt_or_ge j l.length with h1 | h1
  · exact h1
  · rw [List.getElem?_eq_none h1] at h; cases h

theorem receivedConnection_fields (m : Nat) (c : MeshConnection) (p : ClusterInfoUpdate) :
    (receivedConnection m c p).nextExpectedClusterUpdateCounter =
      (c.nextExpectedClusterUpdateCounter + 1) % m ∧
    (receivedConnection m c p).connectedClusterSize =
      (if p.clusterSizeChange = 0 then c.connectedClusterSize
       else wrapI16 (c.connectedClusterSize + p.clusterSizeChange)) ∧
    (receivedConnection m c p).hopsToSink =
      (if 0 ≤ p.hopsToSink then wrapI16 (p.hopsToSink + 1) else -1) ∧
    (receivedConnection m c p).connectionState = c.connectionState ∧
    (receivedConnection m c p).currentClusterInfoUpdatePacket = c.currentClusterInfoUpdatePacket := by
  have hh : (p.hopsToSink > -1) = (0 ≤ p.hopsToSink) := by
    apply propext; constructor <;> intro h <;> omega
  unfold receivedConnection
  by_cases h0 : p.clusterSizeChange = 0 <;> by_cases hb : p.connectionMasterBitHandover = true <;>
    simp [h0, hb, hh]

theorem ReceiveClusterInfoUpdate_expected_clusterSize (H : HopsToShortestSink) (n : Node) (i : Nat)
    (connection : MeshConnection) (packet : ClusterInfoUpdate)
    (hconn : n.connections[i]? = some connection)
    (hcnt : packet.counter = connection.nextExpectedClusterUpdateCounter) :
    (ReceiveClusterInfoUpdate H n i packet).clusterSize =
      (if packet.clusterSizeChange = 0 then n.clusterSize
       else wrapI16 (n.clusterSize + packet.clusterSizeChange)) := by
  unfold ReceiveClusterInfoUpdate
  rw [hconn]
  simp only []
  rw [if_pos hcnt.symm, (KeepHighDiscoveryActive_frame _).1, (SendClusterInfoUpdate_frame H _ _ _).1,
    (HandOverMasterBitIfNecessary_frame _).1]
  by_cases h0 : packet.clusterSizeChange = 0 <;> simp [h0]

theorem ReceiveClusterInfoUpdate_unexpected (H : HopsToShortestSink) (n : Node) (i : Nat)
    (packet : ClusterInfoUpdate)
    (h : ∀ connection, n.connections[i]? = some connection →
      packet.counter ≠ connection.nextExpectedClusterUpdateCounter) :
    ReceiveClusterInfoUpdate H n i packet = n := by
  unfold ReceiveClusterInfoUpdate
  split
  · rfl
  · rename_i connection hconn
    rw [if_neg (fun e => h connection hconn e.symm)]

/-- C2: when the counter of an incoming cluster-info update equals the counter
the link expects next, ReceiveClusterInfoUpdate advances that counter by one
(within the width of the counter field), adds the clusterSizeChange of the
update to the clusterSize of the node and to the connectedClusterSize of the
link, and sets the hopsToSink of the link to the received hops + 1 when the
received value is at least 0 and to -1 otherwise. The arithmetic is that of
the 16-bit fields; it is the exact sum whenever the sum is representable. -/
theorem ReceiveClusterInfoUpdate_applied (H : HopsToShortestSink) (n : Node) (i : Nat)
    (connection : MeshConnection) (packet : ClusterInfoUpdate)
    (hconn : n.connections[i]? = some connection)
    (hcnt : packet.counter = connection.nextExpectedClusterUpdateCounter) :
    ∃ c', (ReceiveClusterInfoUpdate H n i packet).connections[i]? = some c' ∧
      c'.nextExpectedClusterUpdateCounter =
        (connection.nextExpectedClusterUpdateCounter + 1) % n.clusterUpdateCounterModulus ∧
      (ReceiveClusterInfoUpdate H n i packet).clusterSize =
        (if packet.clusterSizeChange = 0 then n.clusterSize
         else wrapI16 (n.clusterSize + packet.clusterSizeChange)) ∧
      c'.connectedClusterSize =
        (if packet.clusterSizeChange = 0 then connection.connectedClusterSize
         else wrapI16 (connection.connectedClusterSize + packet.clusterSizeChange)) ∧
      c'.hopsToSink = (if 0 ≤ packet.hopsToSink then wrapI16 (packet.hopsToSink + 1) else -1) ∧
      (inI16 (n.clusterSize + packet.clusterSizeChange) →
        (ReceiveClusterInfoUpdate H n i packet).clusterSize =
          n.clusterSize + packet.clusterSizeChange) ∧
      (inI16 (connection.connectedClusterSize + packet.clusterSizeChange) →
        c'.connectedClusterSize = connection.connectedClusterSize + packet.clusterSizeChange) ∧
      (0 ≤ packet.hopsToSink → packet.hopsToSink < 32767 → c'.hopsToSink = packet.hopsToSink + 1) := by
  have hlt := lt_length_of_getElem? hconn
  unfold ReceiveClusterInfoUpdate
  rw [hconn]
  simp only []
  rw [if_pos hcnt.symm]
  obtain ⟨c5, h5, r5⟩ := HandOverMasterBitIfNecessary_conn
    { n with
      clusterSize :=
        if packet.clusterSizeChange ≠ 0 then wrapI16 (n.clusterSize + packet.clusterSizeChange)
        else n.clusterSize
      connections :=
        n.connections.set i (receivedConnection n.clusterUpdateCounterModulus connection packet) }
    i (receivedConnection n.clusterUpdateCounterModulus connection packet)
    (by simp [List.getElem?_set_self hlt])
  obtain ⟨h, c6, h6, r6⟩ := SendClusterInfoUpdate_conn H _ (some i)
    (some { clusterSizeChange := packet.clusterSizeChange }) i c5 h5
  obtain ⟨f1, f2, f3, f4, f5⟩ := receivedConnection_fields n.clusterUpdateCounterModulus connection packet
  obtain ⟨a1, a2, a3, a4, -, -⟩ := HandOverRel_frame r5
  obtain ⟨b1, b2, b3, b4, -, -⟩ := HandOverRel_frame r6
  obtain ⟨s1, s2, s3, -, s5, -⟩ := sendStep_frame (some i)
    (some { clusterSizeChange := packet.clusterSizeChange }) i h c5
  have hcs : (KeepHighDiscoveryActive (SendClusterInfoUpdate H (HandOverMasterBitIfNecessary
      { n with
        clusterSize :=
          if packet.clusterSizeChange ≠ 0 then wrapI16 (n.clusterSize + packet.clusterSizeChange)
          else n.clusterSize
        connections :=
          n.connections.set i (receivedConnection n.clusterUpdateCounterModulus connection packet) })
      (some i) (some { clusterSizeChange := packet.clusterSizeChange }))).clusterSize =
      (if packet.clusterSizeChange = 0 then n.clusterSize
         else wrapI16 (n.clusterSize + packet.clusterSizeChange)) := by
    rw [(KeepHighDiscoveryActive_frame _).1, (SendClusterInfoUpdate_frame H _ _ _).1,
      (HandOverMasterBitIfNecessary_frame _).1]
    by_cases h0 : packet.clusterSizeChange = 0 <;> simp [h0]
  have hccs : c6.connectedClusterSize =
      (if packet.clusterSizeChange = 0 then connection.connectedClusterSize
         else wrapI16 (connection.connectedClusterSize + packet.clusterSizeChange)) := by
    rw [b2, s2, a2, f2]
  have hhops : c6.hopsToSink = (if 0 ≤ packet.hopsToSink then wrapI16 (packet.hopsToSink + 1) else -1) := by
    rw [b3, s3, a3, f3]
  refine ⟨c6, ?_, ?_, hcs, hccs, hhops, ?_, ?_, ?_⟩
  · rw [(KeepHighDiscoveryActive_frame _).2.2.1]; exact h6
  · rw [b4, s5, a4, f1]
  · intro hr
    rw [hcs]
    by_cases h0 : packet.clusterSizeChange = 0
    · simp [h0]
    · simp [h0, wrapI16_of_inI16 hr]
  · intro hr
    rw [hccs]
    by_cases h0 : packet.clusterSizeChange = 0
    · simp [h0]
    · simp [h0, wrapI16_of_inI16 hr]
  · intro h0 h1
    rw [hhops, if_pos h0]
    exact wrapI16_of_inI16 ⟨by omega, by omega⟩

theorem ReceiveClusterInfoUpdate_applied_witness :
    sampleNode.connections[0]? = some sampleLink ∧
    ({ clusterSizeChange := 3, hopsToSink := 2, counter := 0 } : ClusterInfoUpdate).counter =
      sampleLink.nextExpectedClusterUpdateCounter ∧
    ∃ c', (ReceiveClusterInfoUpdate sampleHops sampleNode 0
        { clusterSizeChange := 3, hopsToSink := 2, counter := 0 }).connections[0]? = some c' ∧
      c'.nextExpectedClusterUpdateCounter = 1 ∧
      (ReceiveClusterInfoUpdate sampleHops sampleNode 0
        { clusterSizeChange := 3, hopsToSink := 2, counter := 0 }).clusterSize = 8 ∧
      c'.connectedClusterSize = 5 ∧ c'.hopsToSink = 3 := by
  obtain ⟨c', h1, h2, -, -, -, h6, h7, h8⟩ :=
    ReceiveClusterInfoUpdate_applied sampleHops sampleNode 0 sampleLink
      { clusterSizeChange := 3, hopsToSink := 2, counter := 0 } rfl rfl
  exact ⟨rfl, rfl, c', h1, h2, h6 (by decide), h7 (by decide), h8 (by decide) (by decide)⟩

theorem SameLink.trans {a b c : MeshConnection} (h1 : SameLink a b) (h2 : SameLink b c) :
    SameLink a c := by
  unfold SameLink at *
  obtain ⟨a1, a2, a3, a4⟩ := h1
  obtain ⟨b1, b2, b3, b4⟩ := h2
  exact ⟨b1.trans a1, b2.trans a2, b3.trans a3, b4.trans a4⟩

theorem SameLink.isConnected {a b : MeshConnection} (h : SameLink a b) :
    b.isConnected = a.isConnected := by
  unfold MeshConnection.isConnected
  rw [h.1]

theorem sendStep_change (ig : Option Nat) (p : Option ClusterInfoUpdate) (k : Nat) (h : Int)
    (c : MeshConnection) :
    (sendStep ig p k h c).currentClusterInfoUpdatePacket.clusterSizeChange =
      pendingAfterSend ig p k c := by
  unfold sendStep pendingAfterSend
  by_cases hc : c.isConnected = false
  · cases p <;> simp [hc]
  · by_cases hi : ig = some k
    · cases p <;> simp [hc, hi]
    · cases p <;> simp [hc, hi]

theorem SendClusterInfoUpdate_link (H : HopsToShortestSink) (n : Node) (ig : Option Nat)
    (p : Option ClusterInfoUpdate) (j : Nat) (c : MeshConnection) (hc : n.connections[j]? = some c) :
    ∃ c', (SendClusterInfoUpdate H n ig p).connections[j]? = some c' ∧ SameLink c c' ∧
      c'.currentClusterInfoUpdatePacket.clusterSizeChange = pendingAfterSend ig p j c := by
  obtain ⟨h, c', hc', hrel⟩ := SendClusterInfoUpdate_conn H n ig p j c hc
  obtain ⟨b1, b2, b3, b4, b5, -⟩ := HandOverRel_frame hrel
  obtain ⟨s1, s2, s3, -, s5, -⟩ := sendStep_frame ig p j h c
  refine ⟨c', hc', ⟨b1.trans s1, b2.trans s2, b3.trans s3, b4.trans s5⟩, ?_⟩
  rw [b5, sendStep_change]

theorem HandOverMasterBitIfNecessary_link (n : Node) (j : Nat) (c : MeshConnection)
    (hc : n.connections[j]? = some c) :
    ∃ c', (HandOverMasterBitIfNecessary n).connections[j]? = some c' ∧ SameLink c c' ∧
      c'.currentClusterInfoUpdatePacket.clusterSizeChange =
        c.currentClusterInfoUpdatePacket.clusterSizeChange := by
  obtain ⟨c', hc', hrel⟩ := HandOverMasterBitIfNecessary_conn n j c hc
  obtain ⟨b1, b2, b3, b4, b5, -⟩ := HandOverRel_frame hrel
  exact ⟨c', hc', ⟨b1, b2, b3, b4⟩, b5⟩

/-! ### The second half of `HandshakeDoneHandler` -/

theorem HandshakeDoneHandler_eq (H : HopsToShortestSink) (n : Node) (i : Nat)
    (connection : MeshConnection) (w : Bool) (hconn : n.connections[i]? = some connection) :
    HandshakeDoneHandler H n i w =
      HandOverMasterBitIfNecessary (KeepHighDiscoveryActive (SendClusterInfoUpdate H
        { handshakeCommit H n i connection w with
          connections := updateAt (handshakeCommit H n i connection w).connections i fun c =>
            { c with
              connectionState := ConnectionState.HANDSHAKE_DONE
              connectionHandshakedTimestampDs := (handshakeCommit H n i connection w).appTimerDs } }
        (some i) none)) := by
  unfold HandshakeDoneHandler
  rw [hconn]

theorem HandshakeDoneHandler_frame (H : HopsToShortestSink) (n : Node) (i : Nat)
    (connection : MeshConnection) (w : Bool) (hconn : n.connections[i]? = some connection) :
    (HandshakeDoneHandler H n i w).clusterSize = (handshakeCommit H n i connection w).clusterSize ∧
    (HandshakeDoneHandler H n i w).clusterId = (handshakeCommit H n i connection w).clusterId := by
  rw [HandshakeDoneHandler_eq H n i connection w hconn]
  constructor
  · rw [(HandOverMasterBitIfNecessary_frame _).1, (KeepHighDiscoveryActive_frame _).1,
      (SendClusterInfoUpdate_frame H _ _ _).1]
  · rw [(HandOverMasterBitIfNecessary_frame _).2.1, (KeepHighDiscoveryActive_frame _).2.1,
      (SendClusterInfoUpdate_frame H _ _ _).2.1]

theorem HandshakeDoneHandler_link (H : HopsToShortestSink) (n : Node) (i : Nat)
    (connection : MeshConnection) (w : Bool) (hconn : n.connections[i]? = some connection)
    (j : Nat) (c0 : MeshConnection)
    (h0 : (handshakeCommit H n i connection w).connections[j]? = some c0) :
    ∃ c', (HandshakeDoneHandler H n i w).connections[j]? = some c' ∧
      c'.currentClusterInfoUpdatePacket.clusterSizeChange =
        c0.currentClusterInfoUpdatePacket.clusterSizeChange ∧
      c'.connectedClusterSize = c0.connectedClusterSize ∧
      c'.hopsToSink = c0.hopsToSink ∧
      c'.nextExpectedClusterUpdateCounter = c0.nextExpectedClusterUpdateCounter ∧
      c'.connectionState =
        (if j = i then ConnectionState.HANDSHAKE_DONE else c0.connectionState) := by
  rw [HandshakeDoneHandler_eq H n i connection w hconn]
  generalize handshakeCommit H n i connection w = n1 at h0 ⊢
  have h4 : ({ n1 with
      connections := updateAt n1.connections i fun c =>
        { c with
          connectionState := ConnectionState.HANDSHAKE_DONE
          connectionHandshakedTimestampDs := n1.appTimerDs } } : Node).connections[j]? =
      some (if j = i then { c0 with
          connectionState := ConnectionState.HANDSHAKE_DONE
          connectionHandshakedTimestampDs := n1.appTimerDs } else c0) := by
    simp only [getElem?_updateAt, h0]
    split <;> simp
  obtain ⟨c5, h5, r5, p5⟩ := SendClusterInfoUpdate_link H _ (some i) none j _ h4
  have h6 : (KeepHighDiscoveryActive (SendClusterInfoUpdate H
      { n1 with
        connections := updateAt n1.connections i fun c =>
          { c with
            connectionState := ConnectionState.HANDSHAKE_DONE
            connectionHandshakedTimestampDs := n1.appTimerDs } }
      (some i) none)).connections[j]? = some c5 := by
    rw [(KeepHighDiscoveryActive_frame _).2.2.1]; exact h5
  obtain ⟨c7, h7, r7, p7⟩ := HandOverMasterBitIfNecessary_link _ j c5 h6
  obtain ⟨x1, x2, x3, x4⟩ := SameLink.trans r5 r7
  refine ⟨c7, h7, ?_, ?_, ?_, ?_, ?_⟩
  · rw [p7, p5]; by_cases hji : j = i <;> simp [pendingAfterSend, hji]
  · rw [x2]; by_cases hji : j = i <;> simp [hji]
  · rw [x3]; by_cases hji : j = i <;> simp [hji]
  · rw [x4]; by_cases hji : j = i <;> simp [hji]
  · rw [x1]; by_cases hji : j = i <;> simp [hji]

theorem winnerConnection_pending (c : MeshConnection) :
    (winnerConnection c).currentClusterInfoUpdatePacket = c.currentClusterInfoUpdatePacket := rfl

theorem handshakeCommit_winner_clusterSize (H : HopsToShortestSink) (n : Node) (i : Nat)
    (connection : MeshConnection) :
    (handshakeCommit H n i connection true).clusterSize = wrapI16 (n.clusterSize + 1) := by
  unfold handshakeCommit
  rw [if_pos rfl, (SendClusterInfoUpdate_frame H _ _ _).1]

theorem handshakeCommit_winner_link (H : HopsToShortestSink) (n : Node) (i : Nat)
    (connection : MeshConnection) (hconn : n.connections[i]? = some connection)
    (j : Nat) (c : MeshConnection) (hc : n.connections[j]? = some c) :
    ∃ c1, (handshakeCommit H n i connection true).connections[j]? = some c1 ∧
      SameLink (if j = i then winnerConnection connection else c) c1 ∧
      c1.currentClusterInfoUpdatePacket.clusterSizeChange =
        (if j ≠ i ∧ c.isConnected = true then
          wrapI16 (c.currentClusterInfoUpdatePacket.clusterSizeChange + 1)
         else c.currentClusterInfoUpdatePacket.clusterSizeChange) := by
  have hlt := lt_length_of_getElem? hconn
  unfold handshakeCommit
  rw [if_pos rfl]
  have h3 : ({ n with
      clusterSize := wrapI16 (n.clusterSize + 1)
      connections := n.connections.set i (winnerConnection connection) } : Node).connections[j]? =
      some (if j = i then winnerConnection connection else c) := by
    by_cases hji : j = i
    · subst hji; simp [List.getElem?_set_self hlt]
    · simp [hji, List.getElem?_set_ne (Ne.symm hji), hc]
  obtain ⟨c1, h1, r1, p1⟩ := SendClusterInfoUpdate_link H _ (some i)
    (some { clusterSizeChange := 1, connectionMasterBitHandover := false }) j _ h3
  refine ⟨c1, h1, r1, ?_⟩
  rw [p1]
  by_cases hji : j = i
  · subst hji
    have : c = connection := by rw [hc] at hconn; exact Option.some.inj hconn
    subst this
    simp [pendingAfterSend, winnerConnection_pending]
  · have hne : ¬ (i = j) := fun h => hji h.symm
    by_cases hcon : c.isConnected = true <;> simp [pendingAfterSend, hji, hne, hcon]

theorem ReceiveClusterInfoUpdate_link (H : HopsToShortestSink) (n : Node) (i : Nat)
    (connection : MeshConnection) (packet : ClusterInfoUpdate)
    (hconn : n.connections[i]? = some connection)
    (hcnt : packet.counter = connection.nextExpectedClusterUpdateCounter)
    (j : Nat) (c : MeshConnection) (hc : n.connections[j]? = some c) :
    ∃ c', (ReceiveClusterInfoUpdate H n i packet).connections[j]? = some c' ∧
      SameLink (if j = i then receivedConnection n.clusterUpdateCounterModulus connection packet
        else c) c' ∧
      c'.currentClusterInfoUpdatePacket.clusterSizeChange =
        (if j ≠ i ∧ c.isConnected = true then
          wrapI16 (c.currentClusterInfoUpdatePacket.clusterSizeChange + packet.clusterSizeChange)
         else c.currentClusterInfoUpdatePacket.clusterSizeChange) := by
  have hlt := lt_length_of_getElem? hconn
  unfold ReceiveClusterInfoUpdate
  rw [hconn]
  simp only []
  rw [if_pos hcnt.symm]
  have h1 : ({ n with
      clusterSize :=
        if packet.clusterSizeChange ≠ 0 then wrapI16 (n.clusterSize + packet.clusterSizeChange)
        else n.clusterSize
      connections :=
        n.connections.set i (receivedConnection n.clusterUpdateCounterModulus connection packet) } :
      Node).connections[j]? =
      some (if j = i then receivedConnection n.clusterUpdateCounterModulus connection packet
        else c) := by
    by_cases hji : j = i
    · subst hji; simp [List.getElem?_set_self hlt]
    · simp [hji, List.getElem?_set_ne (Ne.symm hji), hc]
  obtain ⟨c2, h2, r2, p2⟩ := HandOverMasterBitIfNecessary_link _ j _ h1
  obtain ⟨c3, h3, r3, p3⟩ := SendClusterInfoUpdate_link H _ (some i)
    (some { clusterSizeChange := packet.clusterSizeChange }) j c2 h2
  refine ⟨c3, ?_, SameLink.trans r2 r3, ?_⟩
  · rw [(KeepHighDiscoveryActive_frame _).2.2.1]; exact h3
  · rw [p3]
    unfold pendingAfterSend
    simp only []
    rw [p2, SameLink.isConnected r2]
    by_cases hji : j = i
    · subst hji
      have : c = connection := by rw [hc] at hconn; exact Option.some.inj hconn
      subst this
      simp [(receivedConnection_fields _ _ _).2.2.2.2]
    · have hne : ¬ (i = j) := fun h => hji h.symm
      by_cases hcon : c.isConnected = true <;> simp [hji, hne, hcon]

/-- C3: when a handshake is committed as winner, and when a received update
is applied, the pending clusterSizeChange of every connected mesh link other
than the originating link grows by the very delta that is added to the local
clusterSize (1 for the commit, the clusterSizeChange of the update otherwise),
on top of what was already pending, and the pending clusterSizeChange of the
originating link keeps its value. Sums are 16-bit stores, exact whenever
representable. -/
theorem clusterSizeChange_propagated_to_other_links (H : HopsToShortestSink) (n : Node) (i : Nat)
    (connection : MeshConnection) (packet : ClusterInfoUpdate)
    (hconn : n.connections[i]? = some connection)
    (hcnt : packet.counter = connection.nextExpectedClusterUpdateCounter) :
    ((HandshakeDoneHandler H n i true).clusterSize = wrapI16 (n.clusterSize + 1) ∧
      (∀ j c, j ≠ i → n.connections[j]? = some c → c.isConnected = true →
        ∃ c', (HandshakeDoneHandler H n i true).connections[j]? = some c' ∧
          c'.currentClusterInfoUpdatePacket.clusterSizeChange =
            wrapI16 (c.currentClusterInfoUpdatePacket.clusterSizeChange + 1) ∧
          (inI16 (c.currentClusterInfoUpdatePacket.clusterSizeChange + 1) →
            c'.currentClusterInfoUpdatePacket.clusterSizeChange =
              c.currentClusterInfoUpdatePacket.clusterSizeChange + 1)) ∧
      (∃ c', (HandshakeDoneHandler H n i true).connections[i]? = some c' ∧
        c'.currentClusterInfoUpdatePacket.clusterSizeChange =
          connection.currentClusterInfoUpdatePacket.clusterSizeChange)) ∧
    ((ReceiveClusterInfoUpdate H n i packet).clusterSize =
        (if packet.clusterSizeChange = 0 then n.clusterSize
         else wrapI16 (n.clusterSize + packet.clusterSizeChange)) ∧
      (∀ j c, j ≠ i → n.connections[j]? = some c → c.isConnected = true →
        ∃ c', (ReceiveClusterInfoUpdate H n i packet).connections[j]? = some c' ∧
          c'.currentClusterInfoUpdatePacket.clusterSizeChange =
            wrapI16 (c.currentClusterInfoUpdatePacket.clusterSizeChange + packet.clusterSizeChange) ∧
          (inI16 (c.currentClusterInfoUpdatePacket.clusterSizeChange + packet.clusterSizeChange) →
            c'.currentClusterInfoUpdatePacket.clusterSizeChange =
              c.currentClusterInfoUpdatePacket.clusterSizeChange + packet.clusterSizeChange)) ∧
      (∃ c', (ReceiveClusterInfoUpdate H n i packet).connections[i]? = some c' ∧
        c'.currentClusterInfoUpdatePacket.clusterSizeChange =
          connection.currentClusterInfoUpdatePacket.clusterSizeChange)) := by
  refine ⟨⟨?_, ?_, ?_⟩, ⟨?_, ?_, ?_⟩⟩
  · rw [(HandshakeDoneHandler_frame H n i connection true hconn).1,
      handshakeCommit_winner_clusterSize]
  · intro j c hji hc hcon
    obtain ⟨c1, h1, -, p1⟩ := handshakeCommit_winner_link H n i connection hconn j c hc
    obtain ⟨c', h', p', -⟩ := HandshakeDoneHandler_link H n i connection true hconn j c1 h1
    have hp : c'.currentClusterInfoUpdatePacket.clusterSizeChange =
        wrapI16 (c.currentClusterInfoUpdatePacket.clusterSizeChange + 1) := by
      rw [p', p1, if_pos ⟨hji, hcon⟩]
    exact ⟨c', h', hp, fun hr => by rw [hp, wrapI16_of_inI16 hr]⟩
  · obtain ⟨c1, h1, -, p1⟩ := handshakeCommit_winner_link H n i connection hconn i connection hconn
    obtain ⟨c', h', p', -⟩ := HandshakeDoneHandler_link H n i connection true hconn i c1 h1
    refine ⟨c', h', ?_⟩
    rw [p', p1]
    simp
  · exact ReceiveClusterInfoUpdate_expected_clusterSize H n i connection packet hconn hcnt
  · intro j c hji hc hcon
    obtain ⟨c', h', -, p'⟩ := ReceiveClusterInfoUpdate_link H n i connection packet hconn hcnt j c hc
    have hp : c'.currentClusterInfoUpdatePacket.clusterSizeChange =
        wrapI16 (c.currentClusterInfoUpdatePacket.clusterSizeChange + packet.clusterSizeChange) := by
      rw [p', if_pos ⟨hji, hcon⟩]
    exact ⟨c', h', hp, fun hr => by rw [hp, wrapI16_of_inI16 hr]⟩
  · obtain ⟨c', h', -, p'⟩ :=
      ReceiveClusterInfoUpdate_link H n i connection packet hconn hcnt i connection hconn
    refine ⟨c', h', ?_⟩
    rw [p']
    simp

theorem clusterSizeChange_propagated_to_other_links_witness :
    sampleNode.connections[0]? = some sampleLink ∧
    ({ clusterSizeChange := 3, counter := 0 } : ClusterInfoUpdate).counter =
      sampleLink.nextExpectedClusterUpdateCounter ∧
    (HandshakeDoneHandler sampleHops sampleNode 0 true).clusterSize = 6 ∧
    (∃ c', (HandshakeDoneHandler sampleHops sampleNode 0 true).connections[1]? = some c' ∧
      c'.currentClusterInfoUpdatePacket.clusterSizeChange = 1) ∧
    (ReceiveClusterInfoUpdate sampleHops sampleNode 0 { clusterSizeChange := 3, counter := 0 }).clusterSize
      = 8 ∧
    (∃ c', (ReceiveClusterInfoUpdate sampleHops sampleNode 0
        { clusterSizeChange := 3, counter := 0 }).connections[1]? = some c' ∧
      c'.currentClusterInfoUpdatePacket.clusterSizeChange = 3) := by
  obtain ⟨⟨w1, w2, -⟩, ⟨u1, u2, -⟩⟩ :=
    clusterSizeChange_propagated_to_other_links sampleHops sampleNode 0 sampleLink
      { clusterSizeChange := 3, counter := 0 } rfl rfl
  obtain ⟨c1, hc1, -, e1⟩ := w2 1 { sampleLink with partnerId := 3 } (by decide) rfl (by decide)
  obtain ⟨c2, hc2, -, e2⟩ := u2 1 { sampleLink with partnerId := 3 } (by decide) rfl (by decide)
  exact ⟨rfl, rfl, w1, ⟨c1, hc1, e1 (by decide)⟩, u1, ⟨c2, hc2, e2 (by decide)⟩⟩

theorem handshakeCommit_loser (H : HopsToShortestSink) (n : Node) (i : Nat)
    (connection : MeshConnection) :
    handshakeCommit H n i connection false =
      { n with
        clusterId := connection.clusterAck2Packet.clusterId
        clusterSize := connection.clusterAck2Packet.clusterSize
        connections := n.connections.set i (loserConnection connection) } := by
  unfold handshakeCommit
  simp

/-- C4, as the code has it: when HandshakeDoneHandler runs with
completedAsWinner true the local clusterSize grows by exactly 1, whatever size
the loser reported about itself, and the connectedClusterSize of the new link
is set to 1. -/
theorem HandshakeDoneHandler_winner_adds_one (H : HopsToShortestSink) (n : Node) (i : Nat)
    (connection : MeshConnection) (hconn : n.connections[i]? = some connection) :
    (HandshakeDoneHandler H n i true).clusterSize = wrapI16 (n.clusterSize + 1) ∧
    (inI16 (n.clusterSize + 1) → (HandshakeDoneHandler H n i true).clusterSize = n.clusterSize + 1) ∧
    ∃ c', (HandshakeDoneHandler H n i true).connections[i]? = some c' ∧
      c'.connectedClusterSize = 1 := by
  have hcs : (HandshakeDoneHandler H n i true).clusterSize = wrapI16 (n.clusterSize + 1) := by
    rw [(HandshakeDoneHandler_frame H n i connection true hconn).1,
      handshakeCommit_winner_clusterSize]
  refine ⟨hcs, fun hr => by rw [hcs, wrapI16_of_inI16 hr], ?_⟩
  obtain ⟨c1, h1, r1, -⟩ := handshakeCommit_winner_link H n i connection hconn i connection hconn
  obtain ⟨c', h', -, q', -⟩ := HandshakeDoneHandler_link H n i connection true hconn i c1 h1
  refine ⟨c', h', ?_⟩
  rw [q', r1.2.1]
  simp [winnerConnection]

theorem HandshakeDoneHandler_winner_adds_one_witness :
    handshakingNode.connections[0]? = some handshakingLink ∧
    handshakingNode.clusterSize = 1 ∧
    (HandshakeDoneHandler sampleHops handshakingNode 0 true).clusterSize = 2 ∧
    ∃ c', (HandshakeDoneHandler sampleHops handshakingNode 0 true).connections[0]? = some c' ∧
      c'.connectedClusterSize = 1 :=
  ⟨rfl, rfl,
    ((HandshakeDoneHandler_winner_adds_one sampleHops handshakingNode 0 handshakingLink rfl).2.1 (by decide)),
    (HandshakeDoneHandler_winner_adds_one sampleHops handshakingNode 0 handshakingLink rfl).2.2⟩

/-- C4 as stated fails: a singleton node that wins the handshake against a
loser reporting a sub-cluster of size 3 ends with clusterSize 2 and a
connectedClusterSize of 1, not with the size 1 + 3 and the link size 3 that
the claim asks for. -/
theorem HandshakeDoneHandler_winner_not_reported_size :
    (HandshakeDoneHandler sampleHops handshakingNode 0 true).clusterSize = 2 ∧
    (HandshakeDoneHandler sampleHops handshakingNode 0 true).clusterSize ≠
      specWinnerClusterSize handshakingNode.clusterSize 3 ∧
    ((HandshakeDoneHandler sampleHops handshakingNode 0 true).connections[0]?).map
      (fun c => c.connectedClusterSize) = some 1 := by
  decide

/-- C5: when HandshakeDoneHandler runs with completedAsWinner false, the
clusterId and the clusterSize of the node are replaced by the values carried
in the winner's acknowledgement, the pending clusterSizeChange of the new link
is zero afterwards, its connectedClusterSize is the adopted clusterSize minus
one and its hopsToSink is the reported hops + 1 when the report is at least 0
(and -1 otherwise). -/
theorem HandshakeDoneHandler_loser_adopts (H : HopsToShortestSink) (n : Node) (i : Nat)
    (connection : MeshConnection) (hconn : n.connections[i]? = some connection) :
    (HandshakeDoneHandler H n i false).clusterId = connection.clusterAck2Packet.clusterId ∧
    (HandshakeDoneHandler H n i false).clusterSize = connection.clusterAck2Packet.clusterSize ∧
    ∃ c', (HandshakeDoneHandler H n i false).connections[i]? = some c' ∧
      c'.currentClusterInfoUpdatePacket.clusterSizeChange = 0 ∧
      c'.connectedClusterSize = wrapI16 (connection.clusterAck2Packet.clusterSize - 1) ∧
      (inI16 (connection.clusterAck2Packet.clusterSize - 1) →
        c'.connectedClusterSize = (HandshakeDoneHandler H n i false).clusterSize - 1) ∧
      c'.hopsToSink =
        (if connection.clusterAck2Packet.hopsToSink < 0 then -1
         else wrapI16 (connection.clusterAck2Packet.hopsToSink + 1)) ∧
      (0 ≤ connection.clusterAck2Packet.hopsToSink → connection.clusterAck2Packet.hopsToSink < 32767 →
        c'.hopsToSink = connection.clusterAck2Packet.hopsToSink + 1) := by
  have hlt := lt_length_of_getElem? hconn
  obtain ⟨f1, f2⟩ := HandshakeDoneHandler_frame H n i connection false hconn
  have hcs : (HandshakeDoneHandler H n i false).clusterSize =
      connection.clusterAck2Packet.clusterSize := by
    rw [f1, handshakeCommit_loser]
  have h0 : (handshakeCommit H n i connection false).connections[i]? =
      some (loserConnection connection) := by
    rw [handshakeCommit_loser]
    simp [List.getElem?_set_self hlt]
  obtain ⟨c', h', p', q', r', -⟩ := HandshakeDoneHandler_link H n i connection false hconn i _ h0
  have hccs : c'.connectedClusterSize = wrapI16 (connection.clusterAck2Packet.clusterSize - 1) := by
    rw [q']; rfl
  have hhops : c'.hopsToSink =
      (if connection.clusterAck2Packet.hopsToSink < 0 then -1
       else wrapI16 (connection.clusterAck2Packet.hopsToSink + 1)) := by
    rw [r']; rfl
  refine ⟨?_, hcs, c', h', ?_, hccs, ?_, hhops, ?_⟩
  · rw [f2, handshakeCommit_loser]
  · rw [p']; rfl
  · intro hr
    rw [hccs, hcs, wrapI16_of_inI16 hr]
  · intro ha hb
    rw [hhops, if_neg (by omega)]
    exact wrapI16_of_inI16 ⟨by omega, by omega⟩

theorem HandshakeDoneHandler_loser_adopts_witness :
    handshakingNode.connections[0]? = some handshakingLink ∧
    (HandshakeDoneHandler sampleHops handshakingNode 0 false).clusterId = 99 ∧
    (HandshakeDoneHandler sampleHops handshakingNode 0 false).clusterSize = 4 ∧
    ∃ c', (HandshakeDoneHandler sampleHops handshakingNode 0 false).connections[0]? = some c' ∧
      c'.currentClusterInfoUpdatePacket.clusterSizeChange = 0 ∧
      c'.connectedClusterSize = 3 ∧ c'.hopsToSink = 4 := by
  obtain ⟨h1, h2, c', hc, h3, h4, -, -, h5⟩ :=
    HandshakeDoneHandler_loser_adopts sampleHops handshakingNode 0 handshakingLink rfl
  exact ⟨rfl, h1, h2, c', hc, h3, h4, h5 (by decide) (by decide)⟩

/-! ### The link-loss callback -/

theorem GenerateClusterID_congr {a b : Node} (h1 : a.nodeId = b.nodeId)
    (h2 : a.connectionLossCounter = b.connectionLossCounter)
    (h3 : a.randomBootNumber = b.randomBootNumber) :
    GenerateClusterID a = GenerateClusterID b := by
  unfold GenerateClusterID
  rw [h1, h2, h3]

theorem GenerateClusterID_wrap_counter (n : Node) :
    GenerateClusterID { n with connectionLossCounter := wrapU32 (n.connectionLossCounter + 1) } =
      GenerateClusterID { n with connectionLossCounter := n.connectionLossCounter + 1 } := by
  unfold GenerateClusterID wrapU32
  simp only [Nat.shiftLeft_eq]
  omega

theorem disconnectCommit_counters (H : HopsToShortestSink) (n : Node) (reason : AppDisconnectReason)
    (hadBit : Bool) (size : Int) :
    (disconnectCommit H n reason hadBit size).nodeId = n.nodeId ∧
    (disconnectCommit H n reason hadBit size).connectionLossCounter = n.connectionLossCounter ∧
    (disconnectCommit H n reason hadBit size).randomBootNumber = n.randomBootNumber := by
  unfold disconnectCommit
  split
  · obtain ⟨-, -, a3, a4, a5, -⟩ := SendClusterInfoUpdate_frame H
      { (if reason ≠ AppDisconnectReason.I_AM_SMALLER then
            ForceDisconnectOtherMeshConnections n AppDisconnectReason.PARTNER_HAS_MASTERBIT
          else n) with
        clusterSize := 1
        clusterId := GenerateClusterID
          { (if reason ≠ AppDisconnectReason.I_AM_SMALLER then
              ForceDisconnectOtherMeshConnections n AppDisconnectReason.PARTNER_HAS_MASTERBIT
            else n) with clusterSize := 1 } } none none
    simp only [] at a3 a4 a5 ⊢
    rw [a3, a4, a5]
    split <;> simp [ForceDisconnectOtherMeshConnections]
  · obtain ⟨-, -, a3, a4, a5, -⟩ := SendClusterInfoUpdate_frame H
      { n with clusterSize := wrapI16 (n.clusterSize - size) } none
      (some { clusterSizeChange := wrapI16 (-size) })
    simp only [] at a3 a4 a5 ⊢
    rw [a3, a4, a5]
    simp

theorem disconnectStage_counters (H : HopsToShortestSink) (n : Node) (reason : AppDisconnectReason)
    (stateBefore : ConnectionState) (hadBit : Bool) (size : Int) :
    (disconnectStage H n reason stateBefore hadBit size).nodeId = n.nodeId ∧
    (disconnectStage H n reason stateBefore hadBit size).connectionLossCounter =
      wrapU32 (n.connectionLossCounter + 1) ∧
    (disconnectStage H n reason stateBefore hadBit size).randomBootNumber = n.randomBootNumber := by
  unfold disconnectStage
  split
  · obtain ⟨a1, a2, a3⟩ := disconnectCommit_counters H
      { n with connectionLossCounter := wrapU32 (n.connectionLossCounter + 1) } reason hadBit size
    exact ⟨a1, a2, a3⟩
  · simp

theorem MeshConnectionDisconnectedHandler_eq (H : HopsToShortestSink) (n : Node)
    (reason : AppDisconnectReason) (stateBefore : ConnectionState) (hadBit : Bool) (size : Int)
    (cid : Nat) :
    MeshConnectionDisconnectedHandler H n reason stateBefore hadBit size cid =
      { HandOverMasterBitIfNecessary
          (if (KeepHighDiscoveryActive (disconnectStage H n reason stateBefore hadBit size)).clusterSize
              = 1 then
            { KeepHighDiscoveryActive (disconnectStage H n reason stateBefore hadBit size) with
              clusterId := GenerateClusterID
                (KeepHighDiscoveryActive (disconnectStage H n reason stateBefore hadBit size)) }
           else KeepHighDiscoveryActive (disconnectStage H n reason stateBefore hadBit size)) with
        noNodesFoundCounter := 0 } := rfl

theorem MeshConnectionDisconnectedHandler_scalars (H : HopsToShortestSink) (n : Node)
    (reason : AppDisconnectReason) (stateBefore : ConnectionState) (hadBit : Bool) (size : Int)
    (cid : Nat) :
    (MeshConnectionDisconnectedHandler H n reason stateBefore hadBit size cid).clusterSize =
      (disconnectStage H n reason stateBefore hadBit size).clusterSize ∧
    (MeshConnectionDisconnectedHandler H n reason stateBefore hadBit size cid).clusterId =
      (if (disconnectStage H n reason stateBefore hadBit size).clusterSize = 1 then freshClusterId n
       else (disconnectStage H n reason stateBefore hadBit size).clusterId) ∧
    (MeshConnectionDisconnectedHandler H n reason stateBefore hadBit size cid).connectionLossCounter =
      wrapU32 (n.connectionLossCounter + 1) ∧
    (MeshConnectionDisconnectedHandler H n reason stateBefore hadBit size cid).nodeId = n.nodeId ∧
    (MeshConnectionDisconnectedHandler H n reason stateBefore hadBit size cid).randomBootNumber =
      n.randomBootNumber := by
  obtain ⟨d1, d2, d3⟩ := disconnectStage_counters H n reason stateBefore hadBit size
  have hfresh : GenerateClusterID (KeepHighDiscoveryActive
      (disconnectStage H n reason stateBefore hadBit size)) = freshClusterId n := by
    obtain ⟨-, -, -, k4, k5, k6, -⟩ :=
      KeepHighDiscoveryActive_frame (disconnectStage H n reason stateBefore hadBit size)
    unfold freshClusterId
    rw [← GenerateClusterID_wrap_counter]
    exact GenerateClusterID_congr (k6.trans d1) (k4.trans d2) (k5.trans d3)
  obtain ⟨k1, k2, -, k4, k5, k6, -⟩ :=
    KeepHighDiscoveryActive_frame (disconnectStage H n reason stateBefore hadBit size)
  rw [MeshConnectionDisconnectedHandler_eq]
  obtain ⟨o1, o2, o3, o4, o5, -⟩ := HandOverMasterBitIfNecessary_frame
    (if (KeepHighDiscoveryActive (disconnectStage H n reason stateBefore hadBit size)).clusterSize
        = 1 then
      { KeepHighDiscoveryActive (disconnectStage H n reason stateBefore hadBit size) with
        clusterId := GenerateClusterID
          (KeepHighDiscoveryActive (disconnectStage H n reason stateBefore hadBit size)) }
     else KeepHighDiscoveryActive (disconnectStage H n reason stateBefore hadBit size))
  simp only [] at o1 o2 o3 o4 o5 ⊢
  rw [o1, o2, o3, o4, o5, hfresh, k1]
  by_cases h1 : (disconnectStage H n reason stateBefore hadBit size).clusterSize = 1
  · simp [h1, k1, k4, k5, k6, d1, d2, d3]
  · simp [h1, k1, k2, k4, k5, k6, d1, d2, d3]

theorem MeshConnectionDisconnectedHandler_link (H : HopsToShortestSink) (n : Node)
    (reason : AppDisconnectReason) (stateBefore : ConnectionState) (hadBit : Bool) (size : Int)
    (cid : Nat) (j : Nat) (c : MeshConnection)
    (hc : (disconnectStage H n reason stateBefore hadBit size).connections[j]? = some c) :
    ∃ c', (MeshConnectionDisconnectedHandler H n reason stateBefore hadBit size cid).connections[j]?
        = some c' ∧ SameLink c c' ∧
      c'.currentClusterInfoUpdatePacket.clusterSizeChange =
        c.currentClusterInfoUpdatePacket.clusterSizeChange := by
  rw [MeshConnectionDisconnectedHandler_eq]
  have h7 : (if (KeepHighDiscoveryActive
        (disconnectStage H n reason stateBefore hadBit size)).clusterSize = 1 then
      { KeepHighDiscoveryActive (disconnectStage H n reason stateBefore hadBit size) with
        clusterId := GenerateClusterID
          (KeepHighDiscoveryActive (disconnectStage H n reason stateBefore hadBit size)) }
     else KeepHighDiscoveryActive (disconnectStage H n reason stateBefore hadBit size)).connections[j]?
      = some c := by
    split
    · simp only []
      rw [(KeepHighDiscoveryActive_frame _).2.2.1]; exact hc
    · rw [(KeepHighDiscoveryActive_frame _).2.2.1]; exact hc
  obtain ⟨c', h', r', p'⟩ := HandOverMasterBitIfNecessary_link _ j c h7
  exact ⟨c', h', r', p'⟩

theorem MeshConnectionDisconnectedHandler_length (H : HopsToShortestSink) (n : Node)
    (reason : AppDisconnectReason) (stateBefore : ConnectionState) (hadBit : Bool) (size : Int)
    (cid : Nat) :
    (MeshConnectionDisconnectedHandler H n reason stateBefore hadBit size cid).connections.length =
      (disconnectStage H n reason stateBefore hadBit size).connections.length := by
  rw [MeshConnectionDisconnectedHandler_eq]
  simp only []
  rw [HandOverMasterBitIfNecessary_length]
  split
  · simp only []
    rw [(KeepHighDiscoveryActive_frame _).2.2.1]
  · rw [(KeepHighDiscoveryActive_frame _).2.2.1]

theorem disconnectStage_incomplete (H : HopsToShortestSink) (n : Node) (reason : AppDisconnectReason)
    (stateBefore : ConnectionState) (hadBit : Bool) (size : Int)
    (hstate : stateBefore.toNat < ConnectionState.HANDSHAKE_DONE.toNat) :
    disconnectStage H n reason stateBefore hadBit size =
      { n with connectionLossCounter := wrapU32 (n.connectionLossCounter + 1) } := by
  unfold disconnectStage
  rw [if_neg (by omega)]

theorem disconnectStage_complete (H : HopsToShortestSink) (n : Node) (reason : AppDisconnectReason)
    (stateBefore : ConnectionState) (hadBit : Bool) (size : Int)
    (hstate : ConnectionState.HANDSHAKE_DONE.toNat ≤ stateBefore.toNat) :
    disconnectStage H n reason stateBefore hadBit size =
      disconnectCommit H { n with connectionLossCounter := wrapU32 (n.connectionLossCounter + 1) }
        reason hadBit size := by
  unfold disconnectStage
  rw [if_pos hstate]

theorem HandOverMasterBitIfNecessary_discovery (n : Node) :
    (HandOverMasterBitIfNecessary n).currentDiscoveryState = n.currentDiscoveryState ∧
    (HandOverMasterBitIfNecessary n).currentStateTimeoutDs = n.currentStateTimeoutDs := by
  unfold HandOverMasterBitIfNecessary
  split <;> exact ⟨rfl, rfl⟩

theorem KeepHighDiscoveryActive_counter (n : Node) (x : Nat) :
    (KeepHighDiscoveryActive { n with connectionLossCounter := x }).currentDiscoveryState =
      (KeepHighDiscoveryActive n).currentDiscoveryState ∧
    (KeepHighDiscoveryActive { n with connectionLossCounter := x }).currentStateTimeoutDs =
      (KeepHighDiscoveryActive n).currentStateTimeoutDs := by
  unfold KeepHighDiscoveryActive ChangeState
  simp only []
  split
  · exact ⟨rfl, rfl⟩
  · split <;> exact ⟨rfl, rfl⟩

theorem disconnectCommit_dissolve (H : HopsToShortestSink) (n : Node) (reason : AppDisconnectReason)
    (size : Int) :
    (disconnectCommit H n reason false size).clusterSize = 1 ∧
    (reason ≠ AppDisconnectReason.I_AM_SMALLER →
      (disconnectCommit H n reason false size).connections = []) ∧
    (reason = AppDisconnectReason.I_AM_SMALLER →
      (disconnectCommit H n reason false size).connections.length = n.connections.length) := by
  unfold disconnectCommit
  rw [if_pos rfl]
  simp only []
  refine ⟨?_, ?_, ?_⟩
  · rw [(SendClusterInfoUpdate_frame H _ _ _).1]
  · intro hr
    apply List.eq_nil_of_length_eq_zero
    rw [SendClusterInfoUpdate_length, if_pos hr]
    rfl
  · intro hr
    rw [SendClusterInfoUpdate_length, if_neg (fun h => h hr)]

theorem disconnectCommit_shrink (H : HopsToShortestSink) (n : Node) (reason : AppDisconnectReason)
    (size : Int) :
    (disconnectCommit H n reason true size).clusterSize = wrapI16 (n.clusterSize - size) ∧
    (disconnectCommit H n reason true size).clusterId = n.clusterId ∧
    (∀ (j : Nat) (c : MeshConnection), n.connections[j]? = some c →
      ∃ c', (disconnectCommit H n reason true size).connections[j]? = some c' ∧ SameLink c c' ∧
        c'.currentClusterInfoUpdatePacket.clusterSizeChange =
          (if c.isConnected = true then
            wrapI16 (c.currentClusterInfoUpdatePacket.clusterSizeChange - size)
           else c.currentClusterInfoUpdatePacket.clusterSizeChange)) := by
  unfold disconnectCommit
  rw [if_neg (by simp)]
  simp only []
  refine ⟨?_, ?_, ?_⟩
  · rw [(SendClusterInfoUpdate_frame H _ _ _).1]
  · rw [(SendClusterInfoUpdate_frame H _ _ _).2.1]
  · intro j c hc
    obtain ⟨c', h', r', p'⟩ := SendClusterInfoUpdate_link H
      { n with clusterSize := wrapI16 (n.clusterSize - size) } none
      (some { clusterSizeChange := wrapI16 (-size) }) j c hc
    refine ⟨c', h', r', ?_⟩
    rw [p']
    unfold pendingAfterSend
    by_cases hcon : c.isConnected = true
    · simp only [hcon, ne_eq, not_false_eq_true, and_self, if_true, reduceCtorEq]
      rw [wrapI16_add_wrapI16]
      congr 1
    · simp [hcon]

/-- C7: when the lost connection had finished its handshake and the partner
held the connection master bit, MeshConnectionDisconnectedHandler leaves
clusterSize at 1 and clusterId at the id generated from the incremented
connectionLossCounter, and every other mesh link is force-disconnected unless
the reason of the disconnect is I_AM_SMALLER. -/
theorem MeshConnectionDisconnectedHandler_partner_had_masterbit (H : HopsToShortestSink) (n : Node)
    (reason : AppDisconnectReason) (stateBefore : ConnectionState) (size : Int) (cid : Nat)
    (hstate : ConnectionState.HANDSHAKE_DONE.toNat ≤ stateBefore.toNat) :
    (MeshConnectionDisconnectedHandler H n reason stateBefore false size cid).clusterSize = 1 ∧
    (MeshConnectionDisconnectedHandler H n reason stateBefore false size cid).clusterId =
      GenerateClusterID { n with connectionLossCounter := n.connectionLossCounter + 1 } ∧
    (MeshConnectionDisconnectedHandler H n reason stateBefore false size cid).clusterId =
      GenerateClusterID (MeshConnectionDisconnectedHandler H n reason stateBefore false size cid) ∧
    (MeshConnectionDisconnectedHandler H n reason stateBefore false size cid).connectionLossCounter =
      wrapU32 (n.connectionLossCounter + 1) ∧
    (reason ≠ AppDisconnectReason.I_AM_SMALLER →
      (MeshConnectionDisconnectedHandler H n reason stateBefore false size cid).connections = []) ∧
    (reason = AppDisconnectReason.I_AM_SMALLER →
      (MeshConnectionDisconnectedHandler H n reason stateBefore false size cid).connections.length =
        n.connections.length) := by
  obtain ⟨s1, s2, s3, s4, s5⟩ :=
    MeshConnectionDisconnectedHandler_scalars H n reason stateBefore false size cid
  have hst := disconnectStage_complete H n reason stateBefore false size hstate
  obtain ⟨d1, d2, d3⟩ := disconnectCommit_dissolve H
    { n with connectionLossCounter := wrapU32 (n.connectionLossCounter + 1) } reason size
  rw [hst] at s1 s2
  rw [d1] at s1 s2
  have hid : (MeshConnectionDisconnectedHandler H n reason stateBefore false size cid).clusterId =
      GenerateClusterID { n with connectionLossCounter := n.connectionLossCounter + 1 } := by
    rw [s2, if_pos rfl]; rfl
  refine ⟨s1, hid, ?_, s3, ?_, ?_⟩
  · rw [hid, ← GenerateClusterID_wrap_counter]
    exact (@GenerateClusterID_congr
      (MeshConnectionDisconnectedHandler H n reason stateBefore false size cid)
      { n with connectionLossCounter := wrapU32 (n.connectionLossCounter + 1) } s4 s3 s5).symm
  · intro hr
    apply List.eq_nil_of_length_eq_zero
    rw [MeshConnectionDisconnectedHandler_length, hst, d2 hr]
    rfl
  · intro hr
    rw [MeshConnectionDisconnectedHandler_length, hst, d3 hr]

theorem MeshConnectionDisconnectedHandler_partner_had_masterbit_witness :
    ConnectionState.HANDSHAKE_DONE.toNat ≤ ConnectionState.HANDSHAKE_DONE.toNat ∧
    sampleNode.clusterSize = 5 ∧
    (MeshConnectionDisconnectedHandler sampleHops sampleNode AppDisconnectReason.USER_REQUEST
        ConnectionState.HANDSHAKE_DONE false 2 0).clusterSize = 1 ∧
    (MeshConnectionDisconnectedHandler sampleHops sampleNode AppDisconnectReason.USER_REQUEST
        ConnectionState.HANDSHAKE_DONE false 2 0).clusterId = 65543 ∧
    (MeshConnectionDisconnectedHandler sampleHops sampleNode AppDisconnectReason.USER_REQUEST
        ConnectionState.HANDSHAKE_DONE false 2 0).connections = [] := by
  obtain ⟨a1, a2, -, -, a5, -⟩ := MeshConnectionDisconnectedHandler_partner_had_masterbit sampleHops
    sampleNode AppDisconnectReason.USER_REQUEST ConnectionState.HANDSHAKE_DONE 2 0 (by decide)
  exact ⟨by decide, rfl, a1, a2, a5 (by decide)⟩

/-- C8: when the lost connection had finished its handshake and the local node
held its connection master bit, MeshConnectionDisconnectedHandler subtracts
the size r of the lost link from clusterSize and from the pending
clusterSizeChange of every remaining connected mesh link, for every r and so
for every r with clusterSize - r at least 1. Differences are 16-bit stores,
exact whenever representable. -/
theorem MeshConnectionDisconnectedHandler_held_masterbit (H : HopsToShortestSink) (n : Node)
    (reason : AppDisconnectReason) (stateBefore : ConnectionState) (r : Int) (cid : Nat)
    (hstate : ConnectionState.HANDSHAKE_DONE.toNat ≤ stateBefore.toNat) :
    (MeshConnectionDisconnectedHandler H n reason stateBefore true r cid).clusterSize =
      wrapI16 (n.clusterSize - r) ∧
    (inI16 (n.clusterSize - r) →
      (MeshConnectionDisconnectedHandler H n reason stateBefore true r cid).clusterSize =
        n.clusterSize - r) ∧
    (∀ (j : Nat) (c : MeshConnection), n.connections[j]? = some c → c.isConnected = true →
      ∃ c', (MeshConnectionDisconnectedHandler H n reason stateBefore true r cid).connections[j]?
          = some c' ∧
        c'.currentClusterInfoUpdatePacket.clusterSizeChange =
          wrapI16 (c.currentClusterInfoUpdatePacket.clusterSizeChange - r) ∧
        (inI16 (c.currentClusterInfoUpdatePacket.clusterSizeChange - r) →
          c'.currentClusterInfoUpdatePacket.clusterSizeChange =
            c.currentClusterInfoUpdatePacket.clusterSizeChange - r)) := by
  obtain ⟨s1, -⟩ := MeshConnectionDisconnectedHandler_scalars H n reason stateBefore true r cid
  have hst := disconnectStage_complete H n reason stateBefore true r hstate
  obtain ⟨d1, -, d3⟩ := disconnectCommit_shrink H
    { n with connectionLossCounter := wrapU32 (n.connectionLossCounter + 1) } reason r
  rw [hst, d1] at s1
  refine ⟨s1, fun hin => by rw [s1]; exact wrapI16_of_inI16 hin, ?_⟩
  intro j c hc hcon
  obtain ⟨c1, h1, r1, p1⟩ := d3 j c hc
  obtain ⟨c', h', -, p'⟩ := MeshConnectionDisconnectedHandler_link H n reason stateBefore true r cid
    j c1 (by rw [hst]; exact h1)
  have hp : c'.currentClusterInfoUpdatePacket.clusterSizeChange =
      wrapI16 (c.currentClusterInfoUpdatePacket.clusterSizeChange - r) := by
    rw [p', p1, if_pos hcon]
  exact ⟨c', h', hp, fun hin => by rw [hp]; exact wrapI16_of_inI16 hin⟩

theorem MeshConnectionDisconnectedHandler_held_masterbit_witness :
    ConnectionState.HANDSHAKE_DONE.toNat ≤ ConnectionState.HANDSHAKE_DONE.toNat ∧
    1 ≤ sampleNode.clusterSize - 2 ∧
    (MeshConnectionDisconnectedHandler sampleHops sampleNode AppDisconnectReason.USER_REQUEST
        ConnectionState.HANDSHAKE_DONE true 2 0).clusterSize = 3 ∧
    (∃ c', (MeshConnectionDisconnectedHandler sampleHops sampleNode AppDisconnectReason.USER_REQUEST
        ConnectionState.HANDSHAKE_DONE true 2 0).connections[0]? = some c' ∧
      c'.currentClusterInfoUpdatePacket.clusterSizeChange = -2) ∧
    (∃ c', (MeshConnectionDisconnectedHandler sampleHops sampleNode AppDisconnectReason.USER_REQUEST
        ConnectionState.HANDSHAKE_DONE true 2 0).connections[1]? = some c' ∧
      c'.currentClusterInfoUpdatePacket.clusterSizeChange = -2) := by
  obtain ⟨-, a2, a3⟩ := MeshConnectionDisconnectedHandler_held_masterbit sampleHops sampleNode
    AppDisconnectReason.USER_REQUEST ConnectionState.HANDSHAKE_DONE 2 0 (by decide)
  obtain ⟨c0, h0, -, e0⟩ := a3 0 sampleLink rfl (by decide)
  obtain ⟨c1, h1, -, e1⟩ := a3 1 { sampleLink with partnerId := 3 } rfl (by decide)
  exact ⟨by decide, by decide, a2 (by decide), ⟨c0, h0, e0 (by decide)⟩, ⟨c1, h1, e1 (by decide)⟩⟩

/-! ### The connect decision -/

theorem emergencyDisconnect_cluster (D : DisconnectAndRemoveFn) (rnd : Nat) (n : Node)
    (best : Option Nat) (h : n.freeMeshOutConnections ≠ 0 ∨ n.emergencyDisconnectCounter < 10) :
    (emergencyDisconnect D rnd n best).clusterSize = n.clusterSize ∧
    (emergencyDisconnect D rnd n best).clusterId = n.clusterId := by
  unfold emergencyDisconnect
  split
  · rename_i hb
    rcases h with h | h
    · exact absurd hb.2 h
    · simp only []
      split
      · rw [if_neg (by show ¬ (n.emergencyDisconnectCounter + 1 > 10); omega)]
        exact ⟨rfl, rfl⟩
      · exact ⟨rfl, rfl⟩
  · exact ⟨rfl, rfl⟩

theorem waitAsSlave_cluster (rnd : Nat) (n : Node) (bestCluster : joinMeBufferPacket) :
    ((waitAsSlave rnd n bestCluster).clusterSize = n.clusterSize ∧
      (waitAsSlave rnd n bestCluster).clusterId = n.clusterId) ∨
    ((waitAsSlave rnd n bestCluster).clusterSize = 1 ∧
      (waitAsSlave rnd n bestCluster).clusterId =
        GenerateClusterID (waitAsSlave rnd n bestCluster)) := by
  unfold waitAsSlave
  simp only []
  split
  · right
    exact ⟨rfl, rfl⟩
  · left
    exact ⟨rfl, rfl⟩

theorem DetermineBestClusterAvailable_cluster (D : DisconnectAndRemoveFn) (rnd1 rnd2 : Nat)
    (n : Node) :
    ((DetermineBestClusterAvailable D rnd1 rnd2 n).2.clusterSize =
        (emergencyDisconnect D rnd1 n
          (scanBest (CalculateClusterScoreAsMaster n) n.joinMePackets 0 (0, none)).2).clusterSize ∧
      (DetermineBestClusterAvailable D rnd1 rnd2 n).2.clusterId =
        (emergencyDisconnect D rnd1 n
          (scanBest (CalculateClusterScoreAsMaster n) n.joinMePackets 0 (0, none)).2).clusterId) ∨
    ((DetermineBestClusterAvailable D rnd1 rnd2 n).2.clusterSize = 1 ∧
      (DetermineBestClusterAvailable D rnd1 rnd2 n).2.clusterId =
        GenerateClusterID (DetermineBestClusterAvailable D rnd1 rnd2 n).2) := by
  unfold DetermineBestClusterAvailable
  simp only []
  generalize emergencyDisconnect D rnd1 n
    (scanBest (CalculateClusterScoreAsMaster n) n.joinMePackets 0 (0, none)).2 = n1
  split
  · left
    exact ⟨rfl, rfl⟩
  · have hn2 : ∀ m : Node, m = (if n1.joinMePackets.length > 0 then { n1 with currentAckId := 0 }
        else n1) → m.clusterSize = n1.clusterSize ∧ m.clusterId = n1.clusterId := by
      intro m hm
      subst hm
      split <;> exact ⟨rfl, rfl⟩
    generalize hn2e : (if n1.joinMePackets.length > 0 then { n1 with currentAckId := 0 } else n1)
      = n2 at hn2 ⊢
    obtain ⟨e1, e2⟩ := hn2 n2 rfl
    split
    · split
      · rename_i packet _
        simp only []
        rcases waitAsSlave_cluster rnd2 n2 packet with h | h
        · left
          exact ⟨h.1.trans e1, h.2.trans e2⟩
        · right
          exact h
      · left
        exact ⟨e1, e2⟩
    · left
      exact ⟨e1, e2⟩

theorem HandshakeDoneHandler_none (H : HopsToShortestSink) (n : Node) (i : Nat) (w : Bool)
    (h : n.connections[i]? = none) : HandshakeDoneHandler H n i w = n := by
  unfold HandshakeDoneHandler
  rw [h]

theorem ReceiveClusterInfoUpdate_clusterSize (H : HopsToShortestSink) (n : Node) (i : Nat)
    (packet : ClusterInfoUpdate) :
    (ReceiveClusterInfoUpdate H n i packet).clusterSize = n.clusterSize ∨
    (ReceiveClusterInfoUpdate H n i packet).clusterSize =
      wrapI16 (n.clusterSize + packet.clusterSizeChange) := by
  cases hconn : n.connections[i]? with
  | none =>
    left
    rw [ReceiveClusterInfoUpdate_unexpected H n i packet (fun c hc => by rw [hconn] at hc; cases hc)]
  | some connection =>
    by_cases hcnt : packet.counter = connection.nextExpectedClusterUpdateCounter
    · rw [ReceiveClusterInfoUpdate_expected_clusterSize H n i connection packet hconn hcnt]
      split
      · left; rfl
      · right; rfl
    · left
      rw [ReceiveClusterInfoUpdate_unexpected H n i packet (fun c hc => by
        rw [hconn] at hc
        cases hc
        exact hcnt)]

theorem ReceiveClusterInfoUpdate_clusterId (H : HopsToShortestSink) (n : Node) (i : Nat)
    (packet : ClusterInfoUpdate) :
    (ReceiveClusterInfoUpdate H n i packet).clusterId = n.clusterId := by
  unfold ReceiveClusterInfoUpdate
  split
  · rfl
  · simp only []
    split
    · rw [(KeepHighDiscoveryActive_frame _).2.1, (SendClusterInfoUpdate_frame H _ _ _).2.1,
        (HandOverMasterBitIfNecessary_frame _).2.1]
    · rfl

/-- C9, as the code has it: no operation clamps clusterSize. Starting from
clusterSize at least 1, the size is still at least 1 after a winner commit
(below the 16-bit maximum), after a loser commit whose acknowledged
clusterSize is at least 1, after a link loss before the end of the handshake
or with the master bit on the partner's side, after a link loss with the
master bit on the local side when the lost size r is at most clusterSize - 1,
after a received update when clusterSize + clusterSizeChange is at least 1,
and after a connect decision without emergency disconnect; a link loss with
the local master bit always leaves clusterSize - r, whatever its sign. -/
theorem clusterSize_ge_one_preserved (H : HopsToShortestSink) (D : DisconnectAndRemoveFn)
    (rnd1 rnd2 : Nat) (n : Node) (i : Nat) (packet : ClusterInfoUpdate)
    (reason : AppDisconnectReason) (stateBefore : ConnectionState) (hadBit : Bool) (r : Int)
    (cid : Nat) (hinv : 1 ≤ n.clusterSize) :
    (n.clusterSize < 32767 → 1 ≤ (HandshakeDoneHandler H n i true).clusterSize) ∧
    ((∀ connection, n.connections[i]? = some connection →
        1 ≤ connection.clusterAck2Packet.clusterSize) →
      1 ≤ (HandshakeDoneHandler H n i false).clusterSize) ∧
    (stateBefore.toNat < ConnectionState.HANDSHAKE_DONE.toNat ∨ hadBit = false →
      1 ≤ (MeshConnectionDisconnectedHandler H n reason stateBefore hadBit r cid).clusterSize) ∧
    (ConnectionState.HANDSHAKE_DONE.toNat ≤ stateBefore.toNat → hadBit = true →
      (MeshConnectionDisconnectedHandler H n reason stateBefore hadBit r cid).clusterSize =
        wrapI16 (n.clusterSize - r)) ∧
    (ConnectionState.HANDSHAKE_DONE.toNat ≤ stateBefore.toNat → hadBit = true →
      r ≤ n.clusterSize - 1 → n.clusterSize - r ≤ 32767 →
      1 ≤ (MeshConnectionDisconnectedHandler H n reason stateBefore hadBit r cid).clusterSize) ∧
    (1 ≤ n.clusterSize + packet.clusterSizeChange → n.clusterSize + packet.clusterSizeChange ≤ 32767 →
      1 ≤ (ReceiveClusterInfoUpdate H n i packet).clusterSize) ∧
    (n.freeMeshOutConnections ≠ 0 ∨ n.emergencyDisconnectCounter < 10 →
      1 ≤ (DetermineBestClusterAvailable D rnd1 rnd2 n).2.clusterSize) := by
  have hshrink : ConnectionState.HANDSHAKE_DONE.toNat ≤ stateBefore.toNat → hadBit = true →
      (MeshConnectionDisconnectedHandler H n reason stateBefore hadBit r cid).clusterSize =
        wrapI16 (n.clusterSize - r) := by
    intro hs hb
    subst hb
    rw [(MeshConnectionDisconnectedHandler_scalars H n reason stateBefore true r cid).1,
      disconnectStage_complete H n reason stateBefore true r hs,
      (disconnectCommit_shrink H _ reason r).1]
  refine ⟨?_, ?_, ?_, hshrink, ?_, ?_, ?_⟩
  · intro hmax
    cases hconn : n.connections[i]? with
    | none => rw [HandshakeDoneHandler_none H n i true hconn]; exact hinv
    | some connection =>
      rw [(HandshakeDoneHandler_frame H n i connection true hconn).1,
        handshakeCommit_winner_clusterSize, wrapI16_of_inI16 ⟨by omega, by omega⟩]
      omega
  · intro hack
    cases hconn : n.connections[i]? with
    | none => rw [HandshakeDoneHandler_none H n i false hconn]; exact hinv
    | some connection =>
      rw [(HandshakeDoneHandler_frame H n i connection false hconn).1, handshakeCommit_loser]
      exact hack connection hconn
  · intro hcase
    rw [(MeshConnectionDisconnectedHandler_scalars H n reason stateBefore hadBit r cid).1]
    by_cases hs : stateBefore.toNat < ConnectionState.HANDSHAKE_DONE.toNat
    · rw [disconnectStage_incomplete H n reason stateBefore hadBit r hs]
      exact hinv
    · have hb : hadBit = false := by
        rcases hcase with h | h
        · exact absurd h hs
        · exact h
      subst hb
      rw [disconnectStage_complete H n reason stateBefore false r (by omega),
        (disconnectCommit_dissolve H _ reason r).1]
  · intro hs hb h1 h2
    rw [hshrink hs hb, wrapI16_of_inI16 ⟨by omega, by omega⟩]
    omega
  · intro h1 h2
    rcases ReceiveClusterInfoUpdate_clusterSize H n i packet with h | h
    · rw [h]; exact hinv
    · rw [h, wrapI16_of_inI16 ⟨by omega, by omega⟩]; exact h1
  · intro hem
    obtain ⟨e1, -⟩ := emergencyDisconnect_cluster D rnd1 n
      (scanBest (CalculateClusterScoreAsMaster n) n.joinMePackets 0 (0, none)).2 hem
    rcases DetermineBestClusterAvailable_cluster D rnd1 rnd2 n with h | h
    · rw [h.1, e1]; exact hinv
    · rw [h.1]

theorem clusterSize_ge_one_preserved_witness :
    1 ≤ sampleNode.clusterSize ∧
    1 ≤ (HandshakeDoneHandler sampleHops sampleNode 0 true).clusterSize ∧
    1 ≤ (MeshConnectionDisconnectedHandler sampleHops sampleNode AppDisconnectReason.USER_REQUEST
        ConnectionState.HANDSHAKE_DONE true 2 0).clusterSize ∧
    1 ≤ (ReceiveClusterInfoUpdate sampleHops sampleNode 0 { clusterSizeChange := -2 }).clusterSize ∧
    1 ≤ (DetermineBestClusterAvailable sampleDisconnectAndRemove 0 0 sampleNode).2.clusterSize := by
  obtain ⟨a1, -, -, -, a5, a6, a7⟩ := clusterSize_ge_one_preserved sampleHops
    sampleDisconnectAndRemove 0 0 sampleNode 0 { clusterSizeChange := -2 }
    AppDisconnectReason.USER_REQUEST ConnectionState.HANDSHAKE_DONE true 2 0 (by decide)
  exact ⟨by decide, a1 (by decide), a5 (by decide) rfl (by decide) (by decide),
    a6 (by decide) (by decide), a7 (Or.inr (by decide))⟩

/-- C9 as stated fails: a node with clusterSize 2 that held the master bit of
a lost link of size 3 is left with clusterSize -1; nothing clamps it to 1. -/
theorem clusterSize_not_clamped_on_link_loss :
    1 ≤ strayNode.clusterSize ∧ strayNode.clusterSize ≤ 3 ∧
    (MeshConnectionDisconnectedHandler sampleHops strayNode AppDisconnectReason.USER_REQUEST
        ConnectionState.HANDSHAKE_DONE true 3 0).clusterSize = -1 ∧
    ¬ (1 ≤ (MeshConnectionDisconnectedHandler sampleHops strayNode AppDisconnectReason.USER_REQUEST
        ConnectionState.HANDSHAKE_DONE true 3 0).clusterSize) := by
  decide

/-- C10, as the code has it: a link-loss callback that leaves clusterSize
equal to 1 leaves clusterId equal to the id generated from the node's current
counters; a connect decision without emergency disconnect either keeps
clusterSize and clusterId or sets clusterSize to 1 together with a freshly
generated clusterId; a received update never writes clusterId. -/
theorem clusterId_fresh_when_singleton (H : HopsToShortestSink) (D : DisconnectAndRemoveFn)
    (rnd1 rnd2 : Nat) (n : Node) (i : Nat) (packet : ClusterInfoUpdate)
    (reason : AppDisconnectReason) (stateBefore : ConnectionState) (hadBit : Bool) (r : Int)
    (cid : Nat) :
    ((MeshConnectionDisconnectedHandler H n reason stateBefore hadBit r cid).clusterSize = 1 →
      (MeshConnectionDisconnectedHandler H n reason stateBefore hadBit r cid).clusterId =
        GenerateClusterID (MeshConnectionDisconnectedHandler H n reason stateBefore hadBit r cid)) ∧
    (n.freeMeshOutConnections ≠ 0 ∨ n.emergencyDisconnectCounter < 10 →
      ((DetermineBestClusterAvailable D rnd1 rnd2 n).2.clusterSize = n.clusterSize ∧
        (DetermineBestClusterAvailable D rnd1 rnd2 n).2.clusterId = n.clusterId) ∨
      ((DetermineBestClusterAvailable D rnd1 rnd2 n).2.clusterSize = 1 ∧
        (DetermineBestClusterAvailable D rnd1 rnd2 n).2.clusterId =
          GenerateClusterID (DetermineBestClusterAvailable D rnd1 rnd2 n).2)) ∧
    (ReceiveClusterInfoUpdate H n i packet).clusterId = n.clusterId := by
  refine ⟨?_, ?_, ReceiveClusterInfoUpdate_clusterId H n i packet⟩
  · intro h1
    obtain ⟨s1, s2, s3, s4, s5⟩ :=
      MeshConnectionDisconnectedHandler_scalars H n reason stateBefore hadBit r cid
    rw [s1] at h1
    rw [s2, if_pos h1]
    unfold freshClusterId
    rw [← GenerateClusterID_wrap_counter]
    exact (@GenerateClusterID_congr
      (MeshConnectionDisconnectedHandler H n reason stateBefore hadBit r cid)
      { n with connectionLossCounter := wrapU32 (n.connectionLossCounter + 1) } s4 s3 s5).symm
  · intro hem
    obtain ⟨e1, e2⟩ := emergencyDisconnect_cluster D rnd1 n
      (scanBest (CalculateClusterScoreAsMaster n) n.joinMePackets 0 (0, none)).2 hem
    rcases DetermineBestClusterAvailable_cluster D rnd1 rnd2 n with h | h
    · left
      exact ⟨h.1.trans e1, h.2.trans e2⟩
    · right
      exact h

theorem clusterId_fresh_when_singleton_witness :
    (MeshConnectionDisconnectedHandler sampleHops singletonNode AppDisconnectReason.USER_REQUEST
        ConnectionState.HANDSHAKING false 0 0).clusterSize = 1 ∧
    (MeshConnectionDisconnectedHandler sampleHops singletonNode AppDisconnectReason.USER_REQUEST
        ConnectionState.HANDSHAKING false 0 0).clusterId = 65543 ∧
    (singletonNode.freeMeshOutConnections ≠ 0 ∨ singletonNode.emergencyDisconnectCounter < 10) ∧
    (DetermineBestClusterAvailable sampleDisconnectAndRemove 0 0 singletonNode).2.clusterId = 7 := by
  obtain ⟨a1, a2, -⟩ := clusterId_fresh_when_singleton sampleHops sampleDisconnectAndRemove 0 0
    singletonNode 0 {} AppDisconnectReason.USER_REQUEST ConnectionState.HANDSHAKING false 0 0
  refine ⟨by decide, ?_, Or.inr (by decide), ?_⟩
  · rw [a1 (by decide)]
    decide
  · rcases a2 (Or.inr (by decide)) with h | h
    · exact h.2
    · rw [h.2]
      decide

/-- C10 as stated fails: an applied update that brings clusterSize from 2 to 1
leaves the clusterId 99 that the node had adopted from its partner, while the
id generated from the node's own counters is 7. -/
theorem clusterId_survives_update_to_singleton :
    (ReceiveClusterInfoUpdate sampleHops adoptedNode 0 { clusterSizeChange := -1 }).clusterSize = 1 ∧
    (ReceiveClusterInfoUpdate sampleHops adoptedNode 0 { clusterSizeChange := -1 }).clusterId = 99 ∧
    GenerateClusterID (ReceiveClusterInfoUpdate sampleHops adoptedNode 0 { clusterSizeChange := -1 })
      = 7 := by
  decide

/-! ### The connection master bit -/

theorem HandOverRel_bit {c c' : MeshConnection} (h : HandOverRel c c')
    (hb : c'.connectionMasterBit = true) : c.connectionMasterBit = true := by
  rcases h with rfl | rfl
  · exact hb
  · simp at hb

theorem getElem?_of_length_eq {α : Type} {l l' : List α} (h : l'.length = l.length) {j : Nat}
    {a' : α} (ha : l'[j]? = some a') : ∃ a, l[j]? = some a := by
  have hlt : j < l.length := h ▸ lt_length_of_getElem? ha
  exact ⟨l[j], List.getElem?_eq_getElem hlt⟩

theorem HandOverMasterBitIfNecessary_noBitSet (n : Node) :
    NoBitSetExceptAt none n (HandOverMasterBitIfNecessary n) := by
  intro j c' hc' hb _
  obtain ⟨c, hc⟩ := getElem?_of_length_eq (HandOverMasterBitIfNecessary_length n) hc'
  obtain ⟨c'', h'', rel⟩ := HandOverMasterBitIfNecessary_conn n j c hc
  rw [hc'] at h''
  cases h''
  exact ⟨c, hc, HandOverRel_bit rel hb⟩

theorem SendClusterInfoUpdate_noBitSet (H : HopsToShortestSink) (n : Node) (ig : Option Nat)
    (p : Option ClusterInfoUpdate) :
    NoBitSetExceptAt none n (SendClusterInfoUpdate H n ig p) := by
  intro j c' hc' hb _
  obtain ⟨c, hc⟩ := getElem?_of_length_eq (SendClusterInfoUpdate_length H n ig p) hc'
  obtain ⟨h, c'', h'', rel⟩ := SendClusterInfoUpdate_conn H n ig p j c hc
  rw [hc'] at h''
  cases h''
  refine ⟨c, hc, ?_⟩
  have := HandOverRel_bit rel hb
  rwa [(sendStep_frame ig p j h c).2.2.2.1] at this

theorem NoBitSetExceptAt.compose {i : Option Nat} {a b c : Node} (h1 : NoBitSetExceptAt i a b)
    (h2 : NoBitSetExceptAt i b c) : NoBitSetExceptAt i a c := by
  intro j c' hc' hb hj
  obtain ⟨cb, hcb, hbb⟩ := h2 j c' hc' hb hj
  exact h1 j cb hcb hbb hj

theorem NoBitSetExceptAt.weaken {i : Option Nat} {a b : Node} (h : NoBitSetExceptAt none a b) :
    NoBitSetExceptAt i a b := by
  intro j c' hc' hb _
  exact h j c' hc' hb (by simp)

theorem NoBitSetExceptAt.of_connections_eq {i : Option Nat} {a b : Node}
    (h : b.connections = a.connections) : NoBitSetExceptAt i a b := by
  intro j c' hc' hb _
  exact ⟨c', h ▸ hc', hb⟩

theorem AtMostOneMasterBit.of_noBitSet {n m : Node} (h : AtMostOneMasterBit n)
    (hm : NoBitSetExceptAt none n m) : AtMostOneMasterBit m := by
  intro j k c1 c2 h1 h2 b1 b2
  obtain ⟨d1, hd1, e1⟩ := hm j c1 h1 b1 (by simp)
  obtain ⟨d2, hd2, e2⟩ := hm k c2 h2 b2 (by simp)
  exact h j k d1 d2 hd1 hd2 e1 e2

theorem noBitSet_of_set {e : Option Nat} {n m : Node} {i : Nat} {c c' : MeshConnection}
    (hc : n.connections[i]? = some c) (hm : m.connections = n.connections.set i c')
    (hb : some i ≠ e → c'.connectionMasterBit = true → c.connectionMasterBit = true) :
    NoBitSetExceptAt e n m := by
  have hlt := lt_length_of_getElem? hc
  intro j d hd hbit hj
  rw [hm] at hd
  by_cases hji : j = i
  · subst hji
    rw [List.getElem?_set_self hlt] at hd
    cases hd
    exact ⟨c, hc, hb hj hbit⟩
  · rw [List.getElem?_set_ne (Ne.symm hji)] at hd
    exact ⟨d, hd, hbit⟩

theorem noBitSet_of_updateAt {e : Option Nat} {n m : Node} {i : Nat} {f : MeshConnection → MeshConnection}
    (hm : m.connections = updateAt n.connections i f)
    (hf : ∀ c, (f c).connectionMasterBit = c.connectionMasterBit) :
    NoBitSetExceptAt e n m := by
  intro j d hd hbit _
  rw [hm, getElem?_updateAt] at hd
  by_cases hji : j = i
  · rw [if_pos hji] at hd
    cases hc : n.connections[j]? with
    | none => rw [hc] at hd; cases hd
    | some c =>
      rw [hc] at hd
      cases hd
      exact ⟨c, rfl, by rw [← hf c]; exact hbit⟩
  · rw [if_neg hji] at hd
    exact ⟨d, hd, hbit⟩

theorem handshakeCommit_noBitSet (H : HopsToShortestSink) (n : Node) (i : Nat)
    (connection : MeshConnection) (w : Bool) (hconn : n.connections[i]? = some connection) :
    NoBitSetExceptAt none n (handshakeCommit H n i connection w) := by
  unfold handshakeCommit
  split
  · exact NoBitSetExceptAt.compose
      (@noBitSet_of_set none n
        { n with
          clusterSize := wrapI16 (n.clusterSize + 1)
          connections := n.connections.set i (winnerConnection connection) }
        i connection (winnerConnection connection) hconn rfl (fun _ h => h))
      (SendClusterInfoUpdate_noBitSet H _ _ _)
  · exact @noBitSet_of_set none n
      { n with
        clusterId := connection.clusterAck2Packet.clusterId
        clusterSize := connection.clusterAck2Packet.clusterSize
        connections := n.connections.set i (loserConnection connection) }
      i connection (loserConnection connection) hconn rfl (fun _ h => h)

theorem HandshakeDoneHandler_noBitSet (H : HopsToShortestSink) (n : Node) (i : Nat) (w : Bool) :
    NoBitSetExceptAt none n (HandshakeDoneHandler H n i w) := by
  cases hconn : n.connections[i]? with
  | none =>
    rw [HandshakeDoneHandler_none H n i w hconn]
    exact NoBitSetExceptAt.of_connections_eq rfl
  | some connection =>
    rw [HandshakeDoneHandler_eq H n i connection w hconn]
    refine NoBitSetExceptAt.compose (handshakeCommit_noBitSet H n i connection w hconn) ?_
    refine NoBitSetExceptAt.compose
      (@noBitSet_of_updateAt none (handshakeCommit H n i connection w)
        { handshakeCommit H n i connection w with
          connections := updateAt (handshakeCommit H n i connection w).connections i fun c =>
            { c with
              connectionState := ConnectionState.HANDSHAKE_DONE
              connectionHandshakedTimestampDs := (handshakeCommit H n i connection w).appTimerDs } }
        i _ rfl (fun _ => rfl)) ?_
    refine NoBitSetExceptAt.compose (SendClusterInfoUpdate_noBitSet H _ (some i) none) ?_
    exact NoBitSetExceptAt.compose
      (NoBitSetExceptAt.of_connections_eq (KeepHighDiscoveryActive_frame _).2.2.1)
      (HandOverMasterBitIfNecessary_noBitSet _)

theorem disconnectCommit_noBitSet (H : HopsToShortestSink) (n : Node) (reason : AppDisconnectReason)
    (hadBit : Bool) (size : Int) :
    NoBitSetExceptAt none n (disconnectCommit H n reason hadBit size) := by
  unfold disconnectCommit
  split
  · simp only []
    refine NoBitSetExceptAt.compose ?_ (SendClusterInfoUpdate_noBitSet H _ _ _)
    split
    · intro j d hd _ _
      simp [ForceDisconnectOtherMeshConnections] at hd
    · exact NoBitSetExceptAt.of_connections_eq rfl
  · simp only []
    exact NoBitSetExceptAt.compose
      (@NoBitSetExceptAt.of_connections_eq none n
        { n with clusterSize := wrapI16 (n.clusterSize - size) } rfl)
      (SendClusterInfoUpdate_noBitSet H _ _ _)

theorem MeshConnectionDisconnectedHandler_noBitSet (H : HopsToShortestSink) (n : Node)
    (reason : AppDisconnectReason) (stateBefore : ConnectionState) (hadBit : Bool) (size : Int)
    (cid : Nat) :
    NoBitSetExceptAt none n
      (MeshConnectionDisconnectedHandler H n reason stateBefore hadBit size cid) := by
  rw [MeshConnectionDisconnectedHandler_eq]
  have hstage : NoBitSetExceptAt none n (disconnectStage H n reason stateBefore hadBit size) := by
    unfold disconnectStage
    split
    · exact NoBitSetExceptAt.compose
        (@NoBitSetExceptAt.of_connections_eq none n
          { n with connectionLossCounter := wrapU32 (n.connectionLossCounter + 1) } rfl)
        (disconnectCommit_noBitSet H _ reason hadBit size)
    · exact @NoBitSetExceptAt.of_connections_eq none n
        { n with connectionLossCounter := wrapU32 (n.connectionLossCounter + 1) } rfl
  generalize disconnectStage H n reason stateBefore hadBit size = st at hstage ⊢
  have e : (KeepHighDiscoveryActive st).connections = st.connections :=
    (KeepHighDiscoveryActive_frame st).2.2.1
  generalize KeepHighDiscoveryActive st = k at e ⊢
  have hk : NoBitSetExceptAt none st
      (if k.clusterSize = 1 then { k with clusterId := GenerateClusterID k } else k) := by
    split
    · exact @NoBitSetExceptAt.of_connections_eq none st { k with clusterId := GenerateClusterID k } e
    · exact @NoBitSetExceptAt.of_connections_eq none st k e
  generalize (if k.clusterSize = 1 then { k with clusterId := GenerateClusterID k } else k) = k7
    at hk ⊢
  refine NoBitSetExceptAt.compose hstage (NoBitSetExceptAt.compose hk ?_)
  exact NoBitSetExceptAt.compose (HandOverMasterBitIfNecessary_noBitSet k7)
    (@NoBitSetExceptAt.of_connections_eq none (HandOverMasterBitIfNecessary k7)
      { HandOverMasterBitIfNecessary k7 with noNodesFoundCounter := 0 } rfl)

theorem receivedConnection_bit (m : Nat) (c : MeshConnection) (p : ClusterInfoUpdate) :
    (receivedConnection m c p).connectionMasterBit =
      (p.connectionMasterBitHandover || c.connectionMasterBit) := by
  unfold receivedConnection
  by_cases h0 : p.clusterSizeChange = 0 <;> by_cases hb : p.connectionMasterBitHandover = true <;>
    simp [h0, hb]

theorem ReceiveClusterInfoUpdate_eq (H : HopsToShortestSink) (n : Node) (i : Nat)
    (connection : MeshConnection) (packet : ClusterInfoUpdate)
    (hconn : n.connections[i]? = some connection)
    (hcnt : packet.counter = connection.nextExpectedClusterUpdateCounter) :
    ReceiveClusterInfoUpdate H n i packet =
      KeepHighDiscoveryActive (SendClusterInfoUpdate H (HandOverMasterBitIfNecessary
        { n with
          clusterSize :=
            if packet.clusterSizeChange ≠ 0 then wrapI16 (n.clusterSize + packet.clusterSizeChange)
            else n.clusterSize
          connections :=
            n.connections.set i
              (receivedConnection n.clusterUpdateCounterModulus connection packet) })
        (some i) (some { clusterSizeChange := packet.clusterSizeChange })) := by
  unfold ReceiveClusterInfoUpdate
  rw [hconn]
  simp only []
  rw [if_pos hcnt.symm]

theorem ReceiveClusterInfoUpdate_noBitSet (H : HopsToShortestSink) (n : Node) (i : Nat)
    (packet : ClusterInfoUpdate) :
    NoBitSetExceptAt (if packet.connectionMasterBitHandover = true then some i else none) n
      (ReceiveClusterInfoUpdate H n i packet) := by
  cases hconn : n.connections[i]? with
  | none =>
    rw [ReceiveClusterInfoUpdate_unexpected H n i packet (fun c hc => by rw [hconn] at hc; cases hc)]
    exact NoBitSetExceptAt.of_connections_eq rfl
  | some connection =>
    by_cases hcnt : packet.counter = connection.nextExpectedClusterUpdateCounter
    · rw [ReceiveClusterInfoUpdate_eq H n i connection packet hconn hcnt]
      have h1 : NoBitSetExceptAt
          (if packet.connectionMasterBitHandover = true then some i else none) n
          { n with
            clusterSize :=
              if packet.clusterSizeChange ≠ 0 then wrapI16 (n.clusterSize + packet.clusterSizeChange)
              else n.clusterSize
            connections :=
              n.connections.set i
                (receivedConnection n.clusterUpdateCounterModulus connection packet) } := by
        refine noBitSet_of_set hconn rfl ?_
        intro hne hb
        rw [receivedConnection_bit] at hb
        by_cases hh : packet.connectionMasterBitHandover = true
        · rw [if_pos hh] at hne
          exact absurd rfl hne
        · simpa [hh] using hb
      generalize ({ n with
            clusterSize :=
              if packet.clusterSizeChange ≠ 0 then wrapI16 (n.clusterSize + packet.clusterSizeChange)
              else n.clusterSize
            connections :=
              n.connections.set i
                (receivedConnection n.clusterUpdateCounterModulus connection packet) } : Node) = n1
        at h1 ⊢
      refine NoBitSetExceptAt.compose h1 (NoBitSetExceptAt.weaken ?_)
      refine NoBitSetExceptAt.compose (HandOverMasterBitIfNecessary_noBitSet n1) ?_
      exact NoBitSetExceptAt.compose
        (SendClusterInfoUpdate_noBitSet H (HandOverMasterBitIfNecessary n1) (some i)
          (some { clusterSizeChange := packet.clusterSizeChange }))
        (NoBitSetExceptAt.of_connections_eq (KeepHighDiscoveryActive_frame _).2.2.1)
    · rw [ReceiveClusterInfoUpdate_unexpected H n i packet (fun c hc => by
        rw [hconn] at hc
        cases hc
        exact hcnt)]
      exact NoBitSetExceptAt.of_connections_eq rfl

theorem oneBitNode_atMostOne : AtMostOneMasterBit oneBitNode := by
  intro j k c1 c2 h1 h2 b1 b2
  match j, k with
  | 0, 0 => rfl
  | 0, 1 =>
    simp [oneBitNode] at h2
    subst h2
    simp at b2
  | 1, _ =>
    simp [oneBitNode] at h1
    subst h1
    simp at b1
  | 0, k + 2 => simp [oneBitNode] at h2
  | j + 2, _ => simp [oneBitNode] at h1

/-- C11, as the code has it: a handshake commit, a link loss, a handover
evaluation and a received update without the handover flag set no connection
master bit, so a state with at most one bit holder stays one; a received
update that carries the handover flag sets the bit of the receiving link
without clearing the others, so afterwards every bit holder other than the
receiving link was a holder before and up to two links hold the bit. -/
theorem masterBit_holders_after_operations (H : HopsToShortestSink) (n : Node) (i : Nat) (w : Bool)
    (packet : ClusterInfoUpdate) (reason : AppDisconnectReason) (stateBefore : ConnectionState)
    (hadBit : Bool) (size : Int) (cid : Nat) (hone : AtMostOneMasterBit n) :
    AtMostOneMasterBit (HandshakeDoneHandler H n i w) ∧
    AtMostOneMasterBit (MeshConnectionDisconnectedHandler H n reason stateBefore hadBit size cid) ∧
    AtMostOneMasterBit (HandOverMasterBitIfNecessary n) ∧
    (packet.connectionMasterBitHandover = false →
      AtMostOneMasterBit (ReceiveClusterInfoUpdate H n i packet)) ∧
    (∀ (j k : Nat) (c1 c2 : MeshConnection),
      (ReceiveClusterInfoUpdate H n i packet).connections[j]? = some c1 →
      (ReceiveClusterInfoUpdate H n i packet).connections[k]? = some c2 →
      c1.connectionMasterBit = true → c2.connectionMasterBit = true → j = k ∨ j = i ∨ k = i) := by
  refine ⟨hone.of_noBitSet (HandshakeDoneHandler_noBitSet H n i w),
    hone.of_noBitSet (MeshConnectionDisconnectedHandler_noBitSet H n reason stateBefore hadBit size cid),
    hone.of_noBitSet (HandOverMasterBitIfNecessary_noBitSet n), ?_, ?_⟩
  · intro hflag
    have h := ReceiveClusterInfoUpdate_noBitSet H n i packet
    rw [if_neg (by simp [hflag])] at h
    exact hone.of_noBitSet h
  · intro j k c1 c2 h1 h2 b1 b2
    by_cases hj : j = i
    · exact Or.inr (Or.inl hj)
    · by_cases hk : k = i
      · exact Or.inr (Or.inr hk)
      · left
        have h := ReceiveClusterInfoUpdate_noBitSet H n i packet
        have hj' : some j ≠ (if packet.connectionMasterBitHandover = true then some i else none) := by
          split
          · intro e; exact hj (Option.some.inj e)
          · simp
        have hk' : some k ≠ (if packet.connectionMasterBitHandover = true then some i else none) := by
          split
          · intro e; exact hk (Option.some.inj e)
          · simp
        obtain ⟨d1, hd1, e1⟩ := h j c1 h1 b1 hj'
        obtain ⟨d2, hd2, e2⟩ := h k c2 h2 b2 hk'
        exact hone j k d1 d2 hd1 hd2 e1 e2

theorem masterBit_holders_after_operations_witness :
    AtMostOneMasterBit oneBitNode ∧
    masterBitHolders oneBitNode = 1 ∧
    masterBitHolders (HandshakeDoneHandler sampleHops oneBitNode 1 true) ≤ 1 ∧
    masterBitHolders (ReceiveClusterInfoUpdate sampleHops oneBitNode 1 { clusterSizeChange := 2 }) ≤ 1 ∧
    AtMostOneMasterBit (ReceiveClusterInfoUpdate sampleHops oneBitNode 1 { clusterSizeChange := 2 }) :=
  ⟨oneBitNode_atMostOne, by decide, by decide, by decide,
    (masterBit_holders_after_operations sampleHops oneBitNode 1 true { clusterSizeChange := 2 }
      AppDisconnectReason.USER_REQUEST ConnectionState.HANDSHAKE_DONE true 2 0
      oneBitNode_atMostOne).2.2.2.1 rfl⟩

/-- C11 as stated fails: a node with one bit holder that receives an update
carrying the handover flag on its other link holds the master bit of both
links afterwards. -/
theorem masterBit_two_holders_after_handover :
    masterBitHolders oneBitNode = 1 ∧
    masterBitHolders
      (ReceiveClusterInfoUpdate sampleHops oneBitNode 1 { connectionMasterBitHandover := true }) = 2 ∧
    ¬ AtMostOneMasterBit
      (ReceiveClusterInfoUpdate sampleHops oneBitNode 1 { connectionMasterBitHandover := true }) := by
  refine ⟨by decide, by decide, ?_⟩
  intro h
  have h01 := h 0 1
    ((ReceiveClusterInfoUpdate sampleHops oneBitNode 1
      { connectionMasterBitHandover := true }).connections[0]?.getD sampleLink)
    ((ReceiveClusterInfoUpdate sampleHops oneBitNode 1
      { connectionMasterBitHandover := true }).connections[1]?.getD sampleLink)
    (by decide) (by decide) (by decide) (by decide)
  exact absurd h01 (by decide)

theorem HasAllMasterBits_iff (n : Node) :
    HasAllMasterBits n = true ↔
      ∀ (k : Nat) (ck : MeshConnection), n.connections[k]? = some ck → ck.handshakeDone = true →
        ck.connectionMasterBit = true := by
  unfold HasAllMasterBits
  rw [List.all_eq_true]
  constructor
  · intro h k ck hk hd
    have hmem : ck ∈ n.connections := List.getElem?_mem hk
    have := h ck hmem
    simp [hd] at this
    exact this
  · intro h ck hmem
    obtain ⟨k, hk⟩ := List.getElem?_of_mem hmem
    by_cases hd : ck.handshakeDone = true
    · simp [hd, h k ck hk hd]
    · simp [hd]

/-- C12, as the code has it: HandOverMasterBitIfNecessary marks a link L for
handover (it clears L's connectionMasterBit and sets connectionMasterBitHandover
in L's pending update) exactly when the node holds the master bit of every
handshaked link, L is handshaked and L's connectedClusterSize is larger than
clusterSize - connectedClusterSize, the rest of the cluster with this node
included; in every other case the record of L is left as it is. -/
theorem HandOverMasterBitIfNecessary_marks (n : Node) (j : Nat) (c : MeshConnection)
    (hc : n.connections[j]? = some c) :
    ((∀ (k : Nat) (ck : MeshConnection), n.connections[k]? = some ck → ck.handshakeDone = true →
          ck.connectionMasterBit = true) ∧
        c.handshakeDone = true ∧ c.connectedClusterSize > n.clusterSize - c.connectedClusterSize →
      (HandOverMasterBitIfNecessary n).connections[j]? = some (markedForHandover c)) ∧
    (¬ ((∀ (k : Nat) (ck : MeshConnection), n.connections[k]? = some ck → ck.handshakeDone = true →
          ck.connectionMasterBit = true) ∧
        c.handshakeDone = true ∧ c.connectedClusterSize > n.clusterSize - c.connectedClusterSize) →
      (HandOverMasterBitIfNecessary n).connections[j]? = some c) ∧
    (HandOverMasterBitIfNecessary n).connections.length = n.connections.length := by
  refine ⟨?_, ?_, HandOverMasterBitIfNecessary_length n⟩
  · rintro ⟨hall, hdone, hgt⟩
    unfold HandOverMasterBitIfNecessary
    rw [if_pos ((HasAllMasterBits_iff n).2 hall)]
    simp only [List.getElem?_map, hc, Option.map_some']
    unfold handOverStep
    rw [if_pos ⟨hdone, hgt⟩]
    rfl
  · intro hnot
    unfold HandOverMasterBitIfNecessary
    by_cases hall : HasAllMasterBits n = true
    · rw [if_pos hall]
      simp only [List.getElem?_map, hc, Option.map_some']
      unfold handOverStep
      rw [if_neg (fun h => hnot ⟨(HasAllMasterBits_iff n).1 hall, h.1, h.2⟩)]
    · rw [if_neg hall]
      exact hc

theorem HandOverMasterBitIfNecessary_marks_witness :
    minorityNode.connections[0]? =
      some { connectionState := ConnectionState.HANDSHAKE_DONE
             partnerId := 2
             connectedClusterSize := 3
             connectionMasterBit := true } ∧
    HasAllMasterBits minorityNode = true ∧
    (HandOverMasterBitIfNecessary minorityNode).connections[0]? =
      some (markedForHandover
        { connectionState := ConnectionState.HANDSHAKE_DONE
          partnerId := 2
          connectedClusterSize := 3
          connectionMasterBit := true }) :=
  ⟨rfl, by decide,
    (HandOverMasterBitIfNecessary_marks minorityNode 0 _ rfl).1
      ⟨(HasAllMasterBits_iff minorityNode).1 (by decide), by decide, by decide⟩⟩

/-- C12 as stated fails: in a cluster of two the node holds the master bit of
its only link, whose connectedClusterSize 1 is larger than the sum 0 of the
connectedClusterSize of all other links, and yet the link is not marked. -/
theorem HandOverMasterBitIfNecessary_pair_not_marked :
    HasAllMasterBits pairNode = true ∧
    sumOfOtherConnectedClusterSizes pairNode 0 = 0 ∧
    (pairNode.connections[0]?).map (fun c =>
      decide (c.connectedClusterSize > sumOfOtherConnectedClusterSizes pairNode 0)) = some true ∧
    HandOverMasterBitIfNecessary pairNode = pairNode := by
  decide

/-! ## Facts about the partner scores -/

theorem GetMeshConnectionToPartner_isSome (n : Node) (id : Nat) :
    (GetMeshConnectionToPartner n id).isSome = true ↔ ∃ c ∈ n.connections, c.partnerId = id := by
  unfold GetMeshConnectionToPartner
  rw [List.find?_isSome]
  simp

theorem CalculateClusterScoreAsMaster_veto (n : Node) (packet : joinMeBufferPacket)
    (h : masterVeto n packet) : CalculateClusterScoreAsMaster n packet = 0 := by
  unfold CalculateClusterScoreAsMaster
  unfold masterVeto at h
  split_ifs <;> first | rfl | (exfalso; tauto)

theorem CalculateClusterScoreAsSlave_veto (n : Node) (packet : joinMeBufferPacket)
    (h : slaveVeto n packet) : CalculateClusterScoreAsSlave n packet = 0 := by
  unfold CalculateClusterScoreAsSlave
  unfold slaveVeto at h
  split_ifs <;> first | rfl | (exfalso; tauto)

/-- C13: CalculateClusterScoreAsMaster returns 0 for an entry that is older
than the maximum age, or of the local cluster, or without free inbound slots,
or of a strictly larger cluster, or of a sender to which a mesh link exists, or
with an rssi below the stability threshold, or when the local device is a leaf;
CalculateClusterScoreAsSlave returns 0 for an entry that is stale, or of the
local cluster, or of a strictly smaller cluster, or with an rssi below the
threshold; an entry of the local cluster scores 0 under both. -/
theorem clusterScore_zero_on_veto (n : Node) (packet : joinMeBufferPacket) :
    (subU32 n.appTimerDs packet.receivedTimeDs > n.maxJoinMePacketAgeDs ∨
        packet.payload.clusterId = n.clusterId ∨
        packet.payload.freeMeshInConnections = 0 ∨
        packet.payload.clusterSize > n.clusterSize ∨
        (∃ c ∈ n.connections, c.partnerId = packet.payload.sender) ∨
        packet.rssi < n.stableConnectionRssiThreshold ∨
        n.deviceType = DeviceType.LEAF →
      CalculateClusterScoreAsMaster n packet = 0) ∧
    (subU32 n.appTimerDs packet.receivedTimeDs > n.maxJoinMePacketAgeDs ∨
        packet.payload.clusterId = n.clusterId ∨
        packet.payload.clusterSize < n.clusterSize ∨
        packet.rssi < n.stableConnectionRssiThreshold →
      CalculateClusterScoreAsSlave n packet = 0) ∧
    (packet.payload.clusterId = n.clusterId →
      CalculateClusterScoreAsMaster n packet = 0 ∧ CalculateClusterScoreAsSlave n packet = 0) := by
  refine ⟨?_, ?_, ?_⟩
  · intro h
    apply CalculateClusterScoreAsMaster_veto
    have hl := (GetMeshConnectionToPartner_isSome n packet.payload.sender).2
    generalize (∃ c ∈ n.connections, c.partnerId = packet.payload.sender) = linked at h hl
    unfold masterVeto
    tauto
  · intro h
    apply CalculateClusterScoreAsSlave_veto
    unfold slaveVeto
    tauto
  · intro h
    exact ⟨CalculateClusterScoreAsMaster_veto n packet (Or.inr (Or.inl h)),
      CalculateClusterScoreAsSlave_veto n packet (Or.inr (Or.inl h))⟩

theorem clusterScore_zero_on_veto_witness :
    CalculateClusterScoreAsMaster scoringNode smallBeacon = 20340 ∧
    CalculateClusterScoreAsMaster scoringNode
      { smallBeacon with payload := { smallBeacon.payload with clusterId := 7 } } = 0 ∧
    CalculateClusterScoreAsSlave scoringNode
      { smallBeacon with payload := { smallBeacon.payload with clusterId := 7 } } = 0 ∧
    CalculateClusterScoreAsMaster scoringNode { smallBeacon with receivedTimeDs := 800 } = 0 ∧
    CalculateClusterScoreAsSlave scoringNode smallBeacon = 0 :=
  ⟨by decide,
    ((clusterScore_zero_on_veto scoringNode
      { smallBeacon with payload := { smallBeacon.payload with clusterId := 7 } }).2.2 rfl).1,
    ((clusterScore_zero_on_veto scoringNode
      { smallBeacon with payload := { smallBeacon.payload with clusterId := 7 } }).2.2 rfl).2,
    (clusterScore_zero_on_veto scoringNode { smallBeacon with receivedTimeDs := 800 }).1
      (Or.inl (by decide)),
    (clusterScore_zero_on_veto scoringNode smallBeacon).2.1 (Or.inr (Or.inr (Or.inl (by decide))))⟩

theorem IsPreferredConnection_iff (n : Node) (id : Nat) (hcomp : n.preferredPartnersCompiledIn = true) :
    IsPreferredConnection n id = true ↔ id ∈ n.preferredPartnerIds ∨ n.preferredPartnerIds = [] := by
  unfold IsPreferredConnection
  rw [if_pos hcomp]
  cases hl : n.preferredPartnerIds with
  | nil => simp
  | cons a l =>
    simp only [List.length_cons, Nat.succ_ne_zero, if_false, List.any_eq_true, decide_eq_true_eq]
    constructor
    · rintro ⟨x, hx, rfl⟩
      exact Or.inl hx
    · rintro (h | h)
      · exact ⟨id, h, rfl⟩
      · simp at h

theorem ModifyScoreBasedOnPreferredPartners_eq_spec (n : Node) (s : Nat) (sender : Nat)
    (hcomp : n.preferredPartnersCompiledIn = true) (hs : 0 < s) :
    ModifyScoreBasedOnPreferredPartners n s sender = specAdjustedScore n s sender := by
  unfold ModifyScoreBasedOnPreferredPartners specAdjustedScore
  by_cases hp : IsPreferredConnection n sender = true
  · rw [if_neg (by simp [hp]), if_pos ((IsPreferredConnection_iff n sender hcomp).1 hp)]
  · rw [if_pos ⟨hcomp, hs, by simpa using hp⟩,
      if_neg (fun h => hp ((IsPreferredConnection_iff n sender hcomp).2 h))]
    cases n.preferredConnectionMode with
    | PENALTY =>
      simp only
      split
      · omega
      · omega
    | IGNORED => rfl
    | OTHER => rfl

theorem ModifyScoreBasedOnPreferredPartners_penalty_pos (n : Node) (s : Nat) (sender : Nat)
    (hmode : n.preferredConnectionMode = PreferredConnectionMode.PENALTY) (hs : 0 < s) :
    0 < ModifyScoreBasedOnPreferredPartners n s sender := by
  unfold ModifyScoreBasedOnPreferredPartners
  rw [hmode]
  simp only
  split
  · split
    · omega
    · omega
  · exact hs

theorem masterScore_raw (packet : joinMeBufferPacket) (hwt : packet.wellTyped)
    (hin : packet.payload.freeMeshInConnections ≠ 0) :
    0 < specMasterScore packet ∧
    wrapU32 (packet.payload.freeMeshInConnections * 10000 +
      packet.payload.freeMeshOutConnections * 100 + toU32 (100 + packet.rssi)) =
        (specMasterScore packet).toNat := by
  obtain ⟨h1, h2, -, h4, h5⟩ := hwt
  unfold specMasterScore wrapU32 toU32
  generalize packet.payload.freeMeshInConnections = a at *
  generalize packet.payload.freeMeshOutConnections = b at *
  generalize packet.rssi = r at *
  omega

theorem slaveScore_raw (packet : joinMeBufferPacket) (hwt : packet.wellTyped)
    (hsize : 0 < packet.payload.clusterSize) :
    0 < specSlaveScore packet ∧
    wrapU32 (toU32 packet.payload.clusterSize * 10000 +
      packet.payload.freeMeshOutConnections * 100 + toU32 (100 + packet.rssi)) =
        (specSlaveScore packet).toNat := by
  obtain ⟨-, h2, ⟨-, h3⟩, h4, h5⟩ := hwt
  unfold specSlaveScore wrapU32 toU32
  generalize packet.payload.clusterSize = a at *
  generalize packet.payload.freeMeshOutConnections = b at *
  generalize packet.rssi = r at *
  omega

theorem CalculateClusterScoreAsMaster_no_veto (n : Node) (packet : joinMeBufferPacket)
    (h : ¬ masterVeto n packet) :
    CalculateClusterScoreAsMaster n packet =
      ModifyScoreBasedOnPreferredPartners n
        (wrapU32 (packet.payload.freeMeshInConnections * 10000 +
          packet.payload.freeMeshOutConnections * 100 + toU32 (100 + packet.rssi)))
        packet.payload.sender := by
  unfold masterVeto at h
  simp only [not_or] at h
  obtain ⟨h1, h2, h3, h4, h5, h6, h7, h8, h9⟩ := h
  unfold CalculateClusterScoreAsMaster
  rw [if_neg h1, if_neg h2, if_neg h3, if_neg h4, if_neg h5, if_neg h6, if_neg h7, if_neg h8,
    if_neg h9]

theorem CalculateClusterScoreAsSlave_no_veto (n : Node) (packet : joinMeBufferPacket)
    (h : ¬ slaveVeto n packet) :
    CalculateClusterScoreAsSlave n packet =
      ModifyScoreBasedOnPreferredPartners n
        (wrapU32 (toU32 packet.payload.clusterSize * 10000 +
          packet.payload.freeMeshOutConnections * 100 + toU32 (100 + packet.rssi)))
        packet.payload.sender := by
  unfold slaveVeto at h
  simp only [not_or] at h
  obtain ⟨h1, h2, h3, h4⟩ := h
  unfold CalculateClusterScoreAsSlave
  rw [if_neg h1, if_neg h2, if_neg h3, if_neg h4]

/-- C14, as the code has it: for a beacon entry whose fields hold values of
their types, in a build with preferred partners, when no early return of
CalculateClusterScoreAsMaster applies its result is the adjustment of
freeMeshInConnections*10000 + freeMeshOutConnections*100 + (100 + rssi), and
when no early return of CalculateClusterScoreAsSlave applies and the advertised
clusterSize is positive its result is the adjustment of clusterSize*10000 +
freeMeshOutConnections*100 + (100 + rssi); both unadjusted scores are positive;
the adjustment is the identity for a sender on the preferred-partner list or
with an empty list, max(1, s div 10) under PENALTY and 0 under IGNORED; under
PENALTY a nonzero score never becomes zero. -/
theorem clusterScore_formula (n : Node) (packet : joinMeBufferPacket) (hwt : packet.wellTyped)
    (hcomp : n.preferredPartnersCompiledIn = true) :
    (¬ masterVeto n packet →
      0 < specMasterScore packet ∧
      CalculateClusterScoreAsMaster n packet =
        specAdjustedScore n (specMasterScore packet).toNat packet.payload.sender) ∧
    (¬ slaveVeto n packet → 0 < packet.payload.clusterSize →
      0 < specSlaveScore packet ∧
      CalculateClusterScoreAsSlave n packet =
        specAdjustedScore n (specSlaveScore packet).toNat packet.payload.sender) ∧
    (∀ s sender : Nat, 0 < s →
      ModifyScoreBasedOnPreferredPartners n s sender = specAdjustedScore n s sender) ∧
    (n.preferredConnectionMode = PreferredConnectionMode.PENALTY →
      (∀ s sender : Nat, 0 < s → 0 < ModifyScoreBasedOnPreferredPartners n s sender) ∧
      (¬ masterVeto n packet → 0 < CalculateClusterScoreAsMaster n packet) ∧
      (¬ slaveVeto n packet → 0 < packet.payload.clusterSize →
        0 < CalculateClusterScoreAsSlave n packet)) := by
  have hm : ¬ masterVeto n packet → packet.payload.freeMeshInConnections ≠ 0 := by
    intro h h0
    exact h (Or.inr (Or.inr (Or.inl h0)))
  refine ⟨?_, ?_, ?_, ?_⟩
  · intro h
    obtain ⟨hpos, hraw⟩ := masterScore_raw packet hwt (hm h)
    refine ⟨hpos, ?_⟩
    rw [CalculateClusterScoreAsMaster_no_veto n packet h, hraw]
    exact ModifyScoreBasedOnPreferredPartners_eq_spec n _ _ hcomp (by omega)
  · intro h hsize
    obtain ⟨hpos, hraw⟩ := slaveScore_raw packet hwt hsize
    refine ⟨hpos, ?_⟩
    rw [CalculateClusterScoreAsSlave_no_veto n packet h, hraw]
    exact ModifyScoreBasedOnPreferredPartners_eq_spec n _ _ hcomp (by omega)
  · intro s sender hs
    exact ModifyScoreBasedOnPreferredPartners_eq_spec n s sender hcomp hs
  · intro hmode
    refine ⟨fun s sender hs => ModifyScoreBasedOnPreferredPartners_penalty_pos n s sender hmode hs,
      ?_, ?_⟩
    · intro h
      obtain ⟨hpos, hraw⟩ := masterScore_raw packet hwt (hm h)
      rw [CalculateClusterScoreAsMaster_no_veto n packet h, hraw]
      exact ModifyScoreBasedOnPreferredPartners_penalty_pos n _ _ hmode (by omega)
    · intro h hsize
      obtain ⟨hpos, hraw⟩ := slaveScore_raw packet hwt hsize
      rw [CalculateClusterScoreAsSlave_no_veto n packet h, hraw]
      exact ModifyScoreBasedOnPreferredPartners_penalty_pos n _ _ hmode (by omega)

theorem clusterScore_formula_witness :
    largeBeacon.wellTyped ∧ ¬ masterVeto choosyNode smallBeacon ∧ ¬ slaveVeto choosyNode largeBeacon ∧
    CalculateClusterScoreAsMaster choosyNode smallBeacon = 20340 ∧
    specAdjustedScore choosyNode (specMasterScore smallBeacon).toNat 9 = 20340 ∧
    CalculateClusterScoreAsSlave choosyNode largeBeacon = 6043 ∧
    specSlaveScore largeBeacon = 60430 ∧
    CalculateClusterScoreAsSlave choosyNode largeBeacon =
      specAdjustedScore choosyNode (specSlaveScore largeBeacon).toNat 12 :=
  ⟨by decide, by decide, by decide, by decide, by decide, by decide, by decide,
    ((clusterScore_formula choosyNode largeBeacon (by decide) rfl).2.1 (by decide) (by decide)).2⟩

theorem ModifyScoreBasedOnPreferredPartners_lt (n : Node) (s t : Nat) (a b : Nat)
    (hpref : IsPreferredConnection n a = IsPreferredConnection n b) (hgap : t + 20 ≤ s)
    (hpos : 0 < ModifyScoreBasedOnPreferredPartners n s a) :
    ModifyScoreBasedOnPreferredPartners n t b < ModifyScoreBasedOnPreferredPartners n s a := by
  unfold ModifyScoreBasedOnPreferredPartners at hpos ⊢
  rw [← hpref]
  by_cases hx : n.preferredPartnersCompiledIn = true ∧ IsPreferredConnection n a = false
  · have e : ∀ u : Nat, (n.preferredPartnersCompiledIn = true ∧ u > 0 ∧
        IsPreferredConnection n a = false) ↔ u > 0 :=
      fun u => ⟨fun h => h.2.1, fun h => ⟨hx.1, h, hx.2⟩⟩
    simp only [e] at hpos ⊢
    cases hmode : n.preferredConnectionMode with
    | PENALTY =>
      rw [hmode] at hpos
      simp only at hpos ⊢
      split_ifs at hpos ⊢ <;> omega
    | IGNORED =>
      rw [hmode] at hpos
      simp only at hpos ⊢
      split_ifs at hpos ⊢ <;> omega
    | OTHER =>
      rw [hmode] at hpos
      simp only at hpos ⊢
      split_ifs at hpos ⊢ <;> omega
  · have e : ∀ u : Nat, ¬ (n.preferredPartnersCompiledIn = true ∧ u > 0 ∧
        IsPreferredConnection n a = false) := fun u h => hx ⟨h.1, h.2.2⟩
    simp only [e, if_false]
    omega

theorem masterVeto_of_zero (n : Node) (packet : joinMeBufferPacket)
    (h : 0 < CalculateClusterScoreAsMaster n packet) : ¬ masterVeto n packet := by
  intro hv
  rw [CalculateClusterScoreAsMaster_veto n packet hv] at h
  exact absurd h (by decide)

theorem slaveVeto_of_zero (n : Node) (packet : joinMeBufferPacket)
    (h : 0 < CalculateClusterScoreAsSlave n packet) : ¬ slaveVeto n packet := by
  intro hv
  rw [CalculateClusterScoreAsSlave_veto n packet hv] at h
  exact absurd h (by decide)

/-- C15, as the code has it: for two beacon entries whose fields hold values of
their types, with the same preferred-partner status and both with a nonzero
score (neither is vetoed), the entry with strictly more free inbound slots has
the strictly greater CalculateClusterScoreAsMaster, and the entry with the
strictly larger clusterSize has the strictly greater
CalculateClusterScoreAsSlave when the smaller advertised clusterSize is
positive, whatever the free outbound slot counts and rssi values are. -/
theorem primary_factor_dominates (n : Node) (p q : joinMeBufferPacket) (hp : p.wellTyped)
    (hq : q.wellTyped)
    (hpref : IsPreferredConnection n p.payload.sender = IsPreferredConnection n q.payload.sender) :
    (0 < CalculateClusterScoreAsMaster n p → 0 < CalculateClusterScoreAsMaster n q →
      q.payload.freeMeshInConnections < p.payload.freeMeshInConnections →
      CalculateClusterScoreAsMaster n q < CalculateClusterScoreAsMaster n p) ∧
    (0 < CalculateClusterScoreAsSlave n p → 0 < CalculateClusterScoreAsSlave n q →
      0 < q.payload.clusterSize → q.payload.clusterSize < p.payload.clusterSize →
      CalculateClusterScoreAsSlave n q < CalculateClusterScoreAsSlave n p) := by
  constructor
  · intro h1 h2 hlt
    have v1 := masterVeto_of_zero n p h1
    have v2 := masterVeto_of_zero n q h2
    have e1 := CalculateClusterScoreAsMaster_no_veto n p v1
    have e2 := CalculateClusterScoreAsMaster_no_veto n q v2
    have hq0 : q.payload.freeMeshInConnections ≠ 0 := fun h0 => v2 (Or.inr (Or.inr (Or.inl h0)))
    obtain ⟨r1, w1⟩ := masterScore_raw p hp (by omega)
    obtain ⟨r2, w2⟩ := masterScore_raw q hq hq0
    rw [w1] at e1
    rw [w2] at e2
    rw [e1] at h1
    rw [e1, e2]
    refine ModifyScoreBasedOnPreferredPartners_lt n _ _ _ _ hpref ?_ h1
    obtain ⟨-, a2, -, a4, a5⟩ := hp
    obtain ⟨-, b2, -, b4, b5⟩ := hq
    unfold specMasterScore at *
    omega
  · intro h1 h2 hpos hlt
    have v1 := slaveVeto_of_zero n p h1
    have v2 := slaveVeto_of_zero n q h2
    have e1 := CalculateClusterScoreAsSlave_no_veto n p v1
    have e2 := CalculateClusterScoreAsSlave_no_veto n q v2
    obtain ⟨r1, w1⟩ := slaveScore_raw p hp (by omega)
    obtain ⟨r2, w2⟩ := slaveScore_raw q hq hpos
    rw [w1] at e1
    rw [w2] at e2
    rw [e1] at h1
    rw [e1, e2]
    refine ModifyScoreBasedOnPreferredPartners_lt n _ _ _ _ hpref ?_ h1
    obtain ⟨-, a2, -, a4, a5⟩ := hp
    obtain ⟨-, b2, -, b4, b5⟩ := hq
    unfold specSlaveScore at *
    omega

theorem primary_factor_dominates_witness :
    CalculateClusterScoreAsMaster scoringNode largeBeacon = 0 ∧
    CalculateClusterScoreAsMaster scoringNode
      { smallBeacon with payload := { smallBeacon.payload with freeMeshInConnections := 1
                                                               freeMeshOutConnections := 31 }
                         rssi := 0 } = 13200 ∧
    CalculateClusterScoreAsMaster scoringNode smallBeacon = 20340 ∧
    CalculateClusterScoreAsMaster scoringNode
      { smallBeacon with payload := { smallBeacon.payload with freeMeshInConnections := 1
                                                               freeMeshOutConnections := 31 }
                         rssi := 0 } <
      CalculateClusterScoreAsMaster scoringNode smallBeacon ∧
    CalculateClusterScoreAsSlave scoringNode largeBeacon = 60430 ∧
    CalculateClusterScoreAsSlave scoringNode
      { largeBeacon with payload := { largeBeacon.payload with clusterSize := 4
                                                               freeMeshOutConnections := 31 }
                         rssi := 0 } = 43200 ∧
    CalculateClusterScoreAsSlave scoringNode
      { largeBeacon with payload := { largeBeacon.payload with clusterSize := 4
                                                               freeMeshOutConnections := 31 }
                         rssi := 0 } <
      CalculateClusterScoreAsSlave scoringNode largeBeacon :=
  ⟨by decide, by decide, by decide,
    (primary_factor_dominates scoringNode smallBeacon
      { smallBeacon with payload := { smallBeacon.payload with freeMeshInConnections := 1
                                                               freeMeshOutConnections := 31 }
                         rssi := 0 } (by decide) (by decide) (by decide)).1
      (by decide) (by decide) (by decide),
    by decide, by decide,
    (primary_factor_dominates scoringNode largeBeacon
      { largeBeacon with payload := { largeBeacon.payload with clusterSize := 4
                                                               freeMeshOutConnections := 31 }
                         rssi := 0 } (by decide) (by decide) (by decide)).2
      (by decide) (by decide) (by decide) (by decide)⟩

/-! ## Facts about the buffer of JOIN_ME beacons -/

theorem firstSlot_spec (p : joinMeBufferPacket → Bool) (l : List joinMeBufferPacket) (k : Nat) :
    (firstSlot p l k = none ∧ ∀ e ∈ l, p e = false) ∨
    (∃ (j : Nat) (e : joinMeBufferPacket), firstSlot p l k = some (k + j) ∧ l[j]? = some e ∧
      p e = true ∧
      ∀ (i : Nat) (d : joinMeBufferPacket), i < j → l[i]? = some d → p d = false) := by
  induction l generalizing k with
  | nil => exact Or.inl ⟨rfl, fun e he => absurd he (List.not_mem_nil e)⟩
  | cons a rest ih =>
    unfold firstSlot
    by_cases ha : p a = true
    · rw [if_pos ha]
      exact Or.inr ⟨0, a, rfl, by simp, ha, fun i d hi _ => absurd hi (Nat.not_lt_zero i)⟩
    · rw [if_neg ha]
      have ha' : p a = false := by simpa using ha
      rcases ih (k + 1) with ⟨hn, hall⟩ | ⟨j, e, hs, he, hp, hbefore⟩
      · left
        refine ⟨hn, ?_⟩
        intro e he
        rcases List.mem_cons.1 he with rfl | hmem
        · exact ha'
        · exact hall e hmem
      · right
        refine ⟨j + 1, e, ?_, ?_, hp, ?_⟩
        · rw [hs]
          congr 1
          omega
        · simpa using he
        · intro i d hi hd
          cases i with
          | zero =>
            simp at hd
            subst hd
            exact ha'
          | succ i =>
            have hd' : rest[i]? = some d := by simpa using hd
            exact hbefore i d (by omega) hd'

theorem firstSlot_of_mem (p : joinMeBufferPacket → Bool) (l : List joinMeBufferPacket)
    (h : ∃ e ∈ l, p e = true) :
    ∃ (j : Nat) (e : joinMeBufferPacket), firstSlot p l 0 = some j ∧ l[j]? = some e ∧ p e = true ∧
      ∀ (i : Nat) (d : joinMeBufferPacket), i < j → l[i]? = some d → p d = false := by
  rcases firstSlot_spec p l 0 with ⟨-, hall⟩ | ⟨j, e, hs, he, hp, hbefore⟩
  · obtain ⟨e, he, hp⟩ := h
    rw [hall e he] at hp
    exact absurd hp (by decide)
  · exact ⟨j, e, by simpa using hs, he, hp, hbefore⟩

theorem firstSlot_none_of_forall (p : joinMeBufferPacket → Bool) (l : List joinMeBufferPacket)
    (h : ∀ e ∈ l, p e = false) : firstSlot p l 0 = none := by
  rcases firstSlot_spec p l 0 with ⟨hn, -⟩ | ⟨j, e, -, he, hp, -⟩
  · exact hn
  · rw [h e (List.getElem?_mem he)] at hp
    exact absurd hp (by decide)

theorem getElem?_updateAt_ne {α : Type} (l : List α) (k j : Nat) (f : α → α) (h : j ≠ k) :
    (updateAt l k f)[j]? = l[j]? := by
  rw [getElem?_updateAt]
  rw [if_neg h]

theorem findTargetBuffer_of_sender (n : Node) (packet : advPacketPayloadJoinMeV0)
    (hex : ∃ e ∈ n.joinMePackets, e.payload.sender = packet.sender) :
    ∃ (i : Nat) (e : joinMeBufferPacket), findTargetBuffer n packet = (some i, n) ∧
      n.joinMePackets[i]? = some e ∧ e.payload.sender = packet.sender ∧
      ∀ (j : Nat) (d : joinMeBufferPacket), j < i → n.joinMePackets[j]? = some d →
        d.payload.sender ≠ packet.sender := by
  obtain ⟨e0, hmem, hs⟩ := hex
  obtain ⟨i, e, hfirst, he, hp, hbefore⟩ :=
    firstSlot_of_mem (fun t => decide (packet.sender = t.payload.sender)) n.joinMePackets
      ⟨e0, hmem, by simp [hs]⟩
  refine ⟨i, e, ?_, he, ?_, ?_⟩
  · unfold findTargetBuffer
    rw [hfirst]
  · exact (of_decide_eq_true hp).symm
  · intro j d hj hd hsame
    have := hbefore j d hj hd
    simp [hsame] at this

/-- C16: when the sender of an incoming beacon already has an entry,
findTargetBuffer returns the first slot with that sender, whether or not empty
slots exist, and leaves the node as it is; GapAdvertisementMessageHandler then
writes the beacon into that slot, so that entry is refreshed in place and every
other slot and every other field of the node is unchanged. -/
theorem findTargetBuffer_known_sender (n : Node) (event : GapAdvertisementReportEvent)
    (hex : ∃ e ∈ n.joinMePackets, e.payload.sender = event.payload.sender) :
    ∃ (i : Nat) (e : joinMeBufferPacket), findTargetBuffer n event.payload = (some i, n) ∧
      n.joinMePackets[i]? = some e ∧ e.payload.sender = event.payload.sender ∧
      (∀ (j : Nat) (d : joinMeBufferPacket), j < i → n.joinMePackets[j]? = some d →
        d.payload.sender ≠ event.payload.sender) ∧
      (n.moduleActive = true → event.messageType = AdvMessageType.MESSAGE_TYPE_JOIN_ME_V0 →
        event.dataLength = SIZEOF_ADV_PACKET_JOIN_ME →
        GapAdvertisementMessageHandler n event =
          { n with joinMePackets := n.joinMePackets.set i (recordBeacon n event e) } ∧
        (GapAdvertisementMessageHandler n event).joinMePackets[i]? =
          some (recordBeacon n event e) ∧
        (recordBeacon n event e).payload = event.payload ∧
        (recordBeacon n event e).receivedTimeDs = n.appTimerDs ∧
        (recordBeacon n event e).lastConnectAttemptDs = e.lastConnectAttemptDs ∧
        ∀ (j : Nat), j ≠ i →
          (GapAdvertisementMessageHandler n event).joinMePackets[j]? = n.joinMePackets[j]?) := by
  obtain ⟨i, e, hfind, he, hs, hbefore⟩ := findTargetBuffer_of_sender n event.payload hex
  refine ⟨i, e, hfind, he, hs, hbefore, ?_⟩
  intro hactive htype hlen
  have hlt : i < n.joinMePackets.length := lt_length_of_getElem? he
  have heq : GapAdvertisementMessageHandler n event =
      { n with joinMePackets := n.joinMePackets.set i (recordBeacon n event e) } := by
    unfold GapAdvertisementMessageHandler
    rw [if_neg (by simp [hactive]), htype]
    simp only
    rw [if_pos hlen, hfind]
    simp only
    unfold updateAt
    rw [he]
  refine ⟨heq, ?_, rfl, rfl, rfl, ?_⟩
  · rw [heq]
    simp [hlt]
  · intro j hj
    rw [heq]
    simp only
    rw [List.getElem?_set_ne (Ne.symm hj)]

theorem findTargetBuffer_known_sender_witness :
    findTargetBuffer roomyBufferNode refreshEvent.payload = (some 2, roomyBufferNode) ∧
    (GapAdvertisementMessageHandler roomyBufferNode refreshEvent).joinMePackets =
      [{}, smallBeacon, recordBeacon roomyBufferNode refreshEvent largeBeacon] ∧
    ∃ (i : Nat) (e : joinMeBufferPacket),
      findTargetBuffer roomyBufferNode refreshEvent.payload = (some i, roomyBufferNode) ∧
      roomyBufferNode.joinMePackets[i]? = some e ∧ e.payload.sender = 12 :=
  ⟨by decide, by decide,
    (findTargetBuffer_known_sender roomyBufferNode refreshEvent ⟨largeBeacon, by decide, rfl⟩).imp
      fun _ h => h.imp fun _ h => ⟨h.1, h.2.1, h.2.2.1⟩⟩

theorem scanLowest_spec (eligible : joinMeBufferPacket → Bool) (key : joinMeBufferPacket → Nat)
    (l : List joinMeBufferPacket) (k : Nat) (acc : Nat × Option Nat) :
    (scanLowest eligible key l k acc = acc ∧
      ∀ e ∈ l, eligible e = true → acc.1 ≤ key e) ∨
    (∃ (j : Nat) (e : joinMeBufferPacket),
      scanLowest eligible key l k acc = (key e, some (k + j)) ∧ l[j]? = some e ∧
      eligible e = true ∧ key e < acc.1 ∧
      ∀ (i : Nat) (d : joinMeBufferPacket), l[i]? = some d → eligible d = true →
        key e ≤ key d ∧ (i < j → key e < key d)) := by
  induction l generalizing k acc with
  | nil => exact Or.inl ⟨rfl, fun e he => absurd he (List.not_mem_nil e)⟩
  | cons a rest ih =>
    unfold scanLowest
    by_cases ha : eligible a = true ∧ key a < acc.1
    · rw [if_pos ha]
      right
      rcases ih (k + 1) (key a, some k) with ⟨hr, hall⟩ | ⟨j, e, hr, he, hel, hlt, hmin⟩
      · refine ⟨0, a, by rw [hr]; rfl, by simp, ha.1, ha.2, ?_⟩
        intro i d hd hed
        cases i with
        | zero =>
          simp at hd
          subst hd
          exact ⟨Nat.le_refl _, fun h => absurd h (Nat.lt_irrefl 0)⟩
        | succ i =>
          have hd' : rest[i]? = some d := by simpa using hd
          exact ⟨hall d (List.getElem?_mem hd') hed, fun h => absurd h (Nat.not_lt_zero _)⟩
      · refine ⟨j + 1, e, ?_, by simpa using he, hel, Nat.lt_trans hlt ha.2, ?_⟩
        · rw [hr]
          congr 2
          omega
        · intro i d hd hed
          cases i with
          | zero =>
            simp at hd
            subst hd
            exact ⟨Nat.le_of_lt hlt, fun _ => hlt⟩
          | succ i =>
            have hd' : rest[i]? = some d := by simpa using hd
            obtain ⟨h1, h2⟩ := hmin i d hd' hed
            exact ⟨h1, fun h => h2 (by omega)⟩
    · rw [if_neg ha]
      rcases ih (k + 1) acc with ⟨hr, hall⟩ | ⟨j, e, hr, he, hel, hlt, hmin⟩
      · left
        refine ⟨hr, ?_⟩
        intro e he hel
        rcases List.mem_cons.1 he with rfl | hmem
        · exact Nat.le_of_not_lt fun h => ha ⟨hel, h⟩
        · exact hall e hmem hel
      · right
        refine ⟨j + 1, e, ?_, by simpa using he, hel, hlt, ?_⟩
        · rw [hr]
          congr 2
          omega
        · intro i d hd hed
          cases i with
          | zero =>
            simp at hd
            subst hd
            have hge : acc.1 ≤ key a := Nat.le_of_not_lt fun h => ha ⟨hed, h⟩
            exact ⟨by omega, fun _ => by omega⟩
          | succ i =>
            have hd' : rest[i]? = some d := by simpa using hd
            obtain ⟨h1, h2⟩ := hmin i d hd' hed
            exact ⟨h1, fun h => h2 (by omega)⟩

theorem scanLowest_of_below (eligible : joinMeBufferPacket → Bool) (key : joinMeBufferPacket → Nat)
    (l : List joinMeBufferPacket) (bound : Nat)
    (h : ∃ e ∈ l, eligible e = true ∧ key e < bound) :
    ∃ (j : Nat) (e : joinMeBufferPacket),
      (scanLowest eligible key l 0 (bound, none)).2 = some j ∧ l[j]? = some e ∧
      eligible e = true ∧ key e < bound ∧
      ∀ (i : Nat) (d : joinMeBufferPacket), l[i]? = some d → eligible d = true →
        key e ≤ key d ∧ (i < j → key e < key d) := by
  rcases scanLowest_spec eligible key l 0 (bound, none) with ⟨-, hall⟩ | ⟨j, e, hr, he, hel, hlt, hmin⟩
  · obtain ⟨e, he, hel, hlt⟩ := h
    have := hall e he hel
    simp only at this
    omega
  · exact ⟨j, e, by rw [hr]; simp, he, hel, hlt, hmin⟩

theorem scanLowest_none_of_forall (eligible : joinMeBufferPacket → Bool)
    (key : joinMeBufferPacket → Nat) (l : List joinMeBufferPacket) (bound : Nat)
    (h : ∀ e ∈ l, eligible e = true → bound ≤ key e) :
    (scanLowest eligible key l 0 (bound, none)).2 = none := by
  rcases scanLowest_spec eligible key l 0 (bound, none) with ⟨hr, -⟩ | ⟨j, e, -, he, hel, hlt, -⟩
  · rw [hr]
  · have := h e (List.getElem?_mem he) hel
    simp only at hlt
    omega

theorem findTargetBuffer_first_tier_none (n : Node) (packet : advPacketPayloadJoinMeV0)
    (hnew : ∀ e ∈ n.joinMePackets, e.payload.sender ≠ packet.sender) :
    firstSlot (fun t => decide (packet.sender = t.payload.sender)) n.joinMePackets 0 = none := by
  apply firstSlot_none_of_forall
  intro e he
  have := hnew e he
  simp only [decide_eq_false_iff_not]
  exact fun h => this h.symm

theorem findTargetBuffer_second_tier_none (n : Node)
    (hfull : ∀ e ∈ n.joinMePackets, e.payload.sender ≠ 0) :
    firstSlot (fun t => decide (t.payload.sender = 0)) n.joinMePackets 0 = none := by
  apply firstSlot_none_of_forall
  intro e he
  simp only [decide_eq_false_iff_not]
  exact hfull e he

theorem evictionScore_master (n : Node) (packet : advPacketPayloadJoinMeV0)
    (h : n.clusterSize ≤ packet.clusterSize) :
    evictionScore n packet = CalculateClusterScoreAsMaster n := by
  funext e
  unfold evictionScore
  rw [if_pos (ge_iff_le.2 h)]

theorem evictionScore_slave (n : Node) (packet : advPacketPayloadJoinMeV0)
    (h : packet.clusterSize < n.clusterSize) :
    evictionScore n packet = CalculateClusterScoreAsSlave n := by
  funext e
  unfold evictionScore
  rw [if_neg (by omega)]

theorem findTargetBuffer_third_tier_none (n : Node)
    (hforeign : ∀ e ∈ n.joinMePackets, e.payload.clusterId ≠ n.clusterId) :
    (scanLowest (fun t => decide (t.payload.clusterId = n.clusterId))
      (fun t => t.receivedTimeDs) n.joinMePackets 0 (UINT32_MAX, none)).2 = none := by
  apply scanLowest_none_of_forall
  intro e he hel
  exact absurd (of_decide_eq_true hel) (hforeign e he)

theorem findTargetBuffer_lowest_score (n : Node) (packet : advPacketPayloadJoinMeV0)
    (hnew : ∀ e ∈ n.joinMePackets, e.payload.sender ≠ packet.sender)
    (hfull : ∀ e ∈ n.joinMePackets, e.payload.sender ≠ 0)
    (hforeign : ∀ e ∈ n.joinMePackets, e.payload.clusterId ≠ n.clusterId)
    (hscore : ∃ e ∈ n.joinMePackets, evictionScore n packet e < UINT32_MAX) :
    ∃ i : Nat, findTargetBuffer n packet = (some i, n) ∧
      IsFirstLowest (evictionScore n packet) n.joinMePackets i := by
  obtain ⟨e0, hmem, hlt⟩ := hscore
  obtain ⟨i, e, hscan, he, -, -, hmin⟩ :=
    scanLowest_of_below (fun _ => true) (evictionScore n packet) n.joinMePackets UINT32_MAX
      ⟨e0, hmem, rfl, hlt⟩
  refine ⟨i, ?_, e, he, fun j d hd => hmin j d hd rfl⟩
  unfold findTargetBuffer
  rw [findTargetBuffer_first_tier_none n packet hnew]
  simp only
  rw [findTargetBuffer_second_tier_none n hfull]
  simp only
  rw [findTargetBuffer_third_tier_none n hforeign]
  simp only
  rw [hscan]

/-- C18, as the code has it: for a full buffer with no entry of the incoming
sender and no entry of the local cluster, in which some entry has a score below
UINT32_MAX, findTargetBuffer returns the first slot with the lowest score and
leaves the node as it is, where every entry is scored with
CalculateClusterScoreAsMaster if the clusterSize of the incoming candidate is
at least the local clusterSize and with CalculateClusterScoreAsSlave if it is
smaller. -/
theorem findTargetBuffer_evicts_lowest (n : Node) (packet : advPacketPayloadJoinMeV0)
    (hnew : ∀ e ∈ n.joinMePackets, e.payload.sender ≠ packet.sender)
    (hfull : ∀ e ∈ n.joinMePackets, e.payload.sender ≠ 0)
    (hforeign : ∀ e ∈ n.joinMePackets, e.payload.clusterId ≠ n.clusterId) :
    (n.clusterSize ≤ packet.clusterSize →
      (∃ e ∈ n.joinMePackets, CalculateClusterScoreAsMaster n e < UINT32_MAX) →
      ∃ i : Nat, findTargetBuffer n packet = (some i, n) ∧
        IsFirstLowest (CalculateClusterScoreAsMaster n) n.joinMePackets i) ∧
    (packet.clusterSize < n.clusterSize →
      (∃ e ∈ n.joinMePackets, CalculateClusterScoreAsSlave n e < UINT32_MAX) →
      ∃ i : Nat, findTargetBuffer n packet = (some i, n) ∧
        IsFirstLowest (CalculateClusterScoreAsSlave n) n.joinMePackets i) := by
  constructor
  · intro hsize hscore
    have h := findTargetBuffer_lowest_score n packet hnew hfull hforeign
    rw [evictionScore_master n packet hsize] at h
    exact h hscore
  · intro hsize hscore
    have h := findTargetBuffer_lowest_score n packet hnew hfull hforeign
    rw [evictionScore_slave n packet hsize] at h
    exact h hscore

theorem findTargetBuffer_evicts_lowest_witness :
    newcomerPayload.clusterSize < fullBufferNode.clusterSize ∧
    CalculateClusterScoreAsSlave fullBufferNode smallBeacon = 0 ∧
    CalculateClusterScoreAsSlave fullBufferNode largeBeacon = 60430 ∧
    findTargetBuffer fullBufferNode newcomerPayload = (some 0, fullBufferNode) ∧
    ∃ i : Nat, findTargetBuffer fullBufferNode newcomerPayload = (some i, fullBufferNode) ∧
      IsFirstLowest (CalculateClusterScoreAsSlave fullBufferNode) fullBufferNode.joinMePackets i :=
  ⟨by decide, by decide, by decide, by decide,
    (findTargetBuffer_evicts_lowest fullBufferNode newcomerPayload (by decide) (by decide)
      (by decide)).2 (by decide) ⟨smallBeacon, by decide, by decide⟩⟩

/-- C18 as stated fails: the candidate's clusterSize 1 is not larger than the
local clusterSize 3, the buffer is full and holds neither the sender nor an
entry of the local cluster, and the slot returned is slot 0, whose
CalculateClusterScoreAsMaster 20340 is not the lowest (slot 1 scores 0); slot 0
is the one with the lowest CalculateClusterScoreAsSlave. -/
theorem findTargetBuffer_scores_smaller_candidate_as_slave :
    newcomerPayload.clusterSize ≤ fullBufferNode.clusterSize ∧
    (∀ e ∈ fullBufferNode.joinMePackets,
      e.payload.sender ≠ newcomerPayload.sender ∧ e.payload.sender ≠ 0 ∧
      e.payload.clusterId ≠ fullBufferNode.clusterId) ∧
    (findTargetBuffer fullBufferNode newcomerPayload).1 = some 0 ∧
    fullBufferNode.joinMePackets.map (CalculateClusterScoreAsMaster fullBufferNode) = [20340, 0] ∧
    fullBufferNode.joinMePackets.map (CalculateClusterScoreAsSlave fullBufferNode) = [0, 60430] ∧
    ¬ IsFirstLowest (CalculateClusterScoreAsMaster fullBufferNode) fullBufferNode.joinMePackets 0 := by
  refine ⟨by decide, by decide, by decide, by decide, by decide, ?_⟩
  rintro ⟨e, he, hmin⟩
  have he' : smallBeacon = e := Option.some.inj he
  subst he'
  have h := (hmin 1 largeBeacon rfl).1
  exact absurd h (by decide)

theorem ModifyScoreBasedOnPreferredPartners_le (n : Node) (s : Nat) (sender : Nat) :
    ModifyScoreBasedOnPreferredPartners n s sender ≤ s := by
  unfold ModifyScoreBasedOnPreferredPartners
  split
  · rename_i h
    obtain ⟨-, hs, -⟩ := h
    cases n.preferredConnectionMode with
    | PENALTY =>
      simp only
      split <;> omega
    | IGNORED => exact Nat.zero_le s
    | OTHER => exact Nat.le_refl s
  · exact Nat.le_refl s

theorem CalculateClusterScoreAsMaster_lt_max (n : Node) (e : joinMeBufferPacket) (hwt : e.wellTyped) :
    CalculateClusterScoreAsMaster n e < UINT32_MAX := by
  by_cases hv : masterVeto n e
  · rw [CalculateClusterScoreAsMaster_veto n e hv]
    decide
  · have hin : e.payload.freeMeshInConnections ≠ 0 := fun h0 => hv (Or.inr (Or.inr (Or.inl h0)))
    obtain ⟨-, hraw⟩ := masterScore_raw e hwt hin
    rw [CalculateClusterScoreAsMaster_no_veto n e hv, hraw]
    refine Nat.lt_of_le_of_lt (ModifyScoreBasedOnPreferredPartners_le n _ _) ?_
    obtain ⟨h1, h2, -, h4, h5⟩ := hwt
    unfold specMasterScore UINT32_MAX
    omega

theorem CalculateClusterScoreAsSlave_lt_max (n : Node) (e : joinMeBufferPacket) (hwt : e.wellTyped)
    (hdom : -101 < n.stableConnectionRssiThreshold ∨ 0 < n.clusterSize) :
    CalculateClusterScoreAsSlave n e < UINT32_MAX := by
  by_cases hv : slaveVeto n e
  · rw [CalculateClusterScoreAsSlave_veto n e hv]
    decide
  · rw [CalculateClusterScoreAsSlave_no_veto n e hv]
    refine Nat.lt_of_le_of_lt (ModifyScoreBasedOnPreferredPartners_le n _ _) ?_
    unfold slaveVeto at hv
    simp only [not_or] at hv
    obtain ⟨-, -, hsize, hrssi⟩ := hv
    obtain ⟨-, h2, ⟨h3, h3'⟩, h4, h5⟩ := hwt
    unfold wrapU32 toU32 UINT32_MAX
    generalize e.payload.clusterSize = a at *
    generalize e.payload.freeMeshOutConnections = b at *
    generalize e.rssi = r at *
    generalize n.stableConnectionRssiThreshold = t at *
    generalize n.clusterSize = c at *
    by_cases ha : 0 ≤ a
    · have e1 : a % 4294967296 = a := by omega
      obtain ⟨A, hA, hA1, hA2⟩ : ∃ A : Nat, a.toNat = A ∧ A ≤ 32767 ∧ (0 < c → 1 ≤ A) :=
        ⟨a.toNat, rfl, by omega, by omega⟩
      by_cases hr : 0 ≤ 100 + r
      · have e2 : (100 + r) % 4294967296 = 100 + r := by omega
        obtain ⟨R, hR, hR1⟩ : ∃ R : Nat, (100 + r).toNat = R ∧ R ≤ 227 :=
          ⟨(100 + r).toNat, rfl, by omega⟩
        rw [e1, e2, hA, hR, Nat.mod_eq_of_lt (by omega)]
        omega
      · have e2 : (100 + r) % 4294967296 = 100 + r + 4294967296 := by omega
        have hc : 0 < c := by omega
        obtain ⟨K, hK, hK1, hK2⟩ :
            ∃ K : Nat, (100 + r + 4294967296).toNat = 4294967296 - K ∧ 1 ≤ K ∧ K ≤ 28 :=
          ⟨(-(100 + r)).toNat, by omega, by omega, by omega⟩
        have hA3 := hA2 hc
        have key : A * 10000 + b * 100 + (4294967296 - K) =
            (A * 10000 + b * 100 - K) + 4294967296 * 1 := by omega
        rw [e1, e2, hA, hK, key, Nat.add_mul_mod_self_left, Nat.mod_eq_of_lt (by omega)]
        omega
    · have e1 : a % 4294967296 = a + 4294967296 := by omega
      have e2 : (100 + r) % 4294967296 = 100 + r := by omega
      obtain ⟨m, hm, hm1, hm2⟩ :
          ∃ m : Nat, (a + 4294967296).toNat = 4294967296 - m ∧ 1 ≤ m ∧ m ≤ 32768 :=
        ⟨(-a).toNat, by omega, by omega, by omega⟩
      obtain ⟨R, hR, hR1⟩ : ∃ R : Nat, (100 + r).toNat = R ∧ R ≤ 227 :=
        ⟨(100 + r).toNat, rfl, by omega⟩
      have key : (4294967296 - m) * 10000 + b * 100 + R =
          (4294967296 - 10000 * m + b * 100 + R) + 4294967296 * 9999 := by omega
      rw [e1, e2, hm, hR, key, Nat.add_mul_mod_self_left, Nat.mod_eq_of_lt (by omega)]
      omega

theorem firstSlot_lt_length (p : joinMeBufferPacket → Bool) (l : List joinMeBufferPacket) (i : Nat)
    (h : firstSlot p l 0 = some i) : i < l.length := by
  rcases firstSlot_spec p l 0 with ⟨hn, -⟩ | ⟨j, e, hs, he, -, -⟩
  · rw [hn] at h
    exact absurd h (by simp)
  · rw [hs] at h
    have := lt_length_of_getElem? he
    have hij : 0 + j = i := Option.some.inj h
    omega

theorem scanLowest_lt_length (eligible : joinMeBufferPacket → Bool) (key : joinMeBufferPacket → Nat)
    (l : List joinMeBufferPacket) (bound i : Nat)
    (h : (scanLowest eligible key l 0 (bound, none)).2 = some i) : i < l.length := by
  rcases scanLowest_spec eligible key l 0 (bound, none) with ⟨hr, -⟩ | ⟨j, e, hr, he, -, -, -⟩
  · rw [hr] at h
    exact absurd h (by simp)
  · rw [hr] at h
    have := lt_length_of_getElem? he
    have hij : 0 + j = i := Option.some.inj h
    omega

theorem evictionScore_lt_max (n : Node) (packet : advPacketPayloadJoinMeV0) (e : joinMeBufferPacket)
    (hwt : e.wellTyped) (hdom : -101 < n.stableConnectionRssiThreshold ∨ 0 < n.clusterSize) :
    evictionScore n packet e < UINT32_MAX := by
  unfold evictionScore
  split
  · exact CalculateClusterScoreAsMaster_lt_max n e hwt
  · exact CalculateClusterScoreAsSlave_lt_max n e hwt hdom

/-- C19: for a buffer of at least one slot whose entries hold values of their
field types, on a node whose stability threshold is above -101 or whose
clusterSize is positive, findTargetBuffer returns a valid slot for every
incoming beacon; no entry has a CalculateClusterScoreAsMaster or a
CalculateClusterScoreAsSlave equal to UINT32_MAX, so the last tier always finds
a slot, and GapAdvertisementMessageHandler stores the beacon in the slot
returned. -/
theorem findTargetBuffer_never_null (n : Node) (packet : advPacketPayloadJoinMeV0)
    (hne : n.joinMePackets ≠ []) (hwt : ∀ e ∈ n.joinMePackets, e.wellTyped)
    (hdom : -101 < n.stableConnectionRssiThreshold ∨ 0 < n.clusterSize) :
    (∃ i : Nat, (findTargetBuffer n packet).1 = some i ∧ i < n.joinMePackets.length) ∧
    (∀ e ∈ n.joinMePackets, CalculateClusterScoreAsMaster n e < UINT32_MAX ∧
      CalculateClusterScoreAsSlave n e < UINT32_MAX) ∧
    ((scanLowest (fun _ => true) (evictionScore n packet) n.joinMePackets 0
      (UINT32_MAX, none)).2).isSome = true := by
  have hscores : ∀ e ∈ n.joinMePackets, CalculateClusterScoreAsMaster n e < UINT32_MAX ∧
      CalculateClusterScoreAsSlave n e < UINT32_MAX :=
    fun e he => ⟨CalculateClusterScoreAsMaster_lt_max n e (hwt e he),
      CalculateClusterScoreAsSlave_lt_max n e (hwt e he) hdom⟩
  obtain ⟨e0, hmem⟩ := List.exists_mem_of_ne_nil _ hne
  obtain ⟨i, e, hscan, he, -, -, -⟩ :=
    scanLowest_of_below (fun _ => true) (evictionScore n packet) n.joinMePackets UINT32_MAX
      ⟨e0, hmem, rfl, evictionScore_lt_max n packet e0 (hwt e0 hmem) hdom⟩
  refine ⟨?_, hscores, by rw [hscan]; rfl⟩
  unfold findTargetBuffer
  cases h1 : firstSlot (fun t => decide (packet.sender = t.payload.sender)) n.joinMePackets 0 with
  | some j => exact ⟨j, rfl, firstSlot_lt_length _ _ _ h1⟩
  | none =>
    simp only
    cases h2 : firstSlot (fun t => decide (t.payload.sender = 0)) n.joinMePackets 0 with
    | some j => exact ⟨j, rfl, firstSlot_lt_length _ _ _ h2⟩
    | none =>
      simp only
      cases h3 : (scanLowest (fun t => decide (t.payload.clusterId = n.clusterId))
          (fun t => t.receivedTimeDs) n.joinMePackets 0 (UINT32_MAX, none)).2 with
      | some j => exact ⟨j, rfl, scanLowest_lt_length _ _ _ _ _ h3⟩
      | none =>
        simp only
        exact ⟨i, hscan, lt_length_of_getElem? he⟩

theorem findTargetBuffer_never_null_witness :
    (∃ i : Nat, (findTargetBuffer fullBufferNode newcomerPayload).1 = some i ∧
      i < fullBufferNode.joinMePackets.length) ∧
    (findTargetBuffer fullBufferNode newcomerPayload).1 = some 0 :=
  ⟨(findTargetBuffer_never_null fullBufferNode newcomerPayload (by decide) (by decide)
    (by decide)).1, by decide⟩

theorem CalculateClusterScoreAsSlave_max_corner :
    CalculateClusterScoreAsSlave
      { clusterId := 7, clusterSize := 0, appTimerDs := 1000, maxJoinMePacketAgeDs := 100,
        stableConnectionRssiThreshold := -110 }
      { rssi := -101, receivedTimeDs := 990, payload := { sender := 9, clusterId := 8 } } =
      UINT32_MAX := by
  decide

/-! ## Facts about the timer -/

theorem emergencyDisconnect_view (D : DisconnectAndRemoveFn) (hD : PreservesDiscoveryView D)
    (rnd : Nat) (n : Node) (best : Option Nat) :
    discoveryView (emergencyDisconnect D rnd n best) = discoveryView n := by
  unfold emergencyDisconnect
  split
  · simp only []
    split
    · split
      · rename_i i _ _
        have h := hD { n with emergencyDisconnectCounter := n.emergencyDisconnectCounter + 1 } i
          AppDisconnectReason.EMERGENCY_DISCONNECT
        unfold discoveryView at h ⊢
        exact h
      · rfl
    · rfl
  · rfl

theorem waitAsSlave_view (rnd : Nat) (n : Node) (bestCluster : joinMeBufferPacket) :
    discoveryView (waitAsSlave rnd n bestCluster) = discoveryView n := by
  unfold waitAsSlave
  simp only []
  split
  · simp only [discoveryView, ForceDisconnectOtherMeshConnections]
  · simp only [discoveryView]

theorem DetermineBestClusterAvailable_view (D : DisconnectAndRemoveFn)
    (hD : PreservesDiscoveryView D) (rnd1 rnd2 : Nat) (n : Node) :
    discoveryView (DetermineBestClusterAvailable D rnd1 rnd2 n).2 = discoveryView n := by
  have h1 := emergencyDisconnect_view D hD rnd1 n
    (scanBest (CalculateClusterScoreAsMaster n) n.joinMePackets 0 (0, none)).2
  unfold DetermineBestClusterAvailable
  simp only []
  generalize emergencyDisconnect D rnd1 n
    (scanBest (CalculateClusterScoreAsMaster n) n.joinMePackets 0 (0, none)).2 = n1 at h1 ⊢
  rw [← h1]
  split
  · rfl
  · have hn2 : ∀ m : Node, m = (if n1.joinMePackets.length > 0 then { n1 with currentAckId := 0 }
        else n1) → discoveryView m = discoveryView n1 := by
      intro m hm
      subst hm
      split <;> rfl
    generalize (if n1.joinMePackets.length > 0 then { n1 with currentAckId := 0 } else n1) = n2
      at hn2 ⊢
    have h2 := hn2 n2 rfl
    split
    · split
      · rw [waitAsSlave_view]
        exact h2
      · exact h2
    · exact h2

theorem decisionStep_view (D : DisconnectAndRemoveFn) (hD : PreservesDiscoveryView D)
    (rnd1 rnd2 : Nat) (n : Node) :
    discoveryView (decisionStep D rnd1 rnd2 n) = discoveryView n := by
  have h := DetermineBestClusterAvailable_view D hD rnd1 rnd2 n
  unfold decisionStep
  split
  · simp only []
    generalize DetermineBestClusterAvailable D rnd1 rnd2 n = d at h ⊢
    rw [← h]
    split
    · rfl
    · split <;> rfl
  · rfl

theorem TimerEventHandler_no_reboot (D : DisconnectAndRemoveFn) (hD : PreservesDiscoveryView D)
    (rnd1 rnd2 : Nat) (n : Node) (passedTimeDs : Nat)
    (hreb : (stateTimeoutStep n passedTimeDs).rebootTimeDs = 0) :
    ∃ m : Node, TimerEventHandler D rnd1 rnd2 n passedTimeDs = some m ∧
      discoveryView m = discoveryView (stateTimeoutStep n passedTimeDs) := by
  have h := decisionStep_view D hD rnd1 rnd2 (stateTimeoutStep n passedTimeDs)
  refine ⟨decisionStep D rnd1 rnd2 (stateTimeoutStep n passedTimeDs), ?_, h⟩
  unfold TimerEventHandler
  simp only []
  have hr : (decisionStep D rnd1 rnd2 (stateTimeoutStep n passedTimeDs)).rebootTimeDs = 0 := by
    have := congrArg (fun v => v.2.2.2.2.2) h
    simp only [discoveryView] at this
    rw [this, hreb]
  rw [if_neg (fun hc => hc.1 hr)]

theorem discoveryView_eq {a b : Node} (h : discoveryView a = discoveryView b) :
    a.currentDiscoveryState = b.currentDiscoveryState ∧
    a.nextDiscoveryState = b.nextDiscoveryState ∧
    a.currentStateTimeoutDs = b.currentStateTimeoutDs ∧
    a.stateMachineDisabled = b.stateMachineDisabled ∧
    a.moduleActive = b.moduleActive ∧
    a.rebootTimeDs = b.rebootTimeDs := by
  simpa [discoveryView] using h

theorem ChangeState_rebootTimeDs (n : Node) (s : DiscoveryState) :
    (ChangeState n s).rebootTimeDs = n.rebootTimeDs := by
  unfold ChangeState
  split
  · rfl
  · cases s <;> rfl

theorem ChangeState_LOW (n : Node) (hstate : n.currentDiscoveryState = DiscoveryState.HIGH)
    (hen : n.stateMachineDisabled = false) (hact : n.moduleActive = true) :
    (ChangeState n DiscoveryState.LOW).currentDiscoveryState = DiscoveryState.LOW ∧
    (ChangeState n DiscoveryState.LOW).nextDiscoveryState = DiscoveryState.INVALID := by
  unfold ChangeState
  rw [if_neg (by simp [hstate, hen, hact])]
  exact ⟨rfl, rfl⟩

theorem ChangeState_HIGH (n : Node) (hstate : n.currentDiscoveryState ≠ DiscoveryState.HIGH)
    (hen : n.stateMachineDisabled = false) (hact : n.moduleActive = true) :
    (ChangeState n DiscoveryState.HIGH).currentDiscoveryState = DiscoveryState.HIGH ∧
    (ChangeState n DiscoveryState.HIGH).currentStateTimeoutDs =
      (SEC_TO_DS n.highToLowDiscoveryTimeSec : Int) ∧
    (ChangeState n DiscoveryState.HIGH).nextDiscoveryState =
      (if n.highToLowDiscoveryTimeSec = 0 then DiscoveryState.INVALID else DiscoveryState.LOW) := by
  unfold ChangeState
  rw [if_neg (by simp [hstate, hen, hact])]
  exact ⟨rfl, rfl, rfl⟩

theorem stateTimeoutStep_rebootTimeDs (n : Node) (passedTimeDs : Nat) :
    (stateTimeoutStep n passedTimeDs).rebootTimeDs = n.rebootTimeDs := by
  unfold stateTimeoutStep
  simp only []
  split
  · rw [ChangeState_rebootTimeDs]
  · rfl

theorem stateTimeoutStep_no_next (n : Node) (passedTimeDs : Nat)
    (hnext : n.nextDiscoveryState = DiscoveryState.INVALID) :
    (stateTimeoutStep n passedTimeDs).currentDiscoveryState = n.currentDiscoveryState ∧
    (stateTimeoutStep n passedTimeDs).nextDiscoveryState = DiscoveryState.INVALID := by
  unfold stateTimeoutStep
  simp only []
  rw [if_neg (fun h => h.1 hnext)]
  exact ⟨rfl, hnext⟩

theorem stateTimeoutStep_wait (n : Node) (passedTimeDs : Nat)
    (h : 0 < n.currentStateTimeoutDs - ((passedTimeDs % 65536 : Nat) : Int)) :
    stateTimeoutStep n passedTimeDs =
      { n with currentStateTimeoutDs :=
          n.currentStateTimeoutDs - ((passedTimeDs % 65536 : Nat) : Int) } := by
  unfold stateTimeoutStep
  simp only []
  rw [if_neg (fun hc => absurd hc.2 (by omega))]

theorem stateTimeoutStep_fire (n : Node) (passedTimeDs : Nat)
    (hstate : n.currentDiscoveryState = DiscoveryState.HIGH)
    (hnext : n.nextDiscoveryState = DiscoveryState.LOW)
    (hen : n.stateMachineDisabled = false) (hact : n.moduleActive = true)
    (h : n.currentStateTimeoutDs - ((passedTimeDs % 65536 : Nat) : Int) ≤ 0) :
    (stateTimeoutStep n passedTimeDs).currentDiscoveryState = DiscoveryState.LOW ∧
    (stateTimeoutStep n passedTimeDs).nextDiscoveryState = DiscoveryState.INVALID := by
  unfold stateTimeoutStep
  simp only []
  rw [if_pos ⟨by rw [hnext]; decide, h⟩, hnext]
  exact ChangeState_LOW _ hstate hen hact

theorem runTicks_no_next (D : DisconnectAndRemoveFn) (hD : PreservesDiscoveryView D)
    (ticks : List TimerTick) (n : Node) (hnext : n.nextDiscoveryState = DiscoveryState.INVALID)
    (hreb : n.rebootTimeDs = 0) :
    ∃ m : Node, runTicks D ticks n = some m ∧
      m.currentDiscoveryState = n.currentDiscoveryState ∧
      m.nextDiscoveryState = DiscoveryState.INVALID := by
  induction ticks generalizing n with
  | nil => exact ⟨n, rfl, rfl, hnext⟩
  | cons tick rest ih =>
    obtain ⟨m1, hm1, hv⟩ := TimerEventHandler_no_reboot D hD tick.rnd1 tick.rnd2
      { n with appTimerDs := tick.appTimerDs } tick.passedTimeDs
      (by rw [stateTimeoutStep_rebootTimeDs]; exact hreb)
    obtain ⟨v1, v2, -, -, -, v6⟩ := discoveryView_eq hv
    obtain ⟨s1, s2⟩ := stateTimeoutStep_no_next { n with appTimerDs := tick.appTimerDs }
      tick.passedTimeDs hnext
    rw [stateTimeoutStep_rebootTimeDs] at v6
    obtain ⟨m, hm, e1, e2⟩ := ih m1 (by rw [v2, s2]) (by rw [v6]; exact hreb)
    refine ⟨m, ?_, ?_, e2⟩
    · unfold runTicks
      rw [hm1]
      exact hm
    · rw [e1, v1, s1]

theorem runTicks_total (D : DisconnectAndRemoveFn) (hD : PreservesDiscoveryView D)
    (ticks : List TimerTick) (n : Node) (hreb : n.rebootTimeDs = 0) :
    ∃ m : Node, runTicks D ticks n = some m := by
  induction ticks generalizing n with
  | nil => exact ⟨n, rfl⟩
  | cons tick rest ih =>
    obtain ⟨m1, hm1, hv⟩ := TimerEventHandler_no_reboot D hD tick.rnd1 tick.rnd2
      { n with appTimerDs := tick.appTimerDs } tick.passedTimeDs
      (by rw [stateTimeoutStep_rebootTimeDs]; exact hreb)
    obtain ⟨-, -, -, -, -, v6⟩ := discoveryView_eq hv
    rw [stateTimeoutStep_rebootTimeDs] at v6
    obtain ⟨m, hm⟩ := ih m1 (by rw [v6]; exact hreb)
    refine ⟨m, ?_⟩
    unfold runTicks
    rw [hm1]
    exact hm

theorem elapsedDs_cons (tick : TimerTick) (rest : List TimerTick) :
    elapsedDs (tick :: rest) = tick.passedTimeDs % 65536 + elapsedDs rest := by
  simp [elapsedDs]

theorem runTicks_armed (D : DisconnectAndRemoveFn) (hD : PreservesDiscoveryView D)
    (ticks : List TimerTick) (n : Node)
    (hstate : n.currentDiscoveryState = DiscoveryState.HIGH)
    (hnext : n.nextDiscoveryState = DiscoveryState.LOW)
    (hen : n.stateMachineDisabled = false) (hact : n.moduleActive = true)
    (hreb : n.rebootTimeDs = 0) (hpos : 0 < n.currentStateTimeoutDs) :
    ∃ m : Node, runTicks D ticks n = some m ∧
      (n.currentStateTimeoutDs ≤ (elapsedDs ticks : Int) →
        m.currentDiscoveryState = DiscoveryState.LOW) ∧
      ((elapsedDs ticks : Int) < n.currentStateTimeoutDs →
        m.currentDiscoveryState = DiscoveryState.HIGH ∧
        m.nextDiscoveryState = DiscoveryState.LOW ∧
        m.currentStateTimeoutDs = n.currentStateTimeoutDs - (elapsedDs ticks : Int)) := by
  induction ticks generalizing n with
  | nil =>
    refine ⟨n, rfl, ?_, ?_⟩
    · intro h
      simp [elapsedDs] at h
      omega
    · intro _
      simp [elapsedDs, hstate, hnext]
  | cons tick rest ih =>
    obtain ⟨m1, hm1, hv⟩ := TimerEventHandler_no_reboot D hD tick.rnd1 tick.rnd2
      { n with appTimerDs := tick.appTimerDs } tick.passedTimeDs
      (by rw [stateTimeoutStep_rebootTimeDs]; exact hreb)
    obtain ⟨v1, v2, v3, v4, v5, v6⟩ := discoveryView_eq hv
    rw [stateTimeoutStep_rebootTimeDs] at v6
    have hrun : ∀ m : Node, runTicks D rest m1 = some m → runTicks D (tick :: rest) n = some m := by
      intro m hm
      show (match TimerEventHandler D tick.rnd1 tick.rnd2 { n with appTimerDs := tick.appTimerDs }
          tick.passedTimeDs with
        | some m => runTicks D rest m
        | none => none) = some m
      rw [hm1]
      exact hm
    rw [elapsedDs_cons]
    by_cases hfire : n.currentStateTimeoutDs - ((tick.passedTimeDs % 65536 : Nat) : Int) ≤ 0
    · obtain ⟨s1, s2⟩ := stateTimeoutStep_fire { n with appTimerDs := tick.appTimerDs }
        tick.passedTimeDs hstate hnext hen hact hfire
      obtain ⟨m, hm, e1, -⟩ := runTicks_no_next D hD rest m1 (by rw [v2, s2]) (by rw [v6]; exact hreb)
      refine ⟨m, hrun m hm, ?_, ?_⟩
      · intro _
        rw [e1, v1, s1]
      · intro h
        push_cast at h
        omega
    · have hwait : 0 < n.currentStateTimeoutDs - ((tick.passedTimeDs % 65536 : Nat) : Int) := by
        omega
      have hs := stateTimeoutStep_wait { n with appTimerDs := tick.appTimerDs } tick.passedTimeDs
        hwait
      rw [hs] at v1 v2 v3 v4 v5
      simp only at v1 v2 v3 v4 v5
      obtain ⟨m, hm, e1, e2⟩ := ih m1 (by rw [v1, hstate]) (by rw [v2, hnext]) (by rw [v4, hen])
        (by rw [v5, hact]) (by rw [v6, hreb]) (by rw [v3]; exact hwait)
      rw [v3] at e1 e2
      refine ⟨m, hrun m hm, ?_, ?_⟩
      · intro h
        apply e1
        push_cast at h
        omega
      · intro h
        push_cast at h
        obtain ⟨r1, r2, r3⟩ := e2 (by omega)
        refine ⟨r1, r2, ?_⟩
        rw [r3]
        push_cast
        omega

theorem KeepHighDiscoveryActive_rearm (n : Node)
    (hstate : n.currentDiscoveryState = DiscoveryState.HIGH) :
    KeepHighDiscoveryActive n =
      { n with currentStateTimeoutDs := (SEC_TO_DS n.highToLowDiscoveryTimeSec : Int) } := by
  unfold KeepHighDiscoveryActive
  rw [if_pos hstate]

theorem runTicks_discovery_of_view (D : DisconnectAndRemoveFn) (hD : PreservesDiscoveryView D)
    (n : Node) (ticks : List TimerTick) (hen : n.stateMachineDisabled = false)
    (hact : n.moduleActive = true) (hreb : n.rebootTimeDs = 0) :
    (∃ m : Node, runTicks D ticks n = some m ∧
      (n.currentDiscoveryState = DiscoveryState.HIGH →
        n.nextDiscoveryState = DiscoveryState.LOW → 0 < n.currentStateTimeoutDs →
        (m.currentDiscoveryState = DiscoveryState.LOW ↔
          n.currentStateTimeoutDs ≤ (elapsedDs ticks : Int)) ∧
        (m.currentDiscoveryState = DiscoveryState.HIGH ↔
          (elapsedDs ticks : Int) < n.currentStateTimeoutDs)) ∧
      (n.nextDiscoveryState = DiscoveryState.INVALID →
        m.currentDiscoveryState = n.currentDiscoveryState)) ∧
    (n.currentDiscoveryState ≠ DiscoveryState.HIGH →
      (ChangeState n DiscoveryState.HIGH).currentDiscoveryState = DiscoveryState.HIGH ∧
      (ChangeState n DiscoveryState.HIGH).currentStateTimeoutDs =
        (SEC_TO_DS n.highToLowDiscoveryTimeSec : Int) ∧
      (ChangeState n DiscoveryState.HIGH).nextDiscoveryState =
        (if n.highToLowDiscoveryTimeSec = 0 then DiscoveryState.INVALID else DiscoveryState.LOW)) ∧
    (n.currentDiscoveryState = DiscoveryState.HIGH →
      KeepHighDiscoveryActive n =
        { n with currentStateTimeoutDs := (SEC_TO_DS n.highToLowDiscoveryTimeSec : Int) }) := by
  refine ⟨?_, fun h => ChangeState_HIGH n h hen hact, KeepHighDiscoveryActive_rearm n⟩
  obtain ⟨m, hm⟩ := runTicks_total D hD ticks n hreb
  refine ⟨m, hm, ?_, ?_⟩
  · intro hstate hnext hpos
    obtain ⟨m2, hm2, e1, e2⟩ := runTicks_armed D hD ticks n hstate hnext hen hact hreb hpos
    rw [hm] at hm2
    cases Option.some.inj hm2
    constructor
    · constructor
      · intro hlow
        by_contra hlt
        have := (e2 (by omega)).1
        rw [hlow] at this
        exact absurd this (by decide)
      · exact e1
    · constructor
      · intro hhigh
        by_contra hge
        have := e1 (by omega)
        rw [hhigh] at this
        exact absurd this (by decide)
      · intro hlt
        exact (e2 hlt).1
  · intro hnext
    obtain ⟨m2, hm2, e1, -⟩ := runTicks_no_next D hD ticks n hnext hreb
    rw [hm] at hm2
    cases Option.some.inj hm2
    exact e1

/-! ## Facts about the discovery state machine -/

theorem discoveryFields_eq {a b : Node} (h : discoveryFields a = discoveryFields b) :
    a.currentDiscoveryState = b.currentDiscoveryState ∧
    a.nextDiscoveryState = b.nextDiscoveryState ∧
    a.currentStateTimeoutDs = b.currentStateTimeoutDs ∧
    a.stateMachineDisabled = b.stateMachineDisabled ∧
    a.moduleActive = b.moduleActive ∧
    a.highToLowDiscoveryTimeSec = b.highToLowDiscoveryTimeSec := by
  simpa [discoveryFields] using h

theorem HandOverMasterBitIfNecessary_fields (n : Node) :
    discoveryFields (HandOverMasterBitIfNecessary n) = discoveryFields n := by
  unfold HandOverMasterBitIfNecessary
  split
  · simp only [discoveryFields]
  · rfl

theorem sendFold_fields (H : HopsToShortestSink) (ig : Option Nat) (p : Option ClusterInfoUpdate)
    (ks : List Nat) (n : Node) :
    discoveryFields (ks.foldl (sendIter H ig p) n) = discoveryFields n := by
  induction ks generalizing n with
  | nil => rfl
  | cons k rest ih =>
    rw [List.foldl_cons, ih]
    simp only [discoveryFields, sendIter]

theorem SendClusterInfoUpdate_fields (H : HopsToShortestSink) (n : Node) (ig : Option Nat)
    (p : Option ClusterInfoUpdate) :
    discoveryFields (SendClusterInfoUpdate H n ig p) = discoveryFields n := by
  unfold SendClusterInfoUpdate
  rw [HandOverMasterBitIfNecessary_fields, sendFold_fields]

theorem KeepHighDiscoveryActive_congr {a b : Node} (h : discoveryFields a = discoveryFields b) :
    discoveryFields (KeepHighDiscoveryActive a) = discoveryFields (KeepHighDiscoveryActive b) := by
  obtain ⟨h1, h2, h3, h4, h5, h6⟩ := discoveryFields_eq h
  unfold KeepHighDiscoveryActive ChangeState
  simp only [discoveryFields, h1, h2, h3, h4, h5, h6]
  split
  · rfl
  · split
    · simp only [h1, h2, h3, h4, h5, h6]
    · rfl

theorem KeepHighDiscoveryActive_high (n : Node) (hen : n.stateMachineDisabled = false)
    (hact : n.moduleActive = true) :
    (KeepHighDiscoveryActive n).currentDiscoveryState = DiscoveryState.HIGH ∧
    (KeepHighDiscoveryActive n).currentStateTimeoutDs =
      (SEC_TO_DS n.highToLowDiscoveryTimeSec : Int) ∧
    (KeepHighDiscoveryActive n).highToLowDiscoveryTimeSec = n.highToLowDiscoveryTimeSec := by
  unfold KeepHighDiscoveryActive
  split
  · rename_i h
    exact ⟨h, rfl, rfl⟩
  · rename_i h
    unfold ChangeState
    rw [if_neg (by simp [h, hen, hact])]
    exact ⟨rfl, rfl, rfl⟩

theorem handshakeCommit_fields (H : HopsToShortestSink) (n : Node) (i : Nat)
    (connection : MeshConnection) (w : Bool) :
    discoveryFields (handshakeCommit H n i connection w) = discoveryFields n := by
  unfold handshakeCommit
  split
  · rw [SendClusterInfoUpdate_fields]
    simp only [discoveryFields]
  · simp only [discoveryFields]

theorem HandshakeDoneHandler_fields (H : HopsToShortestSink) (n : Node) (i : Nat)
    (connection : MeshConnection) (w : Bool) (hconn : n.connections[i]? = some connection) :
    discoveryFields (HandshakeDoneHandler H n i w) =
      discoveryFields (KeepHighDiscoveryActive n) := by
  rw [HandshakeDoneHandler_eq H n i connection w hconn, HandOverMasterBitIfNecessary_fields]
  apply KeepHighDiscoveryActive_congr
  rw [SendClusterInfoUpdate_fields]
  have h := handshakeCommit_fields H n i connection w
  generalize handshakeCommit H n i connection w = m at h ⊢
  rw [← h]
  simp only [discoveryFields]

theorem disconnectStage_fields (H : HopsToShortestSink) (n : Node) (reason : AppDisconnectReason)
    (stateBefore : ConnectionState) (hadBit : Bool) (size : Int) :
    discoveryFields (disconnectStage H n reason stateBefore hadBit size) = discoveryFields n := by
  unfold disconnectStage
  split
  · unfold disconnectCommit
    split
    · simp only []
      rw [SendClusterInfoUpdate_fields]
      split
      · simp only [discoveryFields, ForceDisconnectOtherMeshConnections]
      · simp only [discoveryFields]
    · simp only []
      rw [SendClusterInfoUpdate_fields]
      simp only [discoveryFields]
  · simp only [discoveryFields]

theorem MeshConnectionDisconnectedHandler_fields (H : HopsToShortestSink) (n : Node)
    (reason : AppDisconnectReason) (stateBefore : ConnectionState) (hadBit : Bool) (size : Int)
    (cid : Nat) :
    discoveryFields (MeshConnectionDisconnectedHandler H n reason stateBefore hadBit size cid) =
      discoveryFields (KeepHighDiscoveryActive n) := by
  rw [MeshConnectionDisconnectedHandler_eq]
  have h := KeepHighDiscoveryActive_congr (disconnectStage_fields H n reason stateBefore hadBit size)
  generalize KeepHighDiscoveryActive (disconnectStage H n reason stateBefore hadBit size) = k at h ⊢
  rw [← h]
  have h2 : ∀ m : Node, discoveryFields { HandOverMasterBitIfNecessary m with
      noNodesFoundCounter := 0 } = discoveryFields m := by
    intro m
    have := HandOverMasterBitIfNecessary_fields m
    simp only [discoveryFields] at this ⊢
    exact this
  rw [h2]
  split
  · simp only [discoveryFields]
  · rfl

theorem ReceiveClusterInfoUpdate_fields (H : HopsToShortestSink) (n : Node) (i : Nat)
    (connection : MeshConnection) (packet : ClusterInfoUpdate)
    (hconn : n.connections[i]? = some connection)
    (hcnt : packet.counter = connection.nextExpectedClusterUpdateCounter) :
    discoveryFields (ReceiveClusterInfoUpdate H n i packet) =
      discoveryFields (KeepHighDiscoveryActive n) := by
  rw [ReceiveClusterInfoUpdate_eq H n i connection packet hconn hcnt]
  apply KeepHighDiscoveryActive_congr
  rw [SendClusterInfoUpdate_fields, HandOverMasterBitIfNecessary_fields]
  simp only [discoveryFields]

/-- C21: with the state machine enabled and the node module active, after a
handshake commit, after a link-loss callback and after an applied cluster-info
update the discovery state is HIGH and currentStateTimeoutDs is the full
timeout SEC_TO_DS(highToLowDiscoveryTimeSec), whatever the discovery state and
the remaining timeout were before. -/
theorem discovery_rearmed_by_cluster_events (H : HopsToShortestSink) (n : Node)
    (hen : n.stateMachineDisabled = false) (hact : n.moduleActive = true) :
    (∀ (i : Nat) (connection : MeshConnection) (w : Bool), n.connections[i]? = some connection →
      (HandshakeDoneHandler H n i w).currentDiscoveryState = DiscoveryState.HIGH ∧
      (HandshakeDoneHandler H n i w).currentStateTimeoutDs =
        (SEC_TO_DS n.highToLowDiscoveryTimeSec : Int)) ∧
    (∀ (reason : AppDisconnectReason) (stateBefore : ConnectionState) (hadBit : Bool) (size : Int)
        (cid : Nat),
      (MeshConnectionDisconnectedHandler H n reason stateBefore hadBit size cid).currentDiscoveryState
        = DiscoveryState.HIGH ∧
      (MeshConnectionDisconnectedHandler H n reason stateBefore hadBit size cid).currentStateTimeoutDs
        = (SEC_TO_DS n.highToLowDiscoveryTimeSec : Int)) ∧
    (∀ (i : Nat) (connection : MeshConnection) (packet : ClusterInfoUpdate),
      n.connections[i]? = some connection →
      packet.counter = connection.nextExpectedClusterUpdateCounter →
      (ReceiveClusterInfoUpdate H n i packet).currentDiscoveryState = DiscoveryState.HIGH ∧
      (ReceiveClusterInfoUpdate H n i packet).currentStateTimeoutDs =
        (SEC_TO_DS n.highToLowDiscoveryTimeSec : Int)) := by
  obtain ⟨k1, k2, -⟩ := KeepHighDiscoveryActive_high n hen hact
  refine ⟨?_, ?_, ?_⟩
  · intro i connection w hconn
    obtain ⟨e1, -, e3, -⟩ := discoveryFields_eq (HandshakeDoneHandler_fields H n i connection w hconn)
    exact ⟨e1.trans k1, e3.trans k2⟩
  · intro reason stateBefore hadBit size cid
    obtain ⟨e1, -, e3, -⟩ := discoveryFields_eq
      (MeshConnectionDisconnectedHandler_fields H n reason stateBefore hadBit size cid)
    exact ⟨e1.trans k1, e3.trans k2⟩
  · intro i connection packet hconn hcnt
    obtain ⟨e1, -, e3, -⟩ := discoveryFields_eq
      (ReceiveClusterInfoUpdate_fields H n i connection packet hconn hcnt)
    exact ⟨e1.trans k1, e3.trans k2⟩

theorem discovery_rearmed_by_cluster_events_witness :
    lowNode.currentDiscoveryState = DiscoveryState.LOW ∧
    lowNode.currentStateTimeoutDs = 0 ∧
    (HandshakeDoneHandler sampleHops lowNode 1 true).currentDiscoveryState = DiscoveryState.HIGH ∧
    (HandshakeDoneHandler sampleHops lowNode 1 true).currentStateTimeoutDs = 30 ∧
    (ReceiveClusterInfoUpdate sampleHops lowNode 0 { clusterSizeChange := 1 }).currentStateTimeoutDs
      = 30 :=
  ⟨rfl, rfl,
    ((discovery_rearmed_by_cluster_events sampleHops lowNode rfl rfl).1 1 handshakingLink true
      (by decide)).1,
    by decide,
    ((discovery_rearmed_by_cluster_events sampleHops lowNode rfl rfl).2.2 0 sampleLink
      { clusterSizeChange := 1 } (by decide) (by decide)).2⟩

theorem DiscoveryWellFormed.of_fields {a b : Node} (h : discoveryFields a = discoveryFields b)
    (hb : DiscoveryWellFormed b) : DiscoveryWellFormed a := by
  obtain ⟨h1, h2, -⟩ := discoveryFields_eq h
  unfold DiscoveryWellFormed
  rw [h1, h2]
  exact hb

theorem ChangeState_wellFormed (n : Node) (s : DiscoveryState) (hs : s ≠ DiscoveryState.INVALID)
    (h : DiscoveryWellFormed n) : DiscoveryWellFormed (ChangeState n s) := by
  unfold ChangeState
  split
  · exact h
  · cases s with
    | HIGH =>
      refine ⟨?_, fun hc => absurd hc (by simp)⟩
      simp only
      split <;> simp
    | LOW => exact ⟨by simp, fun _ => rfl⟩
    | OFF => exact ⟨by simp, fun _ => rfl⟩
    | INVALID => exact absurd rfl hs

theorem ChangeState_state (n : Node) (s : DiscoveryState) :
    (ChangeState n s).currentDiscoveryState = n.currentDiscoveryState ∨
    (ChangeState n s).currentDiscoveryState = s := by
  unfold ChangeState
  split
  · exact Or.inl rfl
  · right
    cases s <;> rfl

theorem KeepHighDiscoveryActive_wellFormed (n : Node) (h : DiscoveryWellFormed n) :
    DiscoveryWellFormed (KeepHighDiscoveryActive n) ∧
    ((KeepHighDiscoveryActive n).currentDiscoveryState = DiscoveryState.OFF →
      n.currentDiscoveryState = DiscoveryState.OFF) := by
  unfold KeepHighDiscoveryActive
  split
  · rename_i hh
    refine ⟨⟨h.1, fun hc => ?_⟩, fun hc => ?_⟩
    · simp only at hc
      rw [hh] at hc
      exact absurd hc (by decide)
    · simp only at hc
      rw [hh] at hc
      exact absurd hc (by decide)
  · refine ⟨ChangeState_wellFormed n DiscoveryState.HIGH (by decide) h, fun hc => ?_⟩
    rcases ChangeState_state n DiscoveryState.HIGH with e | e
    · rw [← e]
      exact hc
    · rw [e] at hc
      exact absurd hc (by decide)

theorem stateTimeoutStep_off (n : Node) (passedTimeDs : Nat) (h : DiscoveryWellFormed n) :
    DiscoveryWellFormed (stateTimeoutStep n passedTimeDs) ∧
    ((stateTimeoutStep n passedTimeDs).currentDiscoveryState = DiscoveryState.OFF ↔
      n.currentDiscoveryState = DiscoveryState.OFF) := by
  unfold stateTimeoutStep
  simp only []
  split
  · rename_i hfire
    have hnext : n.nextDiscoveryState ≠ DiscoveryState.INVALID := hfire.1
    have hoff : n.currentDiscoveryState ≠ DiscoveryState.OFF := fun hc => hnext (h.2 hc)
    refine ⟨ChangeState_wellFormed _ _ hnext h, ?_⟩
    constructor
    · intro hc
      rcases ChangeState_state
        { n with currentStateTimeoutDs :=
            n.currentStateTimeoutDs - ((passedTimeDs % 65536 : Nat) : Int) }
        n.nextDiscoveryState with e | e
      · rw [e] at hc
        exact hc
      · rw [e] at hc
        exact absurd hc h.1
    · intro hc
      exact absurd hc hoff
  · exact ⟨h, Iff.rfl⟩

theorem TimerEventHandler_some (D : DisconnectAndRemoveFn) (rnd1 rnd2 : Nat) (n m : Node)
    (passedTimeDs : Nat) (h : TimerEventHandler D rnd1 rnd2 n passedTimeDs = some m) :
    m = decisionStep D rnd1 rnd2 (stateTimeoutStep n passedTimeDs) := by
  unfold TimerEventHandler at h
  simp only [] at h
  split at h
  · exact absurd h (by simp)
  · exact (Option.some.inj h).symm

theorem findTargetBuffer_state (n : Node) (packet : advPacketPayloadJoinMeV0) :
    (findTargetBuffer n packet).2 = n ∨
    (findTargetBuffer n packet).2 = KeepHighDiscoveryActive n := by
  unfold findTargetBuffer
  split
  · exact Or.inl rfl
  · split
    · exact Or.inr rfl
    · split
      · exact Or.inl rfl
      · exact Or.inl rfl

theorem GapAdvertisementMessageHandler_fields (n : Node) (event : GapAdvertisementReportEvent) :
    discoveryFields (GapAdvertisementMessageHandler n event) = discoveryFields n ∨
    discoveryFields (GapAdvertisementMessageHandler n event) =
      discoveryFields (KeepHighDiscoveryActive n) := by
  unfold GapAdvertisementMessageHandler
  split
  · exact Or.inl rfl
  · split
    · split
      · have hs := findTargetBuffer_state n event.payload
        generalize findTargetBuffer n event.payload = r at hs ⊢
        obtain ⟨o, n1⟩ := r
        simp only at hs
        cases o with
        | some i =>
          simp only [discoveryFields]
          rcases hs with e | e
          · left
            rw [e]
          · right
            rw [e]
        | none =>
          simp only
          rcases hs with e | e
          · left
            rw [e]
          · right
            rw [e]
      · exact Or.inl rfl
    · exact Or.inl rfl

theorem findTargetBuffer_empty_slot (n : Node) (packet : advPacketPayloadJoinMeV0)
    (hnew : ∀ e ∈ n.joinMePackets, e.payload.sender ≠ packet.sender)
    (hempty : ∃ e ∈ n.joinMePackets, e.payload.sender = 0) :
    ∃ i : Nat, findTargetBuffer n packet = (some i, KeepHighDiscoveryActive n) := by
  obtain ⟨e0, hmem, h0⟩ := hempty
  obtain ⟨i, e, hfirst, -, -, -⟩ :=
    firstSlot_of_mem (fun t => decide (t.payload.sender = 0)) n.joinMePackets
      ⟨e0, hmem, by simp [h0]⟩
  refine ⟨i, ?_⟩
  unfold findTargetBuffer
  rw [findTargetBuffer_first_tier_none n packet hnew]
  simp only
  rw [hfirst]

theorem HandshakeDoneHandler_off (H : HopsToShortestSink) (n : Node) (i : Nat) (w : Bool)
    (hwf : DiscoveryWellFormed n) :
    DiscoveryWellFormed (HandshakeDoneHandler H n i w) ∧
    ((HandshakeDoneHandler H n i w).currentDiscoveryState = DiscoveryState.OFF →
      n.currentDiscoveryState = DiscoveryState.OFF) := by
  cases hconn : n.connections[i]? with
  | none =>
    rw [HandshakeDoneHandler_none H n i w hconn]
    exact ⟨hwf, id⟩
  | some connection =>
    have hf := HandshakeDoneHandler_fields H n i connection w hconn
    obtain ⟨k1, k2⟩ := KeepHighDiscoveryActive_wellFormed n hwf
    refine ⟨DiscoveryWellFormed.of_fields hf k1, fun hc => k2 ?_⟩
    rw [← (discoveryFields_eq hf).1]
    exact hc

theorem MeshConnectionDisconnectedHandler_off (H : HopsToShortestSink) (n : Node)
    (reason : AppDisconnectReason) (stateBefore : ConnectionState) (hadBit : Bool) (size : Int)
    (cid : Nat) (hwf : DiscoveryWellFormed n) :
    DiscoveryWellFormed (MeshConnectionDisconnectedHandler H n reason stateBefore hadBit size cid) ∧
    ((MeshConnectionDisconnectedHandler H n reason stateBefore hadBit size cid).currentDiscoveryState
        = DiscoveryState.OFF → n.currentDiscoveryState = DiscoveryState.OFF) := by
  have hf := MeshConnectionDisconnectedHandler_fields H n reason stateBefore hadBit size cid
  obtain ⟨k1, k2⟩ := KeepHighDiscoveryActive_wellFormed n hwf
  refine ⟨DiscoveryWellFormed.of_fields hf k1, fun hc => k2 ?_⟩
  rw [← (discoveryFields_eq hf).1]
  exact hc

theorem ReceiveClusterInfoUpdate_off (H : HopsToShortestSink) (n : Node) (i : Nat)
    (packet : ClusterInfoUpdate) (hwf : DiscoveryWellFormed n) :
    DiscoveryWellFormed (ReceiveClusterInfoUpdate H n i packet) ∧
    ((ReceiveClusterInfoUpdate H n i packet).currentDiscoveryState = DiscoveryState.OFF →
      n.currentDiscoveryState = DiscoveryState.OFF) := by
  by_cases happ : ∃ connection, n.connections[i]? = some connection ∧
      packet.counter = connection.nextExpectedClusterUpdateCounter
  · obtain ⟨connection, hconn, hcnt⟩ := happ
    have hf := ReceiveClusterInfoUpdate_fields H n i connection packet hconn hcnt
    obtain ⟨k1, k2⟩ := KeepHighDiscoveryActive_wellFormed n hwf
    refine ⟨DiscoveryWellFormed.of_fields hf k1, fun hc => k2 ?_⟩
    rw [← (discoveryFields_eq hf).1]
    exact hc
  · rw [ReceiveClusterInfoUpdate_unexpected H n i packet
      (fun connection hconn hcnt => happ ⟨connection, hconn, hcnt⟩)]
    exact ⟨hwf, id⟩

theorem GapAdvertisementMessageHandler_off (n : Node) (event : GapAdvertisementReportEvent)
    (hwf : DiscoveryWellFormed n) :
    DiscoveryWellFormed (GapAdvertisementMessageHandler n event) ∧
    ((GapAdvertisementMessageHandler n event).currentDiscoveryState = DiscoveryState.OFF →
      n.currentDiscoveryState = DiscoveryState.OFF) := by
  rcases GapAdvertisementMessageHandler_fields n event with hf | hf
  · refine ⟨DiscoveryWellFormed.of_fields hf hwf, fun hc => ?_⟩
    rw [← (discoveryFields_eq hf).1]
    exact hc
  · obtain ⟨k1, k2⟩ := KeepHighDiscoveryActive_wellFormed n hwf
    refine ⟨DiscoveryWellFormed.of_fields hf k1, fun hc => k2 ?_⟩
    rw [← (discoveryFields_eq hf).1]
    exact hc

theorem TimerEventHandler_off (D : DisconnectAndRemoveFn) (hD : PreservesDiscoveryView D)
    (rnd1 rnd2 : Nat) (n m : Node) (passedTimeDs : Nat) (hwf : DiscoveryWellFormed n)
    (h : TimerEventHandler D rnd1 rnd2 n passedTimeDs = some m) :
    DiscoveryWellFormed m ∧
    (m.currentDiscoveryState = DiscoveryState.OFF ↔
      n.currentDiscoveryState = DiscoveryState.OFF) := by
  have hm := TimerEventHandler_some D rnd1 rnd2 n m passedTimeDs h
  have hv := decisionStep_view D hD rnd1 rnd2 (stateTimeoutStep n passedTimeDs)
  rw [← hm] at hv
  obtain ⟨v1, v2, -⟩ := discoveryView_eq hv
  obtain ⟨s1, s2⟩ := stateTimeoutStep_off n passedTimeDs hwf
  constructor
  · unfold DiscoveryWellFormed
    rw [v1, v2]
    exact s1
  · rw [v1]
    exact s2

theorem GapAdvertisementMessageHandler_empty_slot (n : Node) (event : GapAdvertisementReportEvent)
    (hact : n.moduleActive = true)
    (htype : event.messageType = AdvMessageType.MESSAGE_TYPE_JOIN_ME_V0)
    (hlen : event.dataLength = SIZEOF_ADV_PACKET_JOIN_ME)
    (hnew : ∀ e ∈ n.joinMePackets, e.payload.sender ≠ event.payload.sender)
    (hempty : ∃ e ∈ n.joinMePackets, e.payload.sender = 0) :
    discoveryFields (GapAdvertisementMessageHandler n event) =
      discoveryFields (KeepHighDiscoveryActive n) := by
  obtain ⟨i, hfind⟩ := findTargetBuffer_empty_slot n event.payload hnew hempty
  unfold GapAdvertisementMessageHandler
  rw [if_neg (by simp [hact]), htype]
  simp only
  rw [if_pos hlen, hfind]
  simp only [discoveryFields]

/-! ## Facts about the connect decision -/

theorem scanBest_spec (score : joinMeBufferPacket → Nat) (l : List joinMeBufferPacket) (k : Nat)
    (acc : Nat × Option Nat) :
    (scanBest score l k acc = acc ∧
      ∀ e ∈ l, e.payload.sender ≠ 0 → score e ≤ acc.1) ∨
    (∃ (j : Nat) (e : joinMeBufferPacket),
      scanBest score l k acc = (score e, some (k + j)) ∧ l[j]? = some e ∧
      e.payload.sender ≠ 0 ∧ acc.1 < score e ∧
      ∀ (i : Nat) (d : joinMeBufferPacket), l[i]? = some d → d.payload.sender ≠ 0 →
        score d ≤ score e ∧ (i < j → score d < score e)) := by
  induction l generalizing k acc with
  | nil => exact Or.inl ⟨rfl, fun e he => absurd he (List.not_mem_nil e)⟩
  | cons a rest ih =>
    unfold scanBest
    by_cases h0 : a.payload.sender = 0
    · rw [if_pos h0]
      rcases ih (k + 1) acc with ⟨hr, hall⟩ | ⟨j, e, hr, he, hs, hlt, hmax⟩
      · left
        refine ⟨hr, ?_⟩
        intro e he hs
        rcases List.mem_cons.1 he with rfl | hmem
        · exact absurd h0 hs
        · exact hall e hmem hs
      · right
        refine ⟨j + 1, e, ?_, by simpa using he, hs, hlt, ?_⟩
        · rw [hr]
          congr 2
          omega
        · intro i d hd hds
          cases i with
          | zero =>
            simp at hd
            subst hd
            exact absurd h0 hds
          | succ i =>
            have hd' : rest[i]? = some d := by simpa using hd
            obtain ⟨h1, h2⟩ := hmax i d hd' hds
            exact ⟨h1, fun h => h2 (by omega)⟩
    · rw [if_neg h0]
      by_cases ha : score a > acc.1
      · rw [if_pos ha]
        right
        rcases ih (k + 1) (score a, some k) with ⟨hr, hall⟩ | ⟨j, e, hr, he, hs, hlt, hmax⟩
        · refine ⟨0, a, by rw [hr]; rfl, by simp, h0, ha, ?_⟩
          intro i d hd hds
          cases i with
          | zero =>
            simp at hd
            subst hd
            exact ⟨Nat.le_refl _, fun h => absurd h (Nat.lt_irrefl 0)⟩
          | succ i =>
            have hd' : rest[i]? = some d := by simpa using hd
            exact ⟨hall d (List.getElem?_mem hd') hds, fun h => absurd h (Nat.not_lt_zero _)⟩
        · refine ⟨j + 1, e, ?_, by simpa using he, hs, Nat.lt_trans ha hlt, ?_⟩
          · rw [hr]
            congr 2
            omega
          · intro i d hd hds
            cases i with
            | zero =>
              simp at hd
              subst hd
              exact ⟨Nat.le_of_lt hlt, fun _ => hlt⟩
            | succ i =>
              have hd' : rest[i]? = some d := by simpa using hd
              obtain ⟨h1, h2⟩ := hmax i d hd' hds
              exact ⟨h1, fun h => h2 (by omega)⟩
      · rw [if_neg ha]
        rcases ih (k + 1) acc with ⟨hr, hall⟩ | ⟨j, e, hr, he, hs, hlt, hmax⟩
        · left
          refine ⟨hr, ?_⟩
          intro e he hs
          rcases List.mem_cons.1 he with rfl | hmem
          · exact Nat.le_of_not_lt ha
          · exact hall e hmem hs
        · right
          refine ⟨j + 1, e, ?_, by simpa using he, hs, hlt, ?_⟩
          · rw [hr]
            congr 2
            omega
          · intro i d hd hds
            cases i with
            | zero =>
              simp at hd
              subst hd
              have hle : score a ≤ acc.1 := Nat.le_of_not_lt ha
              exact ⟨by omega, fun _ => by omega⟩
            | succ i =>
              have hd' : rest[i]? = some d := by simpa using hd
              obtain ⟨h1, h2⟩ := hmax i d hd' hds
              exact ⟨h1, fun h => h2 (by omega)⟩

theorem scanBest_some (score : joinMeBufferPacket → Nat) (l : List joinMeBufferPacket)
    (h : ∃ e ∈ l, e.payload.sender ≠ 0 ∧ 0 < score e) :
    ∃ (i : Nat) (e : joinMeBufferPacket),
      (scanBest score l 0 (0, none)).2 = some i ∧ IsFirstBest score l i e := by
  rcases scanBest_spec score l 0 (0, none) with ⟨-, hall⟩ | ⟨j, e, hr, he, hs, hlt, hmax⟩
  · obtain ⟨e, he, hs, hpos⟩ := h
    have := hall e he hs
    simp only at this
    omega
  · exact ⟨j, e, by rw [hr]; simp, he, hs, hlt, hmax⟩

theorem scanBest_none (score : joinMeBufferPacket → Nat) (l : List joinMeBufferPacket)
    (h : ¬ ∃ e ∈ l, e.payload.sender ≠ 0 ∧ 0 < score e) :
    scanBest score l 0 (0, none) = (0, none) := by
  rcases scanBest_spec score l 0 (0, none) with ⟨hr, -⟩ | ⟨j, e, -, he, hs, hlt, -⟩
  · exact hr
  · exact absurd ⟨e, List.getElem?_mem he, hs, hlt⟩ h

theorem emergencyDisconnect_quiet (D : DisconnectAndRemoveFn) (rnd : Nat) (n : Node)
    (best : Option Nat) (h : n.freeMeshOutConnections ≠ 0 ∨ n.emergencyDisconnectCounter < 10) :
    ∃ x : Nat, emergencyDisconnect D rnd n best = { n with emergencyDisconnectCounter := x } := by
  unfold emergencyDisconnect
  split
  · rename_i hb
    rcases h with h | h
    · exact absurd hb.2 h
    · simp only []
      split
      · rw [if_neg (by show ¬ (n.emergencyDisconnectCounter + 1 > 10); omega)]
        exact ⟨_, rfl⟩
      · exact ⟨n.emergencyDisconnectCounter, rfl⟩
  · exact ⟨0, rfl⟩

theorem CalculateClusterScoreAsSlave_congr {a b : Node} (h1 : a.appTimerDs = b.appTimerDs)
    (h2 : a.maxJoinMePacketAgeDs = b.maxJoinMePacketAgeDs) (h3 : a.clusterId = b.clusterId)
    (h4 : a.clusterSize = b.clusterSize)
    (h5 : a.stableConnectionRssiThreshold = b.stableConnectionRssiThreshold)
    (h6 : a.preferredPartnersCompiledIn = b.preferredPartnersCompiledIn)
    (h7 : a.preferredPartnerIds = b.preferredPartnerIds)
    (h8 : a.preferredConnectionMode = b.preferredConnectionMode) :
    CalculateClusterScoreAsSlave a = CalculateClusterScoreAsSlave b := by
  funext p
  unfold CalculateClusterScoreAsSlave ModifyScoreBasedOnPreferredPartners IsPreferredConnection
  rw [h1, h2, h3, h4, h5, h6, h7, h8]

theorem DetermineBestClusterAvailable_master (D : DisconnectAndRemoveFn) (rnd1 rnd2 : Nat)
    (n : Node) (hfree : 0 < n.freeMeshOutConnections) (best : Nat) (e : joinMeBufferPacket)
    (hbest : (scanBest (CalculateClusterScoreAsMaster n) n.joinMePackets 0 (0, none)).2 = some best)
    (he : n.joinMePackets[best]? = some e) :
    (DetermineBestClusterAvailable D rnd1 rnd2 n).1 =
      { result := DecisionResult.CONNECT_AS_MASTER, preferredPartner := e.payload.sender } ∧
    (DetermineBestClusterAvailable D rnd1 rnd2 n).2.joinMePackets =
      updateAt n.joinMePackets best fun packet =>
        { packet with lastConnectAttemptDs := n.appTimerDs } := by
  obtain ⟨x, hx⟩ := emergencyDisconnect_quiet D rnd1 n
    (scanBest (CalculateClusterScoreAsMaster n) n.joinMePackets 0 (0, none)).2
    (Or.inl (by omega))
  unfold DetermineBestClusterAvailable
  simp only []
  rw [hx]
  simp only []
  have hne : ¬ n.freeMeshOutConnections = 0 := by omega
  have hgt : n.freeMeshOutConnections > 0 := hfree
  simp only [hne, hgt, if_false, if_true, hbest, he, ConnectAsMaster]
  exact ⟨trivial, trivial⟩

theorem scanBest_eq_of_none (score : joinMeBufferPacket → Nat) (l : List joinMeBufferPacket)
    (h : (scanBest score l 0 (0, none)).2 = none) : scanBest score l 0 (0, none) = (0, none) := by
  rcases scanBest_spec score l 0 (0, none) with ⟨hr, -⟩ | ⟨j, e, hr, -⟩
  · exact hr
  · rw [hr] at h
    exact absurd h (by simp)

theorem waitAsSlave_currentAckId (rnd : Nat) (n : Node) (bestCluster : joinMeBufferPacket) :
    (waitAsSlave rnd n bestCluster).currentAckId = bestCluster.payload.clusterId := by
  unfold waitAsSlave
  simp only []
  split
  · simp only [ForceDisconnectOtherMeshConnections]
  · rfl

theorem DetermineBestClusterAvailable_no_master (D : DisconnectAndRemoveFn) (rnd1 rnd2 : Nat)
    (n : Node) (hquiet : n.freeMeshOutConnections ≠ 0 ∨ n.emergencyDisconnectCounter < 10)
    (hno : n.freeMeshOutConnections = 0 ∨
      (scanBest (CalculateClusterScoreAsMaster n) n.joinMePackets 0 (0, none)).2 = none) :
    (∀ (best : Nat) (e : joinMeBufferPacket),
      (scanBest (CalculateClusterScoreAsSlave n) n.joinMePackets 0 (0, none)).2 = some best →
      n.joinMePackets[best]? = some e →
      (DetermineBestClusterAvailable D rnd1 rnd2 n).1 =
        { result := DecisionResult.CONNECT_AS_SLAVE, preferredPartner := e.payload.sender } ∧
      (DetermineBestClusterAvailable D rnd1 rnd2 n).2.currentAckId = e.payload.clusterId) ∧
    ((scanBest (CalculateClusterScoreAsSlave n) n.joinMePackets 0 (0, none)).2 = none →
      (DetermineBestClusterAvailable D rnd1 rnd2 n).1 =
        { result := DecisionResult.NO_NODES_FOUND }) := by
  obtain ⟨x, hx⟩ := emergencyDisconnect_quiet D rnd1 n
    (scanBest (CalculateClusterScoreAsMaster n) n.joinMePackets 0 (0, none)).2 hquiet
  have hm1 : (if n.freeMeshOutConnections = 0 then ((0 : Nat), (none : Option Nat))
      else scanBest (CalculateClusterScoreAsMaster n) n.joinMePackets 0 (0, none)) = (0, none) := by
    split
    · rfl
    · rename_i hne
      rcases hno with h | h
      · exact absurd h hne
      · exact scanBest_eq_of_none _ _ h
  have hsel : (if n.freeMeshOutConnections > 0 then ((0 : Nat), (none : Option Nat)).2 else none) =
      none := by
    split <;> rfl
  have hn2 : ∀ m : Node,
      m = (if n.joinMePackets.length > 0 then
          { n with emergencyDisconnectCounter := x, currentAckId := 0 }
        else { n with emergencyDisconnectCounter := x }) →
      CalculateClusterScoreAsSlave m = CalculateClusterScoreAsSlave n ∧
      m.joinMePackets = n.joinMePackets := by
    intro m hm
    subst hm
    split
    · exact ⟨CalculateClusterScoreAsSlave_congr rfl rfl rfl rfl rfl rfl rfl rfl, rfl⟩
    · exact ⟨CalculateClusterScoreAsSlave_congr rfl rfl rfl rfl rfl rfl rfl rfl, rfl⟩
  unfold DetermineBestClusterAvailable
  simp only []
  rw [hx]
  simp only []
  rw [hm1, hsel]
  simp only []
  generalize (if n.joinMePackets.length > 0 then
      { n with emergencyDisconnectCounter := x, currentAckId := 0 }
    else { n with emergencyDisconnectCounter := x }) = n2 at hn2 ⊢
  obtain ⟨hs, hl⟩ := hn2 n2 rfl
  rw [hs, hl]
  constructor
  · intro best e hbest he
    rw [hbest]
    simp only [he]
    exact ⟨trivial, waitAsSlave_currentAckId rnd2 n2 e⟩
  · intro hnone
    rw [hnone]

theorem ModifyScoreBasedOnPreferredPartners_pos (n : Node) (s : Nat) (sender : Nat) (hs : 0 < s)
    (hpref : n.preferredConnectionMode = PreferredConnectionMode.IGNORED →
      IsPreferredConnection n sender = true) :
    0 < ModifyScoreBasedOnPreferredPartners n s sender := by
  unfold ModifyScoreBasedOnPreferredPartners
  split
  · rename_i h
    cases hm : n.preferredConnectionMode with
    | PENALTY =>
      simp only
      split <;> omega
    | IGNORED =>
      have := hpref hm
      rw [h.2.2] at this
      exact absurd this (by decide)
    | OTHER => exact hs
  · exact hs

theorem CalculateClusterScoreAsMaster_pos (n : Node) (e : joinMeBufferPacket) (hwt : e.wellTyped)
    (hveto : ¬ masterVeto n e)
    (hpref : n.preferredConnectionMode = PreferredConnectionMode.IGNORED →
      IsPreferredConnection n e.payload.sender = true) :
    0 < CalculateClusterScoreAsMaster n e := by
  have hin : e.payload.freeMeshInConnections ≠ 0 := fun h0 => hveto (Or.inr (Or.inr (Or.inl h0)))
  obtain ⟨hpos, hraw⟩ := masterScore_raw e hwt hin
  rw [CalculateClusterScoreAsMaster_no_veto n e hveto, hraw]
  exact ModifyScoreBasedOnPreferredPartners_pos n _ _ (by omega) hpref

/-- C23, as the code has it: a singleton node X that has recorded the fresh
beacon of a singleton node Y of another cluster, as the only beacon of its
buffer, gives Y's entry a nonzero CalculateClusterScoreAsMaster, and its
DetermineBestClusterAvailable returns CONNECT_AS_MASTER with Y as partner,
when Y advertises a free inbound slot and X has a free outbound slot, and none
of the other vetoes applies: the acknowledgement field of the beacon is 0 or
X's cluster id, no connect attempt to the slot is cooling down, no mesh link to
Y exists, the rssi is at or above the stability threshold, X is not a leaf, and
Y is not ignored as a partner that is not preferred. -/
theorem singleton_connects_as_master (D : DisconnectAndRemoveFn) (rnd1 rnd2 : Nat) (n : Node)
    (i : Nat) (e : joinMeBufferPacket) (hslot : n.joinMePackets[i]? = some e)
    (hothers : ∀ (j : Nat) (d : joinMeBufferPacket), n.joinMePackets[j]? = some d → j ≠ i →
      d.payload.sender = 0)
    (hsender : e.payload.sender ≠ 0) (hwt : e.wellTyped)
    (hx : n.clusterSize = 1) (hy : e.payload.clusterSize = 1)
    (hid : e.payload.clusterId ≠ n.clusterId)
    (hfresh : subU32 n.appTimerDs e.receivedTimeDs ≤ n.maxJoinMePacketAgeDs)
    (hin : 0 < e.payload.freeMeshInConnections) (hout : 0 < n.freeMeshOutConnections)
    (hack : e.payload.ackField = 0 ∨ e.payload.ackField = n.clusterId)
    (hcool : e.lastConnectAttemptDs = 0 ∨
      wrapU32 (e.lastConnectAttemptDs + SEC_TO_DS n.meshConnectingScanTimeout + SEC_TO_DS 1) ≤
        n.appTimerDs)
    (hlink : GetMeshConnectionToPartner n e.payload.sender = none)
    (hrssi : n.stableConnectionRssiThreshold ≤ e.rssi)
    (hleaf : n.deviceType ≠ DeviceType.LEAF)
    (hpref : n.preferredConnectionMode = PreferredConnectionMode.IGNORED →
      IsPreferredConnection n e.payload.sender = true) :
    0 < CalculateClusterScoreAsMaster n e ∧
    (DetermineBestClusterAvailable D rnd1 rnd2 n).1 =
      { result := DecisionResult.CONNECT_AS_MASTER, preferredPartner := e.payload.sender } := by
  have hveto : ¬ masterVeto n e := by
    unfold masterVeto
    rw [hlink, hx, hy]
    simp only [Option.isSome_none]
    rintro (h | h | h | h | h | h | h | h | h)
    · omega
    · exact hid h
    · omega
    · rcases hack with h0 | h0
      · exact h.1 h0
      · exact h.2 h0
    · omega
    · rcases hcool with h0 | h0
      · exact h.1 h0
      · omega
    · exact absurd h (by decide)
    · omega
    · exact hleaf h
  have hpos := CalculateClusterScoreAsMaster_pos n e hwt hveto hpref
  refine ⟨hpos, ?_⟩
  obtain ⟨k, d, hscan, hk, hd, -, -⟩ := scanBest_some (CalculateClusterScoreAsMaster n)
    n.joinMePackets ⟨e, List.getElem?_mem hslot, hsender, hpos⟩
  have hki : k = i := by
    by_contra hne
    exact hd (hothers k d hk hne)
  subst hki
  have hde : d = e := Option.some.inj (hk.symm.trans hslot)
  subst hde
  exact (DetermineBestClusterAvailable_master D rnd1 rnd2 n hout k d hscan hk).1

theorem singleton_connects_as_master_witness :
    CalculateClusterScoreAsMaster nodeX beaconOfY = 10340 ∧
    0 < CalculateClusterScoreAsMaster nodeX beaconOfY ∧
    (DetermineBestClusterAvailable plainDisconnectAndRemove 0 0 nodeX).1 =
      { result := DecisionResult.CONNECT_AS_MASTER, preferredPartner := 2 } :=
  ⟨by decide,
    singleton_connects_as_master plainDisconnectAndRemove 0 0 nodeX 0 beaconOfY rfl
      (by
        intro j d hd hj
        match j, hd with
        | 0, _ => exact absurd rfl hj
        | 1, hd =>
          have : d = {} := (Option.some.inj hd).symm
          rw [this]
        | j + 2, hd => simp [nodeX] at hd)
      (by decide) (by decide) rfl rfl (by decide) (by decide) (by decide) (by decide)
      (Or.inl rfl) (Or.inl rfl) rfl (by decide) (by decide)
      (fun h => absurd h (by decide))⟩

/-- C23 as stated fails: a singleton X with a free inbound slot that has
recorded the fresh beacon of the singleton Y of another cluster does not
connect as master when it has no free outbound slot, although the score of Y's
entry is nonzero: it decides to wait for Y. And when Y advertises no free
inbound slot the score of its entry is 0, whatever slots X has free. -/
theorem singleton_with_free_inbound_slot_waits :
    { nodeX with freeMeshOutConnections := 0 }.freeMeshInConnections = 1 ∧
    CalculateClusterScoreAsMaster { nodeX with freeMeshOutConnections := 0 } beaconOfY = 10340 ∧
    (DetermineBestClusterAvailable plainDisconnectAndRemove 0 0
      { nodeX with freeMeshOutConnections := 0 }).1 =
      { result := DecisionResult.CONNECT_AS_SLAVE, preferredPartner := 2 } ∧
    CalculateClusterScoreAsMaster nodeX
      { beaconOfY with payload := { beaconOfY.payload with freeMeshInConnections := 0 } } = 0 ∧
    (DetermineBestClusterAvailable plainDisconnectAndRemove 0 0
      { nodeX with joinMePackets :=
          [{ beaconOfY with payload := { beaconOfY.payload with freeMeshInConnections := 0 } },
           {}] }).1 =
      { result := DecisionResult.CONNECT_AS_SLAVE, preferredPartner := 2 } := by
  decide

theorem DetermineBestClusterAvailable_master_inv (D : DisconnectAndRemoveFn) (rnd1 rnd2 : Nat)
    (n : Node) (hfree : 0 < n.freeMeshOutConnections)
    (hres : (DetermineBestClusterAvailable D rnd1 rnd2 n).1.result =
      DecisionResult.CONNECT_AS_MASTER) :
    ∃ (best : Nat) (e : joinMeBufferPacket),
      (scanBest (CalculateClusterScoreAsMaster n) n.joinMePackets 0 (0, none)).2 = some best ∧
      IsFirstBest (CalculateClusterScoreAsMaster n) n.joinMePackets best e := by
  by_cases hex : ∃ e ∈ n.joinMePackets, e.payload.sender ≠ 0 ∧ 0 < CalculateClusterScoreAsMaster n e
  · exact scanBest_some _ _ hex
  · exfalso
    have hnone : (scanBest (CalculateClusterScoreAsMaster n) n.joinMePackets 0 (0, none)).2 = none := by
      rw [scanBest_none _ _ hex]
    obtain ⟨h1, h2⟩ := DetermineBestClusterAvailable_no_master D rnd1 rnd2 n (Or.inl (by omega))
      (Or.inr hnone)
    cases hs : (scanBest (CalculateClusterScoreAsSlave n) n.joinMePackets 0 (0, none)).2 with
    | none =>
      rw [h2 hs] at hres
      simp at hres
    | some best =>
      rcases scanBest_spec (CalculateClusterScoreAsSlave n) n.joinMePackets 0 (0, none) with
        ⟨hr, -⟩ | ⟨j, e, hr, he, -⟩
      · rw [hr] at hs
        simp at hs
      · rw [hr] at hs
        have hj : 0 + j = best := Option.some.inj hs
        rw [Nat.zero_add] at hj
        subst hj
        rw [(h1 j e (by rw [hr]; simp) he).1] at hres
        simp at hres

/-! ## Facts about the size accounting -/

theorem sum_eq_of_getElem? (a b : List Int) (hlen : a.length = b.length)
    (h : ∀ j : Nat, j < a.length → b[j]? = a[j]?) : b.sum = a.sum := by
  have : b = a := by
    apply List.ext_getElem?
    intro j
    by_cases hj : j < a.length
    · exact h j hj
    · rw [List.getElem?_eq_none (by omega), List.getElem?_eq_none (by omega)]
  rw [this]

theorem sum_of_getElem?_except (a b : List Int) (i : Nat) (x y : Int)
    (hlen : a.length = b.length) (hx : a[i]? = some x) (hy : b[i]? = some y)
    (h : ∀ j : Nat, j ≠ i → j < a.length → b[j]? = a[j]?) : b.sum = a.sum - x + y := by
  induction a generalizing b i with
  | nil => simp at hx
  | cons a0 rest ih =>
    cases b with
    | nil => simp at hlen
    | cons b0 brest =>
      cases i with
      | zero =>
        simp at hx hy
        subst hx
        subst hy
        have hrest : brest.sum = rest.sum := by
          apply sum_eq_of_getElem? rest brest (by simpa using hlen)
          intro j hj
          have := h (j + 1) (by omega) (by simp; omega)
          simpa using this
        simp only [List.sum_cons, hrest]
        omega
      | succ i =>
        have h0 := h 0 (by omega) (by simp)
        simp at h0
        subst h0
        have hrest := ih brest i (by simpa using hlen) (by simpa using hx) (by simpa using hy)
          (by
            intro j hj hlt
            have := h (j + 1) (by omega) (by simp; omega)
            simpa using this)
        simp only [List.sum_cons, hrest]
        omega

theorem sum_eraseIdx (a : List Int) (i : Nat) (x : Int) (hx : a[i]? = some x) :
    (a.eraseIdx i).sum = a.sum - x := by
  induction a generalizing i with
  | nil => simp at hx
  | cons a0 rest ih =>
    cases i with
    | zero =>
      simp at hx
      subst hx
      simp
    | succ i =>
      have := ih i (by simpa using hx)
      simp only [List.eraseIdx_cons_succ, List.sum_cons, this]
      omega

theorem linkWeight_of_sameLink {c c' : MeshConnection} (h : SameLink c c') :
    linkWeight c' = linkWeight c := by
  obtain ⟨h1, h2, -, -⟩ := h
  unfold linkWeight MeshConnection.handshakeDone
  rw [h1, h2]

theorem handshakedSizeSum_of_links (n m : Node)
    (hlen : m.connections.length = n.connections.length)
    (h : ∀ (j : Nat) (c : MeshConnection), n.connections[j]? = some c →
      ∃ c', m.connections[j]? = some c' ∧ linkWeight c' = linkWeight c) :
    handshakedSizeSum m = handshakedSizeSum n := by
  unfold handshakedSizeSum
  apply sum_eq_of_getElem? _ _ (by simp [hlen])
  intro j hj
  rw [List.length_map] at hj
  rw [List.getElem?_map, List.getElem?_map]
  obtain ⟨c', hc', hw⟩ := h j (n.connections.get ⟨j, hj⟩) (List.getElem?_eq_getElem hj)
  rw [hc', List.getElem?_eq_getElem hj]
  simp only [Option.map_some']
  rw [hw]
  rfl

theorem handshakedSizeSum_of_links_except (n m : Node) (i : Nat) (c c' : MeshConnection)
    (hlen : m.connections.length = n.connections.length)
    (hi : n.connections[i]? = some c) (hi' : m.connections[i]? = some c')
    (h : ∀ (j : Nat) (d : MeshConnection), j ≠ i → n.connections[j]? = some d →
      ∃ d', m.connections[j]? = some d' ∧ linkWeight d' = linkWeight d) :
    handshakedSizeSum m = handshakedSizeSum n - linkWeight c + linkWeight c' := by
  unfold handshakedSizeSum
  apply sum_of_getElem?_except _ _ i _ _ (by simp [hlen])
  · rw [List.getElem?_map, hi]
    rfl
  · rw [List.getElem?_map, hi']
    rfl
  · intro j hj hlt
    rw [List.length_map] at hlt
    rw [List.getElem?_map, List.getElem?_map]
    obtain ⟨d', hd', hw⟩ := h j (n.connections.get ⟨j, hlt⟩) hj (List.getElem?_eq_getElem hlt)
    rw [hd', List.getElem?_eq_getElem hlt]
    simp only [Option.map_some']
    rw [hw]
    rfl

theorem handshakedSizeSum_nonneg (n : Node)
    (h : ∀ c ∈ n.connections, 0 ≤ c.connectedClusterSize) : 0 ≤ handshakedSizeSum n := by
  unfold handshakedSizeSum
  apply List.sum_nonneg
  intro x hx
  obtain ⟨c, hc, rfl⟩ := List.mem_map.1 hx
  unfold linkWeight
  split
  · exact h c hc
  · exact le_refl 0

theorem handshakeCommit_length (H : HopsToShortestSink) (n : Node) (i : Nat)
    (connection : MeshConnection) (w : Bool) :
    (handshakeCommit H n i connection w).connections.length = n.connections.length := by
  unfold handshakeCommit
  split
  · rw [SendClusterInfoUpdate_length]
    simp
  · simp

theorem HandshakeDoneHandler_length (H : HopsToShortestSink) (n : Node) (i : Nat) (w : Bool) :
    (HandshakeDoneHandler H n i w).connections.length = n.connections.length := by
  cases hconn : n.connections[i]? with
  | none => rw [HandshakeDoneHandler_none H n i w hconn]
  | some connection =>
    rw [HandshakeDoneHandler_eq H n i connection w hconn, HandOverMasterBitIfNecessary_length,
      (KeepHighDiscoveryActive_frame _).2.2.1, SendClusterInfoUpdate_length]
    simp only [length_updateAt]
    exact handshakeCommit_length H n i connection w

theorem ReceiveClusterInfoUpdate_length (H : HopsToShortestSink) (n : Node) (i : Nat)
    (packet : ClusterInfoUpdate) :
    (ReceiveClusterInfoUpdate H n i packet).connections.length = n.connections.length := by
  by_cases happ : ∃ connection, n.connections[i]? = some connection ∧
      packet.counter = connection.nextExpectedClusterUpdateCounter
  · obtain ⟨connection, hconn, hcnt⟩ := happ
    rw [ReceiveClusterInfoUpdate_eq H n i connection packet hconn hcnt,
      (KeepHighDiscoveryActive_frame _).2.2.1, SendClusterInfoUpdate_length,
      HandOverMasterBitIfNecessary_length]
    simp
  · rw [ReceiveClusterInfoUpdate_unexpected H n i packet
      (fun connection hconn hcnt => happ ⟨connection, hconn, hcnt⟩)]

theorem HandshakeDoneHandler_winner_weight (H : HopsToShortestSink) (n : Node) (i : Nat)
    (connection : MeshConnection) (hconn : n.connections[i]? = some connection)
    (j : Nat) (d : MeshConnection) (hd : n.connections[j]? = some d) :
    ∃ d', (HandshakeDoneHandler H n i true).connections[j]? = some d' ∧
      linkWeight d' = (if j = i then 1 else linkWeight d) := by
  obtain ⟨c1, hc1, ⟨s1, s2, -, -⟩, -⟩ := handshakeCommit_winner_link H n i connection hconn j d hd
  obtain ⟨d', hd', -, e2, -, -, e5⟩ := HandshakeDoneHandler_link H n i connection true hconn j c1 hc1
  refine ⟨d', hd', ?_⟩
  unfold linkWeight MeshConnection.handshakeDone
  rw [e2, e5, s2]
  by_cases hj : j = i
  · simp only [hj, if_true]
    simp [winnerConnection]
  · rw [s1]
    simp only [hj, if_false]

theorem ReceiveClusterInfoUpdate_weight (H : HopsToShortestSink) (n : Node) (i : Nat)
    (connection : MeshConnection) (packet : ClusterInfoUpdate)
    (hconn : n.connections[i]? = some connection)
    (hcnt : packet.counter = connection.nextExpectedClusterUpdateCounter)
    (j : Nat) (d : MeshConnection) (hd : n.connections[j]? = some d) :
    ∃ d', (ReceiveClusterInfoUpdate H n i packet).connections[j]? = some d' ∧
      linkWeight d' =
        (if j = i then
          (if connection.handshakeDone = true then
            (if packet.clusterSizeChange = 0 then connection.connectedClusterSize
             else wrapI16 (connection.connectedClusterSize + packet.clusterSizeChange))
           else 0)
         else linkWeight d) := by
  obtain ⟨d', hd', hs, -⟩ := ReceiveClusterInfoUpdate_link H n i connection packet hconn hcnt j d hd
  refine ⟨d', hd', ?_⟩
  rw [linkWeight_of_sameLink hs]
  by_cases hj : j = i
  · simp only [hj, if_true]
    obtain ⟨-, f2, -, f4, -⟩ :=
      receivedConnection_fields n.clusterUpdateCounterModulus connection packet
    unfold linkWeight MeshConnection.handshakeDone
    rw [f2, f4]
  · simp only [hj, if_false]

theorem disconnect_weight (H : HopsToShortestSink) (n : Node) (reason : AppDisconnectReason)
    (stateBefore : ConnectionState) (size : Int) (cid : Nat)
    (hstate : ConnectionState.HANDSHAKE_DONE.toNat ≤ stateBefore.toNat)
    (j : Nat) (d : MeshConnection) (hd : n.connections[j]? = some d) :
    ∃ d', (MeshConnectionDisconnectedHandler H n reason stateBefore true size cid).connections[j]?
        = some d' ∧ linkWeight d' = linkWeight d := by
  have hstage := disconnectStage_complete H n reason stateBefore true size hstate
  obtain ⟨-, -, hlinks⟩ := disconnectCommit_shrink H
    { n with connectionLossCounter := wrapU32 (n.connectionLossCounter + 1) } reason size
  obtain ⟨c1, hc1, s1, -⟩ := hlinks j d hd
  rw [← hstage] at hc1
  obtain ⟨d', hd', s2, -⟩ :=
    MeshConnectionDisconnectedHandler_link H n reason stateBefore true size cid j c1 hc1
  exact ⟨d', hd', (linkWeight_of_sameLink s2).trans (linkWeight_of_sameLink s1)⟩

theorem disconnect_length (H : HopsToShortestSink) (n : Node) (reason : AppDisconnectReason)
    (stateBefore : ConnectionState) (size : Int) (cid : Nat)
    (hstate : ConnectionState.HANDSHAKE_DONE.toNat ≤ stateBefore.toNat) :
    (MeshConnectionDisconnectedHandler H n reason stateBefore true size cid).connections.length =
      n.connections.length := by
  rw [MeshConnectionDisconnectedHandler_length, disconnectStage_complete H n reason stateBefore true
    size hstate]
  unfold disconnectCommit
  rw [if_neg (by decide)]
  simp only []
  rw [SendClusterInfoUpdate_length]

theorem disconnect_clusterSize (H : HopsToShortestSink) (n : Node) (reason : AppDisconnectReason)
    (stateBefore : ConnectionState) (size : Int) (cid : Nat)
    (hstate : ConnectionState.HANDSHAKE_DONE.toNat ≤ stateBefore.toNat) :
    (MeshConnectionDisconnectedHandler H n reason stateBefore true size cid).clusterSize =
      wrapI16 (n.clusterSize - size) := by
  rw [(MeshConnectionDisconnectedHandler_scalars H n reason stateBefore true size cid).1,
    disconnectStage_complete H n reason stateBefore true size hstate,
    (disconnectCommit_shrink H _ reason size).1]

theorem handshakedSizeSum_eraseIdx (n : Node) (i : Nat) (c : MeshConnection)
    (hc : n.connections[i]? = some c) :
    handshakedSizeSum { n with connections := n.connections.eraseIdx i } =
      handshakedSizeSum n - linkWeight c := by
  unfold handshakedSizeSum
  simp only []
  generalize n.connections = l at hc
  induction l generalizing i with
  | nil => simp at hc
  | cons a rest ih =>
    cases i with
    | zero =>
      simp at hc
      subst hc
      simp
    | succ i =>
      have := ih i (by simpa using hc)
      simp only [List.eraseIdx_cons_succ, List.map_cons, List.sum_cons, this]
      omega

theorem linkWeight_of_handshakeDone (c : MeshConnection) (h : c.handshakeDone = true) :
    linkWeight c = c.connectedClusterSize := by
  unfold linkWeight
  rw [if_pos h]

theorem handshakeDone_iff (c : MeshConnection) :
    c.handshakeDone = true ↔ ConnectionState.HANDSHAKE_DONE.toNat ≤ c.connectionState.toNat := by
  unfold MeshConnection.handshakeDone
  simp

/-- C27: if clusterSize = 1 + the sum of the connectedClusterSize of all
handshake-complete links holds before, it holds after the winner's handshake
commit on a link whose handshake was not complete, after an applied
cluster-info update on a handshaked link, and after the loss of a handshaked
link whose master bit was held locally, as long as the new sizes fit their
16-bit fields; so with every connectedClusterSize at least 0 such a link loss
leaves clusterSize at 1 or more. -/
theorem size_accounting_preserved (H : HopsToShortestSink) (n : Node) (i : Nat)
    (c : MeshConnection) (hc : n.connections[i]? = some c) (hacc : SizeAccounting n) :
    (c.handshakeDone = false → inI16 (n.clusterSize + 1) →
      SizeAccounting (HandshakeDoneHandler H n i true)) ∧
    (∀ packet : ClusterInfoUpdate, c.handshakeDone = true →
      packet.counter = c.nextExpectedClusterUpdateCounter →
      inI16 (n.clusterSize + packet.clusterSizeChange) →
      inI16 (c.connectedClusterSize + packet.clusterSizeChange) →
      SizeAccounting (ReceiveClusterInfoUpdate H n i packet)) ∧
    (∀ (reason : AppDisconnectReason) (cid : Nat), c.handshakeDone = true →
      inI16 (n.clusterSize - c.connectedClusterSize) →
      SizeAccounting (MeshConnectionDisconnectedHandler H
        { n with connections := n.connections.eraseIdx i } reason c.connectionState true
        c.connectedClusterSize cid)) ∧
    (∀ (reason : AppDisconnectReason) (cid : Nat), c.handshakeDone = true →
      inI16 n.clusterSize → (∀ d ∈ n.connections, 0 ≤ d.connectedClusterSize) →
      1 ≤ (MeshConnectionDisconnectedHandler H
        { n with connections := n.connections.eraseIdx i } reason c.connectionState true
        c.connectedClusterSize cid).clusterSize) := by
  unfold SizeAccounting at hacc ⊢
  have hloss : ∀ (reason : AppDisconnectReason) (cid : Nat), c.handshakeDone = true →
      (MeshConnectionDisconnectedHandler H
        { n with connections := n.connections.eraseIdx i } reason c.connectionState true
        c.connectedClusterSize cid).clusterSize =
        wrapI16 (n.clusterSize - c.connectedClusterSize) ∧
      handshakedSizeSum (MeshConnectionDisconnectedHandler H
        { n with connections := n.connections.eraseIdx i } reason c.connectionState true
        c.connectedClusterSize cid) = handshakedSizeSum n - c.connectedClusterSize := by
    intro reason cid hdone
    have hstate := (handshakeDone_iff c).1 hdone
    refine ⟨disconnect_clusterSize H _ reason c.connectionState c.connectedClusterSize cid hstate,
      ?_⟩
    rw [handshakedSizeSum_of_links { n with connections := n.connections.eraseIdx i } _
      (disconnect_length H _ reason c.connectionState c.connectedClusterSize cid hstate)
      (fun j d hd => disconnect_weight H _ reason c.connectionState c.connectedClusterSize cid
        hstate j d hd),
      handshakedSizeSum_eraseIdx n i c hc, linkWeight_of_handshakeDone c hdone]
  refine ⟨?_, ?_, ?_, ?_⟩
  · intro hnot hfit
    obtain ⟨ci, hci, hwi⟩ := HandshakeDoneHandler_winner_weight H n i c hc i c hc
    rw [if_pos rfl] at hwi
    rw [handshakedSizeSum_of_links_except n _ i c ci (HandshakeDoneHandler_length H n i true) hc hci
      (fun j d hj hd => by
        obtain ⟨d', hd', hw⟩ := HandshakeDoneHandler_winner_weight H n i c hc j d hd
        rw [if_neg hj] at hw
        exact ⟨d', hd', hw⟩),
      (HandshakeDoneHandler_frame H n i c true hc).1, handshakeCommit_winner_clusterSize,
      wrapI16_of_inI16 hfit, hwi]
    have h0 : linkWeight c = 0 := by
      unfold linkWeight
      rw [if_neg (by simp [hnot])]
    omega
  · intro packet hdone hcnt hfit1 hfit2
    obtain ⟨ci, hci, hwi⟩ := ReceiveClusterInfoUpdate_weight H n i c packet hc hcnt i c hc
    rw [if_pos rfl, if_pos hdone] at hwi
    rw [handshakedSizeSum_of_links_except n _ i c ci (ReceiveClusterInfoUpdate_length H n i packet)
      hc hci
      (fun j d hj hd => by
        obtain ⟨d', hd', hw⟩ := ReceiveClusterInfoUpdate_weight H n i c packet hc hcnt j d hd
        rw [if_neg hj] at hw
        exact ⟨d', hd', hw⟩),
      ReceiveClusterInfoUpdate_expected_clusterSize H n i c packet hc hcnt, hwi,
      linkWeight_of_handshakeDone c hdone]
    by_cases h0 : packet.clusterSizeChange = 0
    · rw [if_pos h0, if_pos h0]
      omega
    · rw [if_neg h0, if_neg h0, wrapI16_of_inI16 hfit1, wrapI16_of_inI16 hfit2]
      omega
  · intro reason cid hdone hfit
    obtain ⟨e1, e2⟩ := hloss reason cid hdone
    rw [e1, e2, wrapI16_of_inI16 hfit]
    omega
  · intro reason cid hdone hfit hnonneg
    obtain ⟨e1, -⟩ := hloss reason cid hdone
    have hrest := handshakedSizeSum_nonneg { n with connections := n.connections.eraseIdx i }
      (fun d hd => hnonneg d (List.mem_of_mem_eraseIdx hd))
    rw [handshakedSizeSum_eraseIdx n i c hc, linkWeight_of_handshakeDone c hdone] at hrest
    have hcc := hnonneg c (List.getElem?_mem hc)
    obtain ⟨f1, f2⟩ := hfit
    rw [e1, wrapI16_of_inI16 ⟨by omega, by omega⟩]
    omega

theorem size_accounting_preserved_witness :
    SizeAccounting accountedNode ∧
    SizeAccounting (HandshakeDoneHandler sampleHops accountedNode 2 true) ∧
    (HandshakeDoneHandler sampleHops accountedNode 2 true).clusterSize = 5 ∧
    (MeshConnectionDisconnectedHandler sampleHops
      { accountedNode with connections := accountedNode.connections.eraseIdx 0 }
      AppDisconnectReason.USER_REQUEST ConnectionState.HANDSHAKE_DONE true 2 0).clusterSize = 2 ∧
    SizeAccounting (MeshConnectionDisconnectedHandler sampleHops
      { accountedNode with connections := accountedNode.connections.eraseIdx 0 }
      AppDisconnectReason.USER_REQUEST sampleLink.connectionState true
      sampleLink.connectedClusterSize 0) :=
  ⟨by decide,
    (size_accounting_preserved sampleHops accountedNode 2 handshakingLink (by decide)
      (by decide)).1 (by decide) (by decide),
    by decide, by decide,
    (size_accounting_preserved sampleHops accountedNode 0 sampleLink (by decide)
      (by decide)).2.2.1 AppDisconnectReason.USER_REQUEST 0 (by decide) (by decide)⟩

/-! ## Facts about the hand-over of the master bit -/

theorem le_sum_of_getElem? (a : List Int) (hnn : ∀ x ∈ a, 0 ≤ x) (k : Nat) (y : Int)
    (hy : a[k]? = some y) : y ≤ a.sum := by
  induction a generalizing k with
  | nil => simp at hy
  | cons a0 rest ih =>
    have h0 : 0 ≤ a0 := hnn a0 (List.mem_cons_self _ _)
    have hrest : ∀ x ∈ rest, 0 ≤ x := fun x hx => hnn x (List.mem_cons_of_mem _ hx)
    have hsum : 0 ≤ rest.sum := List.sum_nonneg hrest
    cases k with
    | zero =>
      simp at hy
      subst hy
      simp only [List.sum_cons]
      omega
    | succ k =>
      have := ih hrest k (by simpa using hy)
      simp only [List.sum_cons]
      omega

theorem add_le_sum_of_getElem? (a : List Int) (hnn : ∀ x ∈ a, 0 ≤ x) (j k : Nat) (x y : Int)
    (hjk : j < k) (hx : a[j]? = some x) (hy : a[k]? = some y) : x + y ≤ a.sum := by
  induction a generalizing j k with
  | nil => simp at hx
  | cons a0 rest ih =>
    have h0 : 0 ≤ a0 := hnn a0 (List.mem_cons_self _ _)
    have hrest : ∀ x ∈ rest, 0 ≤ x := fun x hx => hnn x (List.mem_cons_of_mem _ hx)
    cases k with
    | zero => omega
    | succ k =>
      have hy' : rest[k]? = some y := by simpa using hy
      cases j with
      | zero =>
        simp at hx
        subst hx
        have := le_sum_of_getElem? rest hrest k y hy'
        simp only [List.sum_cons]
        omega
      | succ j =>
        have := ih hrest j k (by omega) (by simpa using hx) hy'
        simp only [List.sum_cons]
        omega

theorem linkWeight_nonneg (c : MeshConnection) (h : 0 ≤ c.connectedClusterSize) :
    0 ≤ linkWeight c := by
  unfold linkWeight
  split
  · exact h
  · exact le_refl 0

theorem handshaked_pair_le_sum (n : Node) (hnn : ∀ c ∈ n.connections, 0 ≤ c.connectedClusterSize)
    (j k : Nat) (cj ck : MeshConnection) (hjk : j ≠ k) (hj : n.connections[j]? = some cj)
    (hk : n.connections[k]? = some ck) (dj : cj.handshakeDone = true)
    (dk : ck.handshakeDone = true) :
    cj.connectedClusterSize + ck.connectedClusterSize ≤ handshakedSizeSum n := by
  have hall : ∀ x ∈ n.connections.map linkWeight, 0 ≤ x := by
    intro x hx
    obtain ⟨c, hc, rfl⟩ := List.mem_map.1 hx
    exact linkWeight_nonneg c (hnn c hc)
  have mj : (n.connections.map linkWeight)[j]? = some cj.connectedClusterSize := by
    rw [List.getElem?_map, hj, Option.map_some', linkWeight_of_handshakeDone cj dj]
  have mk : (n.connections.map linkWeight)[k]? = some ck.connectedClusterSize := by
    rw [List.getElem?_map, hk, Option.map_some', linkWeight_of_handshakeDone ck dk]
  unfold handshakedSizeSum
  rcases Nat.lt_or_gt_of_ne hjk with h | h
  · exact add_le_sum_of_getElem? _ hall j k _ _ h mj mk
  · have := add_le_sum_of_getElem? _ hall k j _ _ h mk mj
    omega

theorem handOverStep_eq_of_not (clusterSize : Int) (c : MeshConnection)
    (h : ¬ (c.handshakeDone = true ∧ c.connectedClusterSize > clusterSize - c.connectedClusterSize)) :
    handOverStep clusterSize c = c := by
  unfold handOverStep
  rw [if_neg h]

theorem HandOverMasterBitIfNecessary_changed (n : Node) (j : Nat) (c : MeshConnection)
    (hc : n.connections[j]? = some c)
    (hchg : (HandOverMasterBitIfNecessary n).connections[j]? ≠ some c) :
    c.handshakeDone = true ∧ c.connectedClusterSize > n.clusterSize - c.connectedClusterSize := by
  by_contra hnot
  apply hchg
  unfold HandOverMasterBitIfNecessary
  split
  · simp only [List.getElem?_map, hc, Option.map_some']
    rw [handOverStep_eq_of_not n.clusterSize c hnot]
  · exact hc

theorem HandOverMasterBitIfNecessary_idem (n : Node) :
    HandOverMasterBitIfNecessary (HandOverMasterBitIfNecessary n) =
      HandOverMasterBitIfNecessary n := by
  by_cases hall : HasAllMasterBits n = true
  · by_cases hex : ∃ c ∈ n.connections, c.handshakeDone = true ∧
        c.connectedClusterSize > n.clusterSize - c.connectedClusterSize
    · obtain ⟨c, hc, hcond⟩ := hex
      have hn' : HandOverMasterBitIfNecessary n =
          { n with connections := n.connections.map (handOverStep n.clusterSize) } := by
        unfold HandOverMasterBitIfNecessary
        rw [if_pos hall]
      rw [hn']
      generalize hm : ({ n with connections := n.connections.map (handOverStep n.clusterSize) } :
        Node) = m
      have hfalse : HasAllMasterBits m = false := by
        rw [← hm]
        unfold HasAllMasterBits
        rw [Bool.eq_false_iff]
        intro hall'
        rw [List.all_eq_true] at hall'
        have := hall' (handOverStep n.clusterSize c) (List.mem_map_of_mem _ hc)
        unfold handOverStep at this
        rw [if_pos hcond] at this
        simp [MeshConnection.handshakeDone] at this
        have hd := hcond.1
        simp [MeshConnection.handshakeDone] at hd
        omega
      unfold HandOverMasterBitIfNecessary
      rw [hfalse]
      simp
    · have hmap : n.connections.map (handOverStep n.clusterSize) = n.connections := by
        conv_rhs => rw [← List.map_id n.connections]
        apply List.map_congr_left
        intro c hc
        exact handOverStep_eq_of_not n.clusterSize c (fun h => hex ⟨c, hc, h⟩)
      have hn' : HandOverMasterBitIfNecessary n = n := by
        unfold HandOverMasterBitIfNecessary
        rw [if_pos hall, hmap]
      rw [hn', hn']
  · have hn' : HandOverMasterBitIfNecessary n = n := by
      unfold HandOverMasterBitIfNecessary
      rw [if_neg hall]
    rw [hn', hn']

/-- C28: when clusterSize is at least 1 + the sum of the connectedClusterSize
of the handshaked links and every connectedClusterSize is at least 0, at most
one handshaked link has a connectedClusterSize above clusterSize -
connectedClusterSize, so one call of HandOverMasterBitIfNecessary changes the
record of at most one link; and a second call right after the first changes
nothing. -/
theorem HandOverMasterBitIfNecessary_at_most_one (n : Node)
    (hsum : 1 + handshakedSizeSum n ≤ n.clusterSize)
    (hnn : ∀ c ∈ n.connections, 0 ≤ c.connectedClusterSize) :
    (∀ (j k : Nat) (cj ck : MeshConnection), n.connections[j]? = some cj →
      n.connections[k]? = some ck → cj.handshakeDone = true → ck.handshakeDone = true →
      cj.connectedClusterSize > n.clusterSize - cj.connectedClusterSize →
      ck.connectedClusterSize > n.clusterSize - ck.connectedClusterSize → j = k) ∧
    (∀ (j k : Nat) (cj ck : MeshConnection), n.connections[j]? = some cj →
      n.connections[k]? = some ck →
      (HandOverMasterBitIfNecessary n).connections[j]? ≠ some cj →
      (HandOverMasterBitIfNecessary n).connections[k]? ≠ some ck → j = k) ∧
    HandOverMasterBitIfNecessary (HandOverMasterBitIfNecessary n) =
      HandOverMasterBitIfNecessary n := by
  have hone : ∀ (j k : Nat) (cj ck : MeshConnection), n.connections[j]? = some cj →
      n.connections[k]? = some ck → cj.handshakeDone = true → ck.handshakeDone = true →
      cj.connectedClusterSize > n.clusterSize - cj.connectedClusterSize →
      ck.connectedClusterSize > n.clusterSize - ck.connectedClusterSize → j = k := by
    intro j k cj ck hj hk dj dk gj gk
    by_contra hjk
    have := handshaked_pair_le_sum n hnn j k cj ck hjk hj hk dj dk
    omega
  refine ⟨hone, ?_, HandOverMasterBitIfNecessary_idem n⟩
  intro j k cj ck hj hk cj' ck'
  obtain ⟨dj, gj⟩ := HandOverMasterBitIfNecessary_changed n j cj hj cj'
  obtain ⟨dk, gk⟩ := HandOverMasterBitIfNecessary_changed n k ck hk ck'
  exact hone j k cj ck hj hk dj dk gj gk

theorem HandOverMasterBitIfNecessary_at_most_one_witness :
    1 + handshakedSizeSum dominatedNode ≤ dominatedNode.clusterSize ∧
    (HandOverMasterBitIfNecessary dominatedNode).connections.map
      (fun c => c.connectionMasterBit) = [false, true] ∧
    HandOverMasterBitIfNecessary (HandOverMasterBitIfNecessary dominatedNode) =
      HandOverMasterBitIfNecessary dominatedNode :=
  ⟨by decide, by decide,
    (HandOverMasterBitIfNecessary_at_most_one dominatedNode (by decide) (by decide)).2.2⟩

/-! ## Facts about the recording of beacons -/

theorem KeepHighDiscoveryActive_buffer (n : Node) :
    (KeepHighDiscoveryActive n).joinMePackets = n.joinMePackets ∧
    (KeepHighDiscoveryActive n).appTimerDs = n.appTimerDs ∧
    (KeepHighDiscoveryActive n).moduleActive = n.moduleActive := by
  unfold KeepHighDiscoveryActive
  split
  · exact ⟨rfl, rfl, rfl⟩
  · unfold ChangeState
    split
    · exact ⟨rfl, rfl, rfl⟩
    · exact ⟨rfl, rfl, rfl⟩

theorem findTargetBuffer_buffer (n : Node) (packet : advPacketPayloadJoinMeV0) :
    (findTargetBuffer n packet).2.joinMePackets = n.joinMePackets ∧
    (findTargetBuffer n packet).2.appTimerDs = n.appTimerDs := by
  rcases findTargetBuffer_state n packet with h | h
  · rw [h]
    exact ⟨rfl, rfl⟩
  · rw [h]
    exact ⟨(KeepHighDiscoveryActive_buffer n).1, (KeepHighDiscoveryActive_buffer n).2.1⟩

theorem findTargetBuffer_target (n : Node) (packet : advPacketPayloadJoinMeV0) (i : Nat)
    (h : (findTargetBuffer n packet).1 = some i) :
    ∃ e : joinMeBufferPacket, n.joinMePackets[i]? = some e ∧
      (e.payload.sender = packet.sender ∨
        ∀ d ∈ n.joinMePackets, d.payload.sender ≠ packet.sender) := by
  have hget : ∀ k : Nat, k < n.joinMePackets.length →
      ∃ e : joinMeBufferPacket, n.joinMePackets[k]? = some e :=
    fun k hk => ⟨_, List.getElem?_eq_getElem hk⟩
  unfold findTargetBuffer at h
  rcases firstSlot_spec (fun t => decide (packet.sender = t.payload.sender)) n.joinMePackets 0 with
    ⟨h1, hall⟩ | ⟨j, e, h1, he, hp, -⟩
  · have hnew : ∀ d ∈ n.joinMePackets, d.payload.sender ≠ packet.sender := by
      intro d hd hs
      have := hall d hd
      simp [hs] at this
    rw [h1] at h
    simp only at h
    cases h2 : firstSlot (fun t => decide (t.payload.sender = 0)) n.joinMePackets 0 with
    | some k =>
      rw [h2] at h
      simp only at h
      have hk : k = i := Option.some.inj h
      subst hk
      obtain ⟨e, he⟩ := hget k (firstSlot_lt_length _ _ _ h2)
      exact ⟨e, he, Or.inr hnew⟩
    | none =>
      rw [h2] at h
      simp only at h
      cases h3 : (scanLowest (fun t => decide (t.payload.clusterId = n.clusterId))
          (fun t => t.receivedTimeDs) n.joinMePackets 0 (UINT32_MAX, none)).2 with
      | some k =>
        rw [h3] at h
        simp only at h
        have hk : k = i := Option.some.inj h
        subst hk
        obtain ⟨e, he⟩ := hget k (scanLowest_lt_length _ _ _ _ _ h3)
        exact ⟨e, he, Or.inr hnew⟩
      | none =>
        rw [h3] at h
        simp only at h
        obtain ⟨e, he⟩ := hget i (scanLowest_lt_length _ _ _ _ _ h)
        exact ⟨e, he, Or.inr hnew⟩
  · rw [h1] at h
    simp only at h
    have hij : 0 + j = i := Option.some.inj h
    rw [Nat.zero_add] at hij
    subst hij
    exact ⟨e, he, Or.inl (of_decide_eq_true hp).symm⟩

theorem GapAdvertisementMessageHandler_recorded (n : Node) (event : GapAdvertisementReportEvent)
    (hact : n.moduleActive = true)
    (htype : event.messageType = AdvMessageType.MESSAGE_TYPE_JOIN_ME_V0)
    (hlen : event.dataLength = SIZEOF_ADV_PACKET_JOIN_ME) (i : Nat) (e : joinMeBufferPacket)
    (hfind : (findTargetBuffer n event.payload).1 = some i)
    (he : n.joinMePackets[i]? = some e) :
    (GapAdvertisementMessageHandler n event).joinMePackets =
      n.joinMePackets.set i (recordBeacon n event e) := by
  obtain ⟨hb, ht⟩ := findTargetBuffer_buffer n event.payload
  unfold GapAdvertisementMessageHandler
  rw [if_neg (by simp [hact]), htype]
  simp only
  rw [if_pos hlen]
  generalize findTargetBuffer n event.payload = r at hfind hb ht
  obtain ⟨o, n1⟩ := r
  simp only at hfind hb ht
  subst hfind
  simp only
  rw [hb]
  unfold updateAt
  rw [he]
  simp only [recordBeacon, ht]

theorem GapAdvertisementMessageHandler_not_recorded (n : Node)
    (event : GapAdvertisementReportEvent)
    (h : n.moduleActive = false ∨ event.messageType ≠ AdvMessageType.MESSAGE_TYPE_JOIN_ME_V0 ∨
      event.dataLength ≠ SIZEOF_ADV_PACKET_JOIN_ME) :
    GapAdvertisementMessageHandler n event = n := by
  rcases h with h | h | h
  · unfold GapAdvertisementMessageHandler
    rw [if_pos h]
  · cases hm : event.messageType with
    | MESSAGE_TYPE_JOIN_ME_V0 => exact absurd hm h
    | OTHER =>
      unfold GapAdvertisementMessageHandler
      rw [hm]
      split <;> rfl
  · unfold GapAdvertisementMessageHandler
    split
    · rfl
    · split <;> rfl

theorem GapAdvertisementMessageHandler_no_target (n : Node) (event : GapAdvertisementReportEvent)
    (hfind : (findTargetBuffer n event.payload).1 = none) :
    (GapAdvertisementMessageHandler n event).joinMePackets = n.joinMePackets := by
  obtain ⟨hb, -⟩ := findTargetBuffer_buffer n event.payload
  unfold GapAdvertisementMessageHandler
  split
  · rfl
  · split
    · split
      · generalize findTargetBuffer n event.payload = r at hfind hb
        obtain ⟨o, n1⟩ := r
        simp only at hfind hb
        subst hfind
        simp only
        exact hb
      · rfl
    · rfl

theorem findTargetBuffer_some (n : Node) (packet : advPacketPayloadJoinMeV0)
    (hne : n.joinMePackets ≠ []) (hwt : ∀ e ∈ n.joinMePackets, e.wellTyped)
    (hdom : -101 < n.stableConnectionRssiThreshold ∨ 0 < n.clusterSize) :
    ∃ i : Nat, (findTargetBuffer n packet).1 = some i := by
  obtain ⟨e0, hmem⟩ := List.exists_mem_of_ne_nil _ hne
  obtain ⟨i, e, hscan, -⟩ :=
    scanLowest_of_below (fun _ => true) (evictionScore n packet) n.joinMePackets UINT32_MAX
      ⟨e0, hmem, rfl, evictionScore_lt_max n packet e0 (hwt e0 hmem) hdom⟩
  unfold findTargetBuffer
  split
  · exact ⟨_, rfl⟩
  · split
    · exact ⟨_, rfl⟩
    · split
      · exact ⟨_, rfl⟩
      · exact ⟨i, hscan⟩

theorem UniqueSenders_set (l : List joinMeBufferPacket) (i : Nat) (e r : joinMeBufferPacket)
    (huniq : UniqueSenders l) (he : l[i]? = some e)
    (hsender : e.payload.sender = r.payload.sender ∨
      ∀ d ∈ l, d.payload.sender ≠ r.payload.sender) :
    UniqueSenders (l.set i r) := by
  intro j k a b ha hb hab h0
  by_cases hj : j = i
  · by_cases hk : k = i
    · rw [hj, hk]
    · exfalso
      subst hj
      rw [List.getElem?_set_ne (Ne.symm hk)] at hb
      rw [List.getElem?_set_self (lt_length_of_getElem? he)] at ha
      have har : r = a := Option.some.inj ha
      subst har
      rcases hsender with hs | hs
      · have := huniq j k e b he hb (hs.trans hab) (by rw [hs]; exact h0)
        exact hk this.symm
      · exact hs b (List.getElem?_mem hb) hab.symm
  · rw [List.getElem?_set_ne (Ne.symm hj)] at ha
    by_cases hk : k = i
    · exfalso
      subst hk
      rw [List.getElem?_set_self (lt_length_of_getElem? he)] at hb
      have hbr : r = b := Option.some.inj hb
      subst hbr
      rcases hsender with hs | hs
      · have := huniq j k a e ha he (hab.trans hs.symm) h0
        exact hj this
      · exact hs a (List.getElem?_mem ha) hab
    · rw [List.getElem?_set_ne (Ne.symm hk)] at hb
      exact huniq j k a b ha hb hab h0

/-- C29: if no two slots of the buffer share a nonzero sender before
GapAdvertisementMessageHandler runs, none do afterwards; a JOIN_ME_V0
advertisement of 31 bytes received by an active node is written into the one
slot that findTargetBuffer returns and every other slot is left as it is, and
such a slot exists for a buffer of at least one slot under the conditions under
which no score is UINT32_MAX; an advertisement of another length or another
type leaves the node unchanged. -/
theorem beacon_buffer_unique_senders (n : Node) (event : GapAdvertisementReportEvent)
    (huniq : UniqueSenders n.joinMePackets) :
    UniqueSenders (GapAdvertisementMessageHandler n event).joinMePackets ∧
    (n.moduleActive = true → event.messageType = AdvMessageType.MESSAGE_TYPE_JOIN_ME_V0 →
      event.dataLength = SIZEOF_ADV_PACKET_JOIN_ME →
      (∀ i : Nat, (findTargetBuffer n event.payload).1 = some i →
        ∃ e : joinMeBufferPacket, n.joinMePackets[i]? = some e ∧
          (GapAdvertisementMessageHandler n event).joinMePackets =
            n.joinMePackets.set i (recordBeacon n event e) ∧
          ∀ j : Nat, j ≠ i →
            (GapAdvertisementMessageHandler n event).joinMePackets[j]? = n.joinMePackets[j]?) ∧
      (n.joinMePackets ≠ [] → (∀ e ∈ n.joinMePackets, e.wellTyped) →
        (-101 < n.stableConnectionRssiThreshold ∨ 0 < n.clusterSize) →
        ∃ i : Nat, (findTargetBuffer n event.payload).1 = some i)) ∧
    (event.messageType ≠ AdvMessageType.MESSAGE_TYPE_JOIN_ME_V0 ∨
        event.dataLength ≠ SIZEOF_ADV_PACKET_JOIN_ME →
      GapAdvertisementMessageHandler n event = n) ∧
    SIZEOF_ADV_PACKET_JOIN_ME = 31 := by
  refine ⟨?_, ?_, fun h => GapAdvertisementMessageHandler_not_recorded n event (Or.inr h), rfl⟩
  · by_cases hrec : n.moduleActive = true ∧
        event.messageType = AdvMessageType.MESSAGE_TYPE_JOIN_ME_V0 ∧
        event.dataLength = SIZEOF_ADV_PACKET_JOIN_ME
    · obtain ⟨hact, htype, hlen⟩ := hrec
      cases hfind : (findTargetBuffer n event.payload).1 with
      | none =>
        rw [GapAdvertisementMessageHandler_no_target n event hfind]
        exact huniq
      | some i =>
        obtain ⟨e, he, hs⟩ := findTargetBuffer_target n event.payload i hfind
        rw [GapAdvertisementMessageHandler_recorded n event hact htype hlen i e hfind he]
        exact UniqueSenders_set n.joinMePackets i e (recordBeacon n event e) huniq he hs
    · rw [GapAdvertisementMessageHandler_not_recorded n event (by
        by_cases hact : n.moduleActive = true
        · by_cases htype : event.messageType = AdvMessageType.MESSAGE_TYPE_JOIN_ME_V0
          · exact Or.inr (Or.inr (fun hlen => hrec ⟨hact, htype, hlen⟩))
          · exact Or.inr (Or.inl htype)
        · exact Or.inl (by simpa using hact))]
      exact huniq
  · intro hact htype hlen
    refine ⟨?_, fun hne hwt hdom => findTargetBuffer_some n event.payload hne hwt hdom⟩
    intro i hfind
    obtain ⟨e, he, -⟩ := findTargetBuffer_target n event.payload i hfind
    have hrec := GapAdvertisementMessageHandler_recorded n event hact htype hlen i e hfind he
    refine ⟨e, he, hrec, ?_⟩
    intro j hj
    rw [hrec, List.getElem?_set_ne (Ne.symm hj)]

theorem fullBufferNode_uniqueSenders : UniqueSenders fullBufferNode.joinMePackets := by
  intro j k a b ha hb hab _
  match j, k, ha, hb with
  | 0, 0, _, _ => rfl
  | 1, 1, _, _ => rfl
  | 0, 1, ha, hb =>
    have h1 : smallBeacon = a := Option.some.inj ha
    have h2 : largeBeacon = b := Option.some.inj hb
    rw [← h1, ← h2] at hab
    exact absurd hab (by decide)
  | 1, 0, ha, hb =>
    have h1 : largeBeacon = a := Option.some.inj ha
    have h2 : smallBeacon = b := Option.some.inj hb
    rw [← h1, ← h2] at hab
    exact absurd hab (by decide)
  | j + 2, _, ha, _ => simp [fullBufferNode] at ha
  | 0, k + 2, _, hb => simp [fullBufferNode] at hb
  | 1, k + 2, _, hb => simp [fullBufferNode] at hb

theorem beacon_buffer_unique_senders_witness :
    UniqueSenders fullBufferNode.joinMePackets ∧
    (GapAdvertisementMessageHandler fullBufferNode refreshEvent).joinMePackets.map
      (fun e => e.payload.sender) = [9, 12] ∧
    (GapAdvertisementMessageHandler fullBufferNode newcomerEvent).joinMePackets.map
      (fun e => e.payload.sender) = [20, 12] ∧
    UniqueSenders (GapAdvertisementMessageHandler fullBufferNode newcomerEvent).joinMePackets :=
  ⟨fullBufferNode_uniqueSenders, by decide, by decide,
    (beacon_buffer_unique_senders fullBufferNode newcomerEvent fullBufferNode_uniqueSenders).1⟩

theorem GapAdvertisementMessageHandler_lastConnectAttemptDs (n : Node)
    (event : GapAdvertisementReportEvent) (j : Nat) :
    ((GapAdvertisementMessageHandler n event).joinMePackets[j]?).map
        (fun e => e.lastConnectAttemptDs) =
      (n.joinMePackets[j]?).map (fun e => e.lastConnectAttemptDs) := by
  by_cases hrec : n.moduleActive = true ∧
      event.messageType = AdvMessageType.MESSAGE_TYPE_JOIN_ME_V0 ∧
      event.dataLength = SIZEOF_ADV_PACKET_JOIN_ME
  · obtain ⟨hact, htype, hlen⟩ := hrec
    cases hfind : (findTargetBuffer n event.payload).1 with
    | none => rw [GapAdvertisementMessageHandler_no_target n event hfind]
    | some i =>
      obtain ⟨e, he, -⟩ := findTargetBuffer_target n event.payload i hfind
      rw [GapAdvertisementMessageHandler_recorded n event hact htype hlen i e hfind he]
      by_cases hj : j = i
      · subst hj
        rw [List.getElem?_set_self (lt_length_of_getElem? he), he]
        rfl
      · rw [List.getElem?_set_ne (Ne.symm hj)]
  · rw [GapAdvertisementMessageHandler_not_recorded n event (by
      by_cases hact : n.moduleActive = true
      · by_cases htype : event.messageType = AdvMessageType.MESSAGE_TYPE_JOIN_ME_V0
        · exact Or.inr (Or.inr (fun hlen => hrec ⟨hact, htype, hlen⟩))
        · exact Or.inr (Or.inl htype)
      · exact Or.inl (by simpa using hact))]

/-- C30: GapAdvertisementMessageHandler leaves lastConnectAttemptDs of every
slot as it is; into the target slot it writes the address, the address type,
the connectable flag from which the advertising type derives, the rssi,
receivedTimeDs and the payload; so the entry of a new sender in a slot whose
previous occupant was the target of a connect attempt gets a
CalculateClusterScoreAsMaster of 0 as long as the cool-down of that attempt
lasts. -/
theorem recording_keeps_lastConnectAttemptDs (n : Node) (event : GapAdvertisementReportEvent) :
    (∀ j : Nat,
      ((GapAdvertisementMessageHandler n event).joinMePackets[j]?).map
          (fun e => e.lastConnectAttemptDs) =
        (n.joinMePackets[j]?).map (fun e => e.lastConnectAttemptDs)) ∧
    (∀ e : joinMeBufferPacket,
      recordBeacon n event e =
        { bleAddressType := event.peerAddrType
          bleAddress := event.peerAddr
          connectable := event.connectable
          rssi := event.rssi
          receivedTimeDs := n.appTimerDs
          lastConnectAttemptDs := e.lastConnectAttemptDs
          payload := event.payload }) ∧
    (∀ (m : Node) (e : joinMeBufferPacket), e.lastConnectAttemptDs ≠ 0 →
      wrapU32 (e.lastConnectAttemptDs + SEC_TO_DS m.meshConnectingScanTimeout + SEC_TO_DS 1) >
        m.appTimerDs →
      CalculateClusterScoreAsMaster m (recordBeacon n event e) = 0) := by
  refine ⟨GapAdvertisementMessageHandler_lastConnectAttemptDs n event, fun e => rfl, ?_⟩
  intro m e hlast hwindow
  apply CalculateClusterScoreAsMaster_veto
  unfold masterVeto
  right; right; right; right; right; left
  exact ⟨hlast, hwindow⟩

theorem recording_keeps_lastConnectAttemptDs_witness :
    (GapAdvertisementMessageHandler cooldownNode newcomerEvent).joinMePackets.map
      (fun e => (e.payload.sender, e.lastConnectAttemptDs)) = [(20, 995), (12, 0)] ∧
    ((GapAdvertisementMessageHandler cooldownNode newcomerEvent).joinMePackets.map
      (CalculateClusterScoreAsMaster (GapAdvertisementMessageHandler cooldownNode newcomerEvent)))
      = [0, 0] ∧
    ((GapAdvertisementMessageHandler cooldownNode newcomerEvent).joinMePackets.map
      (CalculateClusterScoreAsMaster
        { GapAdvertisementMessageHandler cooldownNode newcomerEvent with appTimerDs := 1025 }))
      = [30050, 0] ∧
    CalculateClusterScoreAsMaster cooldownNode
      (recordBeacon cooldownNode newcomerEvent { smallBeacon with lastConnectAttemptDs := 995 })
      = 0 :=
  ⟨by decide, by decide, by decide,
    (recording_keeps_lastConnectAttemptDs cooldownNode newcomerEvent).2.2 cooldownNode
      { smallBeacon with lastConnectAttemptDs := 995 } (by decide) (by decide)⟩

/-! ## Facts about a closed mesh -/

theorem receive_effect (H : HopsToShortestSink) (n : Node) (j : Nat) (cb : MeshConnection)
    (packet : ClusterInfoUpdate) (hconn : n.connections[j]? = some cb)
    (hcnt : packet.counter = cb.nextExpectedClusterUpdateCounter)
    (hfit1 : inI16 (n.clusterSize + packet.clusterSizeChange))
    (hfit2 : inI16 (cb.connectedClusterSize + packet.clusterSizeChange))
    (hfit3 : ∀ c ∈ n.connections,
      inI16 (c.currentClusterInfoUpdatePacket.clusterSizeChange + packet.clusterSizeChange))
    (hdone : ∀ c ∈ n.connections, c.handshakeDone = true) :
    (ReceiveClusterInfoUpdate H n j packet).clusterSize =
      n.clusterSize + packet.clusterSizeChange ∧
    (ReceiveClusterInfoUpdate H n j packet).connections.length = n.connections.length ∧
    ∀ (k : Nat) (c : MeshConnection), n.connections[k]? = some c →
      ∃ c', (ReceiveClusterInfoUpdate H n j packet).connections[k]? = some c' ∧
        c'.connectionState = c.connectionState ∧
        c'.connectedClusterSize =
          c.connectedClusterSize + (if k = j then packet.clusterSizeChange else 0) ∧
        c'.currentClusterInfoUpdatePacket.clusterSizeChange =
          c.currentClusterInfoUpdatePacket.clusterSizeChange +
            (if k = j then 0 else packet.clusterSizeChange) := by
  refine ⟨?_, ReceiveClusterInfoUpdate_length H n j packet, ?_⟩
  · rw [ReceiveClusterInfoUpdate_expected_clusterSize H n j cb packet hconn hcnt]
    split
    · rename_i h0
      rw [h0]
      omega
    · exact wrapI16_of_inI16 hfit1
  · intro k c hc
    obtain ⟨c', hc', ⟨s1, s2, -, -⟩, hp⟩ :=
      ReceiveClusterInfoUpdate_link H n j cb packet hconn hcnt k c hc
    refine ⟨c', hc', ?_, ?_, ?_⟩
    · rw [s1]
      by_cases hk : k = j
      · rw [if_pos hk]
        subst hk
        have : cb = c := Option.some.inj (hconn.symm.trans hc)
        rw [← this]
        exact (receivedConnection_fields n.clusterUpdateCounterModulus cb packet).2.2.2.1
      · rw [if_neg hk]
    · rw [s2]
      by_cases hk : k = j
      · rw [if_pos hk, if_pos hk]
        subst hk
        have : cb = c := Option.some.inj (hconn.symm.trans hc)
        rw [← this, (receivedConnection_fields n.clusterUpdateCounterModulus cb packet).2.1]
        split
        · rename_i h0
          rw [h0]
          omega
        · exact wrapI16_of_inI16 hfit2
      · rw [if_neg hk, if_neg hk]
        omega
    · rw [hp]
      by_cases hk : k = j
      · rw [if_neg (fun h => h.1 hk), if_pos hk]
        omega
      · have hcon : c.isConnected = true := by
          have hd := hdone c (List.getElem?_mem hc)
          unfold MeshConnection.isConnected
          unfold MeshConnection.handshakeDone at hd
          simp only [decide_eq_true_eq] at hd ⊢
          exact Nat.le_trans (by decide) hd
        rw [if_pos ⟨hk, hcon⟩, if_neg hk]
        exact wrapI16_of_inI16 (hfit3 c (List.getElem?_mem hc))

theorem deliverUpdate_eq (H : HopsToShortestSink) (m : Mesh) (a i b j : Nat) (na nb : Node)
    (ca cb : MeshConnection) (hna : m.nodes[a]? = some na) (hnb : m.nodes[b]? = some nb)
    (hca : na.connections[i]? = some ca) (hcb : nb.connections[j]? = some cb) :
    deliverUpdate H m a i b j =
      { m with
        nodes := (m.nodes.set a (flushedNode na i ca)).set b
          (ReceiveClusterInfoUpdate H nb j (flushedPacket ca cb)) } := by
  unfold deliverUpdate
  rw [hna, hnb]
  simp only
  rw [hca, hcb]

theorem deliverUpdate_frame (H : HopsToShortestSink) (m : Mesh) (a i b j : Nat) :
    (deliverUpdate H m a i b j).links = m.links ∧
    (deliverUpdate H m a i b j).nodes.length = m.nodes.length := by
  unfold deliverUpdate
  split
  · split
    · simp
    · exact ⟨rfl, rfl⟩
  · exact ⟨rfl, rfl⟩

theorem deliverUpdate_nodes (H : HopsToShortestSink) (m : Mesh) (a i b j : Nat) (na nb : Node)
    (ca cb : MeshConnection) (hna : m.nodes[a]? = some na)
    (hnb : m.nodes[b]? = some nb) (hca : na.connections[i]? = some ca)
    (hcb : nb.connections[j]? = some cb) (v : Nat) :
    (deliverUpdate H m a i b j).nodes[v]? =
      (if v = b then some (ReceiveClusterInfoUpdate H nb j (flushedPacket ca cb))
       else if v = a then some (flushedNode na i ca)
       else m.nodes[v]?) := by
  rw [deliverUpdate_eq H m a i b j na nb ca cb hna hnb hca hcb]
  simp only
  have hla : a < m.nodes.length := lt_length_of_getElem? hna
  have hlb : b < m.nodes.length := lt_length_of_getElem? hnb
  by_cases hvb : v = b
  · rw [if_pos hvb, hvb, List.getElem?_set_self (by simpa using hlb)]
  · rw [if_neg hvb, List.getElem?_set_ne (Ne.symm hvb)]
    by_cases hva : v = a
    · rw [if_pos hva, hva, List.getElem?_set_self hla]
    · rw [if_neg hva, List.getElem?_set_ne (Ne.symm hva)]

theorem Mesh.size_of_node (m : Mesh) (v : Nat) (n : Node) (h : m.nodes[v]? = some n) :
    m.size v = n.clusterSize := by
  unfold Mesh.size
  rw [h]

theorem Mesh.connection_of_node (m : Mesh) (v k : Nat) (n : Node) (h : m.nodes[v]? = some n) :
    m.connection v k = n.connections[k]? := by
  unfold Mesh.connection
  rw [h]

theorem Mesh.connectedSize_of_connection (m : Mesh) (v k : Nat) (c : MeshConnection)
    (h : m.connection v k = some c) : m.connectedSize v k = c.connectedClusterSize := by
  unfold Mesh.connectedSize
  rw [h]

theorem Mesh.pending_of_connection (m : Mesh) (v k : Nat) (c : MeshConnection)
    (h : m.connection v k = some c) :
    m.pending v k = c.currentClusterInfoUpdatePacket.clusterSizeChange := by
  unfold Mesh.pending
  rw [h]

theorem Mesh.node_of_connection (m : Mesh) (v k : Nat) (c : MeshConnection)
    (h : m.connection v k = some c) :
    ∃ n : Node, m.nodes[v]? = some n ∧ n.connections[k]? = some c := by
  unfold Mesh.connection at h
  cases hn : m.nodes[v]? with
  | none =>
    rw [hn] at h
    exact absurd h (by simp)
  | some n =>
    rw [hn] at h
    exact ⟨n, rfl, h⟩

theorem deliverUpdate_effect (H : HopsToShortestSink) (m : Mesh) (a i b j : Nat) (na nb : Node)
    (ca cb : MeshConnection) (hab : a ≠ b) (hna : m.nodes[a]? = some na)
    (hnb : m.nodes[b]? = some nb) (hca : na.connections[i]? = some ca)
    (hcb : nb.connections[j]? = some cb)
    (hdone : ∀ c ∈ nb.connections, c.handshakeDone = true)
    (hfit : m.Fits { a := a, i := i, b := b, j := j }) :
    (∀ v : Nat, (deliverUpdate H m a i b j).size v =
      m.size v + (if v = b then ca.currentClusterInfoUpdatePacket.clusterSizeChange else 0)) ∧
    (∀ (v k : Nat) (c : MeshConnection), m.connection v k = some c →
      ∃ c', (deliverUpdate H m a i b j).connection v k = some c' ∧
        c'.connectionState = c.connectionState ∧
        c'.connectedClusterSize = c.connectedClusterSize +
          (if v = b ∧ k = j then ca.currentClusterInfoUpdatePacket.clusterSizeChange else 0) ∧
        c'.currentClusterInfoUpdatePacket.clusterSizeChange =
          (if v = a ∧ k = i then 0
           else c.currentClusterInfoUpdatePacket.clusterSizeChange +
            (if v = b ∧ k ≠ j then ca.currentClusterInfoUpdatePacket.clusterSizeChange else 0))) ∧
    (∀ (v : Nat) (n : Node), m.nodes[v]? = some n →
      ∃ n', (deliverUpdate H m a i b j).nodes[v]? = some n' ∧
        n'.connections.length = n.connections.length) := by
  have hnodes := deliverUpdate_nodes H m a i b j na nb ca cb hna hnb hca hcb
  have hpa : m.pending a i = ca.currentClusterInfoUpdatePacket.clusterSizeChange :=
    m.pending_of_connection a i ca ((m.connection_of_node a i na hna).trans hca)
  have hsb : m.size b = nb.clusterSize := m.size_of_node b nb hnb
  have hcsb : m.connectedSize b j = cb.connectedClusterSize :=
    m.connectedSize_of_connection b j cb ((m.connection_of_node b j nb hnb).trans hcb)
  obtain ⟨f1, f2, f3⟩ := hfit
  simp only [hpa, hsb, hcsb, hnb, Option.toList_some, List.mem_singleton, forall_eq] at f1 f2 f3
  obtain ⟨r1, r2, r3⟩ := receive_effect H nb j cb (flushedPacket ca cb) hcb rfl f1 f2 f3 hdone
  have hd : (flushedPacket ca cb).clusterSizeChange =
      ca.currentClusterInfoUpdatePacket.clusterSizeChange := rfl
  rw [hd] at r1
  simp only [hd] at r3
  refine ⟨?_, ?_, ?_⟩
  · intro v
    unfold Mesh.size
    rw [hnodes v]
    by_cases hvb : v = b
    · rw [if_pos hvb, if_pos hvb, hvb, hnb]
      exact r1
    · rw [if_neg hvb, if_neg hvb]
      by_cases hva : v = a
      · rw [if_pos hva, hva, hna]
        simp [flushedNode]
      · rw [if_neg hva]
        omega
  · intro v k c hc
    obtain ⟨n, hn, hnc⟩ := m.node_of_connection v k c hc
    unfold Mesh.connection
    rw [hnodes v]
    by_cases hvb : v = b
    · rw [if_pos hvb]
      have hva : ¬ (v = a ∧ k = i) := fun h => hab (h.1.symm.trans hvb)
      have hnn : nb = n := Option.some.inj (hnb.symm.trans (hvb ▸ hn))
      rw [← hnn] at hnc
      obtain ⟨c', hc', s1, s2, s3⟩ := r3 k c hnc
      refine ⟨c', hc', s1, ?_, ?_⟩
      · rw [s2]
        by_cases hk : k = j
        · have e : v = b ∧ k = j := ⟨hvb, hk⟩
          rw [if_pos hk, if_pos e]
        · have e : ¬ (v = b ∧ k = j) := fun h => hk h.2
          rw [if_neg hk, if_neg e]
      · rw [s3, if_neg hva]
        by_cases hk : k = j
        · have e : ¬ (v = b ∧ k ≠ j) := fun h => h.2 hk
          rw [if_pos hk, if_neg e]
        · have e : v = b ∧ k ≠ j := ⟨hvb, hk⟩
          rw [if_neg hk, if_pos e]
    · rw [if_neg hvb]
      have e1 : ¬ (v = b ∧ k = j) := fun h => hvb h.1
      have e2 : ¬ (v = b ∧ k ≠ j) := fun h => hvb h.1
      rw [if_neg e1, if_neg e2]
      by_cases hva : v = a
      · rw [if_pos hva]
        have hnn : na = n := Option.some.inj (hna.symm.trans (hva ▸ hn))
        rw [← hnn] at hnc
        by_cases hk : k = i
        · have hcc : ca = c := Option.some.inj (hca.symm.trans (hk ▸ hnc))
          have e3 : v = a ∧ k = i := ⟨hva, hk⟩
          rw [if_pos e3]
          refine ⟨ca.ClearCurrentClusterInfoUpdatePacket, ?_, ?_, ?_, ?_⟩
          · simp only [flushedNode]
            rw [hk, List.getElem?_set_self (lt_length_of_getElem? hca)]
          · rw [← hcc]
            rfl
          · rw [← hcc]
            simp [MeshConnection.ClearCurrentClusterInfoUpdatePacket]
          · rfl
        · have e3 : ¬ (v = a ∧ k = i) := fun h => hk h.2
          rw [if_neg e3]
          refine ⟨c, ?_, rfl, ?_, ?_⟩
          · simp only [flushedNode]
            rw [List.getElem?_set_ne (Ne.symm hk)]
            exact hnc
          · omega
          · omega
      · rw [if_neg hva, hn]
        have e3 : ¬ (v = a ∧ k = i) := fun h => hva h.1
        rw [if_neg e3]
        exact ⟨c, hnc, rfl, by omega, by omega⟩
  · intro v n hn
    rw [hnodes v]
    by_cases hvb : v = b
    · rw [if_pos hvb]
      subst hvb
      have hnn : nb = n := Option.some.inj (hnb.symm.trans hn)
      subst hnn
      exact ⟨_, rfl, r2⟩
    · rw [if_neg hvb]
      by_cases hva : v = a
      · rw [if_pos hva]
        subst hva
        have hnn : na = n := Option.some.inj (hna.symm.trans hn)
        subst hnn
        exact ⟨_, rfl, by simp [flushedNode]⟩
      · rw [if_neg hva]
        exact ⟨n, hn, rfl⟩

theorem Mesh.mem_slots (m : Mesh) (v k : Nat) :
    (v, k) ∈ m.slots ↔ ∃ n : Node, m.nodes[v]? = some n ∧ k < n.connections.length := by
  unfold Mesh.slots Mesh.degrees
  simp only [List.mem_flatMap, List.mem_map, List.mem_range, Prod.exists,
    List.mk_mem_enum_iff_getElem?, List.getElem?_map, Prod.mk.injEq]
  constructor
  · rintro ⟨v', d, hd, k', hk', rfl, rfl⟩
    cases hn : m.nodes[v']? with
    | none =>
      rw [hn] at hd
      simp at hd
    | some n =>
      rw [hn] at hd
      simp only [Option.map_some', Option.some.injEq] at hd
      exact ⟨n, rfl, by omega⟩
  · rintro ⟨n, hn, hk⟩
    exact ⟨v, n.connections.length, by rw [hn]; rfl, k, hk, rfl, rfl⟩

theorem Mesh.mem_ends (m : Mesh) (p : Nat × Nat) :
    p ∈ m.ends ↔ ∃ l ∈ m.links, p = (l.a, l.i) ∨ p = (l.b, l.j) := by
  unfold Mesh.ends
  simp only [List.mem_flatMap, List.mem_cons, List.mem_singleton, List.not_mem_nil, or_false]

theorem Mesh.connection_of_end (m : Mesh) (hperm : m.ends.Perm m.slots) (v k : Nat)
    (h : (v, k) ∈ m.ends) : ∃ c : MeshConnection, m.connection v k = some c := by
  obtain ⟨n, hn, hk⟩ := (m.mem_slots v k).1 (hperm.subset h)
  refine ⟨n.connections.get ⟨k, hk⟩, ?_⟩
  rw [m.connection_of_node v k n hn]
  exact List.getElem?_eq_getElem hk

theorem Mesh.ends_disjoint (m : Mesh) (hnd : m.ends.Nodup) (l l0 : MeshLink)
    (hl : l ∈ m.links) (hl0 : l0 ∈ m.links) (hne : l ≠ l0) :
    (l.a, l.i) ≠ (l0.a, l0.i) ∧ (l.a, l.i) ≠ (l0.b, l0.j) ∧
    (l.b, l.j) ≠ (l0.a, l0.i) ∧ (l.b, l.j) ≠ (l0.b, l0.j) := by
  unfold Mesh.ends at hnd
  rw [List.nodup_flatMap] at hnd
  have hsymm : Symmetric fun x y : MeshLink =>
      List.Disjoint [(x.a, x.i), (x.b, x.j)] [(y.a, y.i), (y.b, y.j)] :=
    fun _ _ h => h.symm
  have hd := hnd.2.forall hsymm hl hl0 hne
  have h1 : (l.a, l.i) ∈ [(l.a, l.i), (l.b, l.j)] := by simp
  have h2 : (l.b, l.j) ∈ [(l.a, l.i), (l.b, l.j)] := by simp
  have h3 : (l0.a, l0.i) ∈ [(l0.a, l0.i), (l0.b, l0.j)] := by simp
  have h4 : (l0.b, l0.j) ∈ [(l0.a, l0.i), (l0.b, l0.j)] := by simp
  refine ⟨?_, ?_, ?_, ?_⟩ <;> intro he
  · exact hd h1 (he ▸ h3)
  · exact hd h1 (he ▸ h4)
  · exact hd h2 (he ▸ h3)
  · exact hd h2 (he ▸ h4)

theorem linkWeight_of_fields {c c' : MeshConnection}
    (h1 : c'.connectionState = c.connectionState) (d : Int)
    (h2 : c'.connectedClusterSize = c.connectedClusterSize + d)
    (hdone : c.handshakeDone = true) : linkWeight c' = linkWeight c + d := by
  have hdone' : c'.handshakeDone = true := by
    rw [handshakeDone_iff] at hdone ⊢
    rw [h1]
    exact hdone
  rw [linkWeight_of_handshakeDone c hdone, linkWeight_of_handshakeDone c' hdone', h2]

theorem mem_of_getElem?_eq {α : Type} {l : List α} {k : Nat} {x : α} (h : l[k]? = some x) :
    x ∈ l := by
  rw [List.mem_iff_getElem?]
  exact ⟨k, h⟩

theorem handshakedSizeSum_step (n n' : Node) (j : Option Nat) (d : Int)
    (hlen : n'.connections.length = n.connections.length)
    (hdone : ∀ c ∈ n.connections, c.handshakeDone = true)
    (hj : ∀ k : Nat, j = some k → k < n.connections.length)
    (h : ∀ (k : Nat) (c : MeshConnection), n.connections[k]? = some c →
      ∃ c', n'.connections[k]? = some c' ∧ c'.connectionState = c.connectionState ∧
        c'.connectedClusterSize = c.connectedClusterSize + (if j = some k then d else 0)) :
    handshakedSizeSum n' = handshakedSizeSum n + (if j = none then 0 else d) := by
  cases j with
  | none =>
    rw [if_pos rfl, add_zero]
    apply handshakedSizeSum_of_links n n' hlen
    intro k c hc
    obtain ⟨c', hc', s1, s2⟩ := h k c hc
    refine ⟨c', hc', ?_⟩
    rw [linkWeight_of_fields s1 _ s2 (hdone c (mem_of_getElem?_eq hc))]
    simp
  | some k0 =>
    have hk0 := hj k0 rfl
    have hc0 : n.connections[k0]? = some (n.connections.get ⟨k0, hk0⟩) :=
      List.getElem?_eq_getElem hk0
    obtain ⟨c0', hc0', s1, s2⟩ := h k0 _ hc0
    rw [if_pos rfl] at s2
    rw [handshakedSizeSum_of_links_except n n' k0 _ c0' hlen hc0 hc0',
      linkWeight_of_fields s1 _ s2 (hdone _ (mem_of_getElem?_eq hc0))]
    · simp only [reduceCtorEq, if_false]
      omega
    · intro k c hk hc
      obtain ⟨c', hc', t1, t2⟩ := h k c hc
      refine ⟨c', hc', ?_⟩
      have hne : ¬ (some k0 = some k) := fun e => hk (Option.some.inj e).symm
      rw [if_neg hne] at t2
      rw [linkWeight_of_fields t1 _ t2 (hdone c (mem_of_getElem?_eq hc))]
      simp

theorem deliverUpdate_nodewise (H : HopsToShortestSink) (m : Mesh) (a i b j : Nat) (na nb : Node)
    (ca cb : MeshConnection) (hab : a ≠ b) (hna : m.nodes[a]? = some na)
    (hnb : m.nodes[b]? = some nb) (hca : na.connections[i]? = some ca)
    (hcb : nb.connections[j]? = some cb)
    (hdone : ∀ c ∈ nb.connections, c.handshakeDone = true)
    (hfit : m.Fits { a := a, i := i, b := b, j := j }) (v : Nat) (n : Node)
    (hn : m.nodes[v]? = some n) :
    ∃ n', (deliverUpdate H m a i b j).nodes[v]? = some n' ∧
      n'.connections.length = n.connections.length ∧
      n'.clusterSize = n.clusterSize +
        (if v = b then ca.currentClusterInfoUpdatePacket.clusterSizeChange else 0) ∧
      ∀ (k : Nat) (c : MeshConnection), n.connections[k]? = some c →
        ∃ c', n'.connections[k]? = some c' ∧
          c'.connectionState = c.connectionState ∧
          c'.connectedClusterSize = c.connectedClusterSize +
            (if v = b ∧ k = j then ca.currentClusterInfoUpdatePacket.clusterSizeChange else 0) := by
  obtain ⟨e1, e2, e3⟩ := deliverUpdate_effect H m a i b j na nb ca cb hab hna hnb hca hcb hdone hfit
  obtain ⟨n', hn', hlen⟩ := e3 v n hn
  refine ⟨n', hn', hlen, ?_, ?_⟩
  · have := e1 v
    rw [Mesh.size_of_node _ v n' hn', m.size_of_node v n hn] at this
    exact this
  · intro k c hc
    obtain ⟨c', hc', s1, s2, -⟩ := e2 v k c ((m.connection_of_node v k n hn).trans hc)
    rw [Mesh.connection_of_node _ v k n' hn'] at hc'
    exact ⟨c', hc', s1, s2⟩

theorem Mesh.link_cases (m : Mesh) (hwf : m.WellFormed) (d : Delivery) (hend : m.IsLinkEnd d) :
    d.a ≠ d.b ∧ (d.a, d.i) ∈ m.ends ∧ (d.b, d.j) ∈ m.ends ∧
    ∀ l ∈ m.links,
      (l.a = d.a ∧ l.i = d.i ∧ l.b = d.b ∧ l.j = d.j) ∨
      (l.a = d.b ∧ l.i = d.j ∧ l.b = d.a ∧ l.j = d.i) ∨
      (¬ (l.a = d.a ∧ l.i = d.i) ∧ ¬ (l.a = d.b ∧ l.i = d.j) ∧
       ¬ (l.b = d.a ∧ l.j = d.i) ∧ ¬ (l.b = d.b ∧ l.j = d.j)) := by
  obtain ⟨hne, hnd, -, -⟩ := hwf
  obtain ⟨l0, hl0, hor⟩ := hend
  have hne0 := hne l0 hl0
  have hA : (l0.a, l0.i) ∈ m.ends := (m.mem_ends _).2 ⟨l0, hl0, Or.inl rfl⟩
  have hB : (l0.b, l0.j) ∈ m.ends := (m.mem_ends _).2 ⟨l0, hl0, Or.inr rfl⟩
  have hcases : ∀ l ∈ m.links, l = l0 ∨
      (¬ (l.a = l0.a ∧ l.i = l0.i) ∧ ¬ (l.a = l0.b ∧ l.i = l0.j) ∧
       ¬ (l.b = l0.a ∧ l.j = l0.i) ∧ ¬ (l.b = l0.b ∧ l.j = l0.j)) := by
    intro l hl
    by_cases he : l = l0
    · exact Or.inl he
    · obtain ⟨h1, h2, h3, h4⟩ := m.ends_disjoint hnd l l0 hl hl0 he
      simp only [ne_eq, Prod.mk.injEq] at h1 h2 h3 h4
      exact Or.inr ⟨h1, h2, h3, h4⟩
  rcases hor with ⟨h1, h2, h3, h4⟩ | ⟨h1, h2, h3, h4⟩
  · rw [← h1, ← h2, ← h3, ← h4]
    refine ⟨hne0, hA, hB, ?_⟩
    intro l hl
    rcases hcases l hl with he | ⟨g1, g2, g3, g4⟩
    · exact Or.inl (he ▸ ⟨rfl, rfl, rfl, rfl⟩)
    · exact Or.inr (Or.inr ⟨g1, g2, g3, g4⟩)
  · rw [← h1, ← h2, ← h3, ← h4]
    refine ⟨Ne.symm hne0, hB, hA, ?_⟩
    intro l hl
    rcases hcases l hl with he | ⟨g1, g2, g3, g4⟩
    · exact Or.inr (Or.inl (he ▸ ⟨rfl, rfl, rfl, rfl⟩))
    · exact Or.inr (Or.inr ⟨g2, g1, g4, g3⟩)

theorem deliverUpdate_invariant (H : HopsToShortestSink) (m : Mesh) (d : Delivery)
    (hwf : m.WellFormed) (hacc : m.Accounted) (hend : m.IsLinkEnd d) (hfit : m.Fits d) :
    (deliverUpdate H m d.a d.i d.b d.j).WellFormed ∧
    (deliverUpdate H m d.a d.i d.b d.j).Accounted ∧
    (deliverUpdate H m d.a d.i d.b d.j).links = m.links ∧
    (deliverUpdate H m d.a d.i d.b d.j).nodes.length = m.nodes.length := by
  obtain ⟨a, i, b, j⟩ := d
  simp only
  obtain ⟨hab, hS, hT, hcases⟩ := m.link_cases hwf _ hend
  simp only at hab hS hT hcases
  obtain ⟨hne, hnd, hperm, hdone⟩ := hwf
  obtain ⟨ca, hca0⟩ := m.connection_of_end hperm a i hS
  obtain ⟨cb, hcb0⟩ := m.connection_of_end hperm b j hT
  obtain ⟨na, hna, hca⟩ := m.node_of_connection a i ca hca0
  obtain ⟨nb, hnb, hcb⟩ := m.node_of_connection b j cb hcb0
  have hdoneb := hdone nb (mem_of_getElem?_eq hnb)
  obtain ⟨hlinks, hlen⟩ := deliverUpdate_frame H m a i b j
  have hnode := deliverUpdate_nodewise H m a i b j na nb ca cb hab hna hnb hca hcb hdoneb hfit
  obtain ⟨e1, e2, -⟩ :=
    deliverUpdate_effect H m a i b j na nb ca cb hab hna hnb hca hcb hdoneb hfit
  have hpa : m.pending a i = ca.currentClusterInfoUpdatePacket.clusterSizeChange :=
    m.pending_of_connection a i ca hca0
  generalize ca.currentClusterInfoUpdatePacket.clusterSizeChange = δ at hnode e1 e2 hpa
  -- every node of the new mesh comes from a node of the old one
  have hback : ∀ (v : Nat) (n' : Node), (deliverUpdate H m a i b j).nodes[v]? = some n' →
      ∃ n, m.nodes[v]? = some n := by
    intro v n' hn'
    have hv : v < m.nodes.length := hlen ▸ lt_length_of_getElem? hn'
    exact ⟨m.nodes.get ⟨v, hv⟩, List.getElem?_eq_getElem hv⟩
  have hdeg : (deliverUpdate H m a i b j).degrees = m.degrees := by
    unfold Mesh.degrees
    apply List.ext_getElem?
    intro v
    rw [List.getElem?_map, List.getElem?_map]
    cases hn : m.nodes[v]? with
    | none =>
      have : (deliverUpdate H m a i b j).nodes[v]? = none := by
        rw [List.getElem?_eq_none_iff] at hn ⊢
        omega
      rw [this]
    | some n =>
      obtain ⟨n', hn', hl, -⟩ := hnode v n hn
      rw [hn']
      simp only [Option.map_some', hl]
  have hslots : (deliverUpdate H m a i b j).slots = m.slots := by
    unfold Mesh.slots
    rw [hdeg]
  have hends : (deliverUpdate H m a i b j).ends = m.ends := by
    unfold Mesh.ends
    rw [hlinks]
  refine ⟨⟨?_, ?_, ?_, ?_⟩, ⟨?_, ?_⟩, hlinks, hlen⟩
  · rw [hlinks]
    exact hne
  · rw [hends]
    exact hnd
  · rw [hends, hslots]
    exact hperm
  · intro n' hn' c' hc'
    obtain ⟨v, hv⟩ := List.mem_iff_getElem?.1 hn'
    obtain ⟨k, hk⟩ := List.mem_iff_getElem?.1 hc'
    obtain ⟨n, hn⟩ := hback v n' hv
    obtain ⟨n'', hn'', hl, -, hc⟩ := hnode v n hn
    have hnn : n'' = n' := Option.some.inj (hn''.symm.trans hv)
    subst hnn
    have hk' : k < n.connections.length := hl ▸ lt_length_of_getElem? hk
    obtain ⟨c'', hc'', s1, -⟩ := hc k _ (List.getElem?_eq_getElem hk')
    have hcc : c'' = c' := Option.some.inj (hc''.symm.trans hk)
    subst hcc
    have := hdone n (mem_of_getElem?_eq hn) _ (List.getElem_mem hk')
    rw [handshakeDone_iff] at this ⊢
    rw [s1]
    exact this
  · intro n' hn'
    obtain ⟨v, hv⟩ := List.mem_iff_getElem?.1 hn'
    obtain ⟨n, hn⟩ := hback v n' hv
    obtain ⟨n'', hn'', hl, hsz, hc⟩ := hnode v n hn
    have hnn : n'' = n' := Option.some.inj (hn''.symm.trans hv)
    subst hnn
    have hacn : SizeAccounting n := hacc.1 n (mem_of_getElem?_eq hn)
    unfold SizeAccounting at hacn ⊢
    have hsum := handshakedSizeSum_step n n'' (if v = b then some j else none) δ hl
      (hdone n (mem_of_getElem?_eq hn))
      (by
        intro k hk
        by_cases hvb : v = b
        · rw [if_pos hvb] at hk
          have hkj : j = k := Option.some.inj hk
          have hnn : nb = n := Option.some.inj (hnb.symm.trans (hvb ▸ hn))
          rw [← hkj, ← hnn]
          exact lt_length_of_getElem? hcb
        · rw [if_neg hvb] at hk
          cases hk)
      (by
        intro k c hkc
        obtain ⟨c', hc', s1, s2⟩ := hc k c hkc
        refine ⟨c', hc', s1, ?_⟩
        rw [s2]
        by_cases hvb : v = b
        · rw [if_pos hvb]
          by_cases hkj : k = j
          · rw [if_pos ⟨hvb, hkj⟩, if_pos (by rw [hkj])]
          · have e : ¬ (v = b ∧ k = j) := fun h => hkj h.2
            have e' : ¬ (some j = some k) := fun h => hkj (Option.some.inj h).symm
            rw [if_neg e, if_neg e']
        · have e : ¬ (v = b ∧ k = j) := fun h => hvb h.1
          have e' : ¬ ((none : Option Nat) = some k) := fun h => by cases h
          rw [if_neg hvb, if_neg e, if_neg e'])
    rw [hsum, hsz, hacn]
    by_cases hvb : v = b
    · rw [if_pos hvb, if_pos hvb]
      simp only [reduceCtorEq, if_false]
      omega
    · rw [if_neg hvb, if_neg hvb]
      simp only [if_true]
      omega
  · rw [hlinks]
    intro l hl
    obtain ⟨cA, hcA⟩ := m.connection_of_end hperm l.a l.i
      ((m.mem_ends _).2 ⟨l, hl, Or.inl rfl⟩)
    obtain ⟨cB, hcB⟩ := m.connection_of_end hperm l.b l.j
      ((m.mem_ends _).2 ⟨l, hl, Or.inr rfl⟩)
    obtain ⟨cA', hcA', -, sA2, sA3⟩ := e2 l.a l.i cA hcA
    obtain ⟨cB', hcB', -, sB2, sB3⟩ := e2 l.b l.j cB hcB
    have hE := hacc.2 l hl
    rw [Mesh.connectedSize_of_connection _ _ _ _ hcA', Mesh.connectedSize_of_connection _ _ _ _ hcB',
      Mesh.pending_of_connection _ _ _ _ hcA', Mesh.pending_of_connection _ _ _ _ hcB',
      e1 l.a, e1 l.b, sA2, sA3, sB2, sB3]
    rw [m.connectedSize_of_connection _ _ _ hcA, m.connectedSize_of_connection _ _ _ hcB,
      m.pending_of_connection _ _ _ hcA, m.pending_of_connection _ _ _ hcB] at hE
    have hpa' : ∀ c : MeshConnection, m.connection a i = some c →
        c.currentClusterInfoUpdatePacket.clusterSizeChange = δ := by
      intro c hc
      rw [← hpa, m.pending_of_connection a i c hc]
    rcases hcases l hl with ⟨h1, h2, h3, h4⟩ | ⟨h1, h2, h3, h4⟩ | ⟨h1, h2, h3, h4⟩
    · have hδ := hpa' cA (by rw [← h1, ← h2]; exact hcA)
      constructor <;> split_ifs <;> omega
    · have hδ := hpa' cB (by rw [← h3, ← h4]; exact hcB)
      constructor <;> split_ifs <;> omega
    · constructor <;> split_ifs <;> omega

theorem sum_map_flatMap {α β : Type} (L : List α) (f : α → List β) (w : β → Int) :
    ((L.flatMap f).map w).sum = (L.map fun x => ((f x).map w).sum).sum := by
  induction L with
  | nil => rfl
  | cons x rest ih =>
    rw [List.flatMap_cons, List.map_append, List.sum_append, ih]
    rfl

theorem sum_map_of_forall {α : Type} (L : List α) (f : α → Int) (c : Int)
    (h : ∀ x ∈ L, f x = c) : (L.map f).sum = L.length * c := by
  induction L with
  | nil => simp
  | cons x rest ih =>
    rw [List.map_cons, List.sum_cons, h x (List.mem_cons_self _ _),
      ih (fun y hy => h y (List.mem_cons_of_mem _ hy)), List.length_cons]
    push_cast
    ring

theorem Mesh.pending_of_quiescent (m : Mesh) (hq : m.Quiescent) (v k : Nat) :
    m.pending v k = 0 := by
  cases hc : m.connection v k with
  | none =>
    unfold Mesh.pending
    rw [hc]
  | some c =>
    rw [m.pending_of_connection v k c hc]
    obtain ⟨n, hn, hnc⟩ := m.node_of_connection v k c hc
    exact hq n (mem_of_getElem?_eq hn) c (mem_of_getElem?_eq hnc)

theorem Mesh.sum_connectedSize (m : Mesh) (v : Nat) (n : Node) (hn : m.nodes[v]? = some n)
    (hdone : ∀ c ∈ n.connections, c.handshakeDone = true) :
    (((List.range n.connections.length).map fun k => (v, k)).map
      fun p : Nat × Nat => m.connectedSize p.1 p.2).sum = handshakedSizeSum n := by
  unfold handshakedSizeSum
  congr 1
  apply List.ext_getElem?
  intro k
  simp only [List.getElem?_map, List.getElem?_range]
  by_cases hk : k < n.connections.length
  · rw [List.getElem?_range hk, List.getElem?_eq_getElem hk]
    simp only [Option.map_some']
    rw [m.connectedSize_of_connection v k (n.connections.get ⟨k, hk⟩)
      ((m.connection_of_node v k n hn).trans (List.getElem?_eq_getElem hk)),
      linkWeight_of_handshakeDone _ (hdone _ (List.getElem_mem hk))]
    rfl
  · rw [List.getElem?_eq_none (by simpa using hk), List.getElem?_eq_none (by omega)]
    rfl

theorem Mesh.quiescent_size (m : Mesh) (hwf : m.WellFormed) (htree : m.IsTree)
    (hacc : m.Accounted) (hq : m.Quiescent) :
    ∀ n ∈ m.nodes, n.clusterSize = m.nodes.length := by
  obtain ⟨-, -, hperm, hdone⟩ := hwf
  obtain ⟨hcount, hconn⟩ := htree
  have hlink : ∀ l ∈ m.links, m.size l.a = m.size l.b ∧
      m.connectedSize l.a l.i + m.connectedSize l.b l.j = m.size l.b := by
    intro l hl
    have h := hacc.2 l hl
    rw [m.pending_of_quiescent hq, m.pending_of_quiescent hq] at h
    omega
  have hall : ∀ v : Nat, v < m.nodes.length → m.size v = m.size 0 :=
    hconn (fun v => m.size v = m.size 0) rfl
      (fun l hl => by
        have := (hlink l hl).1
        constructor <;> intro h <;> omega)
  have hends : (m.ends.map fun p : Nat × Nat => m.connectedSize p.1 p.2).sum =
      m.links.length * m.size 0 := by
    unfold Mesh.ends
    rw [sum_map_flatMap]
    apply sum_map_of_forall
    intro l hl
    obtain ⟨n, hn, -⟩ := (m.mem_slots l.b l.j).1
      (hperm.subset ((m.mem_ends _).2 ⟨l, hl, Or.inr rfl⟩))
    have := (hlink l hl).2
    have := hall l.b (lt_length_of_getElem? hn)
    simp only [List.map_cons, List.map_nil, List.sum_cons, List.sum_nil]
    omega
  have hslots : (m.slots.map fun p : Nat × Nat => m.connectedSize p.1 p.2).sum =
      m.nodes.length * (m.size 0 - 1) := by
    unfold Mesh.slots
    rw [sum_map_flatMap]
    have hl : m.nodes.length = m.degrees.enum.length := by
      unfold Mesh.degrees
      simp
    rw [hl]
    apply sum_map_of_forall
    rintro ⟨v, d⟩ hvd
    rw [List.mk_mem_enum_iff_getElem?] at hvd
    unfold Mesh.degrees at hvd
    rw [List.getElem?_map] at hvd
    cases hn : m.nodes[v]? with
    | none =>
      rw [hn] at hvd
      cases hvd
    | some n =>
      rw [hn] at hvd
      have hd : n.connections.length = d := Option.some.inj hvd
      subst hd
      have hmem := mem_of_getElem?_eq hn
      have hsz := hacc.1 n hmem
      unfold SizeAccounting at hsz
      have := hall v (lt_length_of_getElem? hn)
      rw [m.size_of_node v n hn] at this
      simp only
      rw [m.sum_connectedSize v n hn (hdone n hmem)]
      omega
  have hsum := (hperm.map fun p : Nat × Nat => m.connectedSize p.1 p.2).sum_eq
  rw [hends, hslots] at hsum
  have hK : (m.nodes.length : Int) = m.links.length + 1 := by omega
  rw [hK] at hsum
  have hC : m.size 0 = m.links.length + 1 := by
    have h2 : ((m.links.length : Int) + 1) * (m.size 0 - 1) =
        m.links.length * m.size 0 + m.size 0 - m.links.length - 1 := by ring
    omega
  intro n hn
  obtain ⟨v, hv⟩ := List.mem_iff_getElem?.1 hn
  have := hall v (lt_length_of_getElem? hv)
  rw [m.size_of_node v n hv] at this
  omega

theorem deliverAll_invariant (H : HopsToShortestSink) (ds : List Delivery) (m : Mesh)
    (hwf : m.WellFormed) (htree : m.IsTree) (hacc : m.Accounted) (hadm : Admissible H ds m) :
    (deliverAll H ds m).WellFormed ∧ (deliverAll H ds m).IsTree ∧
    (deliverAll H ds m).Accounted ∧ (deliverAll H ds m).nodes.length = m.nodes.length := by
  induction ds generalizing m with
  | nil => exact ⟨hwf, htree, hacc, rfl⟩
  | cons d rest ih =>
    obtain ⟨hend, hfit, hrest⟩ := hadm
    obtain ⟨w1, w2, w3, w4⟩ := deliverUpdate_invariant H m d hwf hacc hend hfit
    have htree' : (deliverUpdate H m d.a d.i d.b d.j).IsTree := by
      unfold Mesh.IsTree Mesh.Connected
      rw [w3, w4]
      exact htree
    obtain ⟨r1, r2, r3, r4⟩ := ih _ w1 htree' w2 hrest
    exact ⟨r1, r2, r3, r4.trans w4⟩

/-- C24: in a closed mesh of K nodes that is one connected tree of handshaked
links and whose bookkeeping is consistent, once the pending cluster-info
updates have been flushed over the links and applied in counter order, with
sizes that fit their 16-bit fields, until no size delta is pending any more,
the clusterSize of every node is K. -/
theorem mesh_clusterSize_converges (H : HopsToShortestSink) (m : Mesh) (ds : List Delivery)
    (hwf : m.WellFormed) (htree : m.IsTree) (hacc : m.Accounted) (hadm : Admissible H ds m)
    (hq : (deliverAll H ds m).Quiescent) :
    ∀ n ∈ (deliverAll H ds m).nodes, n.clusterSize = m.nodes.length := by
  obtain ⟨r1, r2, r3, r4⟩ := deliverAll_invariant H ds m hwf htree hacc hadm
  rw [← r4]
  exact Mesh.quiescent_size _ r1 r2 r3 hq

theorem rowMesh_wellFormed : rowMesh.WellFormed := by
  refine ⟨by decide, by decide, ?_, by decide⟩
  have : rowMesh.ends = rowMesh.slots := by decide
  rw [this]

theorem rowMesh_isTree : rowMesh.IsTree := by
  refine ⟨rfl, ?_⟩
  intro P h0 hl v hv
  have h01 : P 0 ↔ P 1 := hl { a := 0, i := 0, b := 1, j := 0 } (by decide)
  have h12 : P 1 ↔ P 2 := hl { a := 1, i := 1, b := 2, j := 0 } (by decide)
  have hv3 : v < 3 := hv
  match v, hv3 with
  | 0, _ => exact h0
  | 1, _ => exact h01.1 h0
  | 2, _ => exact h12.1 (h01.1 h0)

theorem rowMesh_accounted : rowMesh.Accounted := by
  unfold Mesh.Accounted
  decide

theorem rowMesh_admissible :
    Admissible sampleHops [{ a := 1, i := 0, b := 0, j := 0 }] rowMesh := by
  refine ⟨⟨{ a := 0, i := 0, b := 1, j := 0 }, by decide, Or.inr ⟨rfl, rfl, rfl, rfl⟩⟩, ?_, trivial⟩
  unfold Mesh.Fits
  decide

theorem rowMesh_quiescent :
    (deliverAll sampleHops [{ a := 1, i := 0, b := 0, j := 0 }] rowMesh).Quiescent := by
  unfold Mesh.Quiescent
  decide

theorem mesh_clusterSize_converges_witness :
    rowMesh.WellFormed ∧ rowMesh.IsTree ∧ rowMesh.Accounted ∧
    Admissible sampleHops [{ a := 1, i := 0, b := 0, j := 0 }] rowMesh ∧
    (deliverAll sampleHops [{ a := 1, i := 0, b := 0, j := 0 }] rowMesh).Quiescent ∧
    (rowMesh.nodes.map fun n => n.clusterSize) = [2, 3, 3] ∧
    ((deliverAll sampleHops [{ a := 1, i := 0, b := 0, j := 0 }] rowMesh).nodes.map
      fun n => n.clusterSize) = [3, 3, 3] ∧
    ∀ n ∈ (deliverAll sampleHops [{ a := 1, i := 0, b := 0, j := 0 }] rowMesh).nodes,
      n.clusterSize = rowMesh.nodes.length :=
  ⟨rowMesh_wellFormed, rowMesh_isTree, rowMesh_accounted, rowMesh_admissible, rowMesh_quiescent,
    by decide, by decide,
    mesh_clusterSize_converges sampleHops rowMesh [{ a := 1, i := 0, b := 0, j := 0 }]
      rowMesh_wellFormed rowMesh_isTree rowMesh_accounted rowMesh_admissible rowMesh_quiescent⟩

/-! ## Facts about the loss of a link before its handshake is done -/

theorem ChangeState_fieldsBesideCluster (n : Node) (s : DiscoveryState) :
    fieldsBesideCluster (ChangeState n s) = fieldsBesideCluster n := by
  unfold ChangeState
  split
  · rfl
  · cases s <;> rfl

theorem KeepHighDiscoveryActive_fieldsBesideCluster (n : Node) :
    fieldsBesideCluster (KeepHighDiscoveryActive n) = fieldsBesideCluster n := by
  unfold KeepHighDiscoveryActive
  split
  · rfl
  · exact ChangeState_fieldsBesideCluster n DiscoveryState.HIGH

theorem HandOverMasterBitIfNecessary_fieldsBesideCluster (n : Node) :
    fieldsBesideCluster (HandOverMasterBitIfNecessary n) = fieldsBesideCluster n := by
  unfold HandOverMasterBitIfNecessary
  split <;> rfl

theorem HandOverMasterBitIfNecessary_connections (n : Node) :
    (HandOverMasterBitIfNecessary n).connections =
      if HasAllMasterBits n = true then n.connections.map (handOverStep n.clusterSize)
      else n.connections := by
  unfold HandOverMasterBitIfNecessary
  split <;> rfl

theorem HandOverMasterBitIfNecessary_connections_congr {a b : Node}
    (h1 : a.connections = b.connections) (h2 : a.clusterSize = b.clusterSize) :
    (HandOverMasterBitIfNecessary a).connections = (HandOverMasterBitIfNecessary b).connections := by
  rw [HandOverMasterBitIfNecessary_connections, HandOverMasterBitIfNecessary_connections]
  unfold HasAllMasterBits
  rw [h1, h2]

theorem handOverStep_sizes (cs : Int) (c : MeshConnection) :
    (handOverStep cs c).connectedClusterSize = c.connectedClusterSize ∧
    (handOverStep cs c).currentClusterInfoUpdatePacket.clusterSizeChange =
      c.currentClusterInfoUpdatePacket.clusterSizeChange ∧
    (handOverStep cs c).connectionState = c.connectionState := by
  unfold handOverStep
  split <;> exact ⟨rfl, rfl, rfl⟩

theorem MeshConnectionDisconnectedHandler_incomplete_frame (H : HopsToShortestSink) (n : Node)
    (reason : AppDisconnectReason) (stateBefore : ConnectionState) (hadBit : Bool) (size : Int)
    (cid : Nat) (hstate : stateBefore.toNat < ConnectionState.HANDSHAKE_DONE.toNat) :
    fieldsBesideCluster (MeshConnectionDisconnectedHandler H n reason stateBefore hadBit size cid) =
      fieldsBesideCluster n ∧
    (MeshConnectionDisconnectedHandler H n reason stateBefore hadBit size cid).connections =
      (HandOverMasterBitIfNecessary n).connections ∧
    (MeshConnectionDisconnectedHandler H n reason stateBefore hadBit size cid).noNodesFoundCounter =
      0 := by
  have hst := disconnectStage_incomplete H n reason stateBefore hadBit size hstate
  rw [MeshConnectionDisconnectedHandler_eq, hst]
  have g1 : fieldsBesideCluster
      { n with connectionLossCounter := wrapU32 (n.connectionLossCounter + 1) } =
      fieldsBesideCluster n := rfl
  have g2 : ({ n with connectionLossCounter := wrapU32 (n.connectionLossCounter + 1) } :
      Node).connections = n.connections := rfl
  have g3 : ({ n with connectionLossCounter := wrapU32 (n.connectionLossCounter + 1) } :
      Node).clusterSize = n.clusterSize := rfl
  generalize ({ n with connectionLossCounter := wrapU32 (n.connectionLossCounter + 1) } : Node) = n1
    at g1 g2 g3 ⊢
  obtain ⟨k1, -, k3, -⟩ := KeepHighDiscoveryActive_frame n1
  have k0 := KeepHighDiscoveryActive_fieldsBesideCluster n1
  generalize KeepHighDiscoveryActive n1 = n6 at k0 k1 k3 ⊢
  have h7 : ∀ m : Node,
      m = (if n6.clusterSize = 1 then { n6 with clusterId := GenerateClusterID n6 } else n6) →
      fieldsBesideCluster m = fieldsBesideCluster n6 ∧ m.connections = n6.connections ∧
        m.clusterSize = n6.clusterSize := by
    intro m hm
    by_cases h : n6.clusterSize = 1
    · rw [if_pos h] at hm
      generalize GenerateClusterID n6 = x at hm
      rw [hm]
      exact ⟨rfl, rfl, rfl⟩
    · rw [if_neg h] at hm
      rw [hm]
      exact ⟨rfl, rfl, rfl⟩
  generalize (if n6.clusterSize = 1 then { n6 with clusterId := GenerateClusterID n6 } else n6) = n7
    at h7 ⊢
  obtain ⟨f1, f2, f3⟩ := h7 n7 rfl
  have o0 := HandOverMasterBitIfNecessary_fieldsBesideCluster n7
  have o1 : (HandOverMasterBitIfNecessary n7).connections =
      (HandOverMasterBitIfNecessary n).connections :=
    HandOverMasterBitIfNecessary_connections_congr (f2.trans (k3.trans g2))
      (f3.trans (k1.trans g3))
  generalize HandOverMasterBitIfNecessary n7 = n8 at o0 o1 ⊢
  refine ⟨?_, o1, rfl⟩
  have h1 : fieldsBesideCluster { n8 with noNodesFoundCounter := 0 } = fieldsBesideCluster n8 := rfl
  rw [h1, o0, f1, k0, g1]

/-- C6, as the code has it: when the lost connection had not finished its
handshake, MeshConnectionDisconnectedHandler leaves clusterSize and the
connectedClusterSize and pending clusterSizeChange of every link as they were;
clusterId is left as it was when clusterSize differs from 1, and is
regenerated from the incremented connectionLossCounter when clusterSize equals
1. Its other effects are these and no more: connectionLossCounter is
incremented; the discovery is re-armed as by KeepHighDiscoveryActive;
noNodesFoundCounter is reset; and the link records become what
HandOverMasterBitIfNecessary makes of them: on a node that holds all master
bits every handshaked link with connectedClusterSize > clusterSize -
connectedClusterSize loses its master bit and has its hand-over flag raised,
otherwise they stay as they are. Every other field of the node is left as it
was. -/
theorem MeshConnectionDisconnectedHandler_incomplete (H : HopsToShortestSink) (n : Node)
    (reason : AppDisconnectReason) (stateBefore : ConnectionState) (hadBit : Bool) (size : Int)
    (cid : Nat) (hstate : stateBefore.toNat < ConnectionState.HANDSHAKE_DONE.toNat) :
    (MeshConnectionDisconnectedHandler H n reason stateBefore hadBit size cid).clusterSize =
      n.clusterSize ∧
    (n.clusterSize ≠ 1 →
      (MeshConnectionDisconnectedHandler H n reason stateBefore hadBit size cid).clusterId =
        n.clusterId) ∧
    (n.clusterSize = 1 →
      (MeshConnectionDisconnectedHandler H n reason stateBefore hadBit size cid).clusterId =
        GenerateClusterID { n with connectionLossCounter := n.connectionLossCounter + 1 }) ∧
    (MeshConnectionDisconnectedHandler H n reason stateBefore hadBit size cid).connectionLossCounter =
      wrapU32 (n.connectionLossCounter + 1) ∧
    (MeshConnectionDisconnectedHandler H n reason stateBefore hadBit size cid).connections =
      (if HasAllMasterBits n = true then n.connections.map (handOverStep n.clusterSize)
       else n.connections) ∧
    (∀ (j : Nat) (c : MeshConnection), n.connections[j]? = some c →
      ∃ c', (MeshConnectionDisconnectedHandler H n reason stateBefore hadBit size cid).connections[j]?
          = some c' ∧
        c'.connectedClusterSize = c.connectedClusterSize ∧
        c'.currentClusterInfoUpdatePacket.clusterSizeChange =
          c.currentClusterInfoUpdatePacket.clusterSizeChange) ∧
    discoveryFields (MeshConnectionDisconnectedHandler H n reason stateBefore hadBit size cid) =
      discoveryFields (KeepHighDiscoveryActive n) ∧
    (MeshConnectionDisconnectedHandler H n reason stateBefore hadBit size cid).noNodesFoundCounter =
      0 ∧
    fieldsBesideCluster (MeshConnectionDisconnectedHandler H n reason stateBefore hadBit size cid) =
      fieldsBesideCluster n := by
  obtain ⟨s1, s2, s3, -⟩ :=
    MeshConnectionDisconnectedHandler_scalars H n reason stateBefore hadBit size cid
  have hst := disconnectStage_incomplete H n reason stateBefore hadBit size hstate
  obtain ⟨f1, f2, f3⟩ :=
    MeshConnectionDisconnectedHandler_incomplete_frame H n reason stateBefore hadBit size cid hstate
  rw [hst] at s1 s2
  simp only [] at s1 s2
  refine ⟨s1, ?_, ?_, s3, ?_, ?_,
    MeshConnectionDisconnectedHandler_fields H n reason stateBefore hadBit size cid, f3, f1⟩
  · intro h1
    rw [s2, if_neg h1]
  · intro h1
    rw [s2, if_pos h1]
    rfl
  · rw [f2, HandOverMasterBitIfNecessary_connections]
  · intro j c hc
    obtain ⟨c', h', r', p'⟩ := MeshConnectionDisconnectedHandler_link H n reason stateBefore hadBit
      size cid j c (by rw [hst]; exact hc)
    exact ⟨c', h', r'.2.1, p'⟩

theorem MeshConnectionDisconnectedHandler_incomplete_witness :
    ConnectionState.HANDSHAKING.toNat < ConnectionState.HANDSHAKE_DONE.toNat ∧
    (MeshConnectionDisconnectedHandler sampleHops sampleNode AppDisconnectReason.USER_REQUEST
        ConnectionState.HANDSHAKING false 0 0).clusterSize = 5 ∧
    (MeshConnectionDisconnectedHandler sampleHops sampleNode AppDisconnectReason.USER_REQUEST
        ConnectionState.HANDSHAKING false 0 0).clusterId = 7 ∧
    (MeshConnectionDisconnectedHandler sampleHops singletonNode AppDisconnectReason.USER_REQUEST
        ConnectionState.HANDSHAKING false 0 0).clusterId = 65543 ∧
    masterBitFlags minorityNode = [(true, false)] ∧
    masterBitFlags (MeshConnectionDisconnectedHandler sampleHops minorityNode
      AppDisconnectReason.USER_REQUEST ConnectionState.HANDSHAKING false 0 0) = [(false, true)] ∧
    (MeshConnectionDisconnectedHandler sampleHops minorityNode AppDisconnectReason.USER_REQUEST
        ConnectionState.HANDSHAKING false 0 0).connections =
      minorityNode.connections.map (handOverStep 4) := by
  obtain ⟨a1, a2, -⟩ := MeshConnectionDisconnectedHandler_incomplete sampleHops sampleNode
    AppDisconnectReason.USER_REQUEST ConnectionState.HANDSHAKING false 0 0 (by decide)
  obtain ⟨-, -, b3, -⟩ := MeshConnectionDisconnectedHandler_incomplete sampleHops singletonNode
    AppDisconnectReason.USER_REQUEST ConnectionState.HANDSHAKING false 0 0 (by decide)
  obtain ⟨-, -, -, -, c5, -⟩ := MeshConnectionDisconnectedHandler_incomplete sampleHops minorityNode
    AppDisconnectReason.USER_REQUEST ConnectionState.HANDSHAKING false 0 0 (by decide)
  exact ⟨by decide, a1, a2 (by decide), b3 rfl, by decide, by decide, c5⟩

/-- C6 as stated fails twice. For a node of cluster size 1 the loss of a
connection whose handshake had not finished changes the clusterId, here from 7
to 65543. And re-arming the discovery is not the only other cluster-related
effect: on a node that holds all master bits and has three of its four cluster
members behind one link, the same loss takes the master bit of that link away
and raises its hand-over flag. -/
theorem MeshConnectionDisconnectedHandler_incomplete_changes_clusterId :
    singletonNode.clusterSize = 1 ∧
    ConnectionState.HANDSHAKING.toNat < ConnectionState.HANDSHAKE_DONE.toNat ∧
    (MeshConnectionDisconnectedHandler sampleHops singletonNode AppDisconnectReason.USER_REQUEST
        ConnectionState.HANDSHAKING false 0 0).clusterId = 65543 ∧
    (MeshConnectionDisconnectedHandler sampleHops singletonNode AppDisconnectReason.USER_REQUEST
        ConnectionState.HANDSHAKING false 0 0).clusterId ≠ singletonNode.clusterId ∧
    masterBitFlags minorityNode = [(true, false)] ∧
    masterBitFlags (MeshConnectionDisconnectedHandler sampleHops minorityNode
      AppDisconnectReason.USER_REQUEST ConnectionState.HANDSHAKING false 0 0) = [(false, true)] := by
  decide

/-! ## Corners of the partner scores and of the beacon buffer -/

/-- C14 as stated fails for the wait role when the advertised clusterSize is
not positive: the code computes the sum in unsigned 32-bit arithmetic. On a
node of cluster size -1 a beacon that advertises the size -1 is not vetoed and
scores 4294957336, while clusterSize*10000 + freeMeshOutConnections*100 +
(100 + rssi) is -9960. -/
theorem clusterScore_slave_wraps_for_negative_size :
    negativeSizeBeacon.wellTyped ∧
    negativeSizeNode.preferredPartnersCompiledIn = true ∧
    ¬ slaveVeto negativeSizeNode negativeSizeBeacon ∧
    CalculateClusterScoreAsSlave negativeSizeNode negativeSizeBeacon = 4294957336 ∧
    specSlaveScore negativeSizeBeacon = -9960 ∧
    specAdjustedScore negativeSizeNode (specSlaveScore negativeSizeBeacon).toNat 9 = 0 ∧
    (CalculateClusterScoreAsSlave negativeSizeNode negativeSizeBeacon : Int) ≠
      specSlaveScore negativeSizeBeacon := by
  decide

/-- C15 as stated fails for the wait role when the smaller advertised
clusterSize is not positive: on a node of cluster size -1 the beacons that
advertise the sizes 0 and -1, with the same free outbound slots, the same rssi
and the same preferred-partner status, are both not vetoed, and the one with
the larger clusterSize 0 scores 40, less than the 4294957336 of the other. -/
theorem primary_factor_reversed_for_negative_size :
    zeroSizeBeacon.wellTyped ∧ negativeSizeBeacon.wellTyped ∧
    IsPreferredConnection negativeSizeNode zeroSizeBeacon.payload.sender =
      IsPreferredConnection negativeSizeNode negativeSizeBeacon.payload.sender ∧
    ¬ slaveVeto negativeSizeNode zeroSizeBeacon ∧ ¬ slaveVeto negativeSizeNode negativeSizeBeacon ∧
    negativeSizeBeacon.payload.clusterSize < zeroSizeBeacon.payload.clusterSize ∧
    CalculateClusterScoreAsSlave negativeSizeNode zeroSizeBeacon = 40 ∧
    CalculateClusterScoreAsSlave negativeSizeNode negativeSizeBeacon = 4294957336 ∧
    CalculateClusterScoreAsSlave negativeSizeNode zeroSizeBeacon <
      CalculateClusterScoreAsSlave negativeSizeNode negativeSizeBeacon := by
  decide

theorem emergencyDisconnect_congr (D D' : DisconnectAndRemoveFn) (rnd : Nat) (n : Node)
    (best : Option Nat) (hq : EmergencyQuiet n) :
    emergencyDisconnect D rnd n best = emergencyDisconnect D' rnd n best := by
  unfold emergencyDisconnect
  split
  · rename_i hb
    simp only []
    split
    · have hle : ¬ (n.emergencyDisconnectCounter + 1 > 10) := by
        rcases hq with h | h
        · exact absurd hb.2 h
        · omega
      rw [if_neg hle, if_neg hle]
    · rfl
  · rfl

theorem DetermineBestClusterAvailable_congr (D D' : DisconnectAndRemoveFn) (rnd1 rnd2 : Nat)
    (n : Node) (hq : EmergencyQuiet n) :
    DetermineBestClusterAvailable D rnd1 rnd2 n = DetermineBestClusterAvailable D' rnd1 rnd2 n := by
  unfold DetermineBestClusterAvailable
  simp only []
  rw [emergencyDisconnect_congr D D' rnd1 n
    (scanBest (CalculateClusterScoreAsMaster n) n.joinMePackets 0 (0, none)).2 hq]

theorem ChangeState_emergency (n : Node) (s : DiscoveryState) :
    (ChangeState n s).freeMeshOutConnections = n.freeMeshOutConnections ∧
    (ChangeState n s).emergencyDisconnectCounter = n.emergencyDisconnectCounter := by
  unfold ChangeState
  split
  · exact ⟨rfl, rfl⟩
  · cases s <;> exact ⟨rfl, rfl⟩

theorem stateTimeoutStep_quiet (n : Node) (passedTimeDs : Nat) (hq : EmergencyQuiet n) :
    EmergencyQuiet (stateTimeoutStep n passedTimeDs) := by
  unfold EmergencyQuiet at hq ⊢
  unfold stateTimeoutStep
  simp only []
  split
  · rw [(ChangeState_emergency _ _).1, (ChangeState_emergency _ _).2]
    exact hq
  · exact hq

theorem TimerEventHandler_congr (D D' : DisconnectAndRemoveFn) (rnd1 rnd2 : Nat) (n : Node)
    (passedTimeDs : Nat) (hq : EmergencyQuiet n) :
    TimerEventHandler D rnd1 rnd2 n passedTimeDs = TimerEventHandler D' rnd1 rnd2 n passedTimeDs := by
  have h := DetermineBestClusterAvailable_congr D D' rnd1 rnd2 (stateTimeoutStep n passedTimeDs)
    (stateTimeoutStep_quiet n passedTimeDs hq)
  unfold TimerEventHandler decisionStep
  rw [h]

theorem runTicks_congr (D D' : DisconnectAndRemoveFn) (ticks : List TimerTick) (n : Node)
    (hq : quietRun D ticks n = true) : runTicks D ticks n = runTicks D' ticks n := by
  induction ticks generalizing n with
  | nil => rfl
  | cons tick rest ih =>
    unfold quietRun at hq
    rw [Bool.and_eq_true, decide_eq_true_iff] at hq
    obtain ⟨hq1, hq2⟩ := hq
    have hq1' : EmergencyQuiet { n with appTimerDs := tick.appTimerDs } := hq1
    have ht := TimerEventHandler_congr D D' tick.rnd1 tick.rnd2
      { n with appTimerDs := tick.appTimerDs } tick.passedTimeDs hq1'
    unfold runTicks
    rw [← ht]
    cases hm : TimerEventHandler D tick.rnd1 tick.rnd2 { n with appTimerDs := tick.appTimerDs }
        tick.passedTimeDs with
    | none => rfl
    | some m =>
      rw [hm] at hq2
      exact ih m hq2

/-- C20, as the code has it: on a node with the state machine enabled and no
reboot scheduled, every sequence of timer ticks at none of which an emergency
disconnect is due runs to an end, and: from HIGH with LOW as the next state and
a positive timeout, the state after the ticks is LOW exactly when the time that
the ticks report as passed has reached the timeout, and HIGH otherwise; with no
next state (HIGH entered with highToLowDiscoveryTimeSec 0, or LOW) the ticks
leave the state as it is. Entering HIGH sets the timeout to
highToLowDiscoveryTimeSec seconds and the next state to LOW if that time is
positive and to none if it is 0; re-arming HIGH sets the timeout again. -/
theorem discovery_high_to_low (D : DisconnectAndRemoveFn) (n : Node) (ticks : List TimerTick)
    (hquiet : quietRun D ticks n = true) (hen : n.stateMachineDisabled = false)
    (hact : n.moduleActive = true) (hreb : n.rebootTimeDs = 0) :
    (∃ m : Node, runTicks D ticks n = some m ∧
      (n.currentDiscoveryState = DiscoveryState.HIGH →
        n.nextDiscoveryState = DiscoveryState.LOW → 0 < n.currentStateTimeoutDs →
        (m.currentDiscoveryState = DiscoveryState.LOW ↔
          n.currentStateTimeoutDs ≤ (elapsedDs ticks : Int)) ∧
        (m.currentDiscoveryState = DiscoveryState.HIGH ↔
          (elapsedDs ticks : Int) < n.currentStateTimeoutDs)) ∧
      (n.nextDiscoveryState = DiscoveryState.INVALID →
        m.currentDiscoveryState = n.currentDiscoveryState)) ∧
    (n.currentDiscoveryState ≠ DiscoveryState.HIGH →
      (ChangeState n DiscoveryState.HIGH).currentDiscoveryState = DiscoveryState.HIGH ∧
      (ChangeState n DiscoveryState.HIGH).currentStateTimeoutDs =
        (SEC_TO_DS n.highToLowDiscoveryTimeSec : Int) ∧
      (ChangeState n DiscoveryState.HIGH).nextDiscoveryState =
        (if n.highToLowDiscoveryTimeSec = 0 then DiscoveryState.INVALID else DiscoveryState.LOW)) ∧
    (n.currentDiscoveryState = DiscoveryState.HIGH →
      KeepHighDiscoveryActive n =
        { n with currentStateTimeoutDs := (SEC_TO_DS n.highToLowDiscoveryTimeSec : Int) }) := by
  rw [runTicks_congr D plainDisconnectAndRemove ticks n hquiet]
  exact runTicks_discovery_of_view plainDisconnectAndRemove (fun _ _ _ => rfl) n ticks hen hact hreb

theorem discovery_high_to_low_witness :
    highNode.currentDiscoveryState = DiscoveryState.HIGH ∧
    highNode.currentStateTimeoutDs = 30 ∧
    quietRun sampleDisconnectAndRemove threeTicks highNode = true ∧
    (runTicks sampleDisconnectAndRemove (threeTicks.take 2) highNode).map
      (fun m => m.currentDiscoveryState) = some DiscoveryState.HIGH ∧
    (runTicks sampleDisconnectAndRemove threeTicks highNode).map
      (fun m => m.currentDiscoveryState) = some DiscoveryState.LOW ∧
    (runTicks sampleDisconnectAndRemove threeTicks stickyNode).map
      (fun m => m.currentDiscoveryState) = some DiscoveryState.HIGH ∧
    ∃ m : Node, runTicks sampleDisconnectAndRemove threeTicks highNode = some m ∧
      (m.currentDiscoveryState = DiscoveryState.LOW ↔
        highNode.currentStateTimeoutDs ≤ (elapsedDs threeTicks : Int)) :=
  ⟨by decide, by decide, by decide, by decide, by decide, by decide,
    (discovery_high_to_low sampleDisconnectAndRemove highNode threeTicks (by decide)
      (by decide) (by decide) (by decide)).1.imp
      fun _ h => ⟨h.1, (h.2.1 (by decide) (by decide) (by decide)).1⟩⟩

/-- C20 as stated fails in its last part: a timer tick can take a node out of
LOW. When all outgoing connections are taken, a cluster to connect to is in
the buffer and ten emergencies have been counted, the connect decision of the
tick drops an outgoing connection; once that loss is reported to the node, as
by `sampleDisconnectAndRemove`, the link-loss handler re-arms the discovery,
and the node is in HIGH after the tick. With a disconnect that keeps the
handler out of the tick the node stays in LOW. -/
theorem discovery_low_left_by_timer_tick :
    crowdedLowNode.currentDiscoveryState = DiscoveryState.LOW ∧
    crowdedLowNode.stateMachineDisabled = false ∧
    crowdedLowNode.rebootTimeDs = 0 ∧
    ¬ EmergencyQuiet crowdedLowNode ∧
    (TimerEventHandler sampleDisconnectAndRemove 0 0 crowdedLowNode 10).map
      (fun m => m.currentDiscoveryState) = some DiscoveryState.HIGH ∧
    (runTicks sampleDisconnectAndRemove [{ passedTimeDs := 10, appTimerDs := 1000 }]
      crowdedLowNode).map (fun m => m.currentDiscoveryState) = some DiscoveryState.HIGH ∧
    (TimerEventHandler plainDisconnectAndRemove 0 0 crowdedLowNode 10).map
      (fun m => m.currentDiscoveryState) = some DiscoveryState.LOW := by
  decide

/-- C22, as the code has it: on a node whose next discovery state is as
ChangeState leaves it, no beacon reception, handshake commit, link loss or
received update changes the discovery state from another state to OFF, and a
timer tick at which no emergency disconnect is due changes it neither from OFF
to another state nor from another state to OFF; but with the state machine
enabled and the node module active a handshake commit, a link loss, an applied
update and a beacon of a new sender stored in an empty slot all change the
state from OFF to HIGH, because KeepHighDiscoveryActive calls
ChangeState(HIGH) from every state other than HIGH. -/
theorem discovery_off_transitions (H : HopsToShortestSink) (n : Node)
    (hwf : DiscoveryWellFormed n) :
    (∀ (D : DisconnectAndRemoveFn) (rnd1 rnd2 passedTimeDs : Nat) (m : Node),
      EmergencyQuiet n → TimerEventHandler D rnd1 rnd2 n passedTimeDs = some m →
      DiscoveryWellFormed m ∧
      (m.currentDiscoveryState = DiscoveryState.OFF ↔
        n.currentDiscoveryState = DiscoveryState.OFF)) ∧
    (∀ event : GapAdvertisementReportEvent,
      DiscoveryWellFormed (GapAdvertisementMessageHandler n event) ∧
      ((GapAdvertisementMessageHandler n event).currentDiscoveryState = DiscoveryState.OFF →
        n.currentDiscoveryState = DiscoveryState.OFF)) ∧
    (∀ (i : Nat) (w : Bool),
      DiscoveryWellFormed (HandshakeDoneHandler H n i w) ∧
      ((HandshakeDoneHandler H n i w).currentDiscoveryState = DiscoveryState.OFF →
        n.currentDiscoveryState = DiscoveryState.OFF)) ∧
    (∀ (reason : AppDisconnectReason) (stateBefore : ConnectionState) (hadBit : Bool) (size : Int)
        (cid : Nat),
      DiscoveryWellFormed (MeshConnectionDisconnectedHandler H n reason stateBefore hadBit size cid) ∧
      ((MeshConnectionDisconnectedHandler H n reason stateBefore hadBit size
          cid).currentDiscoveryState = DiscoveryState.OFF →
        n.currentDiscoveryState = DiscoveryState.OFF)) ∧
    (∀ (i : Nat) (packet : ClusterInfoUpdate),
      DiscoveryWellFormed (ReceiveClusterInfoUpdate H n i packet) ∧
      ((ReceiveClusterInfoUpdate H n i packet).currentDiscoveryState = DiscoveryState.OFF →
        n.currentDiscoveryState = DiscoveryState.OFF)) ∧
    (n.stateMachineDisabled = false → n.moduleActive = true →
      (∀ (i : Nat) (connection : MeshConnection) (w : Bool), n.connections[i]? = some connection →
        (HandshakeDoneHandler H n i w).currentDiscoveryState = DiscoveryState.HIGH) ∧
      (∀ (reason : AppDisconnectReason) (stateBefore : ConnectionState) (hadBit : Bool)
          (size : Int) (cid : Nat),
        (MeshConnectionDisconnectedHandler H n reason stateBefore hadBit size
          cid).currentDiscoveryState = DiscoveryState.HIGH) ∧
      (∀ (i : Nat) (connection : MeshConnection) (packet : ClusterInfoUpdate),
        n.connections[i]? = some connection →
        packet.counter = connection.nextExpectedClusterUpdateCounter →
        (ReceiveClusterInfoUpdate H n i packet).currentDiscoveryState = DiscoveryState.HIGH) ∧
      (∀ event : GapAdvertisementReportEvent,
        event.messageType = AdvMessageType.MESSAGE_TYPE_JOIN_ME_V0 →
        event.dataLength = SIZEOF_ADV_PACKET_JOIN_ME →
        (∀ e ∈ n.joinMePackets, e.payload.sender ≠ event.payload.sender) →
        (∃ e ∈ n.joinMePackets, e.payload.sender = 0) →
        (GapAdvertisementMessageHandler n event).currentDiscoveryState = DiscoveryState.HIGH)) := by
  refine ⟨fun D rnd1 rnd2 p m hq h =>
      TimerEventHandler_off plainDisconnectAndRemove (fun _ _ _ => rfl) rnd1 rnd2 n m p hwf
        ((TimerEventHandler_congr D plainDisconnectAndRemove rnd1 rnd2 n p hq).symm.trans h),
    fun event => GapAdvertisementMessageHandler_off n event hwf,
    fun i w => HandshakeDoneHandler_off H n i w hwf,
    fun reason stateBefore hadBit size cid =>
      MeshConnectionDisconnectedHandler_off H n reason stateBefore hadBit size cid hwf,
    fun i packet => ReceiveClusterInfoUpdate_off H n i packet hwf, ?_⟩
  intro hen hact
  obtain ⟨k1, -⟩ := KeepHighDiscoveryActive_high n hen hact
  refine ⟨?_, ?_, ?_, ?_⟩
  · intro i connection w hconn
    exact (discoveryFields_eq (HandshakeDoneHandler_fields H n i connection w hconn)).1.trans k1
  · intro reason stateBefore hadBit size cid
    exact (discoveryFields_eq
      (MeshConnectionDisconnectedHandler_fields H n reason stateBefore hadBit size cid)).1.trans k1
  · intro i connection packet hconn hcnt
    exact (discoveryFields_eq
      (ReceiveClusterInfoUpdate_fields H n i connection packet hconn hcnt)).1.trans k1
  · intro event htype hlen hnew hempty
    exact (discoveryFields_eq
      (GapAdvertisementMessageHandler_empty_slot n event hact htype hlen hnew hempty)).1.trans k1

theorem discovery_off_transitions_witness :
    DiscoveryWellFormed offNode ∧
    offNode.currentDiscoveryState = DiscoveryState.OFF ∧
    EmergencyQuiet offNode ∧
    (TimerEventHandler sampleDisconnectAndRemove 0 0 offNode 50).map
      (fun m => m.currentDiscoveryState) = some DiscoveryState.OFF ∧
    (∀ m : Node, TimerEventHandler sampleDisconnectAndRemove 0 0 offNode 50 = some m →
      m.currentDiscoveryState = DiscoveryState.OFF) ∧
    ((GapAdvertisementMessageHandler lowNode newcomerEvent).currentDiscoveryState =
        DiscoveryState.OFF → lowNode.currentDiscoveryState = DiscoveryState.OFF) ∧
    (MeshConnectionDisconnectedHandler sampleHops offNode AppDisconnectReason.USER_REQUEST
      ConnectionState.HANDSHAKE_DONE true 2 0).currentDiscoveryState = DiscoveryState.HIGH :=
  ⟨⟨by decide, fun _ => rfl⟩, rfl, by decide, by decide,
    fun m hm =>
      (((discovery_off_transitions sampleHops offNode ⟨by decide, fun _ => rfl⟩).1
        sampleDisconnectAndRemove 0 0 50 m (by decide) hm).2).2 rfl,
    ((discovery_off_transitions sampleHops lowNode
      ⟨by decide, fun h => absurd h (by decide)⟩).2.1 newcomerEvent).2,
    ((discovery_off_transitions sampleHops offNode
      ⟨by decide, fun _ => rfl⟩).2.2.2.2.2 rfl rfl).2.1 AppDisconnectReason.USER_REQUEST
      ConnectionState.HANDSHAKE_DONE true 2 0⟩

/-- C22 as stated fails: a node whose discovery is switched off, with the state
machine enabled, leaves OFF for HIGH on a handshake commit, on a link loss, on
an applied cluster-info update and on a beacon of a new sender that goes into
an empty slot, none of which is a SET_DISCOVERY request; and so it does on a
timer tick whose connect decision drops an outgoing connection in an
emergency, once that loss is reported to the node. -/
theorem discovery_off_left_without_request :
    offNode.currentDiscoveryState = DiscoveryState.OFF ∧
    (HandshakeDoneHandler sampleHops offNode 1 true).currentDiscoveryState = DiscoveryState.HIGH ∧
    (MeshConnectionDisconnectedHandler sampleHops offNode AppDisconnectReason.USER_REQUEST
      ConnectionState.HANDSHAKE_DONE true 2 0).currentDiscoveryState = DiscoveryState.HIGH ∧
    (ReceiveClusterInfoUpdate sampleHops offNode 0 { clusterSizeChange := 1 }).currentDiscoveryState
      = DiscoveryState.HIGH ∧
    (GapAdvertisementMessageHandler offNode newcomerEvent).currentDiscoveryState =
      DiscoveryState.HIGH ∧
    { crowdedLowNode with currentDiscoveryState := DiscoveryState.OFF }.currentDiscoveryState =
      DiscoveryState.OFF ∧
    (TimerEventHandler sampleDisconnectAndRemove 0 0
      { crowdedLowNode with currentDiscoveryState := DiscoveryState.OFF } 10).map
      (fun m => m.currentDiscoveryState) = some DiscoveryState.HIGH := by
  decide

/-! ## Facts about the connect decision and its emergency disconnect -/

theorem DetermineBestClusterAvailable_master_general (D : DisconnectAndRemoveFn)
    (rnd1 rnd2 : Nat) (n : Node) (hfree : 0 < (afterEmergency D rnd1 n).freeMeshOutConnections)
    (best : Nat)
    (hbest : (scanBest (CalculateClusterScoreAsMaster n) n.joinMePackets 0 (0, none)).2 = some best) :
    (DetermineBestClusterAvailable D rnd1 rnd2 n).1.result = DecisionResult.CONNECT_AS_MASTER ∧
    (∀ d : joinMeBufferPacket, (afterEmergency D rnd1 n).joinMePackets[best]? = some d →
      (DetermineBestClusterAvailable D rnd1 rnd2 n).1.preferredPartner = d.payload.sender) ∧
    (DetermineBestClusterAvailable D rnd1 rnd2 n).2.joinMePackets =
      (updateAt (afterEmergency D rnd1 n).joinMePackets best fun packet =>
        { packet with lastConnectAttemptDs := (afterEmergency D rnd1 n).appTimerDs }) ∧
    (DetermineBestClusterAvailable D rnd1 rnd2 n).2.appTimerDs =
      (afterEmergency D rnd1 n).appTimerDs := by
  unfold afterEmergency at hfree ⊢
  unfold DetermineBestClusterAvailable
  simp only []
  generalize emergencyDisconnect D rnd1 n
    (scanBest (CalculateClusterScoreAsMaster n) n.joinMePackets 0 (0, none)).2 = n1 at hfree ⊢
  have hne : ¬ n1.freeMeshOutConnections = 0 := by omega
  have hgt : n1.freeMeshOutConnections > 0 := hfree
  simp only [hne, hgt, if_false, if_true, hbest, ConnectAsMaster]
  refine ⟨trivial, ?_, trivial, trivial⟩
  intro d hd
  rw [hd]

theorem DetermineBestClusterAvailable_no_master_general (D : DisconnectAndRemoveFn)
    (rnd1 rnd2 : Nat) (n : Node)
    (hno : (afterEmergency D rnd1 n).freeMeshOutConnections = 0 ∨
      (scanBest (CalculateClusterScoreAsMaster n) n.joinMePackets 0 (0, none)).2 = none) :
    (∀ (best : Nat) (e : joinMeBufferPacket),
      (scanBest (CalculateClusterScoreAsSlave (slaveSearchState D rnd1 n))
        (slaveSearchState D rnd1 n).joinMePackets 0 (0, none)).2 = some best →
      (slaveSearchState D rnd1 n).joinMePackets[best]? = some e →
      (DetermineBestClusterAvailable D rnd1 rnd2 n).1 =
        { result := DecisionResult.CONNECT_AS_SLAVE, preferredPartner := e.payload.sender } ∧
      (DetermineBestClusterAvailable D rnd1 rnd2 n).2.currentAckId = e.payload.clusterId) ∧
    ((scanBest (CalculateClusterScoreAsSlave (slaveSearchState D rnd1 n))
        (slaveSearchState D rnd1 n).joinMePackets 0 (0, none)).2 = none →
      (DetermineBestClusterAvailable D rnd1 rnd2 n).1 =
        { result := DecisionResult.NO_NODES_FOUND }) := by
  unfold slaveSearchState
  unfold afterEmergency at hno ⊢
  unfold DetermineBestClusterAvailable
  simp only []
  generalize emergencyDisconnect D rnd1 n
    (scanBest (CalculateClusterScoreAsMaster n) n.joinMePackets 0 (0, none)).2 = n1 at hno ⊢
  have hm1 : (if n1.freeMeshOutConnections = 0 then ((0 : Nat), (none : Option Nat))
      else scanBest (CalculateClusterScoreAsMaster n) n.joinMePackets 0 (0, none)) = (0, none) := by
    split
    · rfl
    · rename_i hne
      rcases hno with h | h
      · exact absurd h hne
      · exact scanBest_eq_of_none _ _ h
  have hsel : (if n1.freeMeshOutConnections > 0 then ((0 : Nat), (none : Option Nat)).2 else none) =
      none := by
    split <;> rfl
  rw [hm1, hsel]
  simp only []
  generalize (if n1.joinMePackets.length > 0 then { n1 with currentAckId := 0 } else n1) = n2
  constructor
  · intro best e hbest he
    rw [hbest]
    simp only [he]
    exact ⟨trivial, waitAsSlave_currentAckId rnd2 n2 e⟩
  · intro hnone
    rw [hnone]

theorem afterEmergency_quiet (D : DisconnectAndRemoveFn) (rnd1 : Nat) (n : Node)
    (hq : EmergencyQuiet n) :
    (afterEmergency D rnd1 n).freeMeshOutConnections = n.freeMeshOutConnections ∧
    (afterEmergency D rnd1 n).joinMePackets = n.joinMePackets ∧
    (afterEmergency D rnd1 n).appTimerDs = n.appTimerDs ∧
    (slaveSearchState D rnd1 n).joinMePackets = n.joinMePackets ∧
    CalculateClusterScoreAsSlave (slaveSearchState D rnd1 n) = CalculateClusterScoreAsSlave n := by
  obtain ⟨x, hx⟩ := emergencyDisconnect_quiet D rnd1 n
    (scanBest (CalculateClusterScoreAsMaster n) n.joinMePackets 0 (0, none)).2 hq
  unfold slaveSearchState afterEmergency
  rw [hx]
  refine ⟨rfl, rfl, rfl, ?_, ?_⟩
  · split <;> rfl
  · split
    · exact CalculateClusterScoreAsSlave_congr rfl rfl rfl rfl rfl rfl rfl rfl
    · exact CalculateClusterScoreAsSlave_congr rfl rfl rfl rfl rfl rfl rfl rfl

/-- C25, as the code has it: DetermineBestClusterAvailable scores the entries
for the dominant role in the state at entry and then takes its emergency
disconnect. If after that step an outgoing connection is free and some entry
with a nonzero sender had a nonzero CalculateClusterScoreAsMaster, it returns
CONNECT_AS_MASTER toward the first entry with the highest such score;
otherwise, if in the state after that step some entry with a nonzero sender
has a nonzero CalculateClusterScoreAsSlave, it returns CONNECT_AS_SLAVE toward
the first entry with the highest such score and sets currentAckId to the
clusterId of that entry; it returns NO_NODES_FOUND exactly when neither is the
case. The entry chosen always had a nonzero score for the role chosen when it
was scored. When no emergency disconnect is due, the free outgoing connections,
the buffer and the scores for the wait role after that step are those of the
state at entry. -/
theorem DetermineBestClusterAvailable_decision (D : DisconnectAndRemoveFn) (rnd1 rnd2 : Nat)
    (n : Node) :
    (0 < (afterEmergency D rnd1 n).freeMeshOutConnections →
      (∃ e ∈ n.joinMePackets, e.payload.sender ≠ 0 ∧ 0 < CalculateClusterScoreAsMaster n e) →
      ∃ (i : Nat) (e : joinMeBufferPacket),
        IsFirstBest (CalculateClusterScoreAsMaster n) n.joinMePackets i e ∧
        (DetermineBestClusterAvailable D rnd1 rnd2 n).1.result = DecisionResult.CONNECT_AS_MASTER ∧
        ∀ d : joinMeBufferPacket, (afterEmergency D rnd1 n).joinMePackets[i]? = some d →
          (DetermineBestClusterAvailable D rnd1 rnd2 n).1.preferredPartner = d.payload.sender) ∧
    (¬ (0 < (afterEmergency D rnd1 n).freeMeshOutConnections ∧
        ∃ e ∈ n.joinMePackets, e.payload.sender ≠ 0 ∧ 0 < CalculateClusterScoreAsMaster n e) →
      (∃ e ∈ (slaveSearchState D rnd1 n).joinMePackets, e.payload.sender ≠ 0 ∧
        0 < CalculateClusterScoreAsSlave (slaveSearchState D rnd1 n) e) →
      ∃ (i : Nat) (e : joinMeBufferPacket),
        IsFirstBest (CalculateClusterScoreAsSlave (slaveSearchState D rnd1 n))
          (slaveSearchState D rnd1 n).joinMePackets i e ∧
        (DetermineBestClusterAvailable D rnd1 rnd2 n).1 =
          { result := DecisionResult.CONNECT_AS_SLAVE, preferredPartner := e.payload.sender } ∧
        (DetermineBestClusterAvailable D rnd1 rnd2 n).2.currentAckId = e.payload.clusterId) ∧
    ((DetermineBestClusterAvailable D rnd1 rnd2 n).1.result = DecisionResult.NO_NODES_FOUND ↔
      ¬ (0 < (afterEmergency D rnd1 n).freeMeshOutConnections ∧
        ∃ e ∈ n.joinMePackets, e.payload.sender ≠ 0 ∧ 0 < CalculateClusterScoreAsMaster n e) ∧
      ¬ ∃ e ∈ (slaveSearchState D rnd1 n).joinMePackets, e.payload.sender ≠ 0 ∧
        0 < CalculateClusterScoreAsSlave (slaveSearchState D rnd1 n) e) ∧
    (EmergencyQuiet n →
      (afterEmergency D rnd1 n).freeMeshOutConnections = n.freeMeshOutConnections ∧
      (afterEmergency D rnd1 n).joinMePackets = n.joinMePackets ∧
      (slaveSearchState D rnd1 n).joinMePackets = n.joinMePackets ∧
      CalculateClusterScoreAsSlave (slaveSearchState D rnd1 n) = CalculateClusterScoreAsSlave n) := by
  have hA : 0 < (afterEmergency D rnd1 n).freeMeshOutConnections →
      (∃ e ∈ n.joinMePackets, e.payload.sender ≠ 0 ∧ 0 < CalculateClusterScoreAsMaster n e) →
      ∃ (i : Nat) (e : joinMeBufferPacket),
        IsFirstBest (CalculateClusterScoreAsMaster n) n.joinMePackets i e ∧
        (DetermineBestClusterAvailable D rnd1 rnd2 n).1.result = DecisionResult.CONNECT_AS_MASTER ∧
        ∀ d : joinMeBufferPacket, (afterEmergency D rnd1 n).joinMePackets[i]? = some d →
          (DetermineBestClusterAvailable D rnd1 rnd2 n).1.preferredPartner = d.payload.sender := by
    intro hfree hex
    obtain ⟨i, e, hscan, hbest⟩ := scanBest_some (CalculateClusterScoreAsMaster n) n.joinMePackets hex
    obtain ⟨r1, r2, -⟩ := DetermineBestClusterAvailable_master_general D rnd1 rnd2 n hfree i hscan
    exact ⟨i, e, hbest, r1, r2⟩
  have hno : ¬ (0 < (afterEmergency D rnd1 n).freeMeshOutConnections ∧
        ∃ e ∈ n.joinMePackets, e.payload.sender ≠ 0 ∧ 0 < CalculateClusterScoreAsMaster n e) →
      (afterEmergency D rnd1 n).freeMeshOutConnections = 0 ∨
        (scanBest (CalculateClusterScoreAsMaster n) n.joinMePackets 0 (0, none)).2 = none := by
    intro h
    by_cases hfree : 0 < (afterEmergency D rnd1 n).freeMeshOutConnections
    · right
      rw [scanBest_none _ _ (fun hex => h ⟨hfree, hex⟩)]
    · left
      omega
  have hB : ¬ (0 < (afterEmergency D rnd1 n).freeMeshOutConnections ∧
        ∃ e ∈ n.joinMePackets, e.payload.sender ≠ 0 ∧ 0 < CalculateClusterScoreAsMaster n e) →
      (∃ e ∈ (slaveSearchState D rnd1 n).joinMePackets, e.payload.sender ≠ 0 ∧
        0 < CalculateClusterScoreAsSlave (slaveSearchState D rnd1 n) e) →
      ∃ (i : Nat) (e : joinMeBufferPacket),
        IsFirstBest (CalculateClusterScoreAsSlave (slaveSearchState D rnd1 n))
          (slaveSearchState D rnd1 n).joinMePackets i e ∧
        (DetermineBestClusterAvailable D rnd1 rnd2 n).1 =
          { result := DecisionResult.CONNECT_AS_SLAVE, preferredPartner := e.payload.sender } ∧
        (DetermineBestClusterAvailable D rnd1 rnd2 n).2.currentAckId = e.payload.clusterId := by
    intro h hex
    obtain ⟨i, e, hscan, hbest⟩ := scanBest_some _ _ hex
    obtain ⟨r1, r2⟩ := (DetermineBestClusterAvailable_no_master_general D rnd1 rnd2 n (hno h)).1 i e
      hscan hbest.1
    exact ⟨i, e, hbest, r1, r2⟩
  refine ⟨hA, hB, ?_, ?_⟩
  · constructor
    · intro hres
      constructor
      · rintro ⟨hfree, hex⟩
        obtain ⟨i, e, -, hr, -⟩ := hA hfree hex
        rw [hr] at hres
        simp at hres
      · intro hex
        by_cases hm : 0 < (afterEmergency D rnd1 n).freeMeshOutConnections ∧
            ∃ e ∈ n.joinMePackets, e.payload.sender ≠ 0 ∧ 0 < CalculateClusterScoreAsMaster n e
        · obtain ⟨i, e, -, hr, -⟩ := hA hm.1 hm.2
          rw [hr] at hres
          simp at hres
        · obtain ⟨i, e, -, hr, -⟩ := hB hm hex
          rw [hr] at hres
          simp at hres
    · rintro ⟨hm, hs⟩
      have hnone : (scanBest (CalculateClusterScoreAsSlave (slaveSearchState D rnd1 n))
          (slaveSearchState D rnd1 n).joinMePackets 0 (0, none)).2 = none := by
        rw [scanBest_none _ _ hs]
      rw [(DetermineBestClusterAvailable_no_master_general D rnd1 rnd2 n (hno hm)).2 hnone]
  · intro hq
    obtain ⟨q1, q2, -, q4, q5⟩ := afterEmergency_quiet D rnd1 n hq
    exact ⟨q1, q2, q4, q5⟩

theorem DetermineBestClusterAvailable_decision_witness :
    (DetermineBestClusterAvailable plainDisconnectAndRemove 0 0 decidingNode).1 =
      { result := DecisionResult.CONNECT_AS_MASTER, preferredPartner := 9 } ∧
    (DetermineBestClusterAvailable plainDisconnectAndRemove 0 0 fullBufferNode).1 =
      { result := DecisionResult.CONNECT_AS_SLAVE, preferredPartner := 12 } ∧
    (DetermineBestClusterAvailable freeingDisconnectAndRemove 0 0 crowdedLowNode).1 =
      { result := DecisionResult.CONNECT_AS_MASTER, preferredPartner := 9 } ∧
    0 < (afterEmergency freeingDisconnectAndRemove 0 crowdedLowNode).freeMeshOutConnections ∧
    (∃ (i : Nat) (e : joinMeBufferPacket),
      IsFirstBest (CalculateClusterScoreAsMaster decidingNode) decidingNode.joinMePackets i e ∧
      (DetermineBestClusterAvailable plainDisconnectAndRemove 0 0 decidingNode).1.result =
        DecisionResult.CONNECT_AS_MASTER) ∧
    ∃ (i : Nat) (e : joinMeBufferPacket),
      IsFirstBest (CalculateClusterScoreAsMaster crowdedLowNode) crowdedLowNode.joinMePackets i e ∧
      (DetermineBestClusterAvailable freeingDisconnectAndRemove 0 0 crowdedLowNode).1.result =
        DecisionResult.CONNECT_AS_MASTER :=
  ⟨by decide, by decide, by decide, by decide,
    ((DetermineBestClusterAvailable_decision plainDisconnectAndRemove 0 0 decidingNode).1
      (by decide) ⟨smallBeacon, by decide, by decide, by decide⟩).imp
      fun _ h => h.imp fun _ h => ⟨h.1, h.2.1⟩,
    ((DetermineBestClusterAvailable_decision freeingDisconnectAndRemove 0 0 crowdedLowNode).1
      (by decide) ⟨smallBeacon, by decide, by decide, by decide⟩).imp
      fun _ h => h.imp fun _ h => ⟨h.1, h.2.1⟩⟩

/-- C25 as stated fails when the emergency disconnect takes place. A node of
cluster size 3 with no free outgoing connection, ten emergencies counted and
the beacon of a cluster of size 2 in its buffer has neither a free outbound
slot nor an entry with a nonzero CalculateClusterScoreAsSlave, so the claim has
it return NO_NODES_FOUND. The code scores the entry as master first, drops an
outgoing connection, and then returns CONNECT_AS_MASTER toward the entry when
the disconnect has freed the outgoing slot, and CONNECT_AS_SLAVE toward it when
the slot is not yet free, the loss having shrunk the local cluster to size 1;
in the first case the entry, scored again in the state after the disconnect,
has the CalculateClusterScoreAsMaster 0. -/
theorem decision_after_emergency_disconnect :
    crowdedLowNode.freeMeshOutConnections = 0 ∧
    crowdedLowNode.joinMePackets = [smallBeacon] ∧
    CalculateClusterScoreAsMaster crowdedLowNode smallBeacon = 20340 ∧
    CalculateClusterScoreAsSlave crowdedLowNode smallBeacon = 0 ∧
    (DetermineBestClusterAvailable freeingDisconnectAndRemove 0 0 crowdedLowNode).1 =
      { result := DecisionResult.CONNECT_AS_MASTER, preferredPartner := 9 } ∧
    CalculateClusterScoreAsMaster
      (DetermineBestClusterAvailable freeingDisconnectAndRemove 0 0 crowdedLowNode).2
      smallBeacon = 0 ∧
    (DetermineBestClusterAvailable sampleDisconnectAndRemove 0 0 crowdedLowNode).1 =
      { result := DecisionResult.CONNECT_AS_SLAVE, preferredPartner := 9 } ∧
    (DetermineBestClusterAvailable sampleDisconnectAndRemove 0 0 crowdedLowNode).2.clusterSize =
      1 := by
  decide

end FruityMesh
